import Mathlib

/-!
# C# binding generators of the VTK wrapping tools

A shallow embedding of the two generators

* `Wrapping/Tools/vtkWrapCSharp.c`  (native shim emitter, namespace `VtkCSharp.Wrap`)
* `Wrapping/Tools/vtkParseCSharp.c` (managed surface emitter, namespace `VtkCSharp.Parse`)

Type descriptors are `unsigned int` bit fields and are embedded as `Nat` with the
C operators `&` and `~` written as `&&&` with explicit masks.  C strings are `String`,
a `const char*` that may be `NULL` is `Option String`, C arrays indexed by `int` are
functions on `Nat`, and the file scope variables of each generator
(`numberOfWrappedFunctions`, `wrappedFunctions`, the `FILE*` being written) are threaded
through as an explicit `State`.
-/

namespace VtkCSharp

/-! ## Type constants (`vtkParseType.h`) -/

/-- Modelled from the spec: the header `vtkParseType.h` that defines the `VTK_PARSE_*`
constants is not among the sources.  Following the data model of the spec (a type
descriptor is a bit field holding a base category, an indirection and qualifiers) the
masks and values below are the ones of the VTK wrapping tools: bits 0-7 base type,
bits 8-15 indirection, bits 16 and up qualifiers. This one is the base type mask. -/
def VTK_PARSE_BASE_TYPE : Nat := 0x000000FF
/-- Mask for the `unsigned` bit of a base type. -/
def VTK_PARSE_UNSIGNED : Nat := 0x00000010
/-- Complement `~VTK_PARSE_UNSIGNED` of the mask, as a 32 bit `unsigned int`. -/
def NOT_VTK_PARSE_UNSIGNED : Nat := 0xFFFFFFEF
/-- Mask for pointers and references. -/
def VTK_PARSE_INDIRECT : Nat := 0x0000FF00
/-- The `const` qualifier. -/
def VTK_PARSE_CONST : Nat := 0x00010000
/-- Mask that removes the qualifiers. -/
def VTK_PARSE_UNQUALIFIED_TYPE : Nat := 0x0000FFFF
/-- Indirection: reference. -/
def VTK_PARSE_REF : Nat := 0x00000100
/-- Indirection: pointer. -/
def VTK_PARSE_POINTER : Nat := 0x00000200

def VTK_PARSE_FLOAT : Nat := 0x01
def VTK_PARSE_VOID : Nat := 0x02
def VTK_PARSE_CHAR : Nat := 0x03
def VTK_PARSE_INT : Nat := 0x04
def VTK_PARSE_SHORT : Nat := 0x05
def VTK_PARSE_LONG : Nat := 0x06
def VTK_PARSE_DOUBLE : Nat := 0x07
def VTK_PARSE_UNKNOWN : Nat := 0x08
def VTK_PARSE_OBJECT : Nat := 0x09
def VTK_PARSE_LONG_LONG : Nat := 0x0B
def VTK_PARSE_SIGNED_CHAR : Nat := 0x0D
def VTK_PARSE_BOOL : Nat := 0x0E
def VTK_PARSE_UNSIGNED_CHAR : Nat := 0x13
def VTK_PARSE_UNSIGNED_INT : Nat := 0x14
def VTK_PARSE_UNSIGNED_SHORT : Nat := 0x15
def VTK_PARSE_UNSIGNED_LONG : Nat := 0x16
def VTK_PARSE_UNSIGNED_LONG_LONG : Nat := 0x1B
def VTK_PARSE_STRING : Nat := 0x21
def VTK_PARSE_FUNCTION : Nat := 0x25

def VTK_PARSE_FLOAT_PTR : Nat := 0x201
def VTK_PARSE_VOID_PTR : Nat := 0x202
def VTK_PARSE_CHAR_PTR : Nat := 0x203
def VTK_PARSE_INT_PTR : Nat := 0x204
def VTK_PARSE_SHORT_PTR : Nat := 0x205
def VTK_PARSE_LONG_PTR : Nat := 0x206
def VTK_PARSE_DOUBLE_PTR : Nat := 0x207
def VTK_PARSE_OBJECT_PTR : Nat := 0x209
def VTK_PARSE_LONG_LONG_PTR : Nat := 0x20B
def VTK_PARSE_SIGNED_CHAR_PTR : Nat := 0x20D
def VTK_PARSE_BOOL_PTR : Nat := 0x20E
def VTK_PARSE_UNSIGNED_CHAR_PTR : Nat := 0x213
def VTK_PARSE_UNSIGNED_INT_PTR : Nat := 0x214
def VTK_PARSE_UNSIGNED_SHORT_PTR : Nat := 0x215
def VTK_PARSE_UNSIGNED_LONG_PTR : Nat := 0x216
def VTK_PARSE_UNSIGNED_LONG_LONG_PTR : Nat := 0x21B
def VTK_PARSE_STRING_PTR : Nat := 0x221

def VTK_PARSE_OBJECT_REF : Nat := 0x109
def VTK_PARSE_STRING_REF : Nat := 0x121

/-- Modelled from the spec: `MAX_ARGS` comes from the absent header `vtkParseData.h`;
it is the capacity of the per-argument arrays and also the index the shim generator
uses for the local variable that holds the return value. -/
def MAX_ARGS : Nat := 20

/-! ## Parsed data (`vtkParseData.h`), as far as the generators read it -/

/-- The fields of `ValueInfo` that the generators read. -/
structure ValueInfo where
  /-- Total number of values of an array, `0` when unknown. -/
  Count : Int
  /-- Expression giving the size of a buffer, `NULL` when absent. -/
  CountHint : Option String

/-- The fields of `FunctionInfo` that the generators read.  The per-argument C arrays
are total functions of the index. -/
structure FunctionInfo where
  Name : Option String
  NumberOfArguments : Nat
  ArgTypes : Nat → Nat
  ArgClasses : Nat → String
  ArgCounts : Nat → Int
  Parameters : Nat → ValueInfo
  ReturnType : Nat
  ReturnClass : String
  ReturnValue : ValueInfo
  HaveHint : Int
  IsOperator : Bool
  ArrayFailure : Bool
  Template : Bool
  IsExcluded : Bool
  IsDeleted : Bool
  IsPublic : Bool

/-- The fields of `ClassInfo` that the generators read. -/
structure ClassInfo where
  Name : String
  Functions : List FunctionInfo
  SuperClasses : List String
  IsAbstract : Bool
  IsExcluded : Bool
  Template : Bool
  HasDelete : Bool

/-- An entry of the class hierarchy index; only its identity matters here. -/
structure HierarchyEntry where
  Name : String

/-- The class hierarchy index, an external collaborator: the functions of
`vtkParseHierarchy.h` that `isClassWrapped` calls, as oracles. -/
structure HierarchyInfo where
  /-- The call `vtkParseHierarchy_FindEntry(info, classname)`. -/
  FindEntry : String → Option HierarchyEntry
  /-- The call `vtkParseHierarchy_GetProperty(entry, property)`, `NULL` when absent. -/
  GetProperty : HierarchyEntry → String → Option String
  /-- The call `vtkParseHierarchy_IsTypeOf(info, entry, baseclass)`, as truth value. -/
  IsTypeOf : HierarchyEntry → String → Bool
  /-- The call `vtkParseHierarchy_IsPrimary(entry)`. -/
  IsPrimary : HierarchyEntry → Int

/-- What a generator run reads besides the parsed class: the file scope variable
`hierarchyInfo` (`NULL` when no hierarchy file was given) and the external function
`vtkParseHierarchy_QualifiedEnumName(hierarchyInfo, data, stringCache, name)`. -/
structure Env where
  hierarchyInfo : Option HierarchyInfo
  QualifiedEnumName : Option HierarchyInfo → ClassInfo → String → Option String

/-- The file scope variables a generator updates while it walks the method list:
the counter `numberOfWrappedFunctions`, the array `wrappedFunctions` (the list holds
its entries from index 0 on) and the text written to `fp` so far. -/
structure State where
  numberOfWrappedFunctions : Nat
  wrappedFunctions : List FunctionInfo
  out : String

/-- The state at program start: nothing wrapped, nothing written. -/
def State.init : State := ⟨0, [], ""⟩

/-- The C test `strcmp(a, b) == 0` on two strings. -/
def streq (a b : String) : Bool := decide (a = b)

/-- The C test `strcmp(lit, name) == 0` where `name` may be `NULL`; the generators only
evaluate it after a `NULL` name has been rejected. -/
def nameIs (name : Option String) (lit : String) : Bool :=
  match name with
  | some n => streq lit n
  | none => false

/-- The C test `strchr(s, c) != NULL`. -/
def strchr (s : String) (c : Char) : Bool := s.toList.elem c

/-- The result of `fprintf(fp, "%i", n)`. -/
def fmtInt (n : Int) : String := toString n

/-- The result of `fprintf(fp, "%s", name)` for a method name. -/
def nameStr (f : FunctionInfo) : String := f.Name.getD ""

/-- The exported symbol, format `"%s_%s_%i"` with the class name, the method name and the
value of `numberOfWrappedFunctions`. -/
def exportName (className methodName : String) (n : Nat) : String :=
  className ++ "_" ++ methodName ++ "_" ++ fmtInt n

/-- The table `supported_types` of `checkFunctionSignature`, with its `0` terminator. -/
def supported_types : List Nat :=
  [VTK_PARSE_VOID, VTK_PARSE_BOOL, VTK_PARSE_FLOAT, VTK_PARSE_DOUBLE, VTK_PARSE_CHAR,
   VTK_PARSE_UNSIGNED_CHAR, VTK_PARSE_SIGNED_CHAR, VTK_PARSE_INT, VTK_PARSE_UNSIGNED_INT,
   VTK_PARSE_SHORT, VTK_PARSE_UNSIGNED_SHORT, VTK_PARSE_LONG, VTK_PARSE_UNSIGNED_LONG,
   VTK_PARSE_LONG_LONG, VTK_PARSE_UNSIGNED_LONG_LONG, VTK_PARSE_OBJECT, VTK_PARSE_STRING,
   VTK_PARSE_UNKNOWN, 0]

/-- The search loop `for (j = 0; tbl[j] != 0; j++) if (baseType == tbl[j]) break;`:
the value of `tbl[j]` when the loop is left (`0` when nothing was found). -/
def scanSupported (baseType : Nat) : List Nat → Nat
  | [] => 0
  | t :: rest => if t = 0 then 0 else if baseType = t then t else scanSupported baseType rest

/-- The loop `for (j = 0; tbl[j]; j++) if (key == tbl[j]) hit = j + 1;` of `CheckMatch`,
started at index `j` with the current value of `hit`. -/
def scanHit (key : Nat) : List Nat → Nat → Nat → Nat
  | [], _, hit => hit
  | t :: rest, j, hit =>
    if t = 0 then hit else scanHit key rest (j + 1) (if key = t then j + 1 else hit)

def byteTypes : List Nat := [VTK_PARSE_UNSIGNED_CHAR, VTK_PARSE_SIGNED_CHAR, 0]
def shortTypes : List Nat := [VTK_PARSE_UNSIGNED_SHORT, VTK_PARSE_SHORT, 0]
def intTypes : List Nat := [VTK_PARSE_UNKNOWN, VTK_PARSE_UNSIGNED_INT, VTK_PARSE_INT, 0]
def longTypes : List Nat :=
  [VTK_PARSE_UNSIGNED_LONG, VTK_PARSE_UNSIGNED_LONG_LONG, VTK_PARSE_LONG, VTK_PARSE_LONG_LONG, 0]
def stringTypes : List Nat := [VTK_PARSE_CHAR_PTR, VTK_PARSE_STRING_REF, VTK_PARSE_STRING, 0]
/-- The table `numericTypes`; its `NULL` terminator is the end of the list. -/
def numericTypes : List (List Nat) := [byteTypes, shortTypes, intTypes, longTypes]

/-- The statement `if (c) args_ok = 0;`. -/
def veto (c : Bool) (args_ok : Int) : Int := if c then 0 else args_ok

/-- The assignment `thisFunction->ArgClasses[i] = qualified_name`. -/
def setArgClass (f : FunctionInfo) (i : Nat) (q : String) : FunctionInfo :=
  { f with ArgClasses := Function.update f.ArgClasses i q }

/-- The assignment `thisFunction->ReturnClass = qualified_name`. -/
def setReturnClass (f : FunctionInfo) (q : String) : FunctionInfo :=
  { f with ReturnClass := q }

/-- The lookup inside the block `if (baseType == VTK_PARSE_UNKNOWN)` of
`checkFunctionSignature`: `qualified_name` stays `NULL` unless the type has no indirection
and `vtkParseHierarchy_QualifiedEnumName` finds the enum named `cls`. -/
def qualifiedEnum (env : Env) (data : ClassInfo) (t : Nat) (cls : String) : Option String :=
  if t &&& VTK_PARSE_INDIRECT = 0 then env.QualifiedEnumName env.hierarchyInfo data cls
  else none

/-- The test `strcmp(fi->Name, thisFunction->Name) == 0` of `DoneOne`; both names are
non-`NULL` whenever the generators evaluate it. -/
def sameName (a b : Option String) : Bool :=
  match a, b with
  | some x, some y => streq x y
  | _, _ => false

/-- The condition of the `vtkObject` branch of `checkFunctionSignature` (the same text in
both generators): the native observer methods that the hand-written glue replaces. -/
def observerOverride (thisFunction : FunctionInfo) : Bool :=
  nameIs thisFunction.Name "AddObserver" || nameIs thisFunction.Name "GetCommand" ||
  (nameIs thisFunction.Name "RemoveObserver" &&
    thisFunction.ArgTypes 0 != VTK_PARSE_UNSIGNED_LONG) ||
  ((nameIs thisFunction.Name "RemoveObservers" || nameIs thisFunction.Name "HasObserver") &&
    ((thisFunction.ArgTypes 0 != VTK_PARSE_UNSIGNED_LONG &&
        thisFunction.ArgTypes 0 != (VTK_PARSE_CHAR_PTR ||| VTK_PARSE_CONST)) ||
      decide (thisFunction.NumberOfArguments > 1))) ||
  (nameIs thisFunction.Name "RemoveAllObservers" &&
    decide (thisFunction.NumberOfArguments > 0))

/-- The `switch (rType)` of `checkFunctionSignature` that asks for a size hint (the same
case list in both generators): for the listed pointer types `args_ok = HaveHint`. -/
def hintSwitch (rType : Nat) (haveHint : Int) (args_ok : Int) : Int :=
  if rType = VTK_PARSE_FLOAT_PTR ∨ rType = VTK_PARSE_VOID_PTR ∨ rType = VTK_PARSE_DOUBLE_PTR ∨
     rType = VTK_PARSE_INT_PTR ∨ rType = VTK_PARSE_SHORT_PTR ∨ rType = VTK_PARSE_LONG_PTR ∨
     rType = VTK_PARSE_LONG_LONG_PTR ∨ rType = VTK_PARSE_SIGNED_CHAR_PTR ∨
     rType = VTK_PARSE_BOOL_PTR ∨ rType = VTK_PARSE_UNSIGNED_CHAR_PTR
  then haveHint else args_ok

/-- A loop `for (i = 0; i < NumberOfArguments; i++) { body(i); if (ArgTypes[i] ==
VTK_PARSE_FUNCTION) break; }` over the indices still to be visited: the text written
(ignore args after function pointer). -/
def argLoop (thisFunction : FunctionInfo) (body : Nat → String) : List Nat → String
  | [] => ""
  | i :: rest =>
    body i ++
      (if thisFunction.ArgTypes i = VTK_PARSE_FUNCTION then ""
       else argLoop thisFunction body rest)

/-- The array store `wrappedFunctions[n] = f` on the list of entries. -/
def arrayStore (l : List FunctionInfo) (n : Nat) (f : FunctionInfo) : List FunctionInfo :=
  l.take n ++ f :: l.drop (n + 1)

/-! ## The native shim generator, `vtkWrapCSharp.c` -/

namespace Wrap

/-- The loop over `numericTypes` in `CheckMatch`: `some r` when the loop returns `r`,
`none` when it runs to the end of the table. -/
def numericMatch (type1 type2 : Nat) : List (List Nat) → Option Nat
  | [] => none
  | fam :: rest =>
    let hit1 := scanHit (type1 &&& VTK_PARSE_BASE_TYPE) fam 0 0
    let hit2 := scanHit (type2 &&& VTK_PARSE_BASE_TYPE) fam 0 0
    if hit1 ≠ 0 ∧ hit2 ≠ 0 ∧ type1 &&& VTK_PARSE_INDIRECT = type2 &&& VTK_PARSE_INDIRECT then
      (if hit1 < hit2 then some 1 else some 2)
    else numericMatch type1 type2 rest

/-- `CheckMatch` of `vtkWrapCSharp.c`: 1 if type1 should take precedence, 2 if type2
should take precedence, 0 if the types do not map to the same type. -/
def CheckMatch (type1 type2 : Nat) (c1 c2 : String) : Nat :=
  if type1 &&& VTK_PARSE_UNQUALIFIED_TYPE = type2 &&& VTK_PARSE_UNQUALIFIED_TYPE then
    if type1 &&& VTK_PARSE_BASE_TYPE = VTK_PARSE_OBJECT then
      if streq c1 c2 then 1 else 0
    else 1
  else
    match numericMatch type1 type2 numericTypes with
    | some r => r
    | none =>
      let hit1 := scanHit (type1 &&& VTK_PARSE_UNQUALIFIED_TYPE) stringTypes 0 0
      let hit2 := scanHit (type2 &&& VTK_PARSE_UNQUALIFIED_TYPE) stringTypes 0 0
      if hit1 ≠ 0 ∧ hit2 ≠ 0 then
        (if hit1 < hit2 then 1 else 2)
      else 0

/-- The inner part of `DoneOne` for one registry entry `fi` with matching name and
arity: the final value of `match`. -/
def matchFlag (thisFunction fi : FunctionInfo) : Bool :=
  let m := (List.range fi.NumberOfArguments).foldl
    (fun (m : Bool) j =>
      if CheckMatch (thisFunction.ArgTypes j) (fi.ArgTypes j)
          (thisFunction.ArgClasses j) (fi.ArgClasses j) = 0
      then false else m) true
  if CheckMatch thisFunction.ReturnType fi.ReturnType
      thisFunction.ReturnClass fi.ReturnClass = 0
  then false else m

/-- The loop of `DoneOne` over the registry entries still to be visited. -/
def DoneOneLoop (thisFunction : FunctionInfo) : List FunctionInfo → Int
  | [] => 0
  | fi :: rest =>
    if sameName fi.Name thisFunction.Name ∧
        fi.NumberOfArguments = thisFunction.NumberOfArguments then
      if matchFlag thisFunction fi then 1 else DoneOneLoop thisFunction rest
    else DoneOneLoop thisFunction rest

/-- `DoneOne` of `vtkWrapCSharp.c`: have we done one of these yet. -/
def DoneOne (s : State) (thisFunction : FunctionInfo) : Int :=
  DoneOneLoop thisFunction (s.wrappedFunctions.take s.numberOfWrappedFunctions)

/-- `isClassWrapped` of `vtkWrapCSharp.c`. -/
def isClassWrapped (env : Env) (classname : String) : Int :=
  let inHierarchy : Bool :=
    match env.hierarchyInfo with
    | some info =>
      (match info.FindEntry classname with
       | none => false
       | some entry => info.IsTypeOf entry "vtkObjectBase")
    | none => true
  if !inHierarchy then 0
  /- Templated classes are not wrapped -/
  else if strchr classname '<' then 0
  else 1

/-- One pass of the first argument loop of `checkFunctionSignature`
(`vtkWrapCSharp.c`), on the pair of `args_ok` and the function being mutated. -/
def checkArg (env : Env) (data : ClassInfo) (st : Int × FunctionInfo) (i : Nat) :
    Int × FunctionInfo :=
  let aType := st.2.ArgTypes i &&& VTK_PARSE_UNQUALIFIED_TYPE
  let baseType := aType &&& VTK_PARSE_BASE_TYPE
  let ok1 := veto (scanSupported baseType supported_types = 0) st.1
  /- the block `if (baseType == VTK_PARSE_UNKNOWN)` -/
  let qualified_name := qualifiedEnum env data aType (st.2.ArgClasses i)
  let f2 : FunctionInfo :=
    if baseType = VTK_PARSE_UNKNOWN then
      match qualified_name with
      | some q => setArgClass st.2 i q
      | none => st.2
    else st.2
  let ok2 := veto (baseType = VTK_PARSE_UNKNOWN ∧ qualified_name.isNone) ok1
  /- the block `if (baseType == VTK_PARSE_OBJECT)` -/
  let ok3 := veto (baseType = VTK_PARSE_OBJECT ∧
      (aType &&& VTK_PARSE_INDIRECT ≠ VTK_PARSE_POINTER ∨
        isClassWrapped env (f2.ArgClasses i) = 0)) ok2
  let ok4 := veto (aType = VTK_PARSE_OBJECT) ok3
  let ok5 := veto (aType &&& VTK_PARSE_INDIRECT ≠ VTK_PARSE_POINTER ∧
      aType &&& VTK_PARSE_INDIRECT ≠ 0 ∧ aType ≠ VTK_PARSE_STRING_REF) ok4
  let ok6 := veto (aType = VTK_PARSE_STRING_PTR) ok5
  let ok7 := veto (aType = VTK_PARSE_UNSIGNED_CHAR_PTR) ok6
  let ok8 := veto (aType = VTK_PARSE_UNSIGNED_INT_PTR) ok7
  let ok9 := veto (aType = VTK_PARSE_UNSIGNED_SHORT_PTR) ok8
  let ok10 := veto (aType = VTK_PARSE_UNSIGNED_LONG_PTR) ok9
  let ok11 := veto (aType = VTK_PARSE_UNSIGNED_LONG_LONG_PTR) ok10
  (ok11, f2)

/-- The checks of `checkFunctionSignature` (`vtkWrapCSharp.c`) on the return type, from
`baseType = (rType & VTK_PARSE_BASE_TYPE)` to the last unsigned pointer test. -/
def checkReturn (env : Env) (data : ClassInfo) (rType : Nat) (st : Int × FunctionInfo) :
    Int × FunctionInfo :=
  let baseType := rType &&& VTK_PARSE_BASE_TYPE
  let ok1 := veto (scanSupported baseType supported_types = 0) st.1
  /- the block `if (baseType == VTK_PARSE_UNKNOWN)` -/
  let qualified_name := qualifiedEnum env data rType st.2.ReturnClass
  let f2 : FunctionInfo :=
    if baseType = VTK_PARSE_UNKNOWN then
      match qualified_name with
      | some q => setReturnClass st.2 q
      | none => st.2
    else st.2
  let ok2 := veto (baseType = VTK_PARSE_UNKNOWN ∧ qualified_name.isNone) ok1
  /- the block `if (baseType == VTK_PARSE_OBJECT)` -/
  let ok3 := veto (baseType = VTK_PARSE_OBJECT ∧
      (rType &&& VTK_PARSE_INDIRECT ≠ VTK_PARSE_POINTER ∨
        isClassWrapped env f2.ReturnClass = 0)) ok2
  let ok5 := veto (rType &&& VTK_PARSE_INDIRECT ≠ VTK_PARSE_POINTER ∧
      rType &&& VTK_PARSE_INDIRECT ≠ 0 ∧ rType ≠ VTK_PARSE_STRING_REF) ok3
  let ok6 := veto (rType = VTK_PARSE_STRING_PTR) ok5
  /- eliminate unsigned pointer returns -/
  let ok7 := veto (rType = VTK_PARSE_UNSIGNED_CHAR_PTR) ok6
  let ok8 := veto (rType = VTK_PARSE_UNSIGNED_INT_PTR) ok7
  let ok9 := veto (rType = VTK_PARSE_UNSIGNED_SHORT_PTR) ok8
  let ok10 := veto (rType = VTK_PARSE_UNSIGNED_LONG_PTR) ok9
  let ok11 := veto (rType = VTK_PARSE_UNSIGNED_LONG_LONG_PTR) ok10
  (ok11, f2)

/-- One pass of the second argument loop of `checkFunctionSignature`
(`vtkWrapCSharp.c`): make sure we have all the info we need for array arguments. -/
def checkArgCount (thisFunction : FunctionInfo) (args_ok : Int) (i : Nat) : Int :=
  let aType := thisFunction.ArgTypes i &&& VTK_PARSE_UNQUALIFIED_TYPE
  veto (aType &&& VTK_PARSE_INDIRECT = VTK_PARSE_POINTER ∧
      (thisFunction.Parameters i).Count ≤ 0 ∧ aType ≠ VTK_PARSE_OBJECT_PTR ∧
      aType ≠ VTK_PARSE_CHAR_PTR) args_ok

/-- `checkFunctionSignature` of `vtkWrapCSharp.c`: the verdict `args_ok` and the function
with the class names that were replaced by qualified enum names. -/
def checkFunctionSignature (env : Env) (data : ClassInfo) (thisFunction : FunctionInfo) :
    Int × FunctionInfo :=
  let rType := thisFunction.ReturnType &&& VTK_PARSE_UNQUALIFIED_TYPE
  /- some functions will not get wrapped no matter what -/
  if thisFunction.IsOperator || thisFunction.ArrayFailure || thisFunction.Template ||
      thisFunction.IsExcluded || thisFunction.IsDeleted || !thisFunction.IsPublic ||
      thisFunction.Name.isNone then (0, thisFunction)
  else if nameIs thisFunction.Name "NewInstance" then (0, thisFunction)
  else if nameIs thisFunction.Name "SafeDownCast" then (0, thisFunction)
  /- function pointer arguments for callbacks -/
  else if thisFunction.NumberOfArguments = 2 ∧ thisFunction.ArgTypes 0 = VTK_PARSE_FUNCTION ∧
      thisFunction.ArgTypes 1 = VTK_PARSE_VOID_PTR ∧ rType = VTK_PARSE_VOID then
    (1, thisFunction)
  else
    let st1 := (List.range thisFunction.NumberOfArguments).foldl (checkArg env data)
      (1, thisFunction)
    let st2 := checkReturn env data rType st1
    let ok3 := (List.range st2.2.NumberOfArguments).foldl (checkArgCount st2.2) st2.1
    let ok4 := hintSwitch rType st2.2.HaveHint ok3
    let ok5 :=
      if streq "vtkObject" data.Name then veto (observerOverride st2.2) ok4
      else if streq "vtkObjectBase" data.Name then veto (nameIs st2.2.Name "Print") ok4
      else ok4
    let ok6 := veto (nameIs st2.2.Name "Delete" || nameIs st2.2.Name "New") ok5
    (ok6, st2.2)

/-- `OutputParamType`: the C parameter type for extern "C" function signatures. -/
def OutputParamType (thisFunction : FunctionInfo) (i : Nat) : String :=
  let aType := thisFunction.ArgTypes i &&& VTK_PARSE_UNQUALIFIED_TYPE
  /- ignore void -/
  if aType = VTK_PARSE_VOID then ""
  /- function pointer callback -/
  else if thisFunction.ArgTypes i = VTK_PARSE_FUNCTION then "void* fptr, void* clientdata"
  /- strings: pass as const char* -/
  else if ((thisFunction.Parameters i).CountHint.isNone ∧ aType = VTK_PARSE_CHAR_PTR) ∨
      aType = VTK_PARSE_STRING ∨ aType = VTK_PARSE_STRING_REF then
    "const char* id" ++ fmtInt i
  /- array pointer types -/
  else if aType = VTK_PARSE_BOOL_PTR then "int* id" ++ fmtInt i
  else if aType = VTK_PARSE_FLOAT_PTR then "float* id" ++ fmtInt i
  else if aType = VTK_PARSE_DOUBLE_PTR then "double* id" ++ fmtInt i
  else if ((thisFunction.Parameters i).CountHint.isSome ∧ aType = VTK_PARSE_CHAR_PTR) ∨
      aType = VTK_PARSE_SIGNED_CHAR_PTR ∨ aType = VTK_PARSE_UNSIGNED_CHAR_PTR then
    "unsigned char* id" ++ fmtInt i
  else if aType = VTK_PARSE_SHORT_PTR ∨ aType = VTK_PARSE_UNSIGNED_SHORT_PTR then
    "short* id" ++ fmtInt i
  else if aType = VTK_PARSE_INT_PTR ∨ aType = VTK_PARSE_UNSIGNED_INT_PTR then
    "int* id" ++ fmtInt i
  else if aType = VTK_PARSE_LONG_PTR ∨ aType = VTK_PARSE_LONG_LONG_PTR ∨
      aType = VTK_PARSE_UNSIGNED_LONG_PTR ∨ aType = VTK_PARSE_UNSIGNED_LONG_LONG_PTR then
    "long long* id" ++ fmtInt i
  else
    let b := (aType &&& VTK_PARSE_BASE_TYPE) &&& NOT_VTK_PARSE_UNSIGNED
    if b = VTK_PARSE_FLOAT then "float id" ++ fmtInt i
    else if b = VTK_PARSE_DOUBLE then "double id" ++ fmtInt i
    else if b = VTK_PARSE_SHORT then "short id" ++ fmtInt i
    else if b = VTK_PARSE_INT then "int id" ++ fmtInt i
    else if b = VTK_PARSE_LONG ∨ b = VTK_PARSE_LONG_LONG then "long long id" ++ fmtInt i
    else if b = VTK_PARSE_BOOL then "int id" ++ fmtInt i
    else if b = VTK_PARSE_CHAR then "char id" ++ fmtInt i
    else if b = VTK_PARSE_SIGNED_CHAR then "signed char id" ++ fmtInt i
    else if b = VTK_PARSE_UNSIGNED_CHAR then "unsigned char id" ++ fmtInt i
    else if b = VTK_PARSE_OBJECT then "void* id" ++ fmtInt i
    else if b = VTK_PARSE_UNKNOWN then "int id" ++ fmtInt i
    else "int id" ++ fmtInt i

/-- `OutputReturnType`: the C return type for extern "C" functions. -/
def OutputReturnType (thisFunction : FunctionInfo) : String :=
  let rType := thisFunction.ReturnType &&& VTK_PARSE_UNQUALIFIED_TYPE
  if rType = VTK_PARSE_VOID then "void"
  else if rType = VTK_PARSE_FLOAT then "float"
  else if rType = VTK_PARSE_DOUBLE then "double"
  else if rType = VTK_PARSE_CHAR then "char"
  else if rType = VTK_PARSE_SIGNED_CHAR ∨ rType = VTK_PARSE_UNSIGNED_CHAR then "unsigned char"
  else if rType = VTK_PARSE_SHORT ∨ rType = VTK_PARSE_UNSIGNED_SHORT then "short"
  else if rType = VTK_PARSE_INT ∨ rType = VTK_PARSE_UNSIGNED_INT then "int"
  else if rType = VTK_PARSE_LONG ∨ rType = VTK_PARSE_LONG_LONG ∨
      rType = VTK_PARSE_UNSIGNED_LONG ∨ rType = VTK_PARSE_UNSIGNED_LONG_LONG then "long long"
  else if rType = VTK_PARSE_BOOL then "int"
  else if rType = VTK_PARSE_UNKNOWN then "int"
  else if rType = VTK_PARSE_OBJECT_PTR then "void*"
  else if rType = VTK_PARSE_CHAR_PTR ∨ rType = VTK_PARSE_STRING ∨
      rType = VTK_PARSE_STRING_REF then "const char*"
  /- pointer return types -/
  else if rType = VTK_PARSE_FLOAT_PTR then "float*"
  else if rType = VTK_PARSE_DOUBLE_PTR then "double*"
  else if rType = VTK_PARSE_INT_PTR ∨ rType = VTK_PARSE_UNSIGNED_INT_PTR then "int*"
  else if rType = VTK_PARSE_SHORT_PTR ∨ rType = VTK_PARSE_UNSIGNED_SHORT_PTR then "short*"
  else if rType = VTK_PARSE_LONG_PTR ∨ rType = VTK_PARSE_LONG_LONG_PTR ∨
      rType = VTK_PARSE_UNSIGNED_LONG_PTR ∨ rType = VTK_PARSE_UNSIGNED_LONG_LONG_PTR then
    "long long*"
  else if rType = VTK_PARSE_SIGNED_CHAR_PTR ∨ rType = VTK_PARSE_UNSIGNED_CHAR_PTR then
    "unsigned char*"
  else if rType = VTK_PARSE_BOOL_PTR then "int*"
  else "int"

/-- `OutputLocalVariableDeclarations`: the declaration of the local variable `temp<i>` of
type `aType` (class or enum name `Id`, element count `aCount`). -/
def OutputLocalVariableDeclarations (i : Nat) (aType : Nat) (Id : String) (aCount : Int) :
    String :=
  /- handle VAR FUNCTIONS -/
  if aType = VTK_PARSE_FUNCTION then ""
  /- ignore void -/
  else if aType &&& VTK_PARSE_UNQUALIFIED_TYPE = VTK_PARSE_VOID then ""
  else
    /- for const * return types prototype with const -/
    let p1 :=
      if i = MAX_ARGS ∧ aType &&& VTK_PARSE_INDIRECT ≠ 0 ∧ aType &&& VTK_PARSE_CONST ≠ 0
      then "  const " else "  "
    let p2 := if aType &&& VTK_PARSE_UNSIGNED ≠ 0 then "unsigned " else ""
    let b := (aType &&& VTK_PARSE_BASE_TYPE) &&& NOT_VTK_PARSE_UNSIGNED
    let p3 :=
      if b = VTK_PARSE_FLOAT then "float "
      else if b = VTK_PARSE_DOUBLE then "double "
      else if b = VTK_PARSE_INT then "int "
      else if b = VTK_PARSE_SHORT then "short "
      else if b = VTK_PARSE_LONG then "long "
      else if b = VTK_PARSE_VOID then "void "
      else if b = VTK_PARSE_CHAR then "char "
      else if b = VTK_PARSE_LONG_LONG then "long long "
      else if b = VTK_PARSE_SIGNED_CHAR then "signed char "
      else if b = VTK_PARSE_BOOL then "bool "
      else if b = VTK_PARSE_OBJECT then Id ++ " "
      else if b = VTK_PARSE_STRING then Id ++ " "
      else if b = VTK_PARSE_UNKNOWN then Id ++ " "
      else ""
    let FunctionReturnsObjectOrString : Bool :=
      decide (i = MAX_ARGS) ||
      decide (aType &&& VTK_PARSE_UNQUALIFIED_TYPE = VTK_PARSE_OBJECT_PTR) ||
      decide (aType &&& VTK_PARSE_UNQUALIFIED_TYPE = VTK_PARSE_CHAR_PTR)
    let p4 :=
      if aType &&& VTK_PARSE_INDIRECT = VTK_PARSE_REF then
        (if i = MAX_ARGS then "* " else "")
      else if aType &&& VTK_PARSE_INDIRECT = VTK_PARSE_POINTER then
        (if FunctionReturnsObjectOrString then "* " else "")
      else "  "
    let p5 := "temp" ++ fmtInt i
    /- handle arrays -/
    let p6 :=
      if aType &&& VTK_PARSE_INDIRECT = VTK_PARSE_POINTER ∧ ¬ FunctionReturnsObjectOrString
      then "[" ++ fmtInt aCount ++ "]" else ""
    p1 ++ p2 ++ p3 ++ p4 ++ p5 ++ p6 ++ ";\n"

/-- The case list shared by the `memcpy` branches of `OutputLocalVariableAssignments` and
`OutputCopyBackArrays`: the numeric array pointer types. -/
def isArrayPtrCase (basicType : Nat) : Bool :=
  decide (basicType = VTK_PARSE_FLOAT_PTR ∨ basicType = VTK_PARSE_DOUBLE_PTR ∨
    basicType = VTK_PARSE_INT_PTR ∨ basicType = VTK_PARSE_UNSIGNED_INT_PTR ∨
    basicType = VTK_PARSE_SHORT_PTR ∨ basicType = VTK_PARSE_UNSIGNED_SHORT_PTR ∨
    basicType = VTK_PARSE_SIGNED_CHAR_PTR ∨ basicType = VTK_PARSE_UNSIGNED_CHAR_PTR ∨
    basicType = VTK_PARSE_LONG_PTR ∨ basicType = VTK_PARSE_UNSIGNED_LONG_PTR ∨
    basicType = VTK_PARSE_LONG_LONG_PTR ∨ basicType = VTK_PARSE_UNSIGNED_LONG_LONG_PTR ∨
    basicType = VTK_PARSE_BOOL_PTR)

/-- `OutputLocalVariableAssignments`: local variable assignments converting C types to
C++ types. -/
def OutputLocalVariableAssignments (thisFunction : FunctionInfo) (i : Nat) : String :=
  let rawType := thisFunction.ArgTypes i
  /- handle VAR FUNCTIONS -/
  if rawType = VTK_PARSE_FUNCTION then ""
  else
    let basicType := rawType &&& VTK_PARSE_UNQUALIFIED_TYPE
    /- ignore void -/
    if basicType = VTK_PARSE_VOID then ""
    else if basicType = VTK_PARSE_CHAR then
      "  temp" ++ fmtInt i ++ " = static_cast<char>(id" ++ fmtInt i ++ ");\n"
    else if basicType = VTK_PARSE_BOOL then
      "  temp" ++ fmtInt i ++ " = (id" ++ fmtInt i ++ " != 0) ? true : false;\n"
    else if basicType = VTK_PARSE_CHAR_PTR then
      "  temp" ++ fmtInt i ++ " = const_cast<char*>(id" ++ fmtInt i ++ ");\n"
    else if basicType = VTK_PARSE_STRING ∨ basicType = VTK_PARSE_STRING_REF then
      "  temp" ++ fmtInt i ++ " = id" ++ fmtInt i ++ ";\n"
    else if basicType = VTK_PARSE_OBJECT_PTR then
      "  temp" ++ fmtInt i ++ " = static_cast<" ++ thisFunction.ArgClasses i ++ "*>(id" ++
        fmtInt i ++ ");\n"
    else if isArrayPtrCase basicType then
      /- arrays are passed directly as pointers from pinned C# arrays -/
      "  memcpy(temp" ++ fmtInt i ++ ", id" ++ fmtInt i ++ ", " ++
        fmtInt (thisFunction.Parameters i).Count ++ " * sizeof(temp" ++ fmtInt i ++ "[0]));\n"
    else if basicType = VTK_PARSE_UNKNOWN then
      "  temp" ++ fmtInt i ++ " = static_cast<" ++ thisFunction.ArgClasses i ++ ">(id" ++
        fmtInt i ++ ");\n"
    else if basicType = VTK_PARSE_VOID ∨ basicType = VTK_PARSE_OBJECT ∨
        basicType = VTK_PARSE_OBJECT_REF then ""
    else "  temp" ++ fmtInt i ++ " = id" ++ fmtInt i ++ ";\n"

/-- `OutputCopyBackArrays`: copy back modified array data. -/
def OutputCopyBackArrays (thisFunction : FunctionInfo) (i : Nat) : String :=
  let rawType := thisFunction.ArgTypes i
  if rawType = VTK_PARSE_FUNCTION then ""
  else
    let basicType := rawType &&& VTK_PARSE_UNQUALIFIED_TYPE
    if basicType = VTK_PARSE_VOID then ""
    /- only copy back for non-const arrays -/
    else if rawType &&& VTK_PARSE_CONST = 0 then
      if isArrayPtrCase basicType then
        "  memcpy(id" ++ fmtInt i ++ ", temp" ++ fmtInt i ++ ", " ++
          fmtInt (thisFunction.Parameters i).Count ++ " * sizeof(temp" ++ fmtInt i ++
          "[0]));\n"
      else ""
    else ""

/-- `OutputFunctionResult`: the return statement. -/
def OutputFunctionResult (thisFunction : FunctionInfo) : String :=
  let rType := thisFunction.ReturnType &&& VTK_PARSE_UNQUALIFIED_TYPE
  if rType = VTK_PARSE_VOID then ""
  else if rType = VTK_PARSE_OBJECT_PTR then
    "  return static_cast<void*>(temp" ++ fmtInt MAX_ARGS ++ ");\n"
  else if rType = VTK_PARSE_STRING then
    /- std::string return: use thread-local static to ensure pointer lifetime -/
    "  static thread_local std::string _cs_result;\n" ++
    "  _cs_result = temp" ++ fmtInt MAX_ARGS ++ ";\n" ++
    "  return _cs_result.c_str();\n"
  else if rType = VTK_PARSE_STRING_REF then
    "  return temp" ++ fmtInt MAX_ARGS ++ "->c_str();\n"
  else if rType = VTK_PARSE_CHAR_PTR then
    (if thisFunction.ReturnValue.Count > 0 then
      "  return temp" ++ fmtInt MAX_ARGS ++ ";\n"
    else
      "  return temp" ++ fmtInt MAX_ARGS ++ ";\n")
  /- pointer return types: cast to match extern "C" signature type -/
  else if rType = VTK_PARSE_FLOAT_PTR ∨ rType = VTK_PARSE_DOUBLE_PTR ∨
      rType = VTK_PARSE_INT_PTR ∨ rType = VTK_PARSE_UNSIGNED_INT_PTR ∨
      rType = VTK_PARSE_SHORT_PTR ∨ rType = VTK_PARSE_UNSIGNED_SHORT_PTR ∨
      rType = VTK_PARSE_LONG_LONG_PTR ∨ rType = VTK_PARSE_UNSIGNED_LONG_LONG_PTR then
    "  return temp" ++ fmtInt MAX_ARGS ++ ";\n"
  else if rType = VTK_PARSE_LONG_PTR ∨ rType = VTK_PARSE_UNSIGNED_LONG_PTR then
    "  return reinterpret_cast<long long*>(temp" ++ fmtInt MAX_ARGS ++ ");\n"
  else if rType = VTK_PARSE_SIGNED_CHAR_PTR then
    "  return reinterpret_cast<unsigned char*>(temp" ++ fmtInt MAX_ARGS ++ ");\n"
  else if rType = VTK_PARSE_UNSIGNED_CHAR_PTR ∨ rType = VTK_PARSE_BOOL_PTR then
    "  return temp" ++ fmtInt MAX_ARGS ++ ";\n"
  else if rType = VTK_PARSE_BOOL then
    "  return static_cast<int>(temp" ++ fmtInt MAX_ARGS ++ ");\n"
  else if rType = VTK_PARSE_UNKNOWN then
    "  return static_cast<int>(temp" ++ fmtInt MAX_ARGS ++ ");\n"
  else "  return temp" ++ fmtInt MAX_ARGS ++ ";\n"

/-- The text after the export name in the first line of an export: the flat parameter
list and the opening of the body. -/
def signatureTail (thisFunction : FunctionInfo) : String :=
  "(void* obj" ++
  argLoop thisFunction (fun i => ", " ++ OutputParamType thisFunction i)
    (List.range thisFunction.NumberOfArguments) ++
  ")\n\x7b\n"

/-- The body that `outputFunction` writes after the signature of an export, up to the
closing brace. -/
def bodyText (data : ClassInfo) (thisFunction : FunctionInfo) : String :=
  let rType := thisFunction.ReturnType &&& VTK_PARSE_UNQUALIFIED_TYPE
  /- declare local variables -/
  argLoop thisFunction
    (fun i => OutputLocalVariableDeclarations i (thisFunction.ArgTypes i)
      (thisFunction.ArgClasses i) (thisFunction.ArgCounts i))
    (List.range thisFunction.NumberOfArguments) ++
  OutputLocalVariableDeclarations MAX_ARGS thisFunction.ReturnType thisFunction.ReturnClass 0 ++
  /- assign local variables from parameters -/
  argLoop thisFunction (fun i => OutputLocalVariableAssignments thisFunction i)
    (List.range thisFunction.NumberOfArguments) ++
  /- cast the object pointer -/
  "\n  " ++ data.Name ++ "* op = static_cast<" ++ data.Name ++ "*>(obj);\n" ++
  /- make the C++ call -/
  (if rType = VTK_PARSE_VOID then "  op->" ++ nameStr thisFunction ++ "("
   else if rType &&& VTK_PARSE_INDIRECT = VTK_PARSE_REF then
     "  temp" ++ fmtInt MAX_ARGS ++ " = &(op)->" ++ nameStr thisFunction ++ "("
   else "  temp" ++ fmtInt MAX_ARGS ++ " = op->" ++ nameStr thisFunction ++ "(") ++
  argLoop thisFunction
    (fun i => (if i ≠ 0 then ", " else "") ++
      (if thisFunction.ArgTypes i = VTK_PARSE_FUNCTION then
        "reinterpret_cast<void(*)(void*)>(fptr), clientdata"
       else "temp" ++ fmtInt i))
    (List.range thisFunction.NumberOfArguments) ++
  ");\n" ++
  /- copy back any arrays -/
  argLoop thisFunction (fun i => OutputCopyBackArrays thisFunction i)
    (List.range thisFunction.NumberOfArguments) ++
  OutputFunctionResult thisFunction ++
  "\x7d\n"

/-- The whole text `outputFunction` writes for a method it emits when the counter
`numberOfWrappedFunctions` has the value `n`. -/
def emitText (data : ClassInfo) (thisFunction : FunctionInfo) (n : Nat) : String :=
  "\nextern \"C\" VTK_CSHARP_EXPORT " ++ OutputReturnType thisFunction ++ " " ++
  exportName data.Name (nameStr thisFunction) n ++
  signatureTail thisFunction ++ bodyText data thisFunction

/-- `outputFunction` of `vtkWrapCSharp.c` for the method `thisFunction` of class `data`:
the file scope state after the call.  The string `thisFunction->Name + 1` is the name
without its first character. -/
def outputFunction (env : Env) (data : ClassInfo) (s : State) (thisFunction : FunctionInfo) :
    State :=
  let r := checkFunctionSignature env data thisFunction
  let args_ok := r.1
  let thisFunction := r.2
  if !thisFunction.IsExcluded && thisFunction.IsPublic && decide (args_ok ≠ 0) &&
      !streq data.Name (nameStr thisFunction) &&
      !streq data.Name ((nameStr thisFunction).drop 1) then
    /- make sure we haven't already done one of these -/
    if DoneOne s thisFunction = 0 then
      { numberOfWrappedFunctions := s.numberOfWrappedFunctions + 1
        wrappedFunctions :=
          arrayStore s.wrappedFunctions s.numberOfWrappedFunctions thisFunction
        out := s.out ++ emitText data thisFunction s.numberOfWrappedFunctions }
    else s
  else s

/-- The loop of `main` over the methods of the class. -/
def outputFunctions (env : Env) (data : ClassInfo) (s : State) (fs : List FunctionInfo) :
    State :=
  fs.foldl (outputFunction env data) s

end Wrap

/-! ## The managed surface generator, `vtkParseCSharp.c` -/

namespace Parse

/-- The loop over `numericTypes` in `CheckMatch`: `some r` when the loop returns `r`,
`none` when it runs to the end of the table. -/
def numericMatch (type1 type2 : Nat) : List (List Nat) → Option Nat
  | [] => none
  | fam :: rest =>
    let hit1 := scanHit (type1 &&& VTK_PARSE_BASE_TYPE) fam 0 0
    let hit2 := scanHit (type2 &&& VTK_PARSE_BASE_TYPE) fam 0 0
    if hit1 ≠ 0 ∧ hit2 ≠ 0 ∧ type1 &&& VTK_PARSE_INDIRECT = type2 &&& VTK_PARSE_INDIRECT then
      some (if hit1 < hit2 then 1 else 2)
    else numericMatch type1 type2 rest

/-- `CheckMatch` of `vtkParseCSharp.c`: check if two types map to the same C# type. -/
def CheckMatch (type1 type2 : Nat) (c1 c2 : String) : Nat :=
  if type1 &&& VTK_PARSE_UNQUALIFIED_TYPE = type2 &&& VTK_PARSE_UNQUALIFIED_TYPE then
    if type1 &&& VTK_PARSE_BASE_TYPE = VTK_PARSE_OBJECT then
      (if streq c1 c2 then 1 else 0)
    else 1
  else
    match numericMatch type1 type2 numericTypes with
    | some r => r
    | none =>
      let hit1 := scanHit (type1 &&& VTK_PARSE_UNQUALIFIED_TYPE) stringTypes 0 0
      let hit2 := scanHit (type2 &&& VTK_PARSE_UNQUALIFIED_TYPE) stringTypes 0 0
      if hit1 ≠ 0 ∧ hit2 ≠ 0 then
        (if hit1 < hit2 then 1 else 2)
      else 0

/-- The inner part of `DoneOne` for one registry entry `fi` with matching name and
arity: the final value of `match`. -/
def matchFlag (thisFunction fi : FunctionInfo) : Bool :=
  let m := (List.range fi.NumberOfArguments).foldl
    (fun (m : Bool) j =>
      if CheckMatch (thisFunction.ArgTypes j) (fi.ArgTypes j)
          (thisFunction.ArgClasses j) (fi.ArgClasses j) = 0
      then false else m) true
  if CheckMatch thisFunction.ReturnType fi.ReturnType
      thisFunction.ReturnClass fi.ReturnClass = 0
  then false else m

/-- The loop of `DoneOne` over the registry entries still to be visited. -/
def DoneOneLoop (thisFunction : FunctionInfo) : List FunctionInfo → Int
  | [] => 0
  | fi :: rest =>
    if sameName fi.Name thisFunction.Name ∧
        fi.NumberOfArguments = thisFunction.NumberOfArguments then
      if matchFlag thisFunction fi then 1 else DoneOneLoop thisFunction rest
    else DoneOneLoop thisFunction rest

/-- `DoneOne` of `vtkParseCSharp.c`. -/
def DoneOne (s : State) (thisFunction : FunctionInfo) : Int :=
  DoneOneLoop thisFunction (s.wrappedFunctions.take s.numberOfWrappedFunctions)

/-- `isClassWrapped` of `vtkParseCSharp.c`. -/
def isClassWrapped (env : Env) (classname : String) : Int :=
  match env.hierarchyInfo with
  | some info =>
    (match info.FindEntry classname with
     | none => 0
     | some entry =>
       if (info.GetProperty entry "WRAPEXCLUDE").isSome ||
           !info.IsTypeOf entry "vtkObjectBase" then 0
       else if strchr classname '<' then 0
       else info.IsPrimary entry)
  | none => 1

/-- One pass of the first argument loop of `checkFunctionSignature`
(`vtkParseCSharp.c`), on the pair of `args_ok` and the function being mutated. -/
def checkArg (env : Env) (data : ClassInfo) (st : Int × FunctionInfo) (i : Nat) :
    Int × FunctionInfo :=
  let aType := st.2.ArgTypes i &&& VTK_PARSE_UNQUALIFIED_TYPE
  let baseType := aType &&& VTK_PARSE_BASE_TYPE
  let ok1 := veto (scanSupported baseType supported_types = 0) st.1
  /- the block `if (baseType == VTK_PARSE_UNKNOWN)` -/
  let qualified_name := qualifiedEnum env data aType (st.2.ArgClasses i)
  let f2 : FunctionInfo :=
    if baseType = VTK_PARSE_UNKNOWN then
      match qualified_name with
      | some q => setArgClass st.2 i q
      | none => st.2
    else st.2
  let ok2 := veto (baseType = VTK_PARSE_UNKNOWN ∧ qualified_name.isNone) ok1
  /- the block `if (baseType == VTK_PARSE_OBJECT)` -/
  let ok3 := veto (baseType = VTK_PARSE_OBJECT ∧
      (aType &&& VTK_PARSE_INDIRECT ≠ VTK_PARSE_POINTER ∨
        isClassWrapped env (f2.ArgClasses i) = 0)) ok2
  let ok4 := veto (aType = VTK_PARSE_OBJECT) ok3
  let ok5 := veto (aType &&& VTK_PARSE_INDIRECT ≠ VTK_PARSE_POINTER ∧
      aType &&& VTK_PARSE_INDIRECT ≠ 0 ∧ aType ≠ VTK_PARSE_STRING_REF) ok4
  let ok6 := veto (aType = VTK_PARSE_STRING_PTR) ok5
  let ok7 := veto (aType = VTK_PARSE_UNSIGNED_CHAR_PTR) ok6
  let ok8 := veto (aType = VTK_PARSE_UNSIGNED_INT_PTR) ok7
  let ok9 := veto (aType = VTK_PARSE_UNSIGNED_SHORT_PTR) ok8
  let ok10 := veto (aType = VTK_PARSE_UNSIGNED_LONG_PTR) ok9
  let ok11 := veto (aType = VTK_PARSE_UNSIGNED_LONG_LONG_PTR) ok10
  (ok11, f2)

/-- The checks of `checkFunctionSignature` (`vtkParseCSharp.c`) on the return type, from
`baseType = (rType & VTK_PARSE_BASE_TYPE)` to the last unsigned pointer test. -/
def checkReturn (env : Env) (data : ClassInfo) (rType : Nat) (st : Int × FunctionInfo) :
    Int × FunctionInfo :=
  let baseType := rType &&& VTK_PARSE_BASE_TYPE
  let ok1 := veto (scanSupported baseType supported_types = 0) st.1
  /- the block `if (baseType == VTK_PARSE_UNKNOWN)` -/
  let qualified_name := qualifiedEnum env data rType st.2.ReturnClass
  let f2 : FunctionInfo :=
    if baseType = VTK_PARSE_UNKNOWN then
      match qualified_name with
      | some q => setReturnClass st.2 q
      | none => st.2
    else st.2
  let ok2 := veto (baseType = VTK_PARSE_UNKNOWN ∧ qualified_name.isNone) ok1
  /- the block `if (baseType == VTK_PARSE_OBJECT)` -/
  let ok3 := veto (baseType = VTK_PARSE_OBJECT ∧
      (rType &&& VTK_PARSE_INDIRECT ≠ VTK_PARSE_POINTER ∨
        isClassWrapped env f2.ReturnClass = 0)) ok2
  let ok5 := veto (rType &&& VTK_PARSE_INDIRECT ≠ VTK_PARSE_POINTER ∧
      rType &&& VTK_PARSE_INDIRECT ≠ 0 ∧ rType ≠ VTK_PARSE_STRING_REF) ok3
  let ok6 := veto (rType = VTK_PARSE_STRING_PTR) ok5
  let ok7 := veto (rType = VTK_PARSE_UNSIGNED_CHAR_PTR) ok6
  let ok8 := veto (rType = VTK_PARSE_UNSIGNED_INT_PTR) ok7
  let ok9 := veto (rType = VTK_PARSE_UNSIGNED_SHORT_PTR) ok8
  let ok10 := veto (rType = VTK_PARSE_UNSIGNED_LONG_PTR) ok9
  let ok11 := veto (rType = VTK_PARSE_UNSIGNED_LONG_LONG_PTR) ok10
  (ok11, f2)

/-- One pass of the second argument loop of `checkFunctionSignature`
(`vtkParseCSharp.c`); this generator reads the element count from `ArgCounts`. -/
def checkArgCount (thisFunction : FunctionInfo) (args_ok : Int) (i : Nat) : Int :=
  let aType := thisFunction.ArgTypes i &&& VTK_PARSE_UNQUALIFIED_TYPE
  veto (aType &&& VTK_PARSE_INDIRECT = VTK_PARSE_POINTER ∧
      thisFunction.ArgCounts i ≤ 0 ∧ aType ≠ VTK_PARSE_OBJECT_PTR ∧
      aType ≠ VTK_PARSE_CHAR_PTR) args_ok

/-- `checkFunctionSignature` of `vtkParseCSharp.c`: the verdict `args_ok` and the
function with the class names that were replaced by qualified enum names. -/
def checkFunctionSignature (env : Env) (data : ClassInfo) (thisFunction : FunctionInfo) :
    Int × FunctionInfo :=
  let rType := thisFunction.ReturnType &&& VTK_PARSE_UNQUALIFIED_TYPE
  if thisFunction.IsOperator || thisFunction.ArrayFailure || thisFunction.Template ||
      thisFunction.IsExcluded || thisFunction.IsDeleted || !thisFunction.IsPublic ||
      thisFunction.Name.isNone then (0, thisFunction)
  else if nameIs thisFunction.Name "NewInstance" then (0, thisFunction)
  else if nameIs thisFunction.Name "SafeDownCast" then (0, thisFunction)
  /- function pointer arguments for callbacks -/
  else if thisFunction.NumberOfArguments = 2 ∧ thisFunction.ArgTypes 0 = VTK_PARSE_FUNCTION ∧
      thisFunction.ArgTypes 1 = VTK_PARSE_VOID_PTR ∧ rType = VTK_PARSE_VOID then
    (1, thisFunction)
  else
    let st1 := (List.range thisFunction.NumberOfArguments).foldl (checkArg env data)
      (1, thisFunction)
    let st2 := checkReturn env data rType st1
    let ok3 := (List.range st2.2.NumberOfArguments).foldl (checkArgCount st2.2) st2.1
    let ok4 := hintSwitch rType st2.2.HaveHint ok3
    let ok5 :=
      if streq "vtkObject" data.Name then veto (observerOverride st2.2) ok4
      else if streq "vtkObjectBase" data.Name then veto (nameIs st2.2.Name "Print") ok4
      else ok4
    let ok6 := veto (nameIs st2.2.Name "Delete" || nameIs st2.2.Name "New") ok5
    (ok6, st2.2)

/-- The `switch ((aType & VTK_PARSE_BASE_TYPE) & ~VTK_PARSE_UNSIGNED)` for array types
that `OutputCSharpParamType` and `OutputCSharpNativeParamType` share but for the `bool`
case: `some` element type when a case is taken, `none` when the switch falls through. -/
def arrayElemType (b : Nat) (boolText : String) : Option String :=
  if b = VTK_PARSE_FLOAT then some "float[] id"
  else if b = VTK_PARSE_DOUBLE then some "double[] id"
  else if b = VTK_PARSE_INT then some "int[] id"
  else if b = VTK_PARSE_SHORT then some "short[] id"
  else if b = VTK_PARSE_LONG ∨ b = VTK_PARSE_LONG_LONG then some "long[] id"
  else if b = VTK_PARSE_BOOL then some boolText
  else if b = VTK_PARSE_CHAR ∨ b = VTK_PARSE_SIGNED_CHAR ∨ b = VTK_PARSE_UNSIGNED_CHAR then
    some "byte[] id"
  else none

/-- `OutputCSharpParamType`: the C# parameter type for public wrapper methods. -/
def OutputCSharpParamType (thisFunction : FunctionInfo) (i : Nat) : String :=
  let aType := thisFunction.ArgTypes i &&& VTK_PARSE_UNQUALIFIED_TYPE
  let b := (aType &&& VTK_PARSE_BASE_TYPE) &&& NOT_VTK_PARSE_UNSIGNED
  let scalar : String :=
    if b = VTK_PARSE_FLOAT then "float id" ++ fmtInt i
    else if b = VTK_PARSE_DOUBLE then "double id" ++ fmtInt i
    else if b = VTK_PARSE_INT then "int id" ++ fmtInt i
    else if b = VTK_PARSE_SHORT then "short id" ++ fmtInt i
    else if b = VTK_PARSE_LONG ∨ b = VTK_PARSE_LONG_LONG then "long id" ++ fmtInt i
    else if b = VTK_PARSE_BOOL then "bool id" ++ fmtInt i
    else if b = VTK_PARSE_CHAR then "char id" ++ fmtInt i
    else if b = VTK_PARSE_SIGNED_CHAR ∨ b = VTK_PARSE_UNSIGNED_CHAR then "byte id" ++ fmtInt i
    else if b = VTK_PARSE_UNKNOWN then "int id" ++ fmtInt i
    else "int id" ++ fmtInt i
  if aType = VTK_PARSE_VOID then ""
  else if thisFunction.ArgTypes i = VTK_PARSE_FUNCTION then "Action id0"
  /- strings -/
  else if aType = VTK_PARSE_CHAR_PTR ∨ aType = VTK_PARSE_STRING ∨
      aType = VTK_PARSE_STRING_REF then "string id" ++ fmtInt i
  /- object pointer -/
  else if aType = VTK_PARSE_OBJECT_PTR then thisFunction.ArgClasses i ++ " id" ++ fmtInt i
  /- array types -/
  else if aType &&& VTK_PARSE_INDIRECT = VTK_PARSE_POINTER ∧ aType ≠ VTK_PARSE_CHAR_PTR ∧
      aType ≠ VTK_PARSE_OBJECT_PTR then
    match arrayElemType b "bool[] id" with
    | some t => t ++ fmtInt i
    | none => scalar
  /- scalar types -/
  else scalar

/-- `OutputCSharpNativeParamType`: the C# parameter type for `[DllImport]` declarations. -/
def OutputCSharpNativeParamType (thisFunction : FunctionInfo) (i : Nat) : String :=
  let aType := thisFunction.ArgTypes i &&& VTK_PARSE_UNQUALIFIED_TYPE
  let b := (aType &&& VTK_PARSE_BASE_TYPE) &&& NOT_VTK_PARSE_UNSIGNED
  let scalar : String :=
    if b = VTK_PARSE_FLOAT then "float id" ++ fmtInt i
    else if b = VTK_PARSE_DOUBLE then "double id" ++ fmtInt i
    else if b = VTK_PARSE_INT then "int id" ++ fmtInt i
    else if b = VTK_PARSE_SHORT then "short id" ++ fmtInt i
    else if b = VTK_PARSE_LONG ∨ b = VTK_PARSE_LONG_LONG then "long id" ++ fmtInt i
    /- bool as int for ABI safety -/
    else if b = VTK_PARSE_BOOL then "int id" ++ fmtInt i
    else if b = VTK_PARSE_CHAR then "byte id" ++ fmtInt i
    else if b = VTK_PARSE_SIGNED_CHAR ∨ b = VTK_PARSE_UNSIGNED_CHAR then "byte id" ++ fmtInt i
    else if b = VTK_PARSE_UNKNOWN then "int id" ++ fmtInt i
    else "int id" ++ fmtInt i
  if aType = VTK_PARSE_VOID then ""
  else if thisFunction.ArgTypes i = VTK_PARSE_FUNCTION then "IntPtr fptr, IntPtr clientdata"
  /- strings: marshal as UTF-8 -/
  else if aType = VTK_PARSE_CHAR_PTR ∨ aType = VTK_PARSE_STRING ∨
      aType = VTK_PARSE_STRING_REF then
    "[MarshalAs(UnmanagedType.LPUTF8Str)] string id" ++ fmtInt i
  /- object pointer -> IntPtr -/
  else if aType = VTK_PARSE_OBJECT_PTR then "IntPtr id" ++ fmtInt i
  /- array types: pinned arrays via IntPtr -/
  else if aType &&& VTK_PARSE_INDIRECT = VTK_PARSE_POINTER ∧ aType ≠ VTK_PARSE_CHAR_PTR ∧
      aType ≠ VTK_PARSE_OBJECT_PTR then
    match arrayElemType b
      "[MarshalAs(UnmanagedType.LPArray, ArraySubType = UnmanagedType.I4)] int[] id" with
    | some t => t ++ fmtInt i
    | none => scalar
  /- scalar types -/
  else scalar

/-- `OutputCSharpReturnType`: the C# return type for public methods. -/
def OutputCSharpReturnType (thisFunction : FunctionInfo) : String :=
  let rType := thisFunction.ReturnType &&& VTK_PARSE_UNQUALIFIED_TYPE
  if rType = VTK_PARSE_VOID then "void"
  else if rType = VTK_PARSE_FLOAT then "float"
  else if rType = VTK_PARSE_DOUBLE then "double"
  else if rType = VTK_PARSE_CHAR then "char"
  else if rType = VTK_PARSE_SIGNED_CHAR ∨ rType = VTK_PARSE_UNSIGNED_CHAR then "byte"
  else if rType = VTK_PARSE_SHORT ∨ rType = VTK_PARSE_UNSIGNED_SHORT then "short"
  else if rType = VTK_PARSE_INT ∨ rType = VTK_PARSE_UNSIGNED_INT then "int"
  else if rType = VTK_PARSE_UNKNOWN then "int"
  else if rType = VTK_PARSE_LONG ∨ rType = VTK_PARSE_LONG_LONG ∨
      rType = VTK_PARSE_UNSIGNED_LONG ∨ rType = VTK_PARSE_UNSIGNED_LONG_LONG then "long"
  else if rType = VTK_PARSE_BOOL then "bool"
  else if rType = VTK_PARSE_CHAR_PTR ∨ rType = VTK_PARSE_STRING ∨
      rType = VTK_PARSE_STRING_REF then "string"
  else if rType = VTK_PARSE_OBJECT_PTR then thisFunction.ReturnClass
  else if rType = VTK_PARSE_FLOAT_PTR then "float[]"
  else if rType = VTK_PARSE_DOUBLE_PTR then "double[]"
  else if rType = VTK_PARSE_INT_PTR ∨ rType = VTK_PARSE_UNSIGNED_INT_PTR then "int[]"
  else if rType = VTK_PARSE_SHORT_PTR ∨ rType = VTK_PARSE_UNSIGNED_SHORT_PTR then "short[]"
  else if rType = VTK_PARSE_LONG_PTR ∨ rType = VTK_PARSE_LONG_LONG_PTR ∨
      rType = VTK_PARSE_UNSIGNED_LONG_PTR ∨ rType = VTK_PARSE_UNSIGNED_LONG_LONG_PTR then
    "long[]"
  else if rType = VTK_PARSE_SIGNED_CHAR_PTR ∨ rType = VTK_PARSE_UNSIGNED_CHAR_PTR then
    "byte[]"
  else if rType = VTK_PARSE_BOOL_PTR then "bool[]"
  else "int"

/-- The case list of the numeric pointer return types, shared by
`OutputCSharpNativeReturnType` and the array branch of `outputFunction`. -/
def isNumericPtrReturn (rType : Nat) : Bool :=
  decide (rType = VTK_PARSE_FLOAT_PTR ∨ rType = VTK_PARSE_DOUBLE_PTR ∨
    rType = VTK_PARSE_INT_PTR ∨ rType = VTK_PARSE_UNSIGNED_INT_PTR ∨
    rType = VTK_PARSE_SHORT_PTR ∨ rType = VTK_PARSE_UNSIGNED_SHORT_PTR ∨
    rType = VTK_PARSE_LONG_PTR ∨ rType = VTK_PARSE_LONG_LONG_PTR ∨
    rType = VTK_PARSE_UNSIGNED_LONG_PTR ∨ rType = VTK_PARSE_UNSIGNED_LONG_LONG_PTR ∨
    rType = VTK_PARSE_SIGNED_CHAR_PTR ∨ rType = VTK_PARSE_UNSIGNED_CHAR_PTR ∨
    rType = VTK_PARSE_BOOL_PTR)

/-- `OutputCSharpNativeReturnType`: the C# return type for `[DllImport]` declarations. -/
def OutputCSharpNativeReturnType (thisFunction : FunctionInfo) : String :=
  let rType := thisFunction.ReturnType &&& VTK_PARSE_UNQUALIFIED_TYPE
  if rType = VTK_PARSE_VOID then "void"
  else if rType = VTK_PARSE_FLOAT then "float"
  else if rType = VTK_PARSE_DOUBLE then "double"
  else if rType = VTK_PARSE_CHAR then "byte"
  else if rType = VTK_PARSE_SIGNED_CHAR ∨ rType = VTK_PARSE_UNSIGNED_CHAR then "byte"
  else if rType = VTK_PARSE_SHORT ∨ rType = VTK_PARSE_UNSIGNED_SHORT then "short"
  else if rType = VTK_PARSE_INT ∨ rType = VTK_PARSE_UNSIGNED_INT then "int"
  else if rType = VTK_PARSE_UNKNOWN then "int"
  else if rType = VTK_PARSE_LONG ∨ rType = VTK_PARSE_LONG_LONG ∨
      rType = VTK_PARSE_UNSIGNED_LONG ∨ rType = VTK_PARSE_UNSIGNED_LONG_LONG then "long"
  /- bool as int in native -/
  else if rType = VTK_PARSE_BOOL then "int"
  /- string returned as IntPtr, then marshaled -/
  else if rType = VTK_PARSE_CHAR_PTR ∨ rType = VTK_PARSE_STRING ∨
      rType = VTK_PARSE_STRING_REF then "IntPtr"
  else if rType = VTK_PARSE_OBJECT_PTR then "IntPtr"
  /- pointer return types -/
  else if isNumericPtrReturn rType then "IntPtr"
  else "int"

/-- `OutputCallArgs`: the call arguments for the public wrapper calling the native
method. -/
def OutputCallArgs (thisFunction : FunctionInfo) : String :=
  "Handle" ++
  argLoop thisFunction
    (fun i =>
      let aType := thisFunction.ArgTypes i &&& VTK_PARSE_UNQUALIFIED_TYPE
      if thisFunction.ArgTypes i = VTK_PARSE_FUNCTION then
        ", Marshal.GetFunctionPointerForDelegate(id0), IntPtr.Zero"
      else
        ", " ++
        (if aType = VTK_PARSE_OBJECT_PTR then
          "id" ++ fmtInt i ++ " == null ? IntPtr.Zero : id" ++ fmtInt i ++ ".Handle"
         else if aType = VTK_PARSE_BOOL then "id" ++ fmtInt i ++ " ? 1 : 0"
         else "id" ++ fmtInt i))
    (List.range thisFunction.NumberOfArguments)

/-- The `switch (rType)` of the array branch of `outputFunction`: the allocation of the
result array and the copy of `count` elements. -/
def arrayResultText (rType : Nat) (count : Int) : String :=
  let plain (t : String) : String :=
    "        " ++ t ++ "[] result = new " ++ t ++ "[" ++ fmtInt count ++ "];\n" ++
    "        Marshal.Copy(temp, result, 0, " ++ fmtInt count ++ ");\n"
  if rType = VTK_PARSE_FLOAT_PTR then plain "float"
  else if rType = VTK_PARSE_DOUBLE_PTR then plain "double"
  else if rType = VTK_PARSE_INT_PTR ∨ rType = VTK_PARSE_UNSIGNED_INT_PTR then plain "int"
  else if rType = VTK_PARSE_SHORT_PTR ∨ rType = VTK_PARSE_UNSIGNED_SHORT_PTR then plain "short"
  else if rType = VTK_PARSE_LONG_PTR ∨ rType = VTK_PARSE_LONG_LONG_PTR ∨
      rType = VTK_PARSE_UNSIGNED_LONG_PTR ∨ rType = VTK_PARSE_UNSIGNED_LONG_LONG_PTR then
    plain "long"
  else if rType = VTK_PARSE_SIGNED_CHAR_PTR ∨ rType = VTK_PARSE_UNSIGNED_CHAR_PTR then
    plain "byte"
  else if rType = VTK_PARSE_BOOL_PTR then
    "        int[] raw = new int[" ++ fmtInt count ++ "];\n" ++
    "        Marshal.Copy(temp, raw, 0, " ++ fmtInt count ++ ");\n" ++
    "        bool[] result = new bool[" ++ fmtInt count ++ "];\n" ++
    "        for (int _i = 0; _i < " ++ fmtInt count ++
      "; _i++) result[_i] = raw[_i] != 0;\n"
  else ""

/-- The `[DllImport]` declaration of an emitted method: the text before the export name
and the text after it. -/
def importHead (thisFunction : FunctionInfo) : String :=
  "\n    [DllImport(NativeLib, CallingConvention = CallingConvention.Cdecl)]\n" ++
  "    private static extern " ++ OutputCSharpNativeReturnType thisFunction ++ " "

/-- The parameter list of the `[DllImport]` declaration and the head of the public
wrapper method, up to the opening brace of its body. -/
def importTail (thisFunction : FunctionInfo) : String :=
  "(IntPtr obj" ++
  argLoop thisFunction (fun i => ", " ++ OutputCSharpNativeParamType thisFunction i)
    (List.range thisFunction.NumberOfArguments) ++
  ");\n" ++
  /- Public wrapper method -/
  "    public " ++ OutputCSharpReturnType thisFunction ++ " " ++ nameStr thisFunction ++ "(" ++
  argLoop thisFunction
    (fun i => (if i ≠ 0 then ", " else "") ++ OutputCSharpParamType thisFunction i)
    (List.range thisFunction.NumberOfArguments) ++
  ")\n    \x7b\n"

/-- The method body of the public wrapper, which calls the import named `sym`. -/
def methodBody (thisFunction : FunctionInfo) (sym : String) : String :=
  let rType := thisFunction.ReturnType &&& VTK_PARSE_UNQUALIFIED_TYPE
  (if rType = VTK_PARSE_OBJECT_PTR then
    "        IntPtr temp = " ++ sym ++ "(" ++ OutputCallArgs thisFunction ++ ");\n" ++
    "        if (temp == IntPtr.Zero) return null;\n" ++
    "        return (" ++ thisFunction.ReturnClass ++
      ")vtkObjectBase.OBJECT_MANAGER.GetOrCreate(temp, typeof(" ++
      thisFunction.ReturnClass ++ "));\n"
  else if rType = VTK_PARSE_CHAR_PTR ∨ rType = VTK_PARSE_STRING ∨
      rType = VTK_PARSE_STRING_REF then
    "        IntPtr temp = " ++ sym ++ "(" ++ OutputCallArgs thisFunction ++ ");\n" ++
    "        return temp == IntPtr.Zero ? null : Marshal.PtrToStringUTF8(temp);\n"
  else if rType = VTK_PARSE_BOOL then
    "        return " ++ sym ++ "(" ++ OutputCallArgs thisFunction ++ ") != 0;\n"
  else if isNumericPtrReturn rType then
    "        IntPtr temp = " ++ sym ++ "(" ++ OutputCallArgs thisFunction ++ ");\n" ++
    /- determine the element type for Marshal.Copy -/
    arrayResultText rType thisFunction.ReturnValue.Count ++
    "        return result;\n"
  else if rType = VTK_PARSE_VOID then
    "        " ++ sym ++ "(" ++ OutputCallArgs thisFunction ++ ");\n"
  else
    /- scalar return -/
    "        return " ++ sym ++ "(" ++ OutputCallArgs thisFunction ++ ");\n") ++
  "    \x7d\n"

/-- The whole text `outputFunction` writes for a method it emits when the counter
`numberOfWrappedFunctions` has the value `n`. -/
def emitText (data : ClassInfo) (thisFunction : FunctionInfo) (n : Nat) : String :=
  importHead thisFunction ++ exportName data.Name (nameStr thisFunction) n ++
  importTail thisFunction ++
  methodBody thisFunction (exportName data.Name (nameStr thisFunction) n)

/-- `outputFunction` of `vtkParseCSharp.c` for the method `thisFunction` of class `data`:
the file scope state after the call.  The string `thisFunction->Name + 1` is the name
without its first character. -/
def outputFunction (env : Env) (data : ClassInfo) (s : State) (thisFunction : FunctionInfo) :
    State :=
  let r := checkFunctionSignature env data thisFunction
  let args_ok := r.1
  let thisFunction := r.2
  if !thisFunction.IsExcluded && thisFunction.IsPublic && decide (args_ok ≠ 0) &&
      !streq data.Name (nameStr thisFunction) &&
      !streq data.Name ((nameStr thisFunction).drop 1) then
    if DoneOne s thisFunction = 0 then
      { numberOfWrappedFunctions := s.numberOfWrappedFunctions + 1
        wrappedFunctions :=
          arrayStore s.wrappedFunctions s.numberOfWrappedFunctions thisFunction
        out := s.out ++ emitText data thisFunction s.numberOfWrappedFunctions }
    else s
  else s

/-- The loop of `main` over the methods of the class. -/
def outputFunctions (env : Env) (data : ClassInfo) (s : State) (fs : List FunctionInfo) :
    State :=
  fs.foldl (outputFunction env data) s

end Parse

/-! ## The common shape of the two generators

The two files repeat `checkFunctionSignature` and `outputFunction` almost word for word.
The definitions of this section abstract the places where they differ, so that a
property of both generators is proved once. -/

namespace Core

/-- One pass of the first argument loop of `checkFunctionSignature`
(common shape), on the pair of `args_ok` and the function being mutated. -/
def checkArg (icw : Env → String → Int) (env : Env) (data : ClassInfo)
    (st : Int × FunctionInfo) (i : Nat) : Int × FunctionInfo :=
  let aType := st.2.ArgTypes i &&& VTK_PARSE_UNQUALIFIED_TYPE
  let baseType := aType &&& VTK_PARSE_BASE_TYPE
  let ok1 := veto (scanSupported baseType supported_types = 0) st.1
  /- the block `if (baseType == VTK_PARSE_UNKNOWN)` -/
  let qualified_name := qualifiedEnum env data aType (st.2.ArgClasses i)
  let f2 : FunctionInfo :=
    if baseType = VTK_PARSE_UNKNOWN then
      match qualified_name with
      | some q => setArgClass st.2 i q
      | none => st.2
    else st.2
  let ok2 := veto (baseType = VTK_PARSE_UNKNOWN ∧ qualified_name.isNone) ok1
  /- the block `if (baseType == VTK_PARSE_OBJECT)` -/
  let ok3 := veto (baseType = VTK_PARSE_OBJECT ∧
      (aType &&& VTK_PARSE_INDIRECT ≠ VTK_PARSE_POINTER ∨
        icw env (f2.ArgClasses i) = 0)) ok2
  let ok4 := veto (aType = VTK_PARSE_OBJECT) ok3
  let ok5 := veto (aType &&& VTK_PARSE_INDIRECT ≠ VTK_PARSE_POINTER ∧
      aType &&& VTK_PARSE_INDIRECT ≠ 0 ∧ aType ≠ VTK_PARSE_STRING_REF) ok4
  let ok6 := veto (aType = VTK_PARSE_STRING_PTR) ok5
  let ok7 := veto (aType = VTK_PARSE_UNSIGNED_CHAR_PTR) ok6
  let ok8 := veto (aType = VTK_PARSE_UNSIGNED_INT_PTR) ok7
  let ok9 := veto (aType = VTK_PARSE_UNSIGNED_SHORT_PTR) ok8
  let ok10 := veto (aType = VTK_PARSE_UNSIGNED_LONG_PTR) ok9
  let ok11 := veto (aType = VTK_PARSE_UNSIGNED_LONG_LONG_PTR) ok10
  (ok11, f2)

/-- The checks of `checkFunctionSignature` (common shape) on the return type, from
`baseType = (rType & VTK_PARSE_BASE_TYPE)` to the last unsigned pointer test. -/
def checkReturn (icw : Env → String → Int) (env : Env) (data : ClassInfo) (rType : Nat)
    (st : Int × FunctionInfo) : Int × FunctionInfo :=
  let baseType := rType &&& VTK_PARSE_BASE_TYPE
  let ok1 := veto (scanSupported baseType supported_types = 0) st.1
  /- the block `if (baseType == VTK_PARSE_UNKNOWN)` -/
  let qualified_name := qualifiedEnum env data rType st.2.ReturnClass
  let f2 : FunctionInfo :=
    if baseType = VTK_PARSE_UNKNOWN then
      match qualified_name with
      | some q => setReturnClass st.2 q
      | none => st.2
    else st.2
  let ok2 := veto (baseType = VTK_PARSE_UNKNOWN ∧ qualified_name.isNone) ok1
  /- the block `if (baseType == VTK_PARSE_OBJECT)` -/
  let ok3 := veto (baseType = VTK_PARSE_OBJECT ∧
      (rType &&& VTK_PARSE_INDIRECT ≠ VTK_PARSE_POINTER ∨
        icw env f2.ReturnClass = 0)) ok2
  let ok5 := veto (rType &&& VTK_PARSE_INDIRECT ≠ VTK_PARSE_POINTER ∧
      rType &&& VTK_PARSE_INDIRECT ≠ 0 ∧ rType ≠ VTK_PARSE_STRING_REF) ok3
  let ok6 := veto (rType = VTK_PARSE_STRING_PTR) ok5
  /- eliminate unsigned pointer returns -/
  let ok7 := veto (rType = VTK_PARSE_UNSIGNED_CHAR_PTR) ok6
  let ok8 := veto (rType = VTK_PARSE_UNSIGNED_INT_PTR) ok7
  let ok9 := veto (rType = VTK_PARSE_UNSIGNED_SHORT_PTR) ok8
  let ok10 := veto (rType = VTK_PARSE_UNSIGNED_LONG_PTR) ok9
  let ok11 := veto (rType = VTK_PARSE_UNSIGNED_LONG_LONG_PTR) ok10
  (ok11, f2)

/-- One pass of the second argument loop of `checkFunctionSignature`
(common shape): make sure we have all the info we need for array arguments. -/
def checkArgCount (cnt : FunctionInfo → Nat → Int) (thisFunction : FunctionInfo)
    (args_ok : Int) (i : Nat) : Int :=
  let aType := thisFunction.ArgTypes i &&& VTK_PARSE_UNQUALIFIED_TYPE
  veto (aType &&& VTK_PARSE_INDIRECT = VTK_PARSE_POINTER ∧
      cnt thisFunction i ≤ 0 ∧ aType ≠ VTK_PARSE_OBJECT_PTR ∧
      aType ≠ VTK_PARSE_CHAR_PTR) args_ok

/-- The common shape of `checkFunctionSignature`: the verdict `args_ok` and the function
with the class names that were replaced by qualified enum names. -/
def checkFunctionSignature (icw : Env → String → Int) (cnt : FunctionInfo → Nat → Int)
    (env : Env) (data : ClassInfo) (thisFunction : FunctionInfo) : Int × FunctionInfo :=
  let rType := thisFunction.ReturnType &&& VTK_PARSE_UNQUALIFIED_TYPE
  /- some functions will not get wrapped no matter what -/
  if thisFunction.IsOperator || thisFunction.ArrayFailure || thisFunction.Template ||
      thisFunction.IsExcluded || thisFunction.IsDeleted || !thisFunction.IsPublic ||
      thisFunction.Name.isNone then (0, thisFunction)
  else if nameIs thisFunction.Name "NewInstance" then (0, thisFunction)
  else if nameIs thisFunction.Name "SafeDownCast" then (0, thisFunction)
  /- function pointer arguments for callbacks -/
  else if thisFunction.NumberOfArguments = 2 ∧ thisFunction.ArgTypes 0 = VTK_PARSE_FUNCTION ∧
      thisFunction.ArgTypes 1 = VTK_PARSE_VOID_PTR ∧ rType = VTK_PARSE_VOID then
    (1, thisFunction)
  else
    let st1 := (List.range thisFunction.NumberOfArguments).foldl (checkArg icw env data)
      (1, thisFunction)
    let st2 := checkReturn icw env data rType st1
    let ok3 := (List.range st2.2.NumberOfArguments).foldl (checkArgCount cnt st2.2) st2.1
    let ok4 := hintSwitch rType st2.2.HaveHint ok3
    let ok5 :=
      if streq "vtkObject" data.Name then veto (observerOverride st2.2) ok4
      else if streq "vtkObjectBase" data.Name then veto (nameIs st2.2.Name "Print") ok4
      else ok4
    let ok6 := veto (nameIs st2.2.Name "Delete" || nameIs st2.2.Name "New") ok5
    (ok6, st2.2)

/-- The common shape of `outputFunction`: `check` is the generator's
`checkFunctionSignature`, `done` its `DoneOne` and `emit` the text it writes. -/
def outputFunction (check : FunctionInfo → Int × FunctionInfo)
    (done : State → FunctionInfo → Int) (emit : FunctionInfo → Nat → String)
    (className : String) (s : State) (thisFunction : FunctionInfo) : State :=
  let r := check thisFunction
  let args_ok := r.1
  let thisFunction := r.2
  if !thisFunction.IsExcluded && thisFunction.IsPublic && decide (args_ok ≠ 0) &&
      !streq className (nameStr thisFunction) &&
      !streq className ((nameStr thisFunction).drop 1) then
    if done s thisFunction = 0 then
      { numberOfWrappedFunctions := s.numberOfWrappedFunctions + 1
        wrappedFunctions :=
          arrayStore s.wrappedFunctions s.numberOfWrappedFunctions thisFunction
        out := s.out ++ emit thisFunction s.numberOfWrappedFunctions }
    else s
  else s

end Core

/-! ## The programs: `main` of the two generators -/

/-- What `main` reads besides the environment `Env`: the parsed header and the external
functions it calls. -/
structure MainInput where
  /-- The field `file_info->MainClass`, `NULL` when the header declares no class. -/
  MainClass : Option ClassInfo
  /-- Whether `vtkParse_FileOpen(options->OutputFileName, "w")` returns a file. -/
  canOpen : Bool
  /-- The call `vtkWrap_IsTypeOf(hierarchyInfo, classname, baseclass)`, as truth value. -/
  IsTypeOf : String → String → Bool
  /-- The method list of the class after `vtkWrap_ApplyUsingDeclarations` and
  `vtkWrap_ExpandTypedefs`, which `main` calls when a hierarchy index is present. -/
  expand : ClassInfo → List FunctionInfo

/-- What a run of `main` leaves behind: the exit status and the text of the output file,
`none` when the file could not be opened. -/
structure MainResult where
  status : Int
  output : Option String

/-- The loop of `main` over the superclasses: some superclass name contains `<`. -/
def templatedSuperClass (data : ClassInfo) : Bool :=
  data.SuperClasses.any (fun s => strchr s '<')

/-- The class that the method loop of `main` walks: with a hierarchy index the method
list is the one that `vtkWrap_ApplyUsingDeclarations` and `vtkWrap_ExpandTypedefs` leave. -/
def preparedClass (env : Env) (inp : MainInput) (data : ClassInfo) : ClassInfo :=
  match env.hierarchyInfo with
  | some _ => { data with Functions := inp.expand data }
  | none => data

namespace Wrap

/-- `OutputExportMacro`: the platform export macro. -/
def OutputExportMacro : String :=
  "#ifdef _WIN32\n" ++
  "#define VTK_CSHARP_EXPORT __declspec(dllexport)\n" ++
  "#else\n" ++
  "#define VTK_CSHARP_EXPORT __attribute__((visibility(\"default\")))\n" ++
  "#endif\n\n"

/-- The file header that `main` writes before the exports. -/
def fileHeader (data : ClassInfo) : String :=
  "// C# P/Invoke wrapper for " ++ data.Name ++ " object\n//\n" ++
  "#define VTK_WRAPPING_CXX\n" ++
  (if !streq "vtkObjectBase" data.Name then "#define VTK_STREAMS_FWD_ONLY\n" else "") ++
  "#include \"vtkABI.h\"\n" ++
  "#include \"vtkSystemIncludes.h\"\n" ++
  "#include \"" ++ data.Name ++ ".h\"\n" ++
  (if streq "vtkObject" data.Name then "#include \"vtkCallbackCommand.h\"\n" else "") ++
  "#include <cstring>\n" ++
  "#include <string>\n" ++
  "#include <sstream>\n\n" ++
  OutputExportMacro

/-- The special vtkObjectBase methods that `main` writes for a class without superclass
that has `Delete`: `VTKDeleteReference`, `VTKGetClassName`, `VTKDelete`, `VTKRegister`. -/
def lifetimeExports (data : ClassInfo) : String :=
  /- VTKDeleteReference - decrement ref count from a raw pointer -/
  "\nextern \"C\" VTK_CSHARP_EXPORT " ++
  "void " ++ data.Name ++ "_VTKDeleteReference(void* id)\n" ++
  "\x7b\n" ++
  "  " ++ data.Name ++ "* op = static_cast<" ++ data.Name ++ "*>(id);\n" ++
  "  op->Delete();\n" ++
  "\x7d\n" ++
  /- VTKGetClassName - get class name from a raw pointer -/
  "\nextern \"C\" VTK_CSHARP_EXPORT " ++
  "const char* " ++ data.Name ++ "_VTKGetClassName(void* id)\n" ++
  "\x7b\n" ++
  "  if (!id) \x7b return \"\"; \x7d\n" ++
  "  " ++ data.Name ++ "* op = static_cast<" ++ data.Name ++ "*>(id);\n" ++
  "  return op->GetClassName();\n" ++
  "\x7d\n" ++
  /- VTKDelete - Delete from object -/
  "\nextern \"C\" VTK_CSHARP_EXPORT " ++
  "void " ++ data.Name ++ "_VTKDelete(void* obj)\n" ++
  "\x7b\n" ++
  "  " ++ data.Name ++ "* op = static_cast<" ++ data.Name ++ "*>(obj);\n" ++
  "  op->Delete();\n" ++
  "\x7d\n" ++
  /- VTKRegister - increment ref count -/
  "\nextern \"C\" VTK_CSHARP_EXPORT " ++
  "void " ++ data.Name ++ "_VTKRegister(void* obj)\n" ++
  "\x7b\n" ++
  "  " ++ data.Name ++ "* op = static_cast<" ++ data.Name ++ "*>(obj);\n" ++
  "  op->Register(op);\n" ++
  "\x7d\n"

/-- The export `New()` that `main` writes for a class that is not abstract. -/
def newExport (data : ClassInfo) : String :=
  "\nextern \"C\" VTK_CSHARP_EXPORT " ++
  "void* " ++ data.Name ++ "_New(void)" ++
  "\n\x7b\n" ++
  "  return static_cast<void*>(" ++ data.Name ++ "::New());\n" ++
  "\x7d\n"

/-- The export `vtkObjectBase_Print` that `main` writes for the class vtkObjectBase. -/
def printExport : String :=
  "\nextern \"C\" VTK_CSHARP_EXPORT " ++
  "const char* vtkObjectBase_Print(void* obj)\n" ++
  "\x7b\n" ++
  "  vtkObjectBase* op = static_cast<vtkObjectBase*>(obj);\n" ++
  "  static thread_local std::string _cs_print_result;\n" ++
  "  std::ostringstream stream;\n" ++
  "  op->Print(stream);\n" ++
  "  _cs_print_result = stream.str();\n" ++
  "  return _cs_print_result.c_str();\n" ++
  "\x7d\n"

/-- The observer bridge that `main` writes for the class vtkObject: the callback bridge
and the exports `vtkObject_AddObserverCSharp` and `vtkObject_RemoveObserverCSharp`. -/
def observerExports : String :=
  "\n/* Callback bridge for C# delegates */\n" ++
  "typedef void (*VtkCSharpCallbackFunc)(void* clientData);\n\n" ++
  "static void vtkCSharpCallbackBridge(\n" ++
  "  vtkObject* vtkNotUsed(caller), unsigned long vtkNotUsed(eid),\n" ++
  "  void* clientData, void* vtkNotUsed(calldata))\n" ++
  "\x7b\n" ++
  "  VtkCSharpCallbackFunc func = reinterpret_cast<VtkCSharpCallbackFunc>(clientData);\n" ++
  "  if (func) \x7b func(nullptr); \x7d\n" ++
  "\x7d\n\n" ++
  "extern \"C\" VTK_CSHARP_EXPORT " ++
  "unsigned long long vtkObject_AddObserverCSharp(\n" ++
  "  void* obj, const char* event, void* callbackPtr)\n" ++
  "\x7b\n" ++
  "  vtkObject* op = static_cast<vtkObject*>(obj);\n" ++
  "  vtkCallbackCommand* cmd = vtkCallbackCommand::New();\n" ++
  "  cmd->SetClientData(callbackPtr);\n" ++
  "  cmd->SetCallback(vtkCSharpCallbackBridge);\n" ++
  "  unsigned long result = op->AddObserver(event, cmd);\n" ++
  "  cmd->Delete();\n" ++
  "  return static_cast<unsigned long long>(result);\n" ++
  "\x7d\n" ++
  "\nextern \"C\" VTK_CSHARP_EXPORT " ++
  "void vtkObject_RemoveObserverCSharp(void* obj, unsigned long long tag)\n" ++
  "\x7b\n" ++
  "  vtkObject* op = static_cast<vtkObject*>(obj);\n" ++
  "  op->RemoveObserver(static_cast<unsigned long>(tag));\n" ++
  "\x7d\n"

/-- The text `main` writes after the method loop: the helper exports of the class. -/
def classExports (data : ClassInfo) : String :=
  /- special vtkObjectBase methods -/
  (if data.SuperClasses.isEmpty && data.HasDelete then lifetimeExports data else "") ++
  /- New() for non-abstract classes -/
  (if !data.IsAbstract then newExport data else "") ++
  /- vtkObjectBase: Print method -/
  (if streq "vtkObjectBase" data.Name then printExport else "") ++
  /- vtkObject: AddObserver with function pointer callback -/
  (if streq "vtkObject" data.Name then observerExports else "")

/-- The text `main` of `vtkWrapCSharp.c` writes for a class that passed the guards. -/
def classText (env : Env) (data : ClassInfo) : String :=
  (outputFunctions env data { State.init with out := fileHeader data } data.Functions).out ++
  classExports data

/-- `main` of `vtkWrapCSharp.c` (`VTK_PARSE_MAIN`).  The notice of `vtkWrap_WarnEmpty`
is not part of the output file and is left out. -/
def main (env : Env) (inp : MainInput) : MainResult :=
  if !inp.canOpen then ⟨1, none⟩
  else
    match inp.MainClass with
    | none => ⟨0, some ""⟩
    | some data =>
      if data.IsExcluded then ⟨0, some ""⟩
      else if data.Template then ⟨0, some ""⟩
      else if templatedSuperClass data then ⟨0, some ""⟩
      else if env.hierarchyInfo.isSome && !inp.IsTypeOf data.Name "vtkObjectBase" then
        ⟨0, some ""⟩
      else ⟨0, some (classText env (preparedClass env inp data))⟩

end Wrap

namespace Parse

/-- The empty stub that `main` writes for a class it does not wrap. -/
def emptyStub : String := "namespace VTK \x7b \x7d\n"

/-- The file header, the class declaration and the native library name constant. -/
def fileHeader (nativeLibName : String) (data : ClassInfo) : String :=
  "// C# wrapper for " ++ data.Name ++ " object\n" ++
  "// Auto-generated by vtkParseCSharp - do not edit\n\n" ++
  "using System;\n" ++
  "using System.Runtime.InteropServices;\n\n" ++
  "namespace VTK\n\x7b\n" ++
  /- class declaration -/
  "    public class " ++ data.Name ++
  (match data.SuperClasses with
   | s :: _ => " : " ++ s
   | [] => if !streq "vtkObjectBase" data.Name then " : vtkObjectBase" else "") ++
  "\n    \x7b\n" ++
  /- native library name constant -/
  "        private const string NativeLib = \"" ++ nativeLibName ++ "\";\n\n"

/-- The lifecycle part of the base class infrastructure, written when `HasDelete` is set:
the three imports, their static wrappers, `Dispose` and the finalizer. -/
def lifecycleText (data : ClassInfo) : String :=
  "        [DllImport(NativeLib, CallingConvention = CallingConvention.Cdecl)]\n" ++
  "        private static extern void " ++ data.Name ++ "_VTKDeleteReference(IntPtr id);\n\n" ++
  "        [DllImport(NativeLib, CallingConvention = CallingConvention.Cdecl)]\n" ++
  "        private static extern void " ++ data.Name ++ "_VTKRegister(IntPtr obj);\n\n" ++
  "        [DllImport(NativeLib, CallingConvention = CallingConvention.Cdecl)]\n" ++
  "        private static extern IntPtr " ++ data.Name ++ "_VTKGetClassName(IntPtr id);\n\n" ++
  "        public static void VTKDeleteReference(IntPtr id)\n" ++
  "        \x7b\n" ++
  "            " ++ data.Name ++ "_VTKDeleteReference(id);\n" ++
  "        \x7d\n\n" ++
  "        public static void VTKRegister(IntPtr obj)\n" ++
  "        \x7b\n" ++
  "            " ++ data.Name ++ "_VTKRegister(obj);\n" ++
  "        \x7d\n\n" ++
  "        public static string VTKGetClassNameFromHandle(IntPtr id)\n" ++
  "        \x7b\n" ++
  "            IntPtr ptr = " ++ data.Name ++ "_VTKGetClassName(id);\n" ++
  "            return Marshal.PtrToStringUTF8(ptr);\n" ++
  "        \x7d\n\n" ++
  "        public void Dispose()\n" ++
  "        \x7b\n" ++
  "            if (!disposed && handle != IntPtr.Zero)\n" ++
  "            \x7b\n" ++
  "                OBJECT_MANAGER.Unregister(handle);\n" ++
  "                if (ownsReference)\n" ++
  "                    " ++ data.Name ++ "_VTKDeleteReference(handle);\n" ++
  "                handle = IntPtr.Zero;\n" ++
  "                disposed = true;\n" ++
  "            \x7d\n" ++
  "            GC.SuppressFinalize(this);\n" ++
  "        \x7d\n\n" ++
  "        ~" ++ data.Name ++ "() \x7b Dispose(); \x7d\n"

/-- The base class infrastructure that `main` writes for a class without superclass. -/
def rootText (data : ClassInfo) : String :=
  (if streq "vtkObjectBase" data.Name then
    "\n        // Object manager for identity mapping\n" ++
    "        public static VtkObjectManager OBJECT_MANAGER = new VtkObjectManager();\n"
   else "") ++
  "\n        protected IntPtr handle;\n" ++
  "        private bool ownsReference;\n" ++
  "        private bool disposed;\n\n" ++
  "        public IntPtr Handle\n" ++
  "        \x7b\n" ++
  "            get\n" ++
  "            \x7b\n" ++
  "                if (disposed) throw new ObjectDisposedException(GetType().Name);\n" ++
  "                return handle;\n" ++
  "            \x7d\n" ++
  "        \x7d\n\n" ++
  (if !data.IsAbstract then
    "        [DllImport(NativeLib, CallingConvention = CallingConvention.Cdecl)]\n" ++
    "        private static extern IntPtr " ++ data.Name ++ "_New();\n\n" ++
    "        public " ++ data.Name ++ "()\n" ++
    "        \x7b\n" ++
    "            this.handle = " ++ data.Name ++ "_New();\n" ++
    "            this.ownsReference = true;\n" ++
    "            OBJECT_MANAGER.Register(this.handle, this);\n" ++
    "        \x7d\n\n"
   else
    "        protected " ++ data.Name ++ "() \x7b \x7d\n\n") ++
  "        internal " ++ data.Name ++ "(IntPtr ptr, bool ownsRef)\n" ++
  "        \x7b\n" ++
  "            this.handle = ptr;\n" ++
  "            this.ownsReference = ownsRef;\n" ++
  "            if (ptr != IntPtr.Zero)\n" ++
  "                OBJECT_MANAGER.Register(ptr, this);\n" ++
  "        \x7d\n\n" ++
  /- lifecycle -/
  (if data.HasDelete then lifecycleText data else "")

/-- The constructors that `main` writes for a class with a superclass. -/
def derivedText (data : ClassInfo) : String :=
  (if !data.IsAbstract then
    "\n        [DllImport(NativeLib, CallingConvention = CallingConvention.Cdecl)]\n" ++
    "        private static extern IntPtr " ++ data.Name ++ "_New();\n\n" ++
    "        public " ++ data.Name ++ "() : base(" ++ data.Name ++ "_New(), true) \x7b \x7d\n"
   else
    "\n        protected " ++ data.Name ++ "() : base() \x7b \x7d\n") ++
  "        internal " ++ data.Name ++ "(IntPtr ptr, bool ownsRef) : base(ptr, ownsRef) \x7b \x7d\n"

/-- The `Print` method and the `ToString` override written for the class vtkObjectBase. -/
def printText : String :=
  "\n        [DllImport(NativeLib, CallingConvention = CallingConvention.Cdecl)]\n" ++
  "        private static extern IntPtr vtkObjectBase_Print(IntPtr obj);\n\n" ++
  "        public string Print()\n" ++
  "        \x7b\n" ++
  "            IntPtr ptr = vtkObjectBase_Print(Handle);\n" ++
  "            return Marshal.PtrToStringUTF8(ptr);\n" ++
  "        \x7d\n\n" ++
  "        public override string ToString() => Print();\n"

/-- The hand-written observer pair written for the class vtkObject: the two imports, the
delegate type, `AddObserver(string, VtkEventCallback)` and `RemoveObserver(ulong)`. -/
def observerText : String :=
  "\n        [DllImport(NativeLib, CallingConvention = CallingConvention.Cdecl)]\n" ++
  "        private static extern ulong vtkObject_AddObserverCSharp(\n" ++
  "            IntPtr obj, [MarshalAs(UnmanagedType.LPUTF8Str)] string eventName,\n" ++
  "            IntPtr callbackPtr);\n\n" ++
  "        [DllImport(NativeLib, CallingConvention = CallingConvention.Cdecl)]\n" ++
  "        private static extern void vtkObject_RemoveObserverCSharp(IntPtr obj, ulong tag);\n\n" ++
  "        public delegate void VtkEventCallback();\n\n" ++
  "        public ulong AddObserver(string eventName, VtkEventCallback callback)\n" ++
  "        \x7b\n" ++
  "            IntPtr fptr = Marshal.GetFunctionPointerForDelegate(callback);\n" ++
  "            return vtkObject_AddObserverCSharp(Handle, eventName, fptr);\n" ++
  "        \x7d\n\n" ++
  "        public void RemoveObserver(ulong tag)\n" ++
  "        \x7b\n" ++
  "            vtkObject_RemoveObserverCSharp(Handle, tag);\n" ++
  "        \x7d\n"

/-- The text `main` writes after the method loop, up to the end of the file. -/
def classTail (data : ClassInfo) : String :=
  /- base class (vtkObjectBase) infrastructure, or derived class constructors -/
  (if data.SuperClasses.isEmpty then rootText data else derivedText data) ++
  /- vtkObjectBase: Print method -/
  (if streq "vtkObjectBase" data.Name then printText else "") ++
  /- vtkObject: AddObserver -/
  (if streq "vtkObject" data.Name then observerText else "") ++
  /- close class and namespace -/
  "    \x7d\n" ++
  "\x7d\n"

/-- The text `main` of `vtkParseCSharp.c` writes for a class that passed the guards. -/
def classText (nativeLibName : String) (env : Env) (data : ClassInfo) : String :=
  (outputFunctions env data { State.init with out := fileHeader nativeLibName data }
    data.Functions).out ++
  classTail data

/-- `main` of `vtkParseCSharp.c` (`VTK_PARSE_MAIN`) after `ParseNativeLib` has set
`nativeLibName`.  The notice of `vtkWrap_WarnEmpty` is not part of the output file and
is left out. -/
def main (nativeLibName : String) (env : Env) (inp : MainInput) : MainResult :=
  if !inp.canOpen then ⟨1, none⟩
  else
    match inp.MainClass with
    | none => ⟨0, some emptyStub⟩
    | some data =>
      if data.IsExcluded then ⟨0, some emptyStub⟩
      /- Skip vtkObjectBase: use the hand-written managed base class instead -/
      else if streq data.Name "vtkObjectBase" then ⟨0, some emptyStub⟩
      else if data.Template then ⟨0, some emptyStub⟩
      else if templatedSuperClass data then ⟨0, some emptyStub⟩
      else if env.hierarchyInfo.isSome && !inp.IsTypeOf data.Name "vtkObjectBase" then
        ⟨0, some emptyStub⟩
      else ⟨0, some (classText nativeLibName env (preparedClass env inp data))⟩

/-- The initial value of the file scope variable `nativeLibName`. -/
def defaultNativeLibName : String := "vtkCommonCoreCSharp"

end Parse

/-! ## Predicates used in the statements -/

/-- The function `g` is `f` up to the class names that `checkFunctionSignature` replaces
by qualified enum names. -/
def SameSig (f g : FunctionInfo) : Prop :=
  g.Name = f.Name ∧ g.NumberOfArguments = f.NumberOfArguments ∧ g.ArgTypes = f.ArgTypes ∧
  g.ArgCounts = f.ArgCounts ∧ g.Parameters = f.Parameters ∧ g.ReturnType = f.ReturnType ∧
  g.ReturnValue = f.ReturnValue ∧ g.HaveHint = f.HaveHint ∧ g.IsOperator = f.IsOperator ∧
  g.ArrayFailure = f.ArrayFailure ∧ g.Template = f.Template ∧ g.IsExcluded = f.IsExcluded ∧
  g.IsDeleted = f.IsDeleted ∧ g.IsPublic = f.IsPublic

/-- The case list of `hintSwitch`. -/
def hintCase (rType : Nat) : Prop :=
  rType = VTK_PARSE_FLOAT_PTR ∨ rType = VTK_PARSE_VOID_PTR ∨ rType = VTK_PARSE_DOUBLE_PTR ∨
     rType = VTK_PARSE_INT_PTR ∨ rType = VTK_PARSE_SHORT_PTR ∨ rType = VTK_PARSE_LONG_PTR ∨
     rType = VTK_PARSE_LONG_LONG_PTR ∨ rType = VTK_PARSE_SIGNED_CHAR_PTR ∨
     rType = VTK_PARSE_BOOL_PTR ∨ rType = VTK_PARSE_UNSIGNED_CHAR_PTR

/-- The disjunction of the rejection tests that `checkFunctionSignature` applies to the
unqualified type `t` of the return value, given the result `q` of the enum lookup and
the verdict `wrapped` of `isClassWrapped` on the class name. -/
def retBad (t : Nat) (q : Option String) (wrapped : Int) : Bool :=
  decide (scanSupported (t &&& VTK_PARSE_BASE_TYPE) supported_types = 0) ||
  decide (t &&& VTK_PARSE_BASE_TYPE = VTK_PARSE_UNKNOWN ∧ q.isNone) ||
  decide (t &&& VTK_PARSE_BASE_TYPE = VTK_PARSE_OBJECT ∧
      (t &&& VTK_PARSE_INDIRECT ≠ VTK_PARSE_POINTER ∨ wrapped = 0)) ||
  decide (t &&& VTK_PARSE_INDIRECT ≠ VTK_PARSE_POINTER ∧
      t &&& VTK_PARSE_INDIRECT ≠ 0 ∧ t ≠ VTK_PARSE_STRING_REF) ||
  decide (t = VTK_PARSE_STRING_PTR) ||
  decide (t = VTK_PARSE_UNSIGNED_CHAR_PTR) ||
  decide (t = VTK_PARSE_UNSIGNED_INT_PTR) ||
  decide (t = VTK_PARSE_UNSIGNED_SHORT_PTR) ||
  decide (t = VTK_PARSE_UNSIGNED_LONG_PTR) ||
  decide (t = VTK_PARSE_UNSIGNED_LONG_LONG_PTR)

/-- The rejection tests of the first argument loop: those of `retBad` and the test
`aType == VTK_PARSE_OBJECT`. -/
def argBad (t : Nat) (q : Option String) (wrapped : Int) : Bool :=
  retBad t q wrapped || decide (t = VTK_PARSE_OBJECT)

/-- The entry `fi` of the registry is a duplicate of the method `f` in the sense of
`DoneOne`: same name, same number of arguments, and the match rule `cm` nonzero at every
argument position and for the return type. -/
def Duplicate (cm : Nat → Nat → String → String → Nat) (f fi : FunctionInfo) : Prop :=
  (∃ nm, fi.Name = some nm ∧ f.Name = some nm) ∧
  fi.NumberOfArguments = f.NumberOfArguments ∧
  (∀ j, j < fi.NumberOfArguments →
    cm (f.ArgTypes j) (fi.ArgTypes j) (f.ArgClasses j) (fi.ArgClasses j) ≠ 0) ∧
  cm f.ReturnType fi.ReturnType f.ReturnClass fi.ReturnClass ≠ 0

/-- The numbering invariant of a generator state: the counter is the length of the
registry, and the text written so far consists, for each registry entry in order, of the
text `emit` gives for that entry and its index. -/
def Numbered (emit : FunctionInfo → Nat → String) (s : State) : Prop :=
  s.numberOfWrappedFunctions = s.wrappedFunctions.length ∧
  s.out = String.join (s.wrappedFunctions.enum.map (fun p => emit p.2 p.1))

/-- The registry entries named `nm`, in registry order. -/
def registeredAs (nm : String) (s : State) : List FunctionInfo :=
  s.wrappedFunctions.filter (fun fi => decide (fi.Name = some nm))

/-! ## The two generators side by side -/

/-- The two programs: `shim` is `vtkWrapCSharp.c`, `managed` is `vtkParseCSharp.c`. -/
inductive Generator where
  | shim
  | managed

namespace Generator

/-- `CheckMatch` of the generator. -/
def CheckMatch : Generator → Nat → Nat → String → String → Nat
  | shim => Wrap.CheckMatch
  | managed => Parse.CheckMatch

/-- `DoneOne` of the generator. -/
def DoneOne : Generator → State → FunctionInfo → Int
  | shim => Wrap.DoneOne
  | managed => Parse.DoneOne

/-- `checkFunctionSignature` of the generator. -/
def checkFunctionSignature : Generator → Env → ClassInfo → FunctionInfo → Int × FunctionInfo
  | shim => Wrap.checkFunctionSignature
  | managed => Parse.checkFunctionSignature

/-- The text the generator writes for an emitted method. -/
def emitText : Generator → ClassInfo → FunctionInfo → Nat → String
  | shim => Wrap.emitText
  | managed => Parse.emitText

/-- `outputFunction` of the generator. -/
def outputFunction : Generator → Env → ClassInfo → State → FunctionInfo → State
  | shim => Wrap.outputFunction
  | managed => Parse.outputFunction

/-- The loop of `main` over the methods, in the generator. -/
def outputFunctions : Generator → Env → ClassInfo → State → List FunctionInfo → State
  | shim => Wrap.outputFunctions
  | managed => Parse.outputFunctions

end Generator

/-! ## Sample inputs -/

/-- A public method `name` with the given argument types, element counts and return
type, no class names and no size hint. -/
def sampleMethod (name : String) (args : List (Nat × Int)) (ret : Nat) : FunctionInfo :=
  { Name := some name
    NumberOfArguments := args.length
    ArgTypes := fun i => (args.getD i (0, 0)).1
    ArgClasses := fun _ => ""
    ArgCounts := fun i => (args.getD i (0, 0)).2
    Parameters := fun i => ⟨(args.getD i (0, 0)).2, none⟩
    ReturnType := ret
    ReturnClass := ""
    ReturnValue := ⟨0, none⟩
    HaveHint := 0
    IsOperator := false
    ArrayFailure := false
    Template := false
    IsExcluded := false
    IsDeleted := false
    IsPublic := true }

/-- A run without hierarchy file in which no enum name resolves. -/
def sampleEnv : Env := ⟨none, fun _ _ _ => none⟩

/-- The class `Widget`: no superclass, `HasDelete` set, not abstract. -/
def sampleClass : ClassInfo :=
  { Name := "Widget", Functions := [], SuperClasses := [], IsAbstract := false,
    IsExcluded := false, Template := false, HasDelete := true }

/-- A hierarchy index in which every class is a primary `vtkObjectBase` subclass and the
class `vtkBar` carries the property `WRAPEXCLUDE`. -/
def sampleHierarchy : HierarchyInfo :=
  { FindEntry := fun c => some ⟨c⟩
    GetProperty := fun e p =>
      if e.Name = "vtkBar" ∧ p = "WRAPEXCLUDE" then some "" else none
    IsTypeOf := fun _ _ => true
    IsPrimary := fun _ => 1 }

/-- A run with the hierarchy index `sampleHierarchy`. -/
def sampleEnvHierarchy : Env := ⟨some sampleHierarchy, fun _ _ _ => none⟩

/-- The method `void SetBar(vtkBar*)`. -/
def sampleSetBar : FunctionInfo :=
  { sampleMethod "SetBar" [(VTK_PARSE_OBJECT_PTR, 0)] VTK_PARSE_VOID with
    ArgClasses := fun _ => "vtkBar" }

/-- The method `void SetArray(vtkDenseArray<double>*)`. -/
def sampleSetArray : FunctionInfo :=
  { sampleMethod "SetArray" [(VTK_PARSE_OBJECT_PTR, 0)] VTK_PARSE_VOID with
    ArgClasses := fun _ => "vtkDenseArray<double>" }

/-- The method `float* Bar(unsigned int a[3])` with a size hint for its result. -/
def sampleHintedBar : FunctionInfo :=
  { sampleMethod "Bar" [(VTK_PARSE_UNSIGNED_INT_PTR, 3)] VTK_PARSE_FLOAT_PTR with
    HaveHint := 1, ReturnValue := ⟨3, none⟩ }

/-- The method `void Foo(int)`. -/
def sampleFooInt : FunctionInfo := sampleMethod "Foo" [(VTK_PARSE_INT, 0)] VTK_PARSE_VOID

/-- The method `void Foo(long)`. -/
def sampleFooLong : FunctionInfo := sampleMethod "Foo" [(VTK_PARSE_LONG, 0)] VTK_PARSE_VOID

/-- The method `void Foo(unsigned int)`. -/
def sampleFooUnsigned : FunctionInfo :=
  sampleMethod "Foo" [(VTK_PARSE_UNSIGNED_INT, 0)] VTK_PARSE_VOID

/-- The method `int GetValue()`. -/
def sampleGetValue : FunctionInfo := sampleMethod "GetValue" [] VTK_PARSE_INT

/-- The method `int* GetSize()` without a size hint. -/
def sampleGetSize : FunctionInfo := sampleMethod "GetSize" [] VTK_PARSE_INT_PTR

/-- An operator with the callback shape `void operator()(void (*f)(void*), void*)`. -/
def sampleOperator : FunctionInfo :=
  { sampleMethod "operator()" [(VTK_PARSE_FUNCTION, 0), (VTK_PARSE_VOID_PTR, 0)] VTK_PARSE_VOID
    with IsOperator := true }

/-- The class `Widget` of the scenario: `sampleClass` with the single method
`int GetValue()`. -/
def sampleWidget : ClassInfo := { sampleClass with Functions := [sampleGetValue] }

/-- A run of `main` on the header of `sampleWidget`: the output file opens, and without a
hierarchy index `vtkWrap_IsTypeOf` and the typedef expansion are not consulted. -/
def sampleWidgetInput : MainInput :=
  { MainClass := some sampleWidget
    canOpen := true
    IsTypeOf := fun _ _ => false
    expand := fun d => d.Functions }

/-- The callback pattern that `checkFunctionSignature` accepts at once: exactly two
arguments, the first of type `VTK_PARSE_FUNCTION`, the second of type
`VTK_PARSE_VOID_PTR`, and an unqualified return type of `void`. -/
def CallbackPattern (f : FunctionInfo) : Prop :=
  f.NumberOfArguments = 2 ∧ f.ArgTypes 0 = VTK_PARSE_FUNCTION ∧
    f.ArgTypes 1 = VTK_PARSE_VOID_PTR ∧
    f.ReturnType &&& VTK_PARSE_UNQUALIFIED_TYPE = VTK_PARSE_VOID

instance (f : FunctionInfo) : Decidable (CallbackPattern f) := by
  unfold CallbackPattern
  infer_instance

/-- The class `vtkObject`, derived from `vtkObjectBase`. -/
def sampleVtkObject : ClassInfo :=
  { Name := "vtkObject", Functions := [], SuperClasses := ["vtkObjectBase"],
    IsAbstract := false, IsExcluded := false, Template := false, HasDelete := true }

/-- The class `vtkFoo`, derived from `vtkObject`. -/
def sampleVtkFoo : ClassInfo :=
  { Name := "vtkFoo", Functions := [], SuperClasses := ["vtkObject"],
    IsAbstract := false, IsExcluded := false, Template := false, HasDelete := true }

/-- A method `void name(void (*f)(void*), void* clientdata)`, the callback pattern. -/
def sampleCallback (name : String) : FunctionInfo :=
  sampleMethod name [(VTK_PARSE_FUNCTION, 0), (VTK_PARSE_VOID_PTR, 0)] VTK_PARSE_VOID

/-- The method `void Delete()`. -/
def sampleDelete : FunctionInfo := sampleMethod "Delete" [] VTK_PARSE_VOID

/-- The method `void tkFoo()`. -/
def sampleTkFoo : FunctionInfo := sampleMethod "tkFoo" [] VTK_PARSE_VOID

/-- The destructor `~vtkFoo()` as the parser records it: a method named `~vtkFoo`. -/
def sampleDestructor : FunctionInfo := sampleMethod "~vtkFoo" [] VTK_PARSE_VOID

/-- The method `void RemoveObserver(unsigned long tag)` of `vtkObject`. -/
def sampleRemoveObserver : FunctionInfo :=
  sampleMethod "RemoveObserver" [(VTK_PARSE_UNSIGNED_LONG, 0)] VTK_PARSE_VOID

/-- The method `unsigned long AddObserver(unsigned long event, vtkCommand*)` of
`vtkObject`. -/
def sampleAddObserver : FunctionInfo :=
  { sampleMethod "AddObserver" [(VTK_PARSE_UNSIGNED_LONG, 0), (VTK_PARSE_OBJECT_PTR, 0)]
      VTK_PARSE_UNSIGNED_LONG with ArgClasses := fun _ => "vtkCommand" }

namespace Generator

/-- `isClassWrapped` of the generator. -/
def isClassWrapped : Generator → Env → String → Int
  | shim => Wrap.isClassWrapped
  | managed => Parse.isClassWrapped

/-- The element count that the second argument loop of `checkFunctionSignature` reads for
the argument `i`: `Parameters[i]->Count` in `vtkWrapCSharp.c`, `ArgCounts[i]` in
`vtkParseCSharp.c`. -/
def argCount : Generator → FunctionInfo → Nat → Int
  | shim => fun f i => (f.Parameters i).Count
  | managed => fun f i => f.ArgCounts i

end Generator

/-- The method `double* Eval(vtkBar& bar)` with a size hint for its result. -/
def sampleHintedRef : FunctionInfo :=
  { sampleMethod "Eval" [(VTK_PARSE_OBJECT_REF, 0)] VTK_PARSE_DOUBLE_PTR with
    ArgClasses := fun _ => "vtkBar", HaveHint := 1, ReturnValue := ⟨3, none⟩ }

/-- The method `double* GetRange(vtkDenseArray<double>* a)` with a size hint for its
result. -/
def sampleHintedArray : FunctionInfo :=
  { sampleMethod "GetRange" [(VTK_PARSE_OBJECT_PTR, 0)] VTK_PARSE_DOUBLE_PTR with
    ArgClasses := fun _ => "vtkDenseArray<double>", HaveHint := 1, ReturnValue := ⟨2, none⟩ }

/-- The method `void SetBar(vtkBar& bar)`. -/
def sampleSetBarRef : FunctionInfo :=
  { sampleMethod "SetBar" [(VTK_PARSE_OBJECT_REF, 0)] VTK_PARSE_VOID with
    ArgClasses := fun _ => "vtkBar" }

/-- The method `void SetPoint(double* p)` whose argument has no element count. -/
def sampleSetPoint : FunctionInfo :=
  sampleMethod "SetPoint" [(VTK_PARSE_DOUBLE_PTR, 0)] VTK_PARSE_VOID

/-- The method `unsigned char* GetColor()` with a size hint for its result. -/
def sampleGetColor : FunctionInfo :=
  { sampleMethod "GetColor" [] VTK_PARSE_UNSIGNED_CHAR_PTR with
    HaveHint := 1, ReturnValue := ⟨3, none⟩ }

/-- The method `unsigned int* GetIds()` with a size hint for its result. -/
def sampleGetIds : FunctionInfo :=
  { sampleMethod "GetIds" [] VTK_PARSE_UNSIGNED_INT_PTR with
    HaveHint := 1, ReturnValue := ⟨3, none⟩ }

instance (rType : Nat) : Decidable (hintCase rType) := by
  unfold hintCase
  infer_instance

/-- The format strings of `OutputParamType` that declare one flat parameter, each without
its `%i`. -/
def Wrap.paramStems : List String :=
  ["const char* id", "int* id", "float* id", "double* id", "unsigned char* id",
   "short* id", "long long* id", "float id", "double id", "short id", "int id",
   "long long id", "char id", "signed char id", "unsigned char id", "void* id"]

/-- The methods `f` and `f2` agree on everything but the number of arguments and the
arguments after position `k`. -/
def AgreeUpTo (k : Nat) (f f2 : FunctionInfo) : Prop :=
  f2.Name = f.Name ∧ f2.ReturnType = f.ReturnType ∧ f2.ReturnClass = f.ReturnClass ∧
  f2.ReturnValue = f.ReturnValue ∧
  ∀ i, i ≤ k → f2.ArgTypes i = f.ArgTypes i ∧ f2.ArgClasses i = f.ArgClasses i ∧
    f2.ArgCounts i = f.ArgCounts i ∧ f2.Parameters i = f.Parameters i

/-- The method `void SetRange(double lo, double* hi)` with two elements for `hi`. -/
def sampleSetRange : FunctionInfo :=
  sampleMethod "SetRange" [(VTK_PARSE_DOUBLE, 0), (VTK_PARSE_DOUBLE_PTR, 2)] VTK_PARSE_VOID

/-- The method `void SetCallback(void (*f)(void*), void* clientdata, int extra)`: the
callback pair followed by a third argument. -/
def sampleCallbackExtra : FunctionInfo :=
  sampleMethod "SetCallback"
    [(VTK_PARSE_FUNCTION, 0), (VTK_PARSE_VOID_PTR, 0), (VTK_PARSE_INT, 0)] VTK_PARSE_VOID

/-- The method `double* Map(void (*f)(void*), void* clientdata, int n)` with a size hint
for its result: a function pointer argument outside the callback pattern. -/
def sampleHintedMap : FunctionInfo :=
  { sampleMethod "Map"
      [(VTK_PARSE_FUNCTION, 0), (VTK_PARSE_VOID_PTR, 0), (VTK_PARSE_INT, 0)]
      VTK_PARSE_DOUBLE_PTR with
    HaveHint := 1, ReturnValue := ⟨3, none⟩ }

/-- The method `double* Integrate(void (*f)(void*))` with a size hint for its result. -/
def sampleHintedIntegrate : FunctionInfo :=
  { sampleMethod "Integrate" [(VTK_PARSE_FUNCTION, 0)] VTK_PARSE_DOUBLE_PTR with
    HaveHint := 1, ReturnValue := ⟨3, none⟩ }

/-- Modelled from the spec: the pairs of a flat parameter declared by the shim and a
parameter declared by the managed import that are type-compatible, each as the text in
front of the argument index.  A scalar against a scalar of the same byte width, the
narrow text pointer against the UTF-8 string, the opaque pointer against `IntPtr`, and an
element pointer against an array of elements of the same width. -/
def typeCompatible : List (String × String) :=
  [("float id", "float id"), ("double id", "double id"), ("short id", "short id"),
   ("int id", "int id"), ("long long id", "long id"), ("char id", "byte id"),
   ("signed char id", "byte id"), ("unsigned char id", "byte id"),
   ("const char* id", "[MarshalAs(UnmanagedType.LPUTF8Str)] string id"),
   ("void* id", "IntPtr id"),
   ("float* id", "float[] id"), ("double* id", "double[] id"), ("short* id", "short[] id"),
   ("int* id", "int[] id"),
   ("int* id", "[MarshalAs(UnmanagedType.LPArray, ArraySubType = UnmanagedType.I4)] int[] id"),
   ("long long* id", "long[] id"), ("unsigned char* id", "byte[] id")]

/-- The unqualified argument types other than `void` that pass the first argument loop of
`checkFunctionSignature` for some result of the enum lookup and of `isClassWrapped`. -/
def eligibleArgTypes : List Nat :=
  [VTK_PARSE_BOOL, VTK_PARSE_FLOAT, VTK_PARSE_DOUBLE, VTK_PARSE_CHAR,
   VTK_PARSE_UNSIGNED_CHAR, VTK_PARSE_SIGNED_CHAR, VTK_PARSE_INT, VTK_PARSE_UNSIGNED_INT,
   VTK_PARSE_SHORT, VTK_PARSE_UNSIGNED_SHORT, VTK_PARSE_LONG, VTK_PARSE_UNSIGNED_LONG,
   VTK_PARSE_LONG_LONG, VTK_PARSE_UNSIGNED_LONG_LONG, VTK_PARSE_STRING, VTK_PARSE_UNKNOWN,
   VTK_PARSE_VOID_PTR, VTK_PARSE_BOOL_PTR, VTK_PARSE_FLOAT_PTR, VTK_PARSE_DOUBLE_PTR,
   VTK_PARSE_CHAR_PTR, VTK_PARSE_SIGNED_CHAR_PTR, VTK_PARSE_INT_PTR, VTK_PARSE_SHORT_PTR,
   VTK_PARSE_LONG_PTR, VTK_PARSE_LONG_LONG_PTR, VTK_PARSE_OBJECT_PTR, VTK_PARSE_STRING_REF]

/-- The text that `Wrap.OutputParamType` writes in front of the argument index, for an
argument of unqualified type `aType` that is neither `void` nor a function pointer;
`hinted` tells whether `Parameters[i]->CountHint` is set. -/
def Wrap.paramStem (aType : Nat) (hinted : Bool) : String :=
  if (hinted = false ∧ aType = VTK_PARSE_CHAR_PTR) ∨
      aType = VTK_PARSE_STRING ∨ aType = VTK_PARSE_STRING_REF then "const char* id"
  else if aType = VTK_PARSE_BOOL_PTR then "int* id"
  else if aType = VTK_PARSE_FLOAT_PTR then "float* id"
  else if aType = VTK_PARSE_DOUBLE_PTR then "double* id"
  else if (hinted = true ∧ aType = VTK_PARSE_CHAR_PTR) ∨
      aType = VTK_PARSE_SIGNED_CHAR_PTR ∨ aType = VTK_PARSE_UNSIGNED_CHAR_PTR then
    "unsigned char* id"
  else if aType = VTK_PARSE_SHORT_PTR ∨ aType = VTK_PARSE_UNSIGNED_SHORT_PTR then "short* id"
  else if aType = VTK_PARSE_INT_PTR ∨ aType = VTK_PARSE_UNSIGNED_INT_PTR then "int* id"
  else if aType = VTK_PARSE_LONG_PTR ∨ aType = VTK_PARSE_LONG_LONG_PTR ∨
      aType = VTK_PARSE_UNSIGNED_LONG_PTR ∨ aType = VTK_PARSE_UNSIGNED_LONG_LONG_PTR then
    "long long* id"
  else
    let b := (aType &&& VTK_PARSE_BASE_TYPE) &&& NOT_VTK_PARSE_UNSIGNED
    if b = VTK_PARSE_FLOAT then "float id"
    else if b = VTK_PARSE_DOUBLE then "double id"
    else if b = VTK_PARSE_SHORT then "short id"
    else if b = VTK_PARSE_INT then "int id"
    else if b = VTK_PARSE_LONG ∨ b = VTK_PARSE_LONG_LONG then "long long id"
    else if b = VTK_PARSE_BOOL then "int id"
    else if b = VTK_PARSE_CHAR then "char id"
    else if b = VTK_PARSE_SIGNED_CHAR then "signed char id"
    else if b = VTK_PARSE_UNSIGNED_CHAR then "unsigned char id"
    else if b = VTK_PARSE_OBJECT then "void* id"
    else if b = VTK_PARSE_UNKNOWN then "int id"
    else "int id"

/-- The text that `Parse.OutputCSharpNativeParamType` writes in front of the argument
index, for an argument of unqualified type `aType` that is neither `void` nor a function
pointer. -/
def Parse.nativeParamStem (aType : Nat) : String :=
  let b := (aType &&& VTK_PARSE_BASE_TYPE) &&& NOT_VTK_PARSE_UNSIGNED
  let scalar : String :=
    if b = VTK_PARSE_FLOAT then "float id"
    else if b = VTK_PARSE_DOUBLE then "double id"
    else if b = VTK_PARSE_INT then "int id"
    else if b = VTK_PARSE_SHORT then "short id"
    else if b = VTK_PARSE_LONG ∨ b = VTK_PARSE_LONG_LONG then "long id"
    else if b = VTK_PARSE_BOOL then "int id"
    else if b = VTK_PARSE_CHAR then "byte id"
    else if b = VTK_PARSE_SIGNED_CHAR ∨ b = VTK_PARSE_UNSIGNED_CHAR then "byte id"
    else if b = VTK_PARSE_UNKNOWN then "int id"
    else "int id"
  if aType = VTK_PARSE_CHAR_PTR ∨ aType = VTK_PARSE_STRING ∨
      aType = VTK_PARSE_STRING_REF then
    "[MarshalAs(UnmanagedType.LPUTF8Str)] string id"
  else if aType = VTK_PARSE_OBJECT_PTR then "IntPtr id"
  else if aType &&& VTK_PARSE_INDIRECT = VTK_PARSE_POINTER ∧ aType ≠ VTK_PARSE_CHAR_PTR ∧
      aType ≠ VTK_PARSE_OBJECT_PTR then
    (Parse.arrayElemType b
      "[MarshalAs(UnmanagedType.LPArray, ArraySubType = UnmanagedType.I4)] int[] id").getD
      scalar
  else scalar

/-- The method `int Receive(char* data, int length)` whose first argument carries the
count hint `length`. -/
def sampleReceive : FunctionInfo :=
  { sampleMethod "Receive" [(VTK_PARSE_CHAR_PTR, 0), (VTK_PARSE_INT, 0)] VTK_PARSE_INT with
    Parameters := fun i => if i = 0 then ⟨0, some "length"⟩ else ⟨0, none⟩ }

/-- The method `int Send(char* text, int length)` without a count hint. -/
def sampleSend : FunctionInfo :=
  sampleMethod "Send" [(VTK_PARSE_CHAR_PTR, 0), (VTK_PARSE_INT, 0)] VTK_PARSE_INT

/-- The class `vtkObjectBase`: no superclass, `HasDelete` set, with the single method
`int GetValue()`. -/
def sampleVtkObjectBase : ClassInfo :=
  { Name := "vtkObjectBase", Functions := [sampleGetValue], SuperClasses := [],
    IsAbstract := false, IsExcluded := false, Template := false, HasDelete := true }

/-- A run of `main` on the header of the class `data`: the output file opens, and
`vtkWrap_IsTypeOf` answers `isType` for every class. -/
def sampleInput (data : ClassInfo) (isType : Bool) : MainInput :=
  { MainClass := some data
    canOpen := true
    IsTypeOf := fun _ _ => isType
    expand := fun d => d.Functions }

/-- The class template `Widget` with the single method `int GetValue()`. -/
def sampleTemplate : ClassInfo :=
  { sampleClass with Functions := [sampleGetValue], Template := true }

/-- The method `double* GetPoint()` with a size hint of 3 elements for its result. -/
def sampleGetPoint : FunctionInfo :=
  { sampleMethod "GetPoint" [] VTK_PARSE_DOUBLE_PTR with
    HaveHint := 1, ReturnValue := ⟨3, none⟩ }

/-- The method `bool* GetFlags()` with a size hint of 4 elements for its result. -/
def sampleGetFlags : FunctionInfo :=
  { sampleMethod "GetFlags" [] VTK_PARSE_BOOL_PTR with
    HaveHint := 1, ReturnValue := ⟨4, none⟩ }

/-- The method `void SetPoint(double p[3])`. -/
def sampleSetPoint3 : FunctionInfo :=
  sampleMethod "SetPoint" [(VTK_PARSE_DOUBLE_PTR, 3)] VTK_PARSE_VOID

/-- The method `void SetPoint(const double p[3])`. -/
def sampleSetConstPoint3 : FunctionInfo :=
  sampleMethod "SetPoint" [(VTK_PARSE_DOUBLE_PTR ||| VTK_PARSE_CONST, 3)] VTK_PARSE_VOID

/-- The method `void SetFlags(bool flags[4])`. -/
def sampleSetFlags : FunctionInfo :=
  sampleMethod "SetFlags" [(VTK_PARSE_BOOL_PTR, 4)] VTK_PARSE_VOID

/-- The method `bool IsOn(bool flag)`. -/
def sampleIsOn : FunctionInfo := sampleMethod "IsOn" [(VTK_PARSE_BOOL, 0)] VTK_PARSE_BOOL

/-- The argument that `OutputCallArgs` writes for the parameter `i`, with its leading
comma: the body of its loop. -/
def Parse.callArg (thisFunction : FunctionInfo) (i : Nat) : String :=
  let aType := thisFunction.ArgTypes i &&& VTK_PARSE_UNQUALIFIED_TYPE
  if thisFunction.ArgTypes i = VTK_PARSE_FUNCTION then
    ", Marshal.GetFunctionPointerForDelegate(id0), IntPtr.Zero"
  else
    ", " ++
    (if aType = VTK_PARSE_OBJECT_PTR then
      "id" ++ fmtInt i ++ " == null ? IntPtr.Zero : id" ++ fmtInt i ++ ".Handle"
     else if aType = VTK_PARSE_BOOL then "id" ++ fmtInt i ++ " ? 1 : 0"
     else "id" ++ fmtInt i)

/-! ## `ParseNativeLib` (vtkParseCSharp.c) -/

/-- The two objects `ParseNativeLib` writes to: the file scope variable `nativeLibName`
and the argument vector. -/
structure ArgState where
  nativeLibName : String
  argv : List String
deriving DecidableEq

/-- The inner loop of `ParseNativeLib`, `argv[j] = argv[j + 2]` for the indices `js`. -/
def shiftArgs (argv : List String) (js : List Nat) : List String :=
  js.foldl (fun a j => a.set j (a.getD (j + 2) "")) argv

/-- The outer loop of `ParseNativeLib` over the indices still to visit; the first index
holding `--native-lib` ends the function. -/
def ParseNativeLibLoop (argc : Nat) (st : ArgState) : List Nat → Nat × ArgState
  | [] => (argc, st)
  | i :: rest =>
    if st.argv.getD i "" = "--native-lib" then
      (argc - 2,
        { nativeLibName := st.argv.getD (i + 1) "",
          argv := shiftArgs st.argv (List.range' i (argc - 2 - i)) })
    else ParseNativeLibLoop argc st rest

/-- `ParseNativeLib`: `i` runs from 1 while `i < argc - 1`, `j` from `i` while
`j < argc - 2`.  The value returned is the new `argc`. -/
def ParseNativeLib (argc : Nat) (st : ArgState) : Nat × ArgState :=
  ParseNativeLibLoop argc st (List.range' 1 (argc - 2))

/-! ## The lifecycle functions of a class -/

/-- The lifecycle functions that `main` of the shim generator exports for a class besides
its methods: construction, and the reference counting helpers. -/
inductive Lifecycle where
  | New
  | VTKDeleteReference
  | VTKGetClassName
  | VTKDelete
  | VTKRegister
deriving DecidableEq, Repr

/-- The symbol of a lifecycle function of the class `C`: both generators print it as
`%s_New`, `%s_VTKDeleteReference`, … with the class name. -/
def Lifecycle.symbol (C : String) : Lifecycle → String
  | .New => C ++ "_New"
  | .VTKDeleteReference => C ++ "_VTKDeleteReference"
  | .VTKGetClassName => C ++ "_VTKGetClassName"
  | .VTKDelete => C ++ "_VTKDelete"
  | .VTKRegister => C ++ "_VTKRegister"

/-! ## The class level text as a sequence of `fprintf` calls -/

/-- One call `fprintf(fp, fmt, args...)` in which every argument is a string. -/
structure Fprintf where
  /-- The format string. -/
  fmt : String
  /-- The string arguments, in order. -/
  args : List String

/-- The characters that `fprintf` writes for a format whose only conversion is `%s`:
each `%s` is replaced by the next argument. -/
def formatChars : List Char → List String → List Char
  | '%' :: 's' :: rest, a :: args => a.data ++ formatChars rest args
  | c :: rest, args => c :: formatChars rest args
  | [], _ => []

/-- The text that one call of `fprintf` writes. -/
def Fprintf.text (c : Fprintf) : String := ⟨formatChars c.fmt.data c.args⟩

/-- The text that a sequence of calls of `fprintf` writes to the file. -/
def written (calls : List Fprintf) : String := String.join (calls.map Fprintf.text)

namespace Parse

/-- The calls of `fprintf` in the lifecycle part of `main` of vtkParseCSharp.c (under
`if (data->HasDelete)`), in order. -/
def lifecycleCalls (data : ClassInfo) : List Fprintf :=
  [⟨"        [DllImport(NativeLib, CallingConvention = CallingConvention.Cdecl)]\n", []⟩,
   ⟨"        private static extern void %s_VTKDeleteReference(IntPtr id);\n\n", [data.Name]⟩,
   ⟨"        [DllImport(NativeLib, CallingConvention = CallingConvention.Cdecl)]\n", []⟩,
   ⟨"        private static extern void %s_VTKRegister(IntPtr obj);\n\n", [data.Name]⟩,
   ⟨"        [DllImport(NativeLib, CallingConvention = CallingConvention.Cdecl)]\n", []⟩,
   ⟨"        private static extern IntPtr %s_VTKGetClassName(IntPtr id);\n\n", [data.Name]⟩,
   ⟨"        public static void VTKDeleteReference(IntPtr id)\n", []⟩,
   ⟨"        \x7b\n", []⟩,
   ⟨"            %s_VTKDeleteReference(id);\n", [data.Name]⟩,
   ⟨"        \x7d\n\n", []⟩,
   ⟨"        public static void VTKRegister(IntPtr obj)\n", []⟩,
   ⟨"        \x7b\n", []⟩,
   ⟨"            %s_VTKRegister(obj);\n", [data.Name]⟩,
   ⟨"        \x7d\n\n", []⟩,
   ⟨"        public static string VTKGetClassNameFromHandle(IntPtr id)\n", []⟩,
   ⟨"        \x7b\n", []⟩,
   ⟨"            IntPtr ptr = %s_VTKGetClassName(id);\n", [data.Name]⟩,
   ⟨"            return Marshal.PtrToStringUTF8(ptr);\n", []⟩,
   ⟨"        \x7d\n\n", []⟩,
   ⟨"        public void Dispose()\n", []⟩,
   ⟨"        \x7b\n", []⟩,
   ⟨"            if (!disposed && handle != IntPtr.Zero)\n", []⟩,
   ⟨"            \x7b\n", []⟩,
   ⟨"                OBJECT_MANAGER.Unregister(handle);\n", []⟩,
   ⟨"                if (ownsReference)\n", []⟩,
   ⟨"                    %s_VTKDeleteReference(handle);\n", [data.Name]⟩,
   ⟨"                handle = IntPtr.Zero;\n", []⟩,
   ⟨"                disposed = true;\n", []⟩,
   ⟨"            \x7d\n", []⟩,
   ⟨"            GC.SuppressFinalize(this);\n", []⟩,
   ⟨"        \x7d\n\n", []⟩,
   ⟨"        ~%s() \x7b Dispose(); \x7d\n", [data.Name]⟩]

/-- The calls of `fprintf` in the branch `if (!data->NumberOfSuperClasses)` of `main` of
vtkParseCSharp.c: the base class infrastructure. -/
def rootCalls (data : ClassInfo) : List Fprintf :=
  (if streq "vtkObjectBase" data.Name then
    [⟨"\n        // Object manager for identity mapping\n", []⟩,
     ⟨"        public static VtkObjectManager OBJECT_MANAGER = new VtkObjectManager();\n", []⟩]
   else []) ++
  [⟨"\n        protected IntPtr handle;\n", []⟩,
   ⟨"        private bool ownsReference;\n", []⟩,
   ⟨"        private bool disposed;\n\n", []⟩,
   ⟨"        public IntPtr Handle\n", []⟩,
   ⟨"        \x7b\n", []⟩,
   ⟨"            get\n", []⟩,
   ⟨"            \x7b\n", []⟩,
   ⟨"                if (disposed) throw new ObjectDisposedException(GetType().Name);\n", []⟩,
   ⟨"                return handle;\n", []⟩,
   ⟨"            \x7d\n", []⟩,
   ⟨"        \x7d\n\n", []⟩] ++
  (if !data.IsAbstract then
    [⟨"        [DllImport(NativeLib, CallingConvention = CallingConvention.Cdecl)]\n", []⟩,
     ⟨"        private static extern IntPtr %s_New();\n\n", [data.Name]⟩,
     ⟨"        public %s()\n", [data.Name]⟩,
     ⟨"        \x7b\n", []⟩,
     ⟨"            this.handle = %s_New();\n", [data.Name]⟩,
     ⟨"            this.ownsReference = true;\n", []⟩,
     ⟨"            OBJECT_MANAGER.Register(this.handle, this);\n", []⟩,
     ⟨"        \x7d\n\n", []⟩]
   else
    [⟨"        protected %s() \x7b \x7d\n\n", [data.Name]⟩]) ++
  [⟨"        internal %s(IntPtr ptr, bool ownsRef)\n", [data.Name]⟩,
   ⟨"        \x7b\n", []⟩,
   ⟨"            this.handle = ptr;\n", []⟩,
   ⟨"            this.ownsReference = ownsRef;\n", []⟩,
   ⟨"            if (ptr != IntPtr.Zero)\n", []⟩,
   ⟨"                OBJECT_MANAGER.Register(ptr, this);\n", []⟩,
   ⟨"        \x7d\n\n", []⟩] ++
  /- lifecycle -/
  (if data.HasDelete then lifecycleCalls data else [])

/-- The calls of `fprintf` in the `else` branch: the derived class constructors. -/
def derivedCalls (data : ClassInfo) : List Fprintf :=
  (if !data.IsAbstract then
    [⟨"\n        [DllImport(NativeLib, CallingConvention = CallingConvention.Cdecl)]\n", []⟩,
     ⟨"        private static extern IntPtr %s_New();\n\n", [data.Name]⟩,
     ⟨"        public %s() : base(%s_New(), true) \x7b \x7d\n", [data.Name, data.Name]⟩]
   else
    [⟨"\n        protected %s() : base() \x7b \x7d\n", [data.Name]⟩]) ++
  [⟨"        internal %s(IntPtr ptr, bool ownsRef) : base(ptr, ownsRef) \x7b \x7d\n", [data.Name]⟩]

/-- The calls of `fprintf` under `if (!strcmp("vtkObjectBase", data->Name))`. -/
def printCalls : List Fprintf :=
  [⟨"\n        [DllImport(NativeLib, CallingConvention = CallingConvention.Cdecl)]\n", []⟩,
   ⟨"        private static extern IntPtr vtkObjectBase_Print(IntPtr obj);\n\n", []⟩,
   ⟨"        public string Print()\n", []⟩,
   ⟨"        \x7b\n", []⟩,
   ⟨"            IntPtr ptr = vtkObjectBase_Print(Handle);\n", []⟩,
   ⟨"            return Marshal.PtrToStringUTF8(ptr);\n", []⟩,
   ⟨"        \x7d\n\n", []⟩,
   ⟨"        public override string ToString() => Print();\n", []⟩]

/-- The calls of `fprintf` under `if (!strcmp("vtkObject", data->Name))`. -/
def observerCalls : List Fprintf :=
  [⟨"\n        [DllImport(NativeLib, CallingConvention = CallingConvention.Cdecl)]\n", []⟩,
   ⟨"        private static extern ulong vtkObject_AddObserverCSharp(\n", []⟩,
   ⟨"            IntPtr obj, [MarshalAs(UnmanagedType.LPUTF8Str)] string eventName,\n", []⟩,
   ⟨"            IntPtr callbackPtr);\n\n", []⟩,
   ⟨"        [DllImport(NativeLib, CallingConvention = CallingConvention.Cdecl)]\n", []⟩,
   ⟨"        private static extern void vtkObject_RemoveObserverCSharp(IntPtr obj, ulong tag);\n\n",
     []⟩,
   ⟨"        public delegate void VtkEventCallback();\n\n", []⟩,
   ⟨"        public ulong AddObserver(string eventName, VtkEventCallback callback)\n", []⟩,
   ⟨"        \x7b\n", []⟩,
   ⟨"            IntPtr fptr = Marshal.GetFunctionPointerForDelegate(callback);\n", []⟩,
   ⟨"            return vtkObject_AddObserverCSharp(Handle, eventName, fptr);\n", []⟩,
   ⟨"        \x7d\n\n", []⟩,
   ⟨"        public void RemoveObserver(ulong tag)\n", []⟩,
   ⟨"        \x7b\n", []⟩,
   ⟨"            vtkObject_RemoveObserverCSharp(Handle, tag);\n", []⟩,
   ⟨"        \x7d\n", []⟩]

/-- The calls of `fprintf` that `main` of vtkParseCSharp.c makes after the method loop,
in order, up to the end of the file. -/
def tailCalls (data : ClassInfo) : List Fprintf :=
  /- base class (vtkObjectBase) infrastructure, or derived class constructors -/
  (if data.SuperClasses.isEmpty then rootCalls data else derivedCalls data) ++
  /- vtkObjectBase: Print method -/
  (if streq "vtkObjectBase" data.Name then printCalls else []) ++
  /- vtkObject: AddObserver -/
  (if streq "vtkObject" data.Name then observerCalls else []) ++
  /- close class and namespace -/
  [⟨"    \x7d\n", []⟩,
   ⟨"\x7d\n", []⟩]

end Parse

namespace Wrap

/-- The calls of `fprintf` under `if ((!data->NumberOfSuperClasses) && (data->HasDelete))`
in `main` of vtkWrapCSharp.c: the special vtkObjectBase methods. -/
def lifetimeCalls (data : ClassInfo) : List Fprintf :=
  [⟨"\nextern \"C\" VTK_CSHARP_EXPORT ", []⟩,
   ⟨"void %s_VTKDeleteReference(void* id)\n", [data.Name]⟩,
   ⟨"\x7b\n", []⟩,
   ⟨"  %s* op = static_cast<%s*>(id);\n", [data.Name, data.Name]⟩,
   ⟨"  op->Delete();\n", []⟩,
   ⟨"\x7d\n", []⟩,
   ⟨"\nextern \"C\" VTK_CSHARP_EXPORT ", []⟩,
   ⟨"const char* %s_VTKGetClassName(void* id)\n", [data.Name]⟩,
   ⟨"\x7b\n", []⟩,
   ⟨"  if (!id) \x7b return \"\"; \x7d\n", []⟩,
   ⟨"  %s* op = static_cast<%s*>(id);\n", [data.Name, data.Name]⟩,
   ⟨"  return op->GetClassName();\n", []⟩,
   ⟨"\x7d\n", []⟩,
   ⟨"\nextern \"C\" VTK_CSHARP_EXPORT ", []⟩,
   ⟨"void %s_VTKDelete(void* obj)\n", [data.Name]⟩,
   ⟨"\x7b\n", []⟩,
   ⟨"  %s* op = static_cast<%s*>(obj);\n", [data.Name, data.Name]⟩,
   ⟨"  op->Delete();\n", []⟩,
   ⟨"\x7d\n", []⟩,
   ⟨"\nextern \"C\" VTK_CSHARP_EXPORT ", []⟩,
   ⟨"void %s_VTKRegister(void* obj)\n", [data.Name]⟩,
   ⟨"\x7b\n", []⟩,
   ⟨"  %s* op = static_cast<%s*>(obj);\n", [data.Name, data.Name]⟩,
   ⟨"  op->Register(op);\n", []⟩,
   ⟨"\x7d\n", []⟩]

/-- The calls of `fprintf` under `if (!data->IsAbstract)`: the export `New`. -/
def newCalls (data : ClassInfo) : List Fprintf :=
  [⟨"\nextern \"C\" VTK_CSHARP_EXPORT ", []⟩,
   ⟨"void* %s_New(void)", [data.Name]⟩,
   ⟨"\n\x7b\n", []⟩,
   ⟨"  return static_cast<void*>(%s::New());\n", [data.Name]⟩,
   ⟨"\x7d\n", []⟩]

/-- The calls of `fprintf` under `if (!strcmp("vtkObjectBase", data->Name))`. -/
def printCalls : List Fprintf :=
  [⟨"\nextern \"C\" VTK_CSHARP_EXPORT ", []⟩,
   ⟨"const char* vtkObjectBase_Print(void* obj)\n", []⟩,
   ⟨"\x7b\n", []⟩,
   ⟨"  vtkObjectBase* op = static_cast<vtkObjectBase*>(obj);\n", []⟩,
   ⟨"  static thread_local std::string _cs_print_result;\n", []⟩,
   ⟨"  std::ostringstream stream;\n", []⟩,
   ⟨"  op->Print(stream);\n", []⟩,
   ⟨"  _cs_print_result = stream.str();\n", []⟩,
   ⟨"  return _cs_print_result.c_str();\n", []⟩,
   ⟨"\x7d\n", []⟩]

/-- The calls of `fprintf` under `if (!strcmp("vtkObject", data->Name))`. -/
def observerCalls : List Fprintf :=
  [⟨"\n/* Callback bridge for C# delegates */\n", []⟩,
   ⟨"typedef void (*VtkCSharpCallbackFunc)(void* clientData);\n\n", []⟩,
   ⟨"static void vtkCSharpCallbackBridge(\n", []⟩,
   ⟨"  vtkObject* vtkNotUsed(caller), unsigned long vtkNotUsed(eid),\n", []⟩,
   ⟨"  void* clientData, void* vtkNotUsed(calldata))\n", []⟩,
   ⟨"\x7b\n", []⟩,
   ⟨"  VtkCSharpCallbackFunc func = reinterpret_cast<VtkCSharpCallbackFunc>(clientData);\n", []⟩,
   ⟨"  if (func) \x7b func(nullptr); \x7d\n", []⟩,
   ⟨"\x7d\n\n", []⟩,
   ⟨"extern \"C\" VTK_CSHARP_EXPORT ", []⟩,
   ⟨"unsigned long long vtkObject_AddObserverCSharp(\n", []⟩,
   ⟨"  void* obj, const char* event, void* callbackPtr)\n", []⟩,
   ⟨"\x7b\n", []⟩,
   ⟨"  vtkObject* op = static_cast<vtkObject*>(obj);\n", []⟩,
   ⟨"  vtkCallbackCommand* cmd = vtkCallbackCommand::New();\n", []⟩,
   ⟨"  cmd->SetClientData(callbackPtr);\n", []⟩,
   ⟨"  cmd->SetCallback(vtkCSharpCallbackBridge);\n", []⟩,
   ⟨"  unsigned long result = op->AddObserver(event, cmd);\n", []⟩,
   ⟨"  cmd->Delete();\n", []⟩,
   ⟨"  return static_cast<unsigned long long>(result);\n", []⟩,
   ⟨"\x7d\n", []⟩,
   ⟨"\nextern \"C\" VTK_CSHARP_EXPORT ", []⟩,
   ⟨"void vtkObject_RemoveObserverCSharp(void* obj, unsigned long long tag)\n", []⟩,
   ⟨"\x7b\n", []⟩,
   ⟨"  vtkObject* op = static_cast<vtkObject*>(obj);\n", []⟩,
   ⟨"  op->RemoveObserver(static_cast<unsigned long>(tag));\n", []⟩,
   ⟨"\x7d\n", []⟩]

/-- The calls of `fprintf` that `main` of vtkWrapCSharp.c makes after the method loop, in
order. -/
def exportCalls (data : ClassInfo) : List Fprintf :=
  /- special vtkObjectBase methods -/
  (if data.SuperClasses.isEmpty && data.HasDelete then lifetimeCalls data else []) ++
  /- New() for non-abstract classes -/
  (if !data.IsAbstract then newCalls data else []) ++
  /- vtkObjectBase: Print method -/
  (if streq "vtkObjectBase" data.Name then printCalls else []) ++
  /- vtkObject: AddObserver with function pointer callback -/
  (if streq "vtkObject" data.Name then observerCalls else [])

end Wrap

/-! ## The symbols that the class level text imports and exports -/

/-- The number of `%s` conversions in a format. -/
def conversions : List Char → Nat
  | '%' :: 's' :: rest => conversions rest + 1
  | _ :: rest => conversions rest
  | [] => 0

/-- The name that a declaration declares: the last word in front of the first `(`, with
the arguments of the call filled in.  `decl` is the format from the return type on. -/
def declaredSymbol (c : Fprintf) (decl : List Char) : String :=
  let head := decl.takeWhile (fun ch => ch != '(')
  let name := (head.reverse.takeWhile (fun ch => ch != ' ')).reverse
  let skipped := c.fmt.data.take (c.fmt.data.length - decl.length + (head.length - name.length))
  ⟨formatChars name (c.args.drop (conversions skipped))⟩

/-- The symbol that a call of `fprintf` in the managed class imports: the call writes a
line `private static extern <type> <name>(`, and the symbol is `<name>`. -/
def declaredImport (c : Fprintf) : Option String :=
  let line := c.fmt.data.dropWhile (fun ch => ch == ' ' || ch == '\n')
  if "private static extern ".data.isPrefixOf line then
    some (declaredSymbol c (line.drop "private static extern ".length))
  else none

/-- The symbols that a sequence of `fprintf` calls of the managed generator imports. -/
def declaredImports (calls : List Fprintf) : List String := calls.filterMap declaredImport

/-- The call writes the linkage prefix `extern "C" VTK_CSHARP_EXPORT ` of an export. -/
def isExportHead (c : Fprintf) : Bool :=
  c.fmt.data.dropWhile (fun ch => ch == '\n') == "extern \"C\" VTK_CSHARP_EXPORT ".data

/-- The symbols that a sequence of `fprintf` calls of the shim generator exports: the
names declared by the calls that follow a call writing the linkage prefix. -/
def declaredExports (calls : List Fprintf) : List String :=
  (calls.zip calls.tail).filterMap
    (fun p => if isExportHead p.1 then some (declaredSymbol p.2 p.2.fmt.data) else none)

/-! ## The `Dispose` method of the generated class -/

namespace Parse

/-- The `Dispose` method as `main` of vtkParseCSharp.c prints it in the lifecycle part of
a class without superclass. -/
def disposeText (data : ClassInfo) : String :=
  "        public void Dispose()\n" ++
  "        \x7b\n" ++
  "            if (!disposed && handle != IntPtr.Zero)\n" ++
  "            \x7b\n" ++
  "                OBJECT_MANAGER.Unregister(handle);\n" ++
  "                if (ownsReference)\n" ++
  "                    " ++ data.Name ++ "_VTKDeleteReference(handle);\n" ++
  "                handle = IntPtr.Zero;\n" ++
  "                disposed = true;\n" ++
  "            \x7d\n" ++
  "            GC.SuppressFinalize(this);\n" ++
  "        \x7d\n\n"

end Parse

/-- The fields of the generated class that `Dispose` reads and writes: `handle` (an
`IntPtr`, zero is `IntPtr.Zero`), `ownsReference` and `disposed`. -/
structure WrapperState where
  handle : Int
  ownsReference : Bool
  disposed : Bool
deriving DecidableEq, Repr

/-- The calls that the body of `Dispose` makes, in the order of the text:
`OBJECT_MANAGER.Unregister(handle)`, the native `<class>_VTKDeleteReference(handle)` and
`GC.SuppressFinalize(this)`. -/
inductive DisposeCall where
  | unregister (handle : Int)
  | deleteReference (handle : Int)
  | suppressFinalize
deriving DecidableEq, Repr

/-- The body of `Dispose` in `Parse.disposeText`, statement by statement, as a transition
on the fields together with the calls made. -/
def Dispose (s : WrapperState) : WrapperState × List DisposeCall :=
  if !s.disposed && s.handle != 0 then
    ({ s with handle := 0, disposed := true },
      [DisposeCall.unregister s.handle] ++
      (if s.ownsReference then [DisposeCall.deleteReference s.handle] else []) ++
      [DisposeCall.suppressFinalize])
  else
    (s, [DisposeCall.suppressFinalize])

/-! ## The classes of the match rule -/

/-- The number (from 1) of the numeric family of `CheckMatch` that holds the base type
`b`, and 0 when no family holds it. -/
def familyOf (b : Nat) : Nat :=
  if b ∈ [VTK_PARSE_UNSIGNED_CHAR, VTK_PARSE_SIGNED_CHAR] then 1
  else if b ∈ [VTK_PARSE_UNSIGNED_SHORT, VTK_PARSE_SHORT] then 2
  else if b ∈ [VTK_PARSE_UNKNOWN, VTK_PARSE_UNSIGNED_INT, VTK_PARSE_INT] then 3
  else if b ∈ [VTK_PARSE_UNSIGNED_LONG, VTK_PARSE_UNSIGNED_LONG_LONG, VTK_PARSE_LONG,
      VTK_PARSE_LONG_LONG] then 4
  else 0

/-- The class of an unqualified type `u` with base type `b`, indirection `i` and class
name `c` under the match rule: the string family is one class, a numeric family with an
indirection is one class, an object type is classed by type and class name, every other
type by itself. -/
def keyCore (u b i : Nat) (c : String) : Nat × Nat × String :=
  if u ∈ [VTK_PARSE_CHAR_PTR, VTK_PARSE_STRING_REF, VTK_PARSE_STRING] then (5, 0, "")
  else if familyOf b ≠ 0 then (familyOf b, i, "")
  else if b = VTK_PARSE_OBJECT then (6, u, c)
  else (7, u, "")

/-- The class of a type descriptor and class name under the match rule of `CheckMatch`. -/
def matchKey (t : Nat) (c : String) : Nat × Nat × String :=
  keyCore (t &&& VTK_PARSE_UNQUALIFIED_TYPE) (t &&& VTK_PARSE_BASE_TYPE)
    (t &&& VTK_PARSE_INDIRECT) c

/-- The number of entries of the array `wrappedFunctions` (`FunctionInfo*
wrappedFunctions[1000]` in both generators). -/
def wrappedFunctionsSize : Nat := 1000

/-- The text that `Parse.OutputCSharpParamType` writes in front of the argument index,
for an argument of unqualified type `aType` that is neither `void`, a function pointer
nor an object pointer. -/
def Parse.publicParamStem (aType : Nat) : String :=
  let b := (aType &&& VTK_PARSE_BASE_TYPE) &&& NOT_VTK_PARSE_UNSIGNED
  let scalar : String :=
    if b = VTK_PARSE_FLOAT then "float id"
    else if b = VTK_PARSE_DOUBLE then "double id"
    else if b = VTK_PARSE_INT then "int id"
    else if b = VTK_PARSE_SHORT then "short id"
    else if b = VTK_PARSE_LONG ∨ b = VTK_PARSE_LONG_LONG then "long id"
    else if b = VTK_PARSE_BOOL then "bool id"
    else if b = VTK_PARSE_CHAR then "char id"
    else if b = VTK_PARSE_SIGNED_CHAR ∨ b = VTK_PARSE_UNSIGNED_CHAR then "byte id"
    else if b = VTK_PARSE_UNKNOWN then "int id"
    else "int id"
  if aType = VTK_PARSE_CHAR_PTR ∨ aType = VTK_PARSE_STRING ∨
      aType = VTK_PARSE_STRING_REF then "string id"
  else if aType &&& VTK_PARSE_INDIRECT = VTK_PARSE_POINTER ∧ aType ≠ VTK_PARSE_CHAR_PTR ∧
      aType ≠ VTK_PARSE_OBJECT_PTR then
    (Parse.arrayElemType b "bool[] id").getD scalar
  else scalar

/-- The method `void SetKeyCode(char key)`. -/
def sampleSetKeyCode : FunctionInfo :=
  sampleMethod "SetKeyCode" [(VTK_PARSE_CHAR, 0)] VTK_PARSE_VOID

/-- The method `char GetKeyCode()`. -/
def sampleGetKeyCode : FunctionInfo := sampleMethod "GetKeyCode" [] VTK_PARSE_CHAR

/-! ## `VtkCSharpHelper_GetPixels` (vtkCSharpHelper.cxx) -/

/-- The value of an `int` expression whose mathematical value is `x`: `x` reduced to 32
bits in two's complement.  (Signed overflow is undefined behaviour in C++; the reduction
is what the compiled multiplication yields.) -/
def wrapInt (x : Int) : Int := (x + 2147483648) % 4294967296 - 2147483648

/-- The conversion of an `int` to the 64 bit `size_t` parameter of `memcpy`. -/
def toSizeT (x : Int) : Nat := (x % 18446744073709551616).toNat

/-- What `VtkCSharpHelper_GetPixels` obtains from the VTK objects it calls.  Memory
behind a pointer is a function from the byte offset to the byte. -/
structure PixelReadback where
  /-- The value returned by `renderWindow->GetRGBACharPixelData(...)`. -/
  ok : Int
  /-- Whether the smart pointer `pixels` is non-null. -/
  pixels : Bool
  /-- The value of `pixels->GetNumberOfTuples()`. -/
  tuples : Int
  /-- The pointer `pixels->GetPointer(0)`, `none` for `nullptr`. -/
  pixelPointer : Option (Int → Nat)
  /-- Whether `w2i->GetOutput()` is non-null. -/
  output : Bool
  /-- Whether `output->GetPointData()->GetScalars()` is non-null. -/
  scalars : Bool
  /-- Whether `vtkUnsignedCharArray::SafeDownCast(scalars)` is non-null. -/
  charArray : Bool
  /-- The pointer `charArray->GetPointer(0)`, `none` for `nullptr`. -/
  fallbackPointer : Option (Int → Nat)

/-- The call `memcpy(buffer + d, src + s, n)`: the memory around `buffer` afterwards. -/
def memcpy (buffer : Int → Nat) (d : Int) (src : Int → Nat) (s : Int) (n : Nat) :
    Int → Nat :=
  fun a => if d ≤ a ∧ a < d + n then src (s + (a - d)) else buffer a

/-- The calls of `memcpy` that the loop `for (int y = 0; y < height; y++)` makes, in
order: the offset into `buffer`, the offset into `src` and the size, with
`stride = width * 4` and `srcRow = height - 1 - y`. -/
def rowCopies (width height : Int) : List (Int × Int × Nat) :=
  let stride := wrapInt (width * 4)
  (List.range height.toNat).map (fun (y : Nat) =>
    let srcRow := wrapInt (wrapInt (height - 1) - (y : Int))
    (wrapInt ((y : Int) * stride), wrapInt (srcRow * stride), toSizeT stride))

/-- The loop "Flip vertically" of `VtkCSharpHelper_GetPixels`. -/
def flipRows (width height : Int) (src buffer : Int → Nat) : Int → Nat :=
  (rowCopies width height).foldl (fun buf c => memcpy buf c.1 src c.2.1 c.2.2) buffer

/-- The pointer `src` that `VtkCSharpHelper_GetPixels` reads from, or the error code of
the fallback path. -/
def pixelSource (vtk : PixelReadback) (numPixels : Int) : Except Int (Option (Int → Nat)) :=
  if vtk.ok ≠ 0 ∧ vtk.pixels = true ∧ vtk.tuples ≥ numPixels then
    .ok vtk.pixelPointer
  else
    /- Fallback: vtkWindowToImageFilter (no re-render) -/
    if !vtk.output then .error (-3)
    else if !vtk.scalars then .error (-4)
    else if !vtk.charArray then .error (-5)
    else .ok vtk.fallbackPointer

/-- `VtkCSharpHelper_GetPixels`: the value returned and the memory around `buffer`
afterwards.  `renderWindow` tells whether the window pointer is non-null, `buffer` is
`none` for a null pointer. -/
def GetPixels (renderWindow : Bool) (width height : Int) (buffer : Option (Int → Nat))
    (bufferSize : Int) (vtk : PixelReadback) : Int × Option (Int → Nat) :=
  if !renderWindow || buffer.isNone then (-1, buffer)
  else
    let expectedSize := wrapInt (wrapInt (width * height) * 4)
    if bufferSize < expectedSize then (-2, buffer)
    else
      let numPixels := wrapInt (width * height)
      match pixelSource vtk numPixels with
      | .error e => (e, buffer)
      | .ok none => (-6, buffer)
      | .ok (some src) =>
        /- Flip vertically -/
        (0, buffer.map (flipRows width height src))

/-- A call of `memcpy` writes only bytes at offsets of `buffer` from 0 up to
`bufferSize`, exclusive. -/
def CopyInBounds (bufferSize : Int) (c : Int × Int × Nat) : Prop :=
  c.2.2 = 0 ∨ (0 ≤ c.1 ∧ c.1 + c.2.2 ≤ bufferSize)

instance (bufferSize : Int) (c : Int × Int × Nat) : Decidable (CopyInBounds bufferSize c) := by
  unfold CopyInBounds
  infer_instance

/-- A readback in which `GetRGBACharPixelData` succeeds with `tuples` tuples at `src`. -/
def sampleReadback (tuples : Int) (src : Int → Nat) : PixelReadback :=
  { ok := 1, pixels := true, tuples := tuples, pixelPointer := some src,
    output := true, scalars := true, charArray := true, fallbackPointer := some src }

/-! # Lemmas

The lemmas are stated for the common shape of the two generators wherever the
property does not depend on what the generators do differently. -/

/-! ## Bit fields -/

theorem land_base (x : Nat) : x &&& VTK_PARSE_BASE_TYPE = x % 256 :=
  Nat.and_pow_two_sub_one_eq_mod x 8

theorem land_unq (x : Nat) : x &&& VTK_PARSE_UNQUALIFIED_TYPE = x % 65536 :=
  Nat.and_pow_two_sub_one_eq_mod x 16

theorem land_shifted_mask (x i n : Nat) :
    x &&& (2 ^ i * (2 ^ n - 1)) = 2 ^ i * (x / 2 ^ i % 2 ^ n) := by
  apply Nat.eq_of_testBit_eq
  intro j
  rw [Nat.testBit_and, Nat.testBit_mul_pow_two, Nat.testBit_mul_pow_two,
    Nat.testBit_two_pow_sub_one, Nat.testBit_mod_two_pow, ← Nat.shiftRight_eq_div_pow,
    Nat.testBit_shiftRight]
  by_cases h : i ≤ j
  · have : i + (j - i) = j := by omega
    simp [h, this, Bool.and_comm]
  · simp [h]

theorem land_indirect (x : Nat) : x &&& VTK_PARSE_INDIRECT = 256 * (x / 256 % 256) :=
  land_shifted_mask x 8 8

/-! ## The statement `if (c) args_ok = 0;` -/

theorem veto_zero (c : Bool) : veto c 0 = 0 := by
  cases c <;> rfl

theorem veto_true (x : Int) : veto true x = 0 := rfl

theorem veto_false (x : Int) : veto false x = x := rfl

theorem veto_veto (a b : Bool) (x : Int) : veto a (veto b x) = veto (a || b) x := by
  cases a <;> cases b <;> rfl

/-! ## The table of supported base types -/

theorem scanSupported_ne_zero_iff (b : Nat) (l : List Nat) :
    scanSupported b l ≠ 0 ↔ b ∈ l.takeWhile (fun t => decide (t ≠ 0)) := by
  induction l with
  | nil => simp [scanSupported]
  | cons t rest ih =>
    unfold scanSupported
    by_cases ht : t = 0
    · simp [ht]
    · by_cases hb : b = t
      · subst hb; simp [ht]
      · simp only [ht, hb, if_false, ih, List.takeWhile_cons, ne_eq, not_false_eq_true,
          decide_True, if_true, List.mem_cons, false_or]

theorem supported_types_body :
    supported_types.takeWhile (fun t => decide (t ≠ 0)) =
      [0x02, 0x0E, 0x01, 0x07, 0x03, 0x13, 0x0D, 0x04, 0x14, 0x05, 0x15, 0x06, 0x16, 0x0B,
        0x1B, 0x09, 0x21, 0x08] := by decide

theorem scanSupported_eq_zero_iff (b : Nat) :
    scanSupported b supported_types = 0 ↔
      b ∉ [0x02, 0x0E, 0x01, 0x07, 0x03, 0x13, 0x0D, 0x04, 0x14, 0x05, 0x15, 0x06, 0x16, 0x0B,
        0x1B, 0x09, 0x21, 0x08] := by
  rw [← supported_types_body, ← scanSupported_ne_zero_iff]
  exact not_not.symm

/-! ## What `checkFunctionSignature` leaves unchanged -/

theorem SameSig.refl (f : FunctionInfo) : SameSig f f := by
  simp [SameSig]

theorem SameSig.trans {f g h : FunctionInfo} (a : SameSig f g) (b : SameSig g h) :
    SameSig f h := by
  obtain ⟨a1, a2, a3, a4, a5, a6, a7, a8, a9, a10, a11, a12, a13, a14⟩ := a
  obtain ⟨b1, b2, b3, b4, b5, b6, b7, b8, b9, b10, b11, b12, b13, b14⟩ := b
  exact ⟨b1.trans a1, b2.trans a2, b3.trans a3, b4.trans a4, b5.trans a5, b6.trans a6,
    b7.trans a7, b8.trans a8, b9.trans a9, b10.trans a10, b11.trans a11, b12.trans a12,
    b13.trans a13, b14.trans a14⟩

theorem sameSig_setArgClass (f : FunctionInfo) (i : Nat) (q : String) :
    SameSig f (setArgClass f i q) := by
  simp [SameSig, setArgClass]

theorem sameSig_setReturnClass (f : FunctionInfo) (q : String) :
    SameSig f (setReturnClass f q) := by
  simp [SameSig, setReturnClass]

namespace Core

theorem checkArg_sameSig (icw : Env → String → Int) (env : Env) (data : ClassInfo)
    (st : Int × FunctionInfo) (i : Nat) : SameSig st.2 (checkArg icw env data st i).2 := by
  unfold checkArg
  dsimp only
  split
  · split
    · exact sameSig_setArgClass _ _ _
    · exact SameSig.refl _
  · exact SameSig.refl _

theorem checkReturn_sameSig (icw : Env → String → Int) (env : Env) (data : ClassInfo)
    (r : Nat) (st : Int × FunctionInfo) : SameSig st.2 (checkReturn icw env data r st).2 := by
  unfold checkReturn
  dsimp only
  split
  · split
    · exact sameSig_setReturnClass _ _
    · exact SameSig.refl _
  · exact SameSig.refl _

theorem foldl_checkArg_sameSig (icw : Env → String → Int) (env : Env) (data : ClassInfo)
    (l : List Nat) (st : Int × FunctionInfo) :
    SameSig st.2 (l.foldl (checkArg icw env data) st).2 := by
  induction l generalizing st with
  | nil => exact SameSig.refl _
  | cons i rest ih => exact (checkArg_sameSig icw env data st i).trans (ih _)

theorem checkFunctionSignature_sameSig (icw : Env → String → Int)
    (cnt : FunctionInfo → Nat → Int) (env : Env) (data : ClassInfo) (f : FunctionInfo) :
    SameSig f (checkFunctionSignature icw cnt env data f).2 := by
  unfold checkFunctionSignature
  dsimp only
  split
  · exact SameSig.refl _
  split
  · exact SameSig.refl _
  split
  · exact SameSig.refl _
  split
  · exact SameSig.refl _
  · exact (foldl_checkArg_sameSig icw env data _ _).trans (checkReturn_sameSig icw env data _ _)

theorem checkReturn_fst (icw : Env → String → Int) (env : Env) (data : ClassInfo) (r : Nat)
    (st : Int × FunctionInfo) :
    (checkReturn icw env data r st).1 =
      veto (retBad r (qualifiedEnum env data r st.2.ReturnClass)
        (icw env (checkReturn icw env data r st).2.ReturnClass)) st.1 := by
  unfold checkReturn
  simp only [veto_veto, retBad, Bool.or_assoc, Bool.or_comm, Bool.or_left_comm]

theorem checkArg_fst (icw : Env → String → Int) (env : Env) (data : ClassInfo)
    (st : Int × FunctionInfo) (i : Nat) :
    (checkArg icw env data st i).1 =
      veto (argBad (st.2.ArgTypes i &&& VTK_PARSE_UNQUALIFIED_TYPE)
        (qualifiedEnum env data (st.2.ArgTypes i &&& VTK_PARSE_UNQUALIFIED_TYPE)
          (st.2.ArgClasses i))
        (icw env ((checkArg icw env data st i).2.ArgClasses i))) st.1 := by
  unfold checkArg
  simp only [veto_veto, argBad, retBad, Bool.or_assoc, Bool.or_comm, Bool.or_left_comm]

theorem foldl_checkArg_zero (icw : Env → String → Int) (env : Env) (data : ClassInfo)
    (l : List Nat) (st : Int × FunctionInfo) (h : st.1 = 0) :
    (l.foldl (checkArg icw env data) st).1 = 0 := by
  induction l generalizing st with
  | nil => exact h
  | cons i rest ih =>
    apply ih
    rw [checkArg_fst, h, veto_zero]

theorem foldl_checkArgCount_zero (cnt : FunctionInfo → Nat → Int) (f : FunctionInfo)
    (l : List Nat) : l.foldl (checkArgCount cnt f) 0 = 0 := by
  induction l with
  | nil => rfl
  | cons i rest ih =>
    rw [List.foldl_cons]
    have : checkArgCount cnt f 0 i = 0 := by unfold checkArgCount; exact veto_zero _
    rw [this, ih]

end Core

theorem Wrap.shim_check_eq_core :
    Wrap.checkFunctionSignature =
      Core.checkFunctionSignature Wrap.isClassWrapped (fun f i => (f.Parameters i).Count) :=
  rfl

theorem Parse.managed_check_eq_core :
    Parse.checkFunctionSignature =
      Core.checkFunctionSignature Parse.isClassWrapped (fun f i => f.ArgCounts i) :=
  rfl

theorem qualifiedEnum_indirect (env : Env) (data : ClassInfo) (t : Nat) (cls : String)
    (h : t &&& VTK_PARSE_INDIRECT ≠ 0) : qualifiedEnum env data t cls = none := by
  unfold qualifiedEnum
  rw [if_neg h]

theorem retBad_of (t : Nat) (q : Option String) (w : Int)
    (h : scanSupported (t &&& VTK_PARSE_BASE_TYPE) supported_types = 0 ∨
      (t &&& VTK_PARSE_BASE_TYPE = VTK_PARSE_UNKNOWN ∧ q.isNone) ∨
      (t &&& VTK_PARSE_INDIRECT ≠ VTK_PARSE_POINTER ∧ t &&& VTK_PARSE_INDIRECT ≠ 0 ∧
        t ≠ VTK_PARSE_STRING_REF) ∨
      t = VTK_PARSE_STRING_PTR ∨ t = VTK_PARSE_UNSIGNED_CHAR_PTR ∨
      t = VTK_PARSE_UNSIGNED_INT_PTR ∨ t = VTK_PARSE_UNSIGNED_SHORT_PTR ∨
      t = VTK_PARSE_UNSIGNED_LONG_PTR ∨ t = VTK_PARSE_UNSIGNED_LONG_LONG_PTR) :
    retBad t q w = true := by
  unfold retBad
  simp only [Bool.or_eq_true, decide_eq_true_eq]
  tauto

theorem retBad_of_pointer (env : Env) (data : ClassInfo) (r : Nat) (cls : String) (w : Int)
    (hr : r < 65536) (hp : r &&& VTK_PARSE_INDIRECT = VTK_PARSE_POINTER)
    (ho : r ≠ VTK_PARSE_OBJECT_PTR) (hc : r ≠ VTK_PARSE_CHAR_PTR) (hn : ¬ hintCase r) :
    retBad r (qualifiedEnum env data r cls) w = true := by
  have hq : qualifiedEnum env data r cls = none :=
    qualifiedEnum_indirect env data r cls (by rw [hp]; decide)
  by_cases hs : scanSupported (r &&& VTK_PARSE_BASE_TYPE) supported_types = 0
  · simp only [retBad, hs, decide_True, Bool.true_or]
  · rw [scanSupported_eq_zero_iff, not_not] at hs
    rw [land_indirect] at hp
    rw [land_base] at hs
    simp only [VTK_PARSE_POINTER, VTK_PARSE_OBJECT_PTR, VTK_PARSE_CHAR_PTR] at hp ho hc
    simp only [List.mem_cons, List.mem_singleton, List.not_mem_nil, or_false] at hs
    simp only [hintCase, VTK_PARSE_FLOAT_PTR, VTK_PARSE_VOID_PTR, VTK_PARSE_DOUBLE_PTR,
      VTK_PARSE_INT_PTR, VTK_PARSE_SHORT_PTR, VTK_PARSE_LONG_PTR, VTK_PARSE_LONG_LONG_PTR,
      VTK_PARSE_SIGNED_CHAR_PTR, VTK_PARSE_BOOL_PTR, VTK_PARSE_UNSIGNED_CHAR_PTR, not_or] at hn
    have hcases : r = 0x214 ∨ r = 0x215 ∨ r = 0x216 ∨ r = 0x21B ∨ r = 0x221 ∨ r = 0x208 := by
      omega
    rw [hq]
    rcases hcases with h | h | h | h | h | h <;> subst h <;> exact retBad_of _ _ _ (by decide)

theorem tail_zero (cn : String) (g : FunctionInfo) (x : Int) (hx : x = 0) :
    veto (nameIs g.Name "Delete" || nameIs g.Name "New")
      (if streq "vtkObject" cn then veto (observerOverride g) x
       else if streq "vtkObjectBase" cn then veto (nameIs g.Name "Print") x
       else x) = 0 := by
  subst hx
  simp only [veto_zero, ite_self]

theorem Core.check_pointer_nohint (icw : Env → String → Int) (cnt : FunctionInfo → Nat → Int)
    (env : Env) (data : ClassInfo) (f : FunctionInfo)
    (hp : (f.ReturnType &&& VTK_PARSE_UNQUALIFIED_TYPE) &&& VTK_PARSE_INDIRECT =
      VTK_PARSE_POINTER)
    (ho : f.ReturnType &&& VTK_PARSE_UNQUALIFIED_TYPE ≠ VTK_PARSE_OBJECT_PTR)
    (hc : f.ReturnType &&& VTK_PARSE_UNQUALIFIED_TYPE ≠ VTK_PARSE_CHAR_PTR)
    (hh : f.HaveHint = 0) :
    (Core.checkFunctionSignature icw cnt env data f).1 = 0 := by
  have hr : f.ReturnType &&& VTK_PARSE_UNQUALIFIED_TYPE < 65536 := by
    rw [land_unq]; omega
  unfold Core.checkFunctionSignature
  dsimp only
  split
  · rfl
  split
  · rfl
  split
  · rfl
  split
  · rename_i h
    rw [h.2.2.2] at hp
    exact absurd hp (by decide)
  · apply tail_zero
    have hsig := (Core.foldl_checkArg_sameSig icw env data
      (List.range f.NumberOfArguments) (1, f)).trans
        (Core.checkReturn_sameSig icw env data (f.ReturnType &&& VTK_PARSE_UNQUALIFIED_TYPE)
          ((List.range f.NumberOfArguments).foldl (Core.checkArg icw env data) (1, f)))
    unfold hintSwitch
    split
    · rw [hsig.2.2.2.2.2.2.2.1]; exact hh
    · rename_i hn
      rw [Core.checkReturn_fst, retBad_of_pointer env data _ _ _ hr hp ho hc hn, veto_true]
      exact Core.foldl_checkArgCount_zero _ _ _


/-! ## `CheckMatch` -/

theorem scanHit_ne_zero_iff (key : Nat) (l : List Nat) (j hit : Nat) :
    scanHit key l j hit ≠ 0 ↔ hit ≠ 0 ∨ key ∈ l.takeWhile (fun t => decide (t ≠ 0)) := by
  induction l generalizing j hit with
  | nil => simp [scanHit]
  | cons t rest ih =>
    unfold scanHit
    by_cases ht : t = 0
    · simp [ht]
    · rw [if_neg ht, ih]
      by_cases hk : key = t
      · subst hk; simp [ht]
      · simp only [hk, if_false, List.takeWhile_cons, ne_eq, ht, not_false_eq_true,
          decide_True, if_true, List.mem_cons, false_or]

theorem Parse.numericMatch_eq (type1 type2 : Nat) (fams : List (List Nat)) :
    Parse.numericMatch type1 type2 fams = Wrap.numericMatch type1 type2 fams := by
  induction fams with
  | nil => rfl
  | cons fam rest ih =>
    unfold Parse.numericMatch Wrap.numericMatch
    dsimp only
    rw [ih]
    split
    · split <;> rfl
    · rfl

theorem Parse.CheckMatch_eq (type1 type2 : Nat) (c1 c2 : String) :
    Parse.CheckMatch type1 type2 c1 c2 = Wrap.CheckMatch type1 type2 c1 c2 := by
  unfold Parse.CheckMatch Wrap.CheckMatch
  rw [Parse.numericMatch_eq]

theorem Parse.matchFlag_eq (f fi : FunctionInfo) :
    Parse.matchFlag f fi = Wrap.matchFlag f fi := by
  unfold Parse.matchFlag Wrap.matchFlag
  simp only [Parse.CheckMatch_eq]

theorem Parse.DoneOneLoop_eq (f : FunctionInfo) (l : List FunctionInfo) :
    Parse.DoneOneLoop f l = Wrap.DoneOneLoop f l := by
  induction l with
  | nil => rfl
  | cons fi rest ih =>
    unfold Parse.DoneOneLoop Wrap.DoneOneLoop
    rw [ih, Parse.matchFlag_eq]

theorem Parse.DoneOne_eq (s : State) (f : FunctionInfo) :
    Parse.DoneOne s f = Wrap.DoneOne s f := by
  unfold Parse.DoneOne Wrap.DoneOne
  exact Parse.DoneOneLoop_eq _ _

/-- The hits of one numeric family: both base types are members and the indirection is
the same. -/
theorem Wrap.numericMatch_isSome (type1 type2 : Nat) (fams : List (List Nat)) :
    (Wrap.numericMatch type1 type2 fams).isSome ↔
      (∃ fam ∈ fams,
        type1 &&& VTK_PARSE_BASE_TYPE ∈ fam.takeWhile (fun t => decide (t ≠ 0)) ∧
        type2 &&& VTK_PARSE_BASE_TYPE ∈ fam.takeWhile (fun t => decide (t ≠ 0))) ∧
      type1 &&& VTK_PARSE_INDIRECT = type2 &&& VTK_PARSE_INDIRECT := by
  induction fams with
  | nil => simp [Wrap.numericMatch]
  | cons fam rest ih =>
    unfold Wrap.numericMatch
    dsimp only
    split
    · rename_i h
      rw [scanHit_ne_zero_iff, scanHit_ne_zero_iff] at h
      simp only [ne_eq, not_true_eq_false, false_or] at h
      have : (if scanHit (type1 &&& VTK_PARSE_BASE_TYPE) fam 0 0 <
          scanHit (type2 &&& VTK_PARSE_BASE_TYPE) fam 0 0 then some 1 else some 2).isSome
          = true := by split <;> rfl
      rw [this]
      simp only [true_iff]
      exact ⟨⟨fam, List.mem_cons_self _ _, h.1, h.2.1⟩, h.2.2⟩
    · rename_i h
      rw [scanHit_ne_zero_iff, scanHit_ne_zero_iff] at h
      simp only [ne_eq, not_true_eq_false, false_or] at h
      rw [ih]
      constructor
      · rintro ⟨⟨fam', hm, h1, h2⟩, hi⟩
        exact ⟨⟨fam', List.mem_cons_of_mem _ hm, h1, h2⟩, hi⟩
      · rintro ⟨⟨fam', hm, h1, h2⟩, hi⟩
        rcases List.mem_cons.mp hm with rfl | hm
        · exact absurd ⟨h1, h2, hi⟩ h
        · exact ⟨⟨fam', hm, h1, h2⟩, hi⟩

theorem Wrap.numericMatch_some (type1 type2 : Nat) (fams : List (List Nat)) (r : Nat)
    (h : Wrap.numericMatch type1 type2 fams = some r) : r = 1 ∨ r = 2 := by
  induction fams with
  | nil => simp [Wrap.numericMatch] at h
  | cons fam rest ih =>
    unfold Wrap.numericMatch at h
    dsimp only at h
    split at h
    · split at h
      · exact Or.inl (Option.some.inj h).symm
      · exact Or.inr (Option.some.inj h).symm
    · exact ih h

theorem numericTypes_body :
    numericTypes.map (fun fam => fam.takeWhile (fun t => decide (t ≠ 0))) =
      [[VTK_PARSE_UNSIGNED_CHAR, VTK_PARSE_SIGNED_CHAR],
       [VTK_PARSE_UNSIGNED_SHORT, VTK_PARSE_SHORT],
       [VTK_PARSE_UNKNOWN, VTK_PARSE_UNSIGNED_INT, VTK_PARSE_INT],
       [VTK_PARSE_UNSIGNED_LONG, VTK_PARSE_UNSIGNED_LONG_LONG, VTK_PARSE_LONG,
        VTK_PARSE_LONG_LONG]] := by decide

theorem stringTypes_body :
    stringTypes.takeWhile (fun t => decide (t ≠ 0)) =
      [VTK_PARSE_CHAR_PTR, VTK_PARSE_STRING_REF, VTK_PARSE_STRING] := by decide


theorem unq_eq_of_base_indirect (t1 t2 : Nat)
    (hb : t1 &&& VTK_PARSE_BASE_TYPE = t2 &&& VTK_PARSE_BASE_TYPE)
    (hi : t1 &&& VTK_PARSE_INDIRECT = t2 &&& VTK_PARSE_INDIRECT) :
    t1 &&& VTK_PARSE_UNQUALIFIED_TYPE = t2 &&& VTK_PARSE_UNQUALIFIED_TYPE := by
  rw [land_base, land_base] at hb
  rw [land_indirect, land_indirect] at hi
  rw [land_unq, land_unq]
  omega

theorem Wrap.CheckMatch_same (t1 t2 : Nat) (c1 c2 : String)
    (h : t1 &&& VTK_PARSE_UNQUALIFIED_TYPE = t2 &&& VTK_PARSE_UNQUALIFIED_TYPE) :
    Wrap.CheckMatch t1 t2 c1 c2 =
      if t1 &&& VTK_PARSE_BASE_TYPE = VTK_PARSE_OBJECT then (if c1 = c2 then 1 else 0)
      else 1 := by
  unfold Wrap.CheckMatch
  rw [if_pos h]
  split
  · simp only [streq, decide_eq_true_eq]
  · rfl

theorem Wrap.CheckMatch_differ (t1 t2 : Nat) (c1 c2 : String)
    (hne : t1 &&& VTK_PARSE_UNQUALIFIED_TYPE ≠ t2 &&& VTK_PARSE_UNQUALIFIED_TYPE)
    (hstr : ¬ (t1 &&& VTK_PARSE_UNQUALIFIED_TYPE ∈
          [VTK_PARSE_CHAR_PTR, VTK_PARSE_STRING_REF, VTK_PARSE_STRING] ∧
        t2 &&& VTK_PARSE_UNQUALIFIED_TYPE ∈
          [VTK_PARSE_CHAR_PTR, VTK_PARSE_STRING_REF, VTK_PARSE_STRING])) :
    Wrap.CheckMatch t1 t2 c1 c2 ≠ 0 ↔
      (∃ fam ∈ [[VTK_PARSE_UNSIGNED_CHAR, VTK_PARSE_SIGNED_CHAR],
                [VTK_PARSE_UNSIGNED_SHORT, VTK_PARSE_SHORT],
                [VTK_PARSE_UNKNOWN, VTK_PARSE_UNSIGNED_INT, VTK_PARSE_INT],
                [VTK_PARSE_UNSIGNED_LONG, VTK_PARSE_UNSIGNED_LONG_LONG, VTK_PARSE_LONG,
                 VTK_PARSE_LONG_LONG]],
          t1 &&& VTK_PARSE_BASE_TYPE ∈ fam ∧ t2 &&& VTK_PARSE_BASE_TYPE ∈ fam) ∧
        t1 &&& VTK_PARSE_INDIRECT = t2 &&& VTK_PARSE_INDIRECT := by
  have hfam := Wrap.numericMatch_isSome t1 t2 numericTypes
  have hex : (∃ fam ∈ numericTypes,
        t1 &&& VTK_PARSE_BASE_TYPE ∈ fam.takeWhile (fun t => decide (t ≠ 0)) ∧
        t2 &&& VTK_PARSE_BASE_TYPE ∈ fam.takeWhile (fun t => decide (t ≠ 0))) ↔
      (∃ fam ∈ numericTypes.map (fun fam => fam.takeWhile (fun t => decide (t ≠ 0))),
        t1 &&& VTK_PARSE_BASE_TYPE ∈ fam ∧ t2 &&& VTK_PARSE_BASE_TYPE ∈ fam) := by
    simp only [List.mem_map, exists_exists_and_eq_and]
  rw [hex, numericTypes_body] at hfam
  rw [← hfam]
  unfold Wrap.CheckMatch
  rw [if_neg hne]
  cases hm : Wrap.numericMatch t1 t2 numericTypes with
  | some r =>
    have := Wrap.numericMatch_some t1 t2 numericTypes r hm
    simp only [Option.isSome_some, iff_true]
    omega
  | none =>
    simp only [Option.isSome_none, Bool.false_eq_true, iff_false, not_not]
    rw [if_neg]
    rw [scanHit_ne_zero_iff, scanHit_ne_zero_iff, stringTypes_body]
    simpa using hstr


/-! ## `DoneOne` -/

theorem foldl_flag (p : Nat → Prop) [DecidablePred p] (l : List Nat) (b : Bool) :
    l.foldl (fun (m : Bool) j => if p j then false else m) b = true ↔
      b = true ∧ ∀ j ∈ l, ¬ p j := by
  induction l generalizing b with
  | nil => simp
  | cons i rest ih =>
    rw [List.foldl_cons, ih]
    by_cases hp : p i
    · simp [hp]
    · simp [hp]

theorem sameName_iff (a b : Option String) :
    sameName a b = true ↔ ∃ nm, a = some nm ∧ b = some nm := by
  cases a with
  | none => simp [sameName]
  | some x =>
    cases b with
    | none => simp [sameName]
    | some y => simp [sameName, streq, eq_comm]

theorem Wrap.matchFlag_iff (f fi : FunctionInfo) :
    Wrap.matchFlag f fi = true ↔
      (∀ j, j < fi.NumberOfArguments →
        Wrap.CheckMatch (f.ArgTypes j) (fi.ArgTypes j) (f.ArgClasses j) (fi.ArgClasses j) ≠ 0) ∧
      Wrap.CheckMatch f.ReturnType fi.ReturnType f.ReturnClass fi.ReturnClass ≠ 0 := by
  unfold Wrap.matchFlag
  dsimp only
  split
  · rename_i h
    simp [h]
  · rename_i h
    rw [foldl_flag (fun j => Wrap.CheckMatch (f.ArgTypes j) (fi.ArgTypes j) (f.ArgClasses j)
      (fi.ArgClasses j) = 0)]
    simp only [true_and, List.mem_range, ne_eq, h, not_false_eq_true, and_true]

theorem Wrap.DoneOneLoop_spec (f : FunctionInfo) (l : List FunctionInfo) :
    ((∃ fi ∈ l, Duplicate Wrap.CheckMatch f fi) → Wrap.DoneOneLoop f l = 1) ∧
    ((¬ ∃ fi ∈ l, Duplicate Wrap.CheckMatch f fi) → Wrap.DoneOneLoop f l = 0) := by
  induction l with
  | nil => simp [Wrap.DoneOneLoop]
  | cons fi rest ih =>
    have hd : Duplicate Wrap.CheckMatch f fi ↔
        (sameName fi.Name f.Name = true ∧ fi.NumberOfArguments = f.NumberOfArguments) ∧
          Wrap.matchFlag f fi = true := by
      rw [Wrap.matchFlag_iff, sameName_iff]
      unfold Duplicate
      tauto
    unfold Wrap.DoneOneLoop
    by_cases h1 : sameName fi.Name f.Name = true ∧ fi.NumberOfArguments = f.NumberOfArguments
    · rw [if_pos h1]
      by_cases h2 : Wrap.matchFlag f fi = true
      · rw [if_pos h2]
        exact ⟨fun _ => rfl, fun hn => absurd ⟨fi, List.mem_cons_self _ _, hd.mpr ⟨h1, h2⟩⟩ hn⟩
      · rw [if_neg h2]
        have hnd : ¬ Duplicate Wrap.CheckMatch f fi := fun h => h2 (hd.mp h).2
        constructor
        · rintro ⟨fj, hm, hj⟩
          rcases List.mem_cons.mp hm with rfl | hm
          · exact absurd hj hnd
          · exact ih.1 ⟨fj, hm, hj⟩
        · intro hn
          exact ih.2 (fun ⟨fj, hm, hj⟩ => hn ⟨fj, List.mem_cons_of_mem _ hm, hj⟩)
    · rw [if_neg h1]
      have hnd : ¬ Duplicate Wrap.CheckMatch f fi := fun h => h1 (hd.mp h).1
      constructor
      · rintro ⟨fj, hm, hj⟩
        rcases List.mem_cons.mp hm with rfl | hm
        · exact absurd hj hnd
        · exact ih.1 ⟨fj, hm, hj⟩
      · intro hn
        exact ih.2 (fun ⟨fj, hm, hj⟩ => hn ⟨fj, List.mem_cons_of_mem _ hm, hj⟩)


/-! ## `outputFunction` -/

theorem Wrap.shim_outputFunction_eq_core (env : Env) (data : ClassInfo) :
    Wrap.outputFunction env data =
      Core.outputFunction (Wrap.checkFunctionSignature env data) Wrap.DoneOne
        (Wrap.emitText data) data.Name := rfl

theorem Parse.managed_outputFunction_eq_core (env : Env) (data : ClassInfo) :
    Parse.outputFunction env data =
      Core.outputFunction (Parse.checkFunctionSignature env data) Parse.DoneOne
        (Parse.emitText data) data.Name := rfl

theorem arrayStore_length (l : List FunctionInfo) (f : FunctionInfo) :
    arrayStore l l.length f = l ++ [f] := by
  unfold arrayStore
  rw [List.take_length, List.drop_eq_nil_of_le (Nat.le_succ _)]

theorem string_join_append (l : List String) (x : String) :
    String.join (l ++ [x]) = String.join l ++ x := by
  unfold String.join
  rw [List.foldl_append]
  rfl

namespace Core

theorem outputFunction_skip_or_emit (check : FunctionInfo → Int × FunctionInfo)
    (done : State → FunctionInfo → Int) (emit : FunctionInfo → Nat → String)
    (cn : String) (s : State) (f : FunctionInfo) :
    outputFunction check done emit cn s f = s ∨
    outputFunction check done emit cn s f =
      { numberOfWrappedFunctions := s.numberOfWrappedFunctions + 1
        wrappedFunctions :=
          arrayStore s.wrappedFunctions s.numberOfWrappedFunctions (check f).2
        out := s.out ++ emit (check f).2 s.numberOfWrappedFunctions } := by
  unfold outputFunction
  dsimp only
  split
  · split
    · exact Or.inr rfl
    · exact Or.inl rfl
  · exact Or.inl rfl

theorem outputFunction_numbered (check : FunctionInfo → Int × FunctionInfo)
    (done : State → FunctionInfo → Int) (emit : FunctionInfo → Nat → String)
    (cn : String) (s : State) (f : FunctionInfo) (h : Numbered emit s) :
    Numbered emit (outputFunction check done emit cn s f) := by
  rcases outputFunction_skip_or_emit check done emit cn s f with h1 | h1
  · rw [h1]; exact h
  · rw [h1]
    obtain ⟨hn, ho⟩ := h
    unfold Numbered
    dsimp only
    rw [hn, arrayStore_length]
    refine ⟨by simp, ?_⟩
    rw [List.enum_append, List.map_append, ho]
    simp only [List.enumFrom_singleton, List.map_cons, List.map_nil]
    rw [string_join_append]

theorem foldl_numbered (check : FunctionInfo → Int × FunctionInfo)
    (done : State → FunctionInfo → Int) (emit : FunctionInfo → Nat → String)
    (cn : String) (fs : List FunctionInfo) (s : State) (h : Numbered emit s) :
    Numbered emit (fs.foldl (outputFunction check done emit cn) s) := by
  induction fs generalizing s with
  | nil => exact h
  | cons f rest ih => exact ih _ (outputFunction_numbered check done emit cn s f h)

theorem foldl_sublist (check : FunctionInfo → Int × FunctionInfo)
    (done : State → FunctionInfo → Int) (emit : FunctionInfo → Nat → String)
    (cn : String) (fs : List FunctionInfo) (s : State) (h : Numbered emit s) :
    ∃ added, (fs.foldl (outputFunction check done emit cn) s).wrappedFunctions =
        s.wrappedFunctions ++ added ∧
      added.Sublist (fs.map (fun f => (check f).2)) := by
  induction fs generalizing s with
  | nil => exact ⟨[], by simp, List.Sublist.refl _⟩
  | cons f rest ih =>
    obtain ⟨added, h1, h2⟩ := ih _ (outputFunction_numbered check done emit cn s f h)
    rw [List.foldl_cons, h1]
    rcases outputFunction_skip_or_emit check done emit cn s f with h3 | h3
    · rw [h3]
      exact ⟨added, rfl, List.Sublist.cons _ h2⟩
    · rw [h3]
      dsimp only
      rw [h.1, arrayStore_length]
      refine ⟨(check f).2 :: added, by simp, ?_⟩
      rw [List.map_cons]
      exact List.Sublist.cons₂ _ h2

end Core

theorem numbered_init (emit : FunctionInfo → Nat → String) : Numbered emit State.init := by
  unfold Numbered State.init
  exact ⟨rfl, rfl⟩


/-! ## Eligibility: `checkFunctionSignature` -/

namespace Core

theorem check_early (icw : Env → String → Int) (cnt : FunctionInfo → Nat → Int)
    (env : Env) (data : ClassInfo) (f : FunctionInfo)
    (h : f.IsOperator = true ∨ f.ArrayFailure = true ∨ f.Template = true ∨
      f.IsExcluded = true ∨ f.IsDeleted = true ∨ f.IsPublic = false ∨ f.Name = none ∨
      f.Name = some "NewInstance" ∨ f.Name = some "SafeDownCast") :
    (checkFunctionSignature icw cnt env data f).1 = 0 := by
  unfold checkFunctionSignature
  dsimp only
  split
  · rfl
  rename_i h1
  split
  · rfl
  rename_i h2
  split
  · rfl
  rename_i h3
  exfalso
  simp only [Bool.or_eq_true, Bool.not_eq_true', not_or, Bool.not_eq_true,
    Option.isNone_iff_eq_none] at h1
  obtain ⟨⟨⟨⟨⟨⟨a1, a2⟩, a3⟩, a4⟩, a5⟩, a6⟩, a7⟩ := h1
  rcases h with h | h | h | h | h | h | h | h | h
  · rw [h] at a1; exact Bool.noConfusion a1
  · rw [h] at a2; exact Bool.noConfusion a2
  · rw [h] at a3; exact Bool.noConfusion a3
  · rw [h] at a4; exact Bool.noConfusion a4
  · rw [h] at a5; exact Bool.noConfusion a5
  · rw [h] at a6; exact a6 rfl
  · exact a7 h
  · rw [h] at h2; exact h2 (by decide)
  · rw [h] at h3; exact h3 (by decide)

theorem accepted_flags (icw : Env → String → Int) (cnt : FunctionInfo → Nat → Int)
    (env : Env) (data : ClassInfo) (f : FunctionInfo)
    (h : (checkFunctionSignature icw cnt env data f).1 ≠ 0) :
    f.IsExcluded = false ∧ f.IsPublic = true ∧ ∃ nm, f.Name = some nm := by
  have h1 : f.IsExcluded ≠ true := fun hx =>
    h (check_early icw cnt env data f (by tauto))
  have h2 : f.IsPublic ≠ false := fun hx =>
    h (check_early icw cnt env data f (by tauto))
  have h3 : f.Name ≠ none := fun hx =>
    h (check_early icw cnt env data f (by tauto))
  refine ⟨by simpa using h1, by simpa using h2, ?_⟩
  cases hn : f.Name with
  | none => exact absurd hn h3
  | some nm => exact ⟨nm, rfl⟩

end Core


/-! ## The registry of wrapped functions -/

namespace Core

theorem outputFunction_eligible (check : FunctionInfo → Int × FunctionInfo)
    (done : State → FunctionInfo → Int) (emit : FunctionInfo → Nat → String)
    (cn : String) (s : State) (f : FunctionInfo)
    (hinv : s.numberOfWrappedFunctions = s.wrappedFunctions.length)
    (h1 : (check f).2.IsExcluded = false) (h2 : (check f).2.IsPublic = true)
    (h3 : (check f).1 ≠ 0) (h4 : cn ≠ nameStr (check f).2)
    (h5 : cn ≠ (nameStr (check f).2).drop 1) :
    (done s (check f).2 ≠ 0 → outputFunction check done emit cn s f = s) ∧
    (done s (check f).2 = 0 → outputFunction check done emit cn s f =
      { numberOfWrappedFunctions := s.numberOfWrappedFunctions + 1
        wrappedFunctions := s.wrappedFunctions ++ [(check f).2]
        out := s.out ++ emit (check f).2 s.numberOfWrappedFunctions }) := by
  have hg : (!(check f).2.IsExcluded && (check f).2.IsPublic && decide ((check f).1 ≠ 0) &&
      !streq cn (nameStr (check f).2) && !streq cn ((nameStr (check f).2).drop 1)) = true := by
    simp only [h1, h2, h3, streq, h4, h5, ne_eq, not_false_eq_true, decide_True,
      decide_False, Bool.not_false, Bool.and_self]
  unfold outputFunction
  dsimp only
  rw [if_pos hg]
  constructor
  · intro hd
    rw [if_neg hd]
  · intro hd
    rw [if_pos hd, hinv, arrayStore_length]

theorem outputFunction_prefix (check : FunctionInfo → Int × FunctionInfo)
    (done : State → FunctionInfo → Int) (emit : FunctionInfo → Nat → String)
    (cn : String) (s : State) (f : FunctionInfo)
    (hinv : s.numberOfWrappedFunctions = s.wrappedFunctions.length) (i : Nat)
    (hi : i < s.numberOfWrappedFunctions) :
    (outputFunction check done emit cn s f).wrappedFunctions[i]? = s.wrappedFunctions[i]? := by
  rcases outputFunction_skip_or_emit check done emit cn s f with h | h
  · rw [h]
  · rw [h]
    dsimp only
    rw [hinv, arrayStore_length, List.getElem?_append_left (by omega)]

end Core

theorem Generator.outputFunction_eq_core (g : Generator) (env : Env) (data : ClassInfo) :
    g.outputFunction env data =
      Core.outputFunction (g.checkFunctionSignature env data) g.DoneOne (g.emitText data)
        data.Name := by
  cases g <;> rfl

theorem Generator.outputFunctions_eq_foldl (g : Generator) (env : Env) (data : ClassInfo)
    (s : State) (fs : List FunctionInfo) :
    g.outputFunctions env data s fs = fs.foldl (g.outputFunction env data) s := by
  cases g <;> rfl

theorem Generator.checkFunctionSignature_eq_core (g : Generator) :
    ∃ icw cnt, g.checkFunctionSignature = Core.checkFunctionSignature icw cnt := by
  cases g
  · exact ⟨_, _, Wrap.shim_check_eq_core⟩
  · exact ⟨_, _, Parse.managed_check_eq_core⟩

theorem Generator.check_sameSig (g : Generator) (env : Env) (data : ClassInfo)
    (f : FunctionInfo) : SameSig f (g.checkFunctionSignature env data f).2 := by
  obtain ⟨icw, cnt, h⟩ := g.checkFunctionSignature_eq_core
  rw [h]
  exact Core.checkFunctionSignature_sameSig icw cnt env data f

theorem Generator.check_ne_zero_flags (g : Generator) (env : Env) (data : ClassInfo)
    (f : FunctionInfo) (h : (g.checkFunctionSignature env data f).1 ≠ 0) :
    f.IsExcluded = false ∧ f.IsPublic = true ∧ ∃ nm, f.Name = some nm := by
  obtain ⟨icw, cnt, hc⟩ := g.checkFunctionSignature_eq_core
  rw [hc] at h
  exact Core.accepted_flags icw cnt env data f h

theorem Generator.run_numbered (g : Generator) (env : Env) (data : ClassInfo)
    (fs : List FunctionInfo) :
    Numbered (g.emitText data) (g.outputFunctions env data State.init fs) := by
  rw [g.outputFunctions_eq_foldl, g.outputFunction_eq_core]
  exact Core.foldl_numbered _ _ _ _ fs State.init (numbered_init _)

theorem Generator.CheckMatch_eq_wrap (g : Generator) :
    g.CheckMatch = Wrap.CheckMatch := by
  cases g
  · rfl
  · funext a b c d
    exact Parse.CheckMatch_eq a b c d

theorem Generator.DoneOne_eq_wrap (g : Generator) : g.DoneOne = Wrap.DoneOne := by
  cases g
  · rfl
  · funext s f
    exact Parse.DoneOne_eq s f

theorem sameSig_nameStr {f g : FunctionInfo} (h : SameSig f g) : nameStr g = nameStr f := by
  unfold nameStr
  rw [h.1]


/-! ## Overloads whose argument types lie in different families -/

theorem base_of_unq (t u : Nat) (h : t &&& VTK_PARSE_UNQUALIFIED_TYPE = u) :
    t &&& VTK_PARSE_BASE_TYPE = u % 256 := by
  rw [land_unq] at h
  rw [land_base]
  omega

theorem indirect_of_unq (t u : Nat) (h : t &&& VTK_PARSE_UNQUALIFIED_TYPE = u) :
    t &&& VTK_PARSE_INDIRECT = 256 * (u / 256 % 256) := by
  rw [land_unq] at h
  rw [land_indirect]
  omega

theorem Wrap.CheckMatch_long_int (t1 t2 : Nat) (c1 c2 : String)
    (h1 : t1 &&& VTK_PARSE_UNQUALIFIED_TYPE = VTK_PARSE_LONG)
    (h2 : t2 &&& VTK_PARSE_UNQUALIFIED_TYPE = VTK_PARSE_INT) :
    Wrap.CheckMatch t1 t2 c1 c2 = 0 := by
  have hne : t1 &&& VTK_PARSE_UNQUALIFIED_TYPE ≠ t2 &&& VTK_PARSE_UNQUALIFIED_TYPE := by
    rw [h1, h2]; decide
  have hstr : ¬ (t1 &&& VTK_PARSE_UNQUALIFIED_TYPE ∈
          [VTK_PARSE_CHAR_PTR, VTK_PARSE_STRING_REF, VTK_PARSE_STRING] ∧
        t2 &&& VTK_PARSE_UNQUALIFIED_TYPE ∈
          [VTK_PARSE_CHAR_PTR, VTK_PARSE_STRING_REF, VTK_PARSE_STRING]) := by
    rw [h1, h2]; decide
  by_contra hc
  have := (Wrap.CheckMatch_differ t1 t2 c1 c2 hne hstr).mp hc
  rw [base_of_unq t1 _ h1, base_of_unq t2 _ h2] at this
  exact absurd this.1 (by decide)

namespace Core

theorem outputFunction_other_name (check : FunctionInfo → Int × FunctionInfo)
    (done : State → FunctionInfo → Int) (emit : FunctionInfo → Nat → String)
    (cn : String) (s : State) (f : FunctionInfo) (nm : String)
    (hinv : s.numberOfWrappedFunctions = s.wrappedFunctions.length)
    (hname : (check f).2.Name ≠ some nm) :
    registeredAs nm (outputFunction check done emit cn s f) = registeredAs nm s := by
  rcases outputFunction_skip_or_emit check done emit cn s f with h | h
  · rw [h]
  · rw [h]
    unfold registeredAs
    dsimp only
    rw [hinv, arrayStore_length, List.filter_append]
    simp [hname]

theorem foldl_other_name (check : FunctionInfo → Int × FunctionInfo)
    (done : State → FunctionInfo → Int) (emit : FunctionInfo → Nat → String)
    (cn : String) (fs : List FunctionInfo) (s : State) (nm : String)
    (hinv : Numbered emit s)
    (hname : ∀ f ∈ fs, (check f).2.Name ≠ some nm) :
    registeredAs nm (fs.foldl (outputFunction check done emit cn) s) = registeredAs nm s := by
  induction fs generalizing s with
  | nil => rfl
  | cons f rest ih =>
    rw [List.foldl_cons,
      ih _ (outputFunction_numbered check done emit cn s f hinv)
        (fun x hx => hname x (List.mem_cons_of_mem _ hx)),
      outputFunction_other_name check done emit cn s f nm hinv.1
        (hname f (List.mem_cons_self _ _))]

end Core

theorem Wrap.DoneOne_eq_zero_of_no_duplicate (s : State) (f : FunctionInfo)
    (hinv : s.numberOfWrappedFunctions = s.wrappedFunctions.length)
    (h : ∀ fi ∈ s.wrappedFunctions, ¬ Duplicate Wrap.CheckMatch f fi) :
    Wrap.DoneOne s f = 0 := by
  unfold Wrap.DoneOne
  rw [hinv, List.take_length]
  exact (Wrap.DoneOneLoop_spec f _).2 (fun ⟨fi, hm, hd⟩ => h fi hm hd)


theorem Generator.step_registers (g : Generator) (env : Env) (data : ClassInfo) (s : State)
    (f : FunctionInfo) (nm : String) (hinv : Numbered (g.emitText data) s)
    (hn : f.Name = some nm) (he : (g.checkFunctionSignature env data f).1 ≠ 0)
    (hc : data.Name ≠ nm) (hc1 : data.Name ≠ nm.drop 1)
    (hnd : ∀ fi ∈ registeredAs nm s,
      ¬ Duplicate Wrap.CheckMatch (g.checkFunctionSignature env data f).2 fi) :
    registeredAs nm (g.outputFunction env data s f) =
      registeredAs nm s ++ [(g.checkFunctionSignature env data f).2] := by
  have hsig := g.check_sameSig env data f
  have hflags := g.check_ne_zero_flags env data f he
  have hname : (g.checkFunctionSignature env data f).2.Name = some nm := by rw [hsig.1, hn]
  have hstr : nameStr (g.checkFunctionSignature env data f).2 = nm := by
    unfold nameStr; rw [hname]; rfl
  have hdone : g.DoneOne s (g.checkFunctionSignature env data f).2 = 0 := by
    rw [g.DoneOne_eq_wrap]
    apply Wrap.DoneOne_eq_zero_of_no_duplicate s _ hinv.1
    intro fi hm hd
    apply hnd fi _ hd
    unfold registeredAs
    rw [List.mem_filter]
    refine ⟨hm, ?_⟩
    obtain ⟨⟨nm1, hfi, hf⟩, _⟩ := hd
    rw [hname] at hf
    rw [hfi, hf]
    exact decide_eq_true rfl
  have hstep := (Core.outputFunction_eligible (g.checkFunctionSignature env data) g.DoneOne
    (g.emitText data) data.Name s f hinv.1
    (by rw [hsig.2.2.2.2.2.2.2.2.2.2.2.1]; exact hflags.1)
    (by rw [hsig.2.2.2.2.2.2.2.2.2.2.2.2.2]; exact hflags.2.1)
    he (by rw [hstr]; exact hc) (by rw [hstr]; exact hc1)).2 hdone
  rw [g.outputFunction_eq_core, hstep]
  unfold registeredAs
  dsimp only
  rw [List.filter_append]
  simp [hname]

theorem Generator.run_other_names (g : Generator) (env : Env) (data : ClassInfo) (s : State)
    (fs : List FunctionInfo) (nm : String) (hinv : Numbered (g.emitText data) s)
    (hname : ∀ f ∈ fs, f.Name ≠ some nm) :
    registeredAs nm (g.outputFunctions env data s fs) = registeredAs nm s ∧
      Numbered (g.emitText data) (g.outputFunctions env data s fs) := by
  rw [g.outputFunctions_eq_foldl, g.outputFunction_eq_core]
  refine ⟨Core.foldl_other_name _ _ _ _ fs s nm hinv ?_, Core.foldl_numbered _ _ _ _ fs s hinv⟩
  intro f hf
  rw [(g.check_sameSig env data f).1]
  exact hname f hf

theorem Generator.outputFunctions_append (g : Generator) (env : Env) (data : ClassInfo)
    (s : State) (l1 l2 : List FunctionInfo) :
    g.outputFunctions env data s (l1 ++ l2) =
      g.outputFunctions env data (g.outputFunctions env data s l1) l2 := by
  simp only [g.outputFunctions_eq_foldl, List.foldl_append]

theorem Generator.outputFunctions_cons (g : Generator) (env : Env) (data : ClassInfo)
    (s : State) (f : FunctionInfo) (l : List FunctionInfo) :
    g.outputFunctions env data s (f :: l) =
      g.outputFunctions env data (g.outputFunction env data s f) l := by
  simp only [g.outputFunctions_eq_foldl, List.foldl_cons]

theorem Generator.step_numbered (g : Generator) (env : Env) (data : ClassInfo) (s : State)
    (f : FunctionInfo) (h : Numbered (g.emitText data) s) :
    Numbered (g.emitText data) (g.outputFunction env data s f) := by
  rw [g.outputFunction_eq_core]
  exact Core.outputFunction_numbered _ _ _ _ s f h


/-! ## Rejections of the argument loop and the hint switch -/

namespace Core

theorem foldl_checkArg_bad (icw : Env → String → Int) (env : Env) (data : ClassInfo)
    (l : List Nat) (st : Int × FunctionInfo) (i : Nat) (hi : i ∈ l)
    (hbad : ∀ q w, argBad (st.2.ArgTypes i &&& VTK_PARSE_UNQUALIFIED_TYPE) q w = true) :
    (l.foldl (checkArg icw env data) st).1 = 0 := by
  induction l generalizing st with
  | nil => exact absurd hi (List.not_mem_nil _)
  | cons j rest ih =>
    rw [List.foldl_cons]
    rcases List.mem_cons.mp hi with h | h
    · subst h
      apply foldl_checkArg_zero
      rw [checkArg_fst, hbad, veto_true]
    · apply ih _ h
      rw [(checkArg_sameSig icw env data st j).2.2.1]
      exact hbad

theorem checkReturn_zero (icw : Env → String → Int) (env : Env) (data : ClassInfo) (r : Nat)
    (st : Int × FunctionInfo) (h : st.1 = 0) : (checkReturn icw env data r st).1 = 0 := by
  rw [checkReturn_fst, h, veto_zero]

/-- A rejection by the first argument loop stands unless the return type is one of the
pointer types of the hint switch. -/
theorem check_zero_of_bad_arg (icw : Env → String → Int) (cnt : FunctionInfo → Nat → Int)
    (env : Env) (data : ClassInfo) (f : FunctionInfo) (i : Nat)
    (hi : i < f.NumberOfArguments)
    (hbad : ∀ q w, argBad (f.ArgTypes i &&& VTK_PARSE_UNQUALIFIED_TYPE) q w = true)
    (hcb : ¬ (f.NumberOfArguments = 2 ∧ f.ArgTypes 0 = VTK_PARSE_FUNCTION ∧
      f.ArgTypes 1 = VTK_PARSE_VOID_PTR ∧
      f.ReturnType &&& VTK_PARSE_UNQUALIFIED_TYPE = VTK_PARSE_VOID))
    (hr : ¬ hintCase (f.ReturnType &&& VTK_PARSE_UNQUALIFIED_TYPE)) :
    (checkFunctionSignature icw cnt env data f).1 = 0 := by
  unfold checkFunctionSignature
  dsimp only
  split
  · rfl
  split
  · rfl
  split
  · rfl
  apply tail_zero
  unfold hintSwitch
  unfold hintCase at hr
  rw [if_neg hr]
  have h1 := foldl_checkArg_bad icw env data (List.range f.NumberOfArguments) (1, f) i
    (List.mem_range.mpr hi) hbad
  rw [checkReturn_zero icw env data _ _ h1]
  exact foldl_checkArgCount_zero _ _ _

end Core

theorem argBad_unsigned_pointer (t : Nat) (q : Option String) (w : Int)
    (h : t = VTK_PARSE_UNSIGNED_CHAR_PTR ∨ t = VTK_PARSE_UNSIGNED_INT_PTR ∨
      t = VTK_PARSE_UNSIGNED_SHORT_PTR ∨ t = VTK_PARSE_UNSIGNED_LONG_PTR ∨
      t = VTK_PARSE_UNSIGNED_LONG_LONG_PTR) : argBad t q w = true := by
  unfold argBad
  rw [retBad_of t q w (by tauto)]
  rfl

/-- The rejection of raw unsigned pointer arguments works as long as the return type is
not one of the pointer types of the hint switch.  Both generators. -/
theorem unsigned_pointer_argument_rejected_unless_hinted_return (g : Generator) (env : Env)
    (data : ClassInfo) (f : FunctionInfo) (i : Nat) (hi : i < f.NumberOfArguments)
    (ht : f.ArgTypes i &&& VTK_PARSE_UNQUALIFIED_TYPE = VTK_PARSE_UNSIGNED_CHAR_PTR ∨
      f.ArgTypes i &&& VTK_PARSE_UNQUALIFIED_TYPE = VTK_PARSE_UNSIGNED_INT_PTR ∨
      f.ArgTypes i &&& VTK_PARSE_UNQUALIFIED_TYPE = VTK_PARSE_UNSIGNED_SHORT_PTR ∨
      f.ArgTypes i &&& VTK_PARSE_UNQUALIFIED_TYPE = VTK_PARSE_UNSIGNED_LONG_PTR ∨
      f.ArgTypes i &&& VTK_PARSE_UNQUALIFIED_TYPE = VTK_PARSE_UNSIGNED_LONG_LONG_PTR)
    (hr : ¬ hintCase (f.ReturnType &&& VTK_PARSE_UNQUALIFIED_TYPE)) :
    (g.checkFunctionSignature env data f).1 = 0 := by
  obtain ⟨icw, cnt, hg⟩ := g.checkFunctionSignature_eq_core
  rw [hg]
  apply Core.check_zero_of_bad_arg icw cnt env data f i hi
    (fun q w => argBad_unsigned_pointer _ q w ht) _ hr
  rintro ⟨hn, h0, h1, _⟩
  have hi2 : i = 0 ∨ i = 1 := by omega
  rcases hi2 with rfl | rfl
  · rw [h0] at ht
    revert ht
    decide
  · rw [h1] at ht
    revert ht
    decide

/-! ## The callback pattern and the rules on the method name -/

namespace Core

theorem check_callback (icw : Env → String → Int) (cnt : FunctionInfo → Nat → Int)
    (env : Env) (data : ClassInfo) (f : FunctionInfo)
    (h : ¬ (f.IsOperator = true ∨ f.ArrayFailure = true ∨ f.Template = true ∨
      f.IsExcluded = true ∨ f.IsDeleted = true ∨ f.IsPublic = false ∨ f.Name = none ∨
      f.Name = some "NewInstance" ∨ f.Name = some "SafeDownCast"))
    (hcb : CallbackPattern f) :
    checkFunctionSignature icw cnt env data f = (1, f) := by
  unfold checkFunctionSignature
  dsimp only
  split
  · rename_i h1
    exfalso
    apply h
    simp only [Bool.or_eq_true, Bool.not_eq_true', Option.isNone_iff_eq_none] at h1
    tauto
  split
  · rename_i h2
    exfalso
    apply h
    cases hn : f.Name with
    | none => tauto
    | some nm =>
      rw [hn] at h2
      simp only [nameIs, streq, decide_eq_true_eq] at h2
      rw [← h2]
      tauto
  split
  · rename_i h3
    exfalso
    apply h
    cases hn : f.Name with
    | none => tauto
    | some nm =>
      rw [hn] at h3
      simp only [nameIs, streq, decide_eq_true_eq] at h3
      rw [← h3]
      tauto
  unfold CallbackPattern at hcb
  rw [if_pos hcb]

theorem check_delete_new (icw : Env → String → Int) (cnt : FunctionInfo → Nat → Int)
    (env : Env) (data : ClassInfo) (f : FunctionInfo)
    (hn : f.Name = some "Delete" ∨ f.Name = some "New") (hcb : ¬ CallbackPattern f) :
    (checkFunctionSignature icw cnt env data f).1 = 0 := by
  unfold CallbackPattern at hcb
  unfold checkFunctionSignature
  dsimp only
  split
  · rfl
  split
  · rfl
  split
  · rfl
  have hs := (foldl_checkArg_sameSig icw env data (List.range f.NumberOfArguments)
    (1, f)).trans (checkReturn_sameSig icw env data
      (f.ReturnType &&& VTK_PARSE_UNQUALIFIED_TYPE) _)
  rw [hs.1]
  have hb : (nameIs f.Name "Delete" || nameIs f.Name "New") = true := by
    rcases hn with hn | hn <;> rw [hn] <;> decide
  rw [hb]
  rfl

theorem outputFunction_of_zero (check : FunctionInfo → Int × FunctionInfo)
    (done : State → FunctionInfo → Int) (emit : FunctionInfo → Nat → String)
    (cn : String) (s : State) (f : FunctionInfo) (h : (check f).1 = 0) :
    outputFunction check done emit cn s f = s := by
  unfold outputFunction
  dsimp only
  rw [if_neg]
  rw [h]
  simp only [ne_eq, not_true_eq_false, decide_False, Bool.and_false, Bool.false_and,
    Bool.false_eq_true, not_false_eq_true]

theorem outputFunction_own_name (check : FunctionInfo → Int × FunctionInfo)
    (done : State → FunctionInfo → Int) (emit : FunctionInfo → Nat → String)
    (cn : String) (s : State) (f : FunctionInfo)
    (h : nameStr (check f).2 = cn ∨ (nameStr (check f).2).drop 1 = cn) :
    outputFunction check done emit cn s f = s := by
  unfold outputFunction
  dsimp only
  rw [if_neg]
  rcases h with h | h
  · rw [h]
    simp only [streq, decide_True, Bool.not_true, Bool.and_false, Bool.false_and,
      Bool.false_eq_true, not_false_eq_true]
  · rw [h]
    simp only [streq, decide_True, Bool.not_true, Bool.and_false, Bool.false_and,
      Bool.false_eq_true, not_false_eq_true]

end Core

/-! ## The observer methods of `vtkObject` -/

theorem nameIs_iff (n : Option String) (lit : String) :
    nameIs n lit = true ↔ n = some lit := by
  cases n with
  | none => simp only [nameIs, Bool.false_eq_true, reduceCtorEq]
  | some x =>
    simp only [nameIs, streq, decide_eq_true_eq, Option.some.injEq]
    exact eq_comm

theorem observerOverride_iff (f : FunctionInfo) :
    observerOverride f = true ↔
      (f.Name = some "AddObserver" ∨ f.Name = some "GetCommand" ∨
        (f.Name = some "RemoveObserver" ∧ f.ArgTypes 0 ≠ VTK_PARSE_UNSIGNED_LONG) ∨
        ((f.Name = some "RemoveObservers" ∨ f.Name = some "HasObserver") ∧
          ((f.ArgTypes 0 ≠ VTK_PARSE_UNSIGNED_LONG ∧
              f.ArgTypes 0 ≠ (VTK_PARSE_CHAR_PTR ||| VTK_PARSE_CONST)) ∨
            1 < f.NumberOfArguments)) ∨
        (f.Name = some "RemoveAllObservers" ∧ 0 < f.NumberOfArguments)) := by
  simp only [observerOverride, Bool.or_eq_true, Bool.and_eq_true, nameIs_iff, bne_iff_ne,
    ne_eq, decide_eq_true_eq, gt_iff_lt]
  tauto

theorem observerOverride_sameSig {f g : FunctionInfo} (h : SameSig f g) :
    observerOverride g = observerOverride f := by
  unfold observerOverride
  rw [h.1, h.2.1, h.2.2.1]

theorem Core.check_observer (icw : Env → String → Int) (cnt : FunctionInfo → Nat → Int)
    (env : Env) (data : ClassInfo) (f : FunctionInfo) (hc : data.Name = "vtkObject")
    (hcb : ¬ CallbackPattern f) (ho : observerOverride f = true) :
    (Core.checkFunctionSignature icw cnt env data f).1 = 0 := by
  unfold CallbackPattern at hcb
  unfold Core.checkFunctionSignature
  dsimp only
  split
  · rfl
  split
  · rfl
  split
  · rfl
  have hs := (Core.foldl_checkArg_sameSig icw env data (List.range f.NumberOfArguments)
    (1, f)).trans (Core.checkReturn_sameSig icw env data
      (f.ReturnType &&& VTK_PARSE_UNQUALIFIED_TYPE) _)
  rw [hc, if_pos (by decide), observerOverride_sameSig hs, ho, veto_true, veto_zero]

theorem Wrap.shim_classText_observer (env : Env) (data : ClassInfo) (hc : data.Name = "vtkObject") :
    ∃ pre, Wrap.classText env data = pre ++ Wrap.observerExports := by
  unfold Wrap.classText Wrap.classExports
  rw [hc, if_pos (show streq "vtkObject" "vtkObject" = true by decide)]
  exact ⟨_, (String.append_assoc _ _ _).symm⟩

theorem Parse.managed_classText_observer (lib : String) (env : Env) (data : ClassInfo)
    (hc : data.Name = "vtkObject") :
    ∃ pre, Parse.classText lib env data =
      pre ++ Parse.observerText ++ "    \x7d\n" ++ "\x7d\n" := by
  unfold Parse.classText Parse.classTail
  rw [hc, if_pos (show streq "vtkObject" "vtkObject" = true by decide)]
  have key : ∀ x a b o c d : String,
      x ++ (a ++ b ++ o ++ c ++ d) = x ++ (a ++ b) ++ o ++ c ++ d := by
    intros
    simp only [String.append_assoc]
  exact ⟨_, key _ _ _ _ _ _⟩

/-! ## Rejections that depend on the class name or the element count of an argument -/

theorem Generator.check_eq_core (g : Generator) :
    g.checkFunctionSignature = Core.checkFunctionSignature g.isClassWrapped g.argCount := by
  cases g <;> rfl

namespace Core

theorem checkArg_snd_of_known (icw : Env → String → Int) (env : Env) (data : ClassInfo)
    (st : Int × FunctionInfo) (i : Nat)
    (h : (st.2.ArgTypes i &&& VTK_PARSE_UNQUALIFIED_TYPE) &&& VTK_PARSE_BASE_TYPE ≠
      VTK_PARSE_UNKNOWN) :
    (checkArg icw env data st i).2 = st.2 := by
  unfold checkArg
  dsimp only
  rw [if_neg h]

theorem checkArg_argClasses_ne (icw : Env → String → Int) (env : Env) (data : ClassInfo)
    (st : Int × FunctionInfo) (i j : Nat) (h : i ≠ j) :
    (checkArg icw env data st j).2.ArgClasses i = st.2.ArgClasses i := by
  unfold checkArg
  dsimp only
  split
  · split
    · exact Function.update_noteq h _ _
    · rfl
  · rfl

theorem foldl_checkArg_bad_at (icw : Env → String → Int) (env : Env) (data : ClassInfo)
    (l : List Nat) (st : Int × FunctionInfo) (i : Nat) (hi : i ∈ l)
    (hb : (st.2.ArgTypes i &&& VTK_PARSE_UNQUALIFIED_TYPE) &&& VTK_PARSE_BASE_TYPE ≠
      VTK_PARSE_UNKNOWN)
    (hbad : ∀ q, argBad (st.2.ArgTypes i &&& VTK_PARSE_UNQUALIFIED_TYPE) q
      (icw env (st.2.ArgClasses i)) = true) :
    (l.foldl (checkArg icw env data) st).1 = 0 := by
  induction l generalizing st with
  | nil => exact absurd hi (List.not_mem_nil _)
  | cons j rest ih =>
    rw [List.foldl_cons]
    by_cases hj : i = j
    · subst hj
      apply foldl_checkArg_zero
      rw [checkArg_fst, checkArg_snd_of_known icw env data st i hb, hbad, veto_true]
    · have hr : i ∈ rest := by
        rcases List.mem_cons.mp hi with h | h
        · exact absurd h hj
        · exact h
      apply ih _ hr
      · rw [(checkArg_sameSig icw env data st j).2.2.1]
        exact hb
      · rw [(checkArg_sameSig icw env data st j).2.2.1,
          checkArg_argClasses_ne icw env data st i j hj]
        exact hbad

/-- A rejection by the first argument loop stands unless the method has the callback
pattern or the return type is one of the pointer types of the hint switch. -/
theorem check_zero_of_loop_zero (icw : Env → String → Int) (cnt : FunctionInfo → Nat → Int)
    (env : Env) (data : ClassInfo) (f : FunctionInfo)
    (h1 : ((List.range f.NumberOfArguments).foldl (checkArg icw env data) (1, f)).1 = 0)
    (hcb : ¬ CallbackPattern f)
    (hr : ¬ hintCase (f.ReturnType &&& VTK_PARSE_UNQUALIFIED_TYPE)) :
    (checkFunctionSignature icw cnt env data f).1 = 0 := by
  unfold CallbackPattern at hcb
  unfold checkFunctionSignature
  dsimp only
  split
  · rfl
  split
  · rfl
  split
  · rfl
  apply tail_zero
  unfold hintSwitch
  unfold hintCase at hr
  rw [if_neg hr, checkReturn_zero icw env data _ _ h1]
  exact foldl_checkArgCount_zero _ _ _

theorem foldl_checkArgCount_bad (cnt : FunctionInfo → Nat → Int) (f : FunctionInfo)
    (l : List Nat) (ok : Int) (i : Nat) (hi : i ∈ l)
    (hp : (f.ArgTypes i &&& VTK_PARSE_UNQUALIFIED_TYPE) &&& VTK_PARSE_INDIRECT =
      VTK_PARSE_POINTER)
    (hcount : cnt f i ≤ 0)
    (ho : f.ArgTypes i &&& VTK_PARSE_UNQUALIFIED_TYPE ≠ VTK_PARSE_OBJECT_PTR)
    (hc : f.ArgTypes i &&& VTK_PARSE_UNQUALIFIED_TYPE ≠ VTK_PARSE_CHAR_PTR) :
    l.foldl (checkArgCount cnt f) ok = 0 := by
  induction l generalizing ok with
  | nil => exact absurd hi (List.not_mem_nil _)
  | cons j rest ih =>
    rw [List.foldl_cons]
    by_cases hj : i = j
    · subst hj
      have hz : checkArgCount cnt f ok i = 0 := by
        unfold checkArgCount
        dsimp only
        rw [decide_eq_true (show _ ∧ _ ∧ _ ∧ _ from ⟨hp, hcount, ho, hc⟩)]
        rfl
      rw [hz]
      exact foldl_checkArgCount_zero _ _ _
    · rcases List.mem_cons.mp hi with h | h
      · exact absurd h hj
      · exact ih _ h

/-- A rejection by the second argument loop stands unless the method has the callback
pattern or the return type is one of the pointer types of the hint switch. -/
theorem check_zero_of_bad_count (icw : Env → String → Int) (cnt : FunctionInfo → Nat → Int)
    (env : Env) (data : ClassInfo) (f : FunctionInfo) (i : Nat)
    (hsame : ∀ f2, SameSig f f2 → cnt f2 i = cnt f i)
    (hi : i < f.NumberOfArguments)
    (hp : (f.ArgTypes i &&& VTK_PARSE_UNQUALIFIED_TYPE) &&& VTK_PARSE_INDIRECT =
      VTK_PARSE_POINTER)
    (ho : f.ArgTypes i &&& VTK_PARSE_UNQUALIFIED_TYPE ≠ VTK_PARSE_OBJECT_PTR)
    (hc : f.ArgTypes i &&& VTK_PARSE_UNQUALIFIED_TYPE ≠ VTK_PARSE_CHAR_PTR)
    (hcount : cnt f i ≤ 0) (hcb : ¬ CallbackPattern f)
    (hr : ¬ hintCase (f.ReturnType &&& VTK_PARSE_UNQUALIFIED_TYPE)) :
    (checkFunctionSignature icw cnt env data f).1 = 0 := by
  unfold CallbackPattern at hcb
  unfold checkFunctionSignature
  dsimp only
  split
  · rfl
  split
  · rfl
  split
  · rfl
  apply tail_zero
  unfold hintSwitch
  unfold hintCase at hr
  rw [if_neg hr]
  have hs := (foldl_checkArg_sameSig icw env data (List.range f.NumberOfArguments)
    (1, f)).trans (checkReturn_sameSig icw env data
      (f.ReturnType &&& VTK_PARSE_UNQUALIFIED_TYPE) _)
  apply foldl_checkArgCount_bad cnt _ _ _ i
  · rw [hs.2.1]
    exact List.mem_range.mpr hi
  · rw [hs.2.2.1]
    exact hp
  · rw [hsame _ hs]
    exact hcount
  · rw [hs.2.2.1]
    exact ho
  · rw [hs.2.2.1]
    exact hc

/-- A rejection by the tests on the return type stands unless the return type is one of
the pointer types of the hint switch. -/
theorem check_zero_of_bad_return (icw : Env → String → Int) (cnt : FunctionInfo → Nat → Int)
    (env : Env) (data : ClassInfo) (f : FunctionInfo)
    (hbad : ∀ q w, retBad (f.ReturnType &&& VTK_PARSE_UNQUALIFIED_TYPE) q w = true)
    (hv : f.ReturnType &&& VTK_PARSE_UNQUALIFIED_TYPE ≠ VTK_PARSE_VOID)
    (hr : ¬ hintCase (f.ReturnType &&& VTK_PARSE_UNQUALIFIED_TYPE)) :
    (checkFunctionSignature icw cnt env data f).1 = 0 := by
  unfold checkFunctionSignature
  dsimp only
  split
  · rfl
  split
  · rfl
  split
  · rfl
  split
  · rename_i h
    exact absurd h.2.2.2 hv
  apply tail_zero
  unfold hintSwitch
  unfold hintCase at hr
  rw [if_neg hr, checkReturn_fst, hbad, veto_true]
  exact foldl_checkArgCount_zero _ _ _

end Core

theorem Generator.argCount_sameSig (g : Generator) (f f2 : FunctionInfo) (i : Nat)
    (h : SameSig f f2) : g.argCount f2 i = g.argCount f i := by
  cases g
  · show (f2.Parameters i).Count = (f.Parameters i).Count
    rw [h.2.2.2.2.1]
  · show f2.ArgCounts i = f.ArgCounts i
    rw [h.2.2.2.1]

/-- The rejection of an object argument that is not passed by a single pointer, or whose
class `isClassWrapped` reports as not wrappable, works as long as the return type is not
one of the pointer types of the hint switch.  Both generators. -/
theorem object_argument_rejected_unless_hinted_return (g : Generator) (env : Env)
    (data : ClassInfo) (f : FunctionInfo) (i : Nat) (hi : i < f.NumberOfArguments)
    (hb : (f.ArgTypes i &&& VTK_PARSE_UNQUALIFIED_TYPE) &&& VTK_PARSE_BASE_TYPE =
      VTK_PARSE_OBJECT)
    (h : (f.ArgTypes i &&& VTK_PARSE_UNQUALIFIED_TYPE) &&& VTK_PARSE_INDIRECT ≠
        VTK_PARSE_POINTER ∨
      g.isClassWrapped env (f.ArgClasses i) = 0)
    (hr : ¬ hintCase (f.ReturnType &&& VTK_PARSE_UNQUALIFIED_TYPE)) :
    (g.checkFunctionSignature env data f).1 = 0 := by
  rw [g.check_eq_core]
  apply Core.check_zero_of_loop_zero _ _ env data f _ _ hr
  · apply Core.foldl_checkArg_bad_at _ env data _ (1, f) i (List.mem_range.mpr hi)
    · show (f.ArgTypes i &&& VTK_PARSE_UNQUALIFIED_TYPE) &&& VTK_PARSE_BASE_TYPE ≠ _
      rw [hb]
      decide
    · intro q
      show argBad (f.ArgTypes i &&& VTK_PARSE_UNQUALIFIED_TYPE) q
        (g.isClassWrapped env (f.ArgClasses i)) = true
      simp only [argBad, retBad, Bool.or_eq_true, decide_eq_true_eq]
      tauto
  · rintro ⟨hn, h0, h1, _⟩
    have hi2 : i = 0 ∨ i = 1 := by omega
    rcases hi2 with rfl | rfl
    · rw [h0] at hb
      revert hb
      decide
    · rw [h1] at hb
      revert hb
      decide

/-- The rejection of the unsigned pointer return types other than `unsigned char*` does
not depend on the size hint.  Both generators. -/
theorem unsigned_pointer_return_rejected (g : Generator) (env : Env) (data : ClassInfo)
    (f : FunctionInfo)
    (ht : f.ReturnType &&& VTK_PARSE_UNQUALIFIED_TYPE = VTK_PARSE_UNSIGNED_INT_PTR ∨
      f.ReturnType &&& VTK_PARSE_UNQUALIFIED_TYPE = VTK_PARSE_UNSIGNED_SHORT_PTR ∨
      f.ReturnType &&& VTK_PARSE_UNQUALIFIED_TYPE = VTK_PARSE_UNSIGNED_LONG_PTR ∨
      f.ReturnType &&& VTK_PARSE_UNQUALIFIED_TYPE = VTK_PARSE_UNSIGNED_LONG_LONG_PTR) :
    (g.checkFunctionSignature env data f).1 = 0 := by
  rw [g.check_eq_core]
  apply Core.check_zero_of_bad_return
  · intro q w
    exact retBad_of _ q w (by tauto)
  · rcases ht with h | h | h | h <;> rw [h] <;> decide
  · rcases ht with h | h | h | h <;> rw [h] <;> decide

/-! ## The parameter list of a shim export -/

theorem foldl_append_init (l : List String) (a : String) :
    l.foldl (fun x y => x ++ y) a = a ++ l.foldl (fun x y => x ++ y) "" := by
  induction l generalizing a with
  | nil => exact (String.append_empty a).symm
  | cons x rest ih =>
    rw [List.foldl_cons, List.foldl_cons, ih, ih ("" ++ x), String.empty_append,
      String.append_assoc]

theorem string_join_cons (a : String) (l : List String) :
    String.join (a :: l) = a ++ String.join l := by
  unfold String.join
  rw [List.foldl_cons, foldl_append_init, String.empty_append]

theorem argLoop_no_function (f : FunctionInfo) (body : Nat → String) (l : List Nat)
    (h : ∀ i ∈ l, f.ArgTypes i ≠ VTK_PARSE_FUNCTION) :
    argLoop f body l = String.join (l.map body) := by
  induction l with
  | nil => rfl
  | cons i rest ih =>
    rw [List.map_cons, string_join_cons, argLoop, if_neg (h i (List.mem_cons_self _ _)),
      ih (fun j hj => h j (List.mem_cons_of_mem _ hj))]

theorem argLoop_congr (f f2 : FunctionInfo) (body body2 : Nat → String) (l : List Nat)
    (h : ∀ i ∈ l, body2 i = body i ∧ f2.ArgTypes i = f.ArgTypes i) :
    argLoop f2 body2 l = argLoop f body l := by
  induction l with
  | nil => rfl
  | cons i rest ih =>
    rw [argLoop, argLoop, (h i (List.mem_cons_self _ _)).1, (h i (List.mem_cons_self _ _)).2,
      ih (fun j hj => h j (List.mem_cons_of_mem _ hj))]

theorem argLoop_break (f : FunctionInfo) (body : Nat → String) (l1 l2 : List Nat) (k : Nat)
    (hk : f.ArgTypes k = VTK_PARSE_FUNCTION) :
    argLoop f body (l1 ++ k :: l2) = argLoop f body (l1 ++ [k]) := by
  induction l1 with
  | nil =>
    rw [List.nil_append, List.nil_append, argLoop, argLoop, if_pos hk, if_pos hk]
  | cons i rest ih =>
    rw [List.cons_append, List.cons_append, argLoop, argLoop, ih]

theorem argLoop_range_break (f : FunctionInfo) (body : Nat → String) (n k : Nat)
    (hkn : k < n) (hk : f.ArgTypes k = VTK_PARSE_FUNCTION) :
    argLoop f body (List.range n) = argLoop f body (List.range (k + 1)) := by
  obtain ⟨m, rfl⟩ : ∃ m, n = (k + 1) + m := ⟨n - (k + 1), by omega⟩
  rw [List.range_add, List.range_succ, List.append_assoc, List.singleton_append,
    argLoop_break f body _ _ k hk]

/-- An argument loop of `outputFunction` writes the same text for two methods that agree
up to a function pointer argument at position `k`. -/
theorem argLoop_agree (f f2 : FunctionInfo) (body body2 : Nat → String) (k : Nat)
    (hkn : k < f.NumberOfArguments) (hkn2 : k < f2.NumberOfArguments)
    (hk : f.ArgTypes k = VTK_PARSE_FUNCTION)
    (h : ∀ i, i ≤ k → body2 i = body i ∧ f2.ArgTypes i = f.ArgTypes i) :
    argLoop f2 body2 (List.range f2.NumberOfArguments) =
      argLoop f body (List.range f.NumberOfArguments) := by
  rw [argLoop_range_break f body _ k hkn hk,
    argLoop_range_break f2 body2 _ k hkn2 (by rw [(h k (Nat.le_refl k)).2]; exact hk)]
  apply argLoop_congr
  intro i hi
  exact h i (by have := List.mem_range.mp hi; omega)

namespace Wrap

theorem OutputParamType_function (f : FunctionInfo) (i : Nat)
    (h : f.ArgTypes i = VTK_PARSE_FUNCTION) :
    OutputParamType f i = "void* fptr, void* clientdata" := by
  have hv : VTK_PARSE_FUNCTION &&& VTK_PARSE_UNQUALIFIED_TYPE ≠ VTK_PARSE_VOID := by decide
  unfold OutputParamType
  dsimp only
  rw [h, if_neg hv, if_pos rfl]

theorem ite_closed (P : String → Prop) (c : Prop) [Decidable c] (a b : String) (ha : P a)
    (hb : P b) : P (if c then a else b) := by
  split
  · exact ha
  · exact hb

theorem OutputParamType_stem (f : FunctionInfo) (i : Nat)
    (hv : f.ArgTypes i &&& VTK_PARSE_UNQUALIFIED_TYPE ≠ VTK_PARSE_VOID)
    (hf : f.ArgTypes i ≠ VTK_PARSE_FUNCTION) :
    ∃ d ∈ paramStems, OutputParamType f i = d ++ fmtInt i := by
  unfold OutputParamType
  dsimp only
  rw [if_neg hv, if_neg hf]
  generalize f.ArgTypes i &&& VTK_PARSE_UNQUALIFIED_TYPE = t
  generalize (t &&& VTK_PARSE_BASE_TYPE) &&& NOT_VTK_PARSE_UNSIGNED = b
  repeat' apply ite_closed (fun s => ∃ d ∈ paramStems, s = d ++ fmtInt i)
  all_goals
    refine ⟨_, ?_, rfl⟩
    decide

theorem signatureTail_plain (f : FunctionInfo)
    (h : ∀ i, i < f.NumberOfArguments → f.ArgTypes i ≠ VTK_PARSE_FUNCTION) :
    signatureTail f =
      "(void* obj" ++
      String.join ((List.range f.NumberOfArguments).map
        (fun i => ", " ++ OutputParamType f i)) ++
      ")\n\x7b\n" := by
  unfold signatureTail
  rw [argLoop_no_function f _ _ (fun i hi => h i (List.mem_range.mp hi))]

theorem argLoop_callback (f : FunctionInfo) (body : Nat → String) (h : CallbackPattern f) :
    argLoop f body (List.range f.NumberOfArguments) = body 0 := by
  rw [argLoop_range_break f body _ 0 (by rw [h.1]; decide) h.2.1]
  show body 0 ++ (if f.ArgTypes 0 = VTK_PARSE_FUNCTION then "" else _) = body 0
  rw [if_pos h.2.1, String.append_empty]

theorem signatureTail_callback (f : FunctionInfo) (h : CallbackPattern f) :
    signatureTail f = "(void* obj, void* fptr, void* clientdata)\n\x7b\n" := by
  unfold signatureTail
  rw [argLoop_callback f _ h, OutputParamType_function f 0 h.2.1]
  decide

theorem bodyText_callback (data : ClassInfo) (f : FunctionInfo) (h : CallbackPattern f) :
    bodyText data f =
      "\n  " ++ data.Name ++ "* op = static_cast<" ++ data.Name ++ "*>(obj);\n" ++
      ("  op->" ++ nameStr f ++ "(") ++
      "reinterpret_cast<void(*)(void*)>(fptr), clientdata" ++ ");\n" ++ "\x7d\n" := by
  have hd : OutputLocalVariableDeclarations 0 (f.ArgTypes 0) (f.ArgClasses 0)
      (f.ArgCounts 0) = "" := by
    unfold OutputLocalVariableDeclarations
    rw [if_pos h.2.1]
  have hr : OutputLocalVariableDeclarations MAX_ARGS f.ReturnType f.ReturnClass 0 = "" := by
    unfold OutputLocalVariableDeclarations
    by_cases hfn : f.ReturnType = VTK_PARSE_FUNCTION
    · rw [if_pos hfn]
    · rw [if_neg hfn, if_pos h.2.2.2]
  have ha : OutputLocalVariableAssignments f 0 = "" := by
    unfold OutputLocalVariableAssignments
    dsimp only
    rw [if_pos h.2.1]
  have hc : OutputCopyBackArrays f 0 = "" := by
    unfold OutputCopyBackArrays
    dsimp only
    rw [if_pos h.2.1]
  have hres : OutputFunctionResult f = "" := by
    unfold OutputFunctionResult
    dsimp only
    rw [if_pos h.2.2.2]
  have h00 : ¬ ((0 : Nat) ≠ 0) := by decide
  unfold bodyText
  dsimp only
  rw [argLoop_callback f _ h, argLoop_callback f _ h, argLoop_callback f _ h,
    argLoop_callback f _ h, hd, hr, ha, hc, hres, if_pos h.2.2.2, if_pos h.2.1,
    if_neg h00]
  repeat rw [String.empty_append]
  repeat rw [String.append_empty]

theorem emitText_agree (data : ClassInfo) (f f2 : FunctionInfo) (n k : Nat)
    (hkn : k < f.NumberOfArguments) (hkn2 : k < f2.NumberOfArguments)
    (hk : f.ArgTypes k = VTK_PARSE_FUNCTION) (h : AgreeUpTo k f f2) :
    emitText data f2 n = emitText data f n := by
  obtain ⟨h1, h2, h3, h4, h5⟩ := h
  have hname : nameStr f2 = nameStr f := by unfold nameStr; rw [h1]
  have l1 : signatureTail f2 = signatureTail f := by
    unfold signatureTail
    rw [argLoop_agree f f2 _ _ k hkn hkn2 hk]
    intro i hi
    obtain ⟨a, _, _, d⟩ := h5 i hi
    refine ⟨?_, a⟩
    unfold OutputParamType
    rw [a, d]
  have l2 : bodyText data f2 = bodyText data f := by
    unfold bodyText
    dsimp only
    rw [argLoop_agree f f2 (fun i => OutputLocalVariableDeclarations i (f.ArgTypes i)
        (f.ArgClasses i) (f.ArgCounts i)) _ k hkn hkn2 hk (fun i hi => by
          obtain ⟨a, b, c, _⟩ := h5 i hi
          exact ⟨by rw [a, b, c], a⟩),
      argLoop_agree f f2 (fun i => OutputLocalVariableAssignments f i) _ k hkn hkn2 hk
        (fun i hi => by
          obtain ⟨a, b, _, d⟩ := h5 i hi
          refine ⟨?_, a⟩
          unfold OutputLocalVariableAssignments
          rw [a, b, d]),
      argLoop_agree f f2 (fun i => (if i ≠ 0 then ", " else "") ++
          (if f.ArgTypes i = VTK_PARSE_FUNCTION then
            "reinterpret_cast<void(*)(void*)>(fptr), clientdata"
           else "temp" ++ fmtInt i)) _ k hkn hkn2 hk (fun i hi => by
          obtain ⟨a, _, _, _⟩ := h5 i hi
          exact ⟨by rw [a], a⟩),
      argLoop_agree f f2 (fun i => OutputCopyBackArrays f i) _ k hkn hkn2 hk
        (fun i hi => by
          obtain ⟨a, _, _, d⟩ := h5 i hi
          refine ⟨?_, a⟩
          unfold OutputCopyBackArrays
          rw [a, d]),
      h2, h3, hname]
    have : OutputFunctionResult f2 = OutputFunctionResult f := by
      unfold OutputFunctionResult
      rw [h2, h4]
    rw [this]
  have l3 : OutputReturnType f2 = OutputReturnType f := by
    unfold OutputReturnType
    rw [h2]
  unfold emitText
  rw [l1, l2, l3, hname]

end Wrap

/-! ## The parameter types of the import against those of the export -/

theorem ite_append (c : Prop) [Decidable c] (a b z : String) :
    (if c then a else b) ++ z = if c then a ++ z else b ++ z := by
  split <;> rfl

theorem Wrap.OutputParamType_eq_stem (f : FunctionInfo) (i : Nat)
    (hv : f.ArgTypes i &&& VTK_PARSE_UNQUALIFIED_TYPE ≠ VTK_PARSE_VOID)
    (hf : f.ArgTypes i ≠ VTK_PARSE_FUNCTION) :
    Wrap.OutputParamType f i =
      Wrap.paramStem (f.ArgTypes i &&& VTK_PARSE_UNQUALIFIED_TYPE)
        (f.Parameters i).CountHint.isSome ++ fmtInt i := by
  unfold Wrap.OutputParamType Wrap.paramStem
  dsimp only
  rw [if_neg hv, if_neg hf]
  generalize f.ArgTypes i &&& VTK_PARSE_UNQUALIFIED_TYPE = t
  generalize (t &&& VTK_PARSE_BASE_TYPE) &&& NOT_VTK_PARSE_UNSIGNED = b
  have hn : (f.Parameters i).CountHint.isNone = true ↔
      (f.Parameters i).CountHint.isSome = false := by
    cases (f.Parameters i).CountHint <;> simp only [Option.isNone_none, Option.isSome_none,
      Option.isNone_some, Option.isSome_some, Bool.false_eq_true, Bool.true_eq_false]
  simp only [hn, ite_append]

theorem Parse.NativeParamType_eq_stem (f : FunctionInfo) (i : Nat)
    (hv : f.ArgTypes i &&& VTK_PARSE_UNQUALIFIED_TYPE ≠ VTK_PARSE_VOID)
    (hf : f.ArgTypes i ≠ VTK_PARSE_FUNCTION) :
    Parse.OutputCSharpNativeParamType f i =
      Parse.nativeParamStem (f.ArgTypes i &&& VTK_PARSE_UNQUALIFIED_TYPE) ++ fmtInt i := by
  unfold Parse.OutputCSharpNativeParamType Parse.nativeParamStem
  dsimp only
  rw [if_neg hv, if_neg hf]
  generalize f.ArgTypes i &&& VTK_PARSE_UNQUALIFIED_TYPE = t
  generalize (t &&& VTK_PARSE_BASE_TYPE) &&& NOT_VTK_PARSE_UNSIGNED = b
  generalize Parse.arrayElemType b
    "[MarshalAs(UnmanagedType.LPArray, ArraySubType = UnmanagedType.I4)] int[] id" = o
  cases o with
  | none => simp only [ite_append, Option.getD_none]
  | some x => simp only [ite_append, Option.getD_some]

theorem stems_compatible :
    ∀ t ∈ eligibleArgTypes, ∀ hinted : Bool, ¬ (t = VTK_PARSE_CHAR_PTR ∧ hinted = true) →
      (Wrap.paramStem t hinted, Parse.nativeParamStem t) ∈ typeCompatible := by
  decide

theorem eligible_table :
    ∀ a ∈ [0x02, 0x0E, 0x01, 0x07, 0x03, 0x13, 0x0D, 0x04, 0x14, 0x05, 0x15, 0x06, 0x16, 0x0B,
        0x1B, 0x09, 0x21, 0x08], ∀ c ∈ [0, 2],
      (a = VTK_PARSE_UNKNOWN → 256 * c = 0) → (a = VTK_PARSE_OBJECT → 256 * c = 512) →
      256 * c + a ∉ [VTK_PARSE_STRING_PTR, VTK_PARSE_UNSIGNED_CHAR_PTR,
        VTK_PARSE_UNSIGNED_INT_PTR, VTK_PARSE_UNSIGNED_SHORT_PTR, VTK_PARSE_UNSIGNED_LONG_PTR,
        VTK_PARSE_UNSIGNED_LONG_LONG_PTR, VTK_PARSE_OBJECT] →
      256 * c + a = VTK_PARSE_VOID ∨ 256 * c + a ∈ eligibleArgTypes := by
  decide

theorem split_type (t : Nat) (ht : t < 65536) : t = 256 * (t / 256 % 256) + t % 256 := by
  omega

theorem indirect_cases (c : Nat) (h : 256 * c ≠ 512 → 256 * c ≠ 0 → False) :
    c ∈ [0, 2] := by
  simp only [List.mem_cons, List.mem_singleton, List.not_mem_nil, or_false]
  by_cases h1 : 256 * c = 512
  · right
    omega
  · by_cases h2 : 256 * c = 0
    · left
      omega
    · exact (h h1 h2).elim

theorem eligible_arg_types (env : Env) (data : ClassInfo) (cls : String) (t : Nat) (w : Int)
    (ht : t < 65536) (h : argBad t (qualifiedEnum env data t cls) w = false) :
    t = VTK_PARSE_VOID ∨ t ∈ eligibleArgTypes := by
  simp only [argBad, retBad, Bool.or_eq_false_iff, decide_eq_false_iff_not, not_and, not_or,
    Decidable.not_not] at h
  obtain ⟨⟨⟨⟨⟨⟨⟨⟨⟨⟨h1, h2⟩, h3⟩, h4⟩, h5⟩, h6⟩, h7⟩, h8⟩, h9⟩, h10⟩, h11⟩ := h
  have hu : t &&& VTK_PARSE_BASE_TYPE = VTK_PARSE_UNKNOWN → t &&& VTK_PARSE_INDIRECT = 0 := by
    intro hb
    by_contra hi
    rw [qualifiedEnum_indirect env data t cls hi] at h2
    exact h2 hb rfl
  have ho : t &&& VTK_PARSE_BASE_TYPE = VTK_PARSE_OBJECT →
      t &&& VTK_PARSE_INDIRECT = VTK_PARSE_POINTER := fun hb => (h3 hb).1
  rw [scanSupported_eq_zero_iff, not_not, land_base] at h1
  rw [land_base, land_indirect] at hu ho
  rw [land_indirect] at h4
  have e := split_type t ht
  by_cases hs : t = VTK_PARSE_STRING_REF
  · subst hs
    decide
  · have hc : t / 256 % 256 ∈ [0, 2] := indirect_cases _ (fun a b => hs (h4 a b))
    have key := eligible_table _ h1 _ hc hu ho (by
      rw [← e]
      simp only [List.mem_cons, List.mem_singleton, List.not_mem_nil, or_false, not_or]
      exact ⟨h5, h6, h7, h8, h9, h10, h11⟩)
    rw [← e] at key
    exact key

/-- For an argument that passes the first argument loop of `checkFunctionSignature` and is
not of type `void`, the shim and the managed import each declare one parameter
`<type> id<i>`, and the two types are compatible in the sense of `typeCompatible`, unless
the argument is a `char*` that carries a count hint. -/
theorem import_parameter_compatible (env : Env) (data : ClassInfo) (f : FunctionInfo)
    (i : Nat) (w : Int)
    (hok : argBad (f.ArgTypes i &&& VTK_PARSE_UNQUALIFIED_TYPE)
      (qualifiedEnum env data (f.ArgTypes i &&& VTK_PARSE_UNQUALIFIED_TYPE)
        (f.ArgClasses i)) w = false)
    (hv : f.ArgTypes i &&& VTK_PARSE_UNQUALIFIED_TYPE ≠ VTK_PARSE_VOID)
    (hh : ¬ (f.ArgTypes i &&& VTK_PARSE_UNQUALIFIED_TYPE = VTK_PARSE_CHAR_PTR ∧
      (f.Parameters i).CountHint.isSome = true)) :
    ∃ p ∈ typeCompatible, Wrap.OutputParamType f i = p.1 ++ fmtInt i ∧
      Parse.OutputCSharpNativeParamType f i = p.2 ++ fmtInt i := by
  have ht : f.ArgTypes i &&& VTK_PARSE_UNQUALIFIED_TYPE < 65536 := by
    rw [land_unq]
    omega
  have hmem := (eligible_arg_types env data (f.ArgClasses i) _ w ht hok).resolve_left hv
  have hf : f.ArgTypes i ≠ VTK_PARSE_FUNCTION := by
    intro hfn
    rw [hfn] at hmem
    revert hmem
    decide
  exact ⟨_, stems_compatible _ hmem _ hh, Wrap.OutputParamType_eq_stem f i hv hf,
    Parse.NativeParamType_eq_stem f i hv hf⟩

/-- At every argument position the shim export and the managed import declare the same
number of parameters: none for an argument of type `void`, the pair `fptr`, `clientdata`
for a function pointer, and one parameter `id<i>` otherwise. -/
theorem parameter_positions_correspond (f : FunctionInfo) (i : Nat) :
    (f.ArgTypes i &&& VTK_PARSE_UNQUALIFIED_TYPE = VTK_PARSE_VOID →
      Wrap.OutputParamType f i = "" ∧ Parse.OutputCSharpNativeParamType f i = "") ∧
    (f.ArgTypes i = VTK_PARSE_FUNCTION →
      Wrap.OutputParamType f i = "void* fptr, void* clientdata" ∧
      Parse.OutputCSharpNativeParamType f i = "IntPtr fptr, IntPtr clientdata") ∧
    (f.ArgTypes i &&& VTK_PARSE_UNQUALIFIED_TYPE ≠ VTK_PARSE_VOID →
      f.ArgTypes i ≠ VTK_PARSE_FUNCTION →
      Wrap.OutputParamType f i =
        Wrap.paramStem (f.ArgTypes i &&& VTK_PARSE_UNQUALIFIED_TYPE)
          (f.Parameters i).CountHint.isSome ++ fmtInt i ∧
      Parse.OutputCSharpNativeParamType f i =
        Parse.nativeParamStem (f.ArgTypes i &&& VTK_PARSE_UNQUALIFIED_TYPE) ++ fmtInt i) := by
  have hfv : VTK_PARSE_FUNCTION &&& VTK_PARSE_UNQUALIFIED_TYPE ≠ VTK_PARSE_VOID := by decide
  refine ⟨fun hv => ⟨?_, ?_⟩, fun hf => ⟨Wrap.OutputParamType_function f i hf, ?_⟩,
    fun hv hf => ⟨Wrap.OutputParamType_eq_stem f i hv hf,
      Parse.NativeParamType_eq_stem f i hv hf⟩⟩
  · unfold Wrap.OutputParamType
    dsimp only
    rw [if_pos hv]
  · unfold Parse.OutputCSharpNativeParamType
    dsimp only
    rw [if_pos hv]
  · unfold Parse.OutputCSharpNativeParamType
    dsimp only
    rw [hf, if_neg hfv, if_pos rfl]

/-! ## The string family of `CheckMatch` -/

theorem string_family_base (t : Nat)
    (h : t &&& VTK_PARSE_UNQUALIFIED_TYPE ∈
      [VTK_PARSE_CHAR_PTR, VTK_PARSE_STRING_REF, VTK_PARSE_STRING]) :
    t &&& VTK_PARSE_BASE_TYPE ≠ VTK_PARSE_OBJECT := by
  simp only [List.mem_cons, List.mem_singleton, List.not_mem_nil, or_false] at h
  rcases h with h | h | h <;> rw [base_of_unq t _ h] <;> decide

theorem string_family_indirect (t1 t2 : Nat)
    (h1 : t1 &&& VTK_PARSE_UNQUALIFIED_TYPE ∈
      [VTK_PARSE_CHAR_PTR, VTK_PARSE_STRING_REF, VTK_PARSE_STRING])
    (h2 : t2 &&& VTK_PARSE_UNQUALIFIED_TYPE ∈
      [VTK_PARSE_CHAR_PTR, VTK_PARSE_STRING_REF, VTK_PARSE_STRING])
    (hne : t1 &&& VTK_PARSE_UNQUALIFIED_TYPE ≠ t2 &&& VTK_PARSE_UNQUALIFIED_TYPE) :
    t1 &&& VTK_PARSE_INDIRECT ≠ t2 &&& VTK_PARSE_INDIRECT := by
  simp only [List.mem_cons, List.mem_singleton, List.not_mem_nil, or_false] at h1 h2
  rcases h1 with h1 | h1 | h1 <;> rcases h2 with h2 | h2 | h2 <;>
    first
    | exact absurd (h1.trans h2.symm) hne
    | (rw [indirect_of_unq t1 _ h1, indirect_of_unq t2 _ h2]; decide)

theorem Wrap.CheckMatch_string_family (t1 t2 : Nat) (c1 c2 : String)
    (h1 : t1 &&& VTK_PARSE_UNQUALIFIED_TYPE ∈
      [VTK_PARSE_CHAR_PTR, VTK_PARSE_STRING_REF, VTK_PARSE_STRING])
    (h2 : t2 &&& VTK_PARSE_UNQUALIFIED_TYPE ∈
      [VTK_PARSE_CHAR_PTR, VTK_PARSE_STRING_REF, VTK_PARSE_STRING]) :
    Wrap.CheckMatch t1 t2 c1 c2 ≠ 0 := by
  by_cases heq : t1 &&& VTK_PARSE_UNQUALIFIED_TYPE = t2 &&& VTK_PARSE_UNQUALIFIED_TYPE
  · rw [Wrap.CheckMatch_same t1 t2 c1 c2 heq, if_neg (string_family_base t1 h1)]
    decide
  · unfold Wrap.CheckMatch
    rw [if_neg heq]
    cases hm : Wrap.numericMatch t1 t2 numericTypes with
    | some r =>
      have := Wrap.numericMatch_some t1 t2 numericTypes r hm
      dsimp only
      omega
    | none =>
      dsimp only
      rw [if_pos]
      · split <;> decide
      · rw [scanHit_ne_zero_iff, scanHit_ne_zero_iff, stringTypes_body]
        exact ⟨Or.inr h1, Or.inr h2⟩

/-! ## Array results and array arguments -/

theorem Parse.methodBody_array (f : FunctionInfo) (sym : String)
    (h : Parse.isNumericPtrReturn (f.ReturnType &&& VTK_PARSE_UNQUALIFIED_TYPE) = true) :
    Parse.methodBody f sym =
      "        IntPtr temp = " ++ sym ++ "(" ++ Parse.OutputCallArgs f ++ ");\n" ++
      Parse.arrayResultText (f.ReturnType &&& VTK_PARSE_UNQUALIFIED_TYPE)
        f.ReturnValue.Count ++
      "        return result;\n" ++ "    \x7d\n" := by
  unfold Parse.methodBody
  dsimp only
  generalize f.ReturnType &&& VTK_PARSE_UNQUALIFIED_TYPE = r at h ⊢
  have h1 : r ≠ VTK_PARSE_OBJECT_PTR := by
    intro e
    rw [e] at h
    exact absurd h (by decide)
  have h2 : ¬ (r = VTK_PARSE_CHAR_PTR ∨ r = VTK_PARSE_STRING ∨ r = VTK_PARSE_STRING_REF) := by
    rintro (e | e | e) <;> rw [e] at h <;> exact absurd h (by decide)
  have h3 : r ≠ VTK_PARSE_BOOL := by
    intro e
    rw [e] at h
    exact absurd h (by decide)
  rw [if_neg h1, if_neg h2, if_neg h3, if_pos h]

theorem Parse.arrayResultText_plain (r : Nat) (n : Int)
    (h : Parse.isNumericPtrReturn r = true) (hb : r ≠ VTK_PARSE_BOOL_PTR) :
    ∃ t ∈ ["float", "double", "int", "short", "long", "byte"],
      Parse.arrayResultText r n =
        "        " ++ t ++ "[] result = new " ++ t ++ "[" ++ fmtInt n ++ "];\n" ++
        "        Marshal.Copy(temp, result, 0, " ++ fmtInt n ++ ");\n" := by
  unfold Parse.isNumericPtrReturn at h
  rw [decide_eq_true_eq] at h
  rcases h with h | h | h | h | h | h | h | h | h | h | h | h | h
  all_goals first
    | exact absurd h hb
    | (subst h; exact ⟨_, by decide, rfl⟩)

theorem Parse.arrayResultText_bool (n : Int) :
    Parse.arrayResultText VTK_PARSE_BOOL_PTR n =
      "        int[] raw = new int[" ++ fmtInt n ++ "];\n" ++
      "        Marshal.Copy(temp, raw, 0, " ++ fmtInt n ++ ");\n" ++
      "        bool[] result = new bool[" ++ fmtInt n ++ "];\n" ++
      "        for (int _i = 0; _i < " ++ fmtInt n ++ "; _i++) result[_i] = raw[_i] != 0;\n" := by
  rfl

namespace Wrap

theorem OutputFunctionResult_congr (f f2 : FunctionInfo) (h : f2.ReturnType = f.ReturnType) :
    OutputFunctionResult f2 = OutputFunctionResult f := by
  unfold OutputFunctionResult
  rw [h]
  simp only [ite_self]

/-- The text of an export does not read the fields `ReturnValue` and `HaveHint`. -/
theorem emitText_congr (data : ClassInfo) (f f2 : FunctionInfo) (n : Nat)
    (h1 : f2.Name = f.Name) (h2 : f2.NumberOfArguments = f.NumberOfArguments)
    (h3 : f2.ArgTypes = f.ArgTypes) (h4 : f2.ArgClasses = f.ArgClasses)
    (h5 : f2.ArgCounts = f.ArgCounts) (h6 : f2.Parameters = f.Parameters)
    (h7 : f2.ReturnType = f.ReturnType) (h8 : f2.ReturnClass = f.ReturnClass) :
    emitText data f2 n = emitText data f n := by
  have hname : nameStr f2 = nameStr f := by unfold nameStr; rw [h1]
  have l1 : signatureTail f2 = signatureTail f := by
    unfold signatureTail
    rw [h2, argLoop_congr f f2 (fun i => ", " ++ OutputParamType f i)]
    intro i _
    refine ⟨?_, by rw [h3]⟩
    unfold OutputParamType
    rw [h3, h6]
  have l2 : bodyText data f2 = bodyText data f := by
    unfold bodyText
    dsimp only
    rw [h2, argLoop_congr f f2 (fun i => OutputLocalVariableDeclarations i (f.ArgTypes i)
        (f.ArgClasses i) (f.ArgCounts i)) _ _ (fun i _ => ⟨by rw [h3, h4, h5], by rw [h3]⟩),
      argLoop_congr f f2 (fun i => OutputLocalVariableAssignments f i) _ _
        (fun i _ => ⟨by unfold OutputLocalVariableAssignments; rw [h3, h4, h6], by rw [h3]⟩),
      argLoop_congr f f2 (fun i => (if i ≠ 0 then ", " else "") ++
          (if f.ArgTypes i = VTK_PARSE_FUNCTION then
            "reinterpret_cast<void(*)(void*)>(fptr), clientdata"
           else "temp" ++ fmtInt i)) _ _ (fun i _ => ⟨by rw [h3], by rw [h3]⟩),
      argLoop_congr f f2 (fun i => OutputCopyBackArrays f i) _ _
        (fun i _ => ⟨by unfold OutputCopyBackArrays; rw [h3, h6], by rw [h3]⟩),
      h7, h8, hname, OutputFunctionResult_congr f f2 h7]
  have l3 : OutputReturnType f2 = OutputReturnType f := by
    unfold OutputReturnType
    rw [h7]
  unfold emitText
  rw [l1, l2, l3, hname]

theorem OutputFunctionResult_pointer (f : FunctionInfo)
    (h : Parse.isNumericPtrReturn (f.ReturnType &&& VTK_PARSE_UNQUALIFIED_TYPE) = true) :
    OutputFunctionResult f ∈
      ["  return temp20;\n", "  return reinterpret_cast<long long*>(temp20);\n",
       "  return reinterpret_cast<unsigned char*>(temp20);\n"] := by
  unfold OutputFunctionResult
  dsimp only
  rw [ite_self]
  generalize f.ReturnType &&& VTK_PARSE_UNQUALIFIED_TYPE = r at h ⊢
  unfold Parse.isNumericPtrReturn at h
  rw [decide_eq_true_eq] at h
  rcases h with h | h | h | h | h | h | h | h | h | h | h | h | h <;> subst h <;> decide

theorem isArrayPtrCase_facts (raw : Nat)
    (h : isArrayPtrCase (raw &&& VTK_PARSE_UNQUALIFIED_TYPE) = true) :
    raw ≠ VTK_PARSE_FUNCTION ∧
    ∀ c ∈ [VTK_PARSE_VOID, VTK_PARSE_CHAR, VTK_PARSE_BOOL, VTK_PARSE_CHAR_PTR,
        VTK_PARSE_STRING, VTK_PARSE_STRING_REF, VTK_PARSE_OBJECT_PTR],
      raw &&& VTK_PARSE_UNQUALIFIED_TYPE ≠ c := by
  constructor
  · intro e
    rw [e] at h
    exact absurd h (by decide)
  · intro c hc e
    rw [e] at h
    have key : ∀ c ∈ [VTK_PARSE_VOID, VTK_PARSE_CHAR, VTK_PARSE_BOOL, VTK_PARSE_CHAR_PTR,
        VTK_PARSE_STRING, VTK_PARSE_STRING_REF, VTK_PARSE_OBJECT_PTR],
        isArrayPtrCase c ≠ true := by decide
    exact key c hc h

theorem OutputLocalVariableAssignments_array (f : FunctionInfo) (i : Nat)
    (h : isArrayPtrCase (f.ArgTypes i &&& VTK_PARSE_UNQUALIFIED_TYPE) = true) :
    OutputLocalVariableAssignments f i =
      "  memcpy(temp" ++ fmtInt i ++ ", id" ++ fmtInt i ++ ", " ++
        fmtInt (f.Parameters i).Count ++ " * sizeof(temp" ++ fmtInt i ++ "[0]));\n" := by
  obtain ⟨hf, hc⟩ := isArrayPtrCase_facts _ h
  unfold OutputLocalVariableAssignments
  dsimp only
  rw [if_neg hf, if_neg (hc _ (by decide)), if_neg (hc _ (by decide)),
    if_neg (hc _ (by decide)), if_neg (hc _ (by decide)), if_neg, if_neg (hc _ (by decide)),
    if_pos h]
  rintro (e | e)
  · exact hc _ (by decide) e
  · exact hc _ (by decide) e

theorem OutputCopyBackArrays_array (f : FunctionInfo) (i : Nat)
    (h : isArrayPtrCase (f.ArgTypes i &&& VTK_PARSE_UNQUALIFIED_TYPE) = true) :
    OutputCopyBackArrays f i =
      if f.ArgTypes i &&& VTK_PARSE_CONST = 0 then
        "  memcpy(id" ++ fmtInt i ++ ", temp" ++ fmtInt i ++ ", " ++
          fmtInt (f.Parameters i).Count ++ " * sizeof(temp" ++ fmtInt i ++ "[0]));\n"
      else "" := by
  obtain ⟨hf, hc⟩ := isArrayPtrCase_facts _ h
  unfold OutputCopyBackArrays
  dsimp only
  rw [if_neg hf, if_neg (hc _ (by decide)), if_pos h]

end Wrap

namespace Wrap

/-- The body of an export for a method without function pointer argument: the local
declarations, the assignments of all arguments, the cast of the handle, the call, the
copies back of all arguments, the return statement. -/
theorem bodyText_plain (data : ClassInfo) (f : FunctionInfo)
    (h : ∀ i, i < f.NumberOfArguments → f.ArgTypes i ≠ VTK_PARSE_FUNCTION) :
    ∃ head ∈ ["  op->", "  temp20 = &(op)->", "  temp20 = op->"],
      bodyText data f =
        String.join ((List.range f.NumberOfArguments).map
          (fun i => OutputLocalVariableDeclarations i (f.ArgTypes i) (f.ArgClasses i)
            (f.ArgCounts i))) ++
        OutputLocalVariableDeclarations MAX_ARGS f.ReturnType f.ReturnClass 0 ++
        String.join ((List.range f.NumberOfArguments).map
          (fun i => OutputLocalVariableAssignments f i)) ++
        "\n  " ++ data.Name ++ "* op = static_cast<" ++ data.Name ++ "*>(obj);\n" ++
        (head ++ nameStr f ++ "(") ++
        String.join ((List.range f.NumberOfArguments).map
          (fun i => (if i ≠ 0 then ", " else "") ++
            (if f.ArgTypes i = VTK_PARSE_FUNCTION then
              "reinterpret_cast<void(*)(void*)>(fptr), clientdata"
             else "temp" ++ fmtInt i))) ++
        ");\n" ++
        String.join ((List.range f.NumberOfArguments).map
          (fun i => OutputCopyBackArrays f i)) ++
        OutputFunctionResult f ++ "\x7d\n" := by
  have hm : ∀ i ∈ List.range f.NumberOfArguments, f.ArgTypes i ≠ VTK_PARSE_FUNCTION :=
    fun i hi => h i (List.mem_range.mp hi)
  unfold bodyText
  dsimp only
  rw [argLoop_no_function f _ _ hm, argLoop_no_function f _ _ hm,
    argLoop_no_function f _ _ hm, argLoop_no_function f _ _ hm]
  by_cases h1 : f.ReturnType &&& VTK_PARSE_UNQUALIFIED_TYPE = VTK_PARSE_VOID
  · refine ⟨"  op->", by decide, ?_⟩
    rw [if_pos h1]
  · by_cases h2 : (f.ReturnType &&& VTK_PARSE_UNQUALIFIED_TYPE) &&& VTK_PARSE_INDIRECT =
        VTK_PARSE_REF
    · refine ⟨"  temp" ++ fmtInt MAX_ARGS ++ " = &(op)->", by decide, ?_⟩
      rw [if_neg h1, if_pos h2]
    · refine ⟨"  temp" ++ fmtInt MAX_ARGS ++ " = op->", by decide, ?_⟩
      rw [if_neg h1, if_neg h2]

end Wrap

/-! ## Booleans at the boundary -/

theorem bool_not_function (raw : Nat)
    (h : raw &&& VTK_PARSE_UNQUALIFIED_TYPE = VTK_PARSE_BOOL) : raw ≠ VTK_PARSE_FUNCTION := by
  intro e
  rw [e] at h
  exact absurd h (by decide)

theorem Wrap.OutputParamType_bool (f : FunctionInfo) (i : Nat)
    (h : f.ArgTypes i &&& VTK_PARSE_UNQUALIFIED_TYPE = VTK_PARSE_BOOL) :
    Wrap.OutputParamType f i = "int id" ++ fmtInt i := by
  rw [Wrap.OutputParamType_eq_stem f i (by rw [h]; decide) (bool_not_function _ h), h]
  cases (f.Parameters i).CountHint.isSome <;> rfl

theorem Parse.NativeParamType_bool (f : FunctionInfo) (i : Nat)
    (h : f.ArgTypes i &&& VTK_PARSE_UNQUALIFIED_TYPE = VTK_PARSE_BOOL) :
    Parse.OutputCSharpNativeParamType f i = "int id" ++ fmtInt i := by
  rw [Parse.NativeParamType_eq_stem f i (by rw [h]; decide) (bool_not_function _ h), h]
  rfl

theorem Wrap.OutputLocalVariableAssignments_bool (f : FunctionInfo) (i : Nat)
    (h : f.ArgTypes i &&& VTK_PARSE_UNQUALIFIED_TYPE = VTK_PARSE_BOOL) :
    Wrap.OutputLocalVariableAssignments f i =
      "  temp" ++ fmtInt i ++ " = (id" ++ fmtInt i ++ " != 0) ? true : false;\n" := by
  unfold Wrap.OutputLocalVariableAssignments
  dsimp only
  rw [if_neg (bool_not_function _ h), h]
  rfl

theorem Parse.callArg_bool (f : FunctionInfo) (i : Nat)
    (h : f.ArgTypes i &&& VTK_PARSE_UNQUALIFIED_TYPE = VTK_PARSE_BOOL) :
    Parse.callArg f i = ", " ++ ("id" ++ fmtInt i ++ " ? 1 : 0") := by
  unfold Parse.callArg
  dsimp only
  rw [if_neg (bool_not_function _ h), h]
  rfl

theorem Parse.OutputCallArgs_eq (f : FunctionInfo) :
    Parse.OutputCallArgs f =
      "Handle" ++ argLoop f (Parse.callArg f) (List.range f.NumberOfArguments) := rfl

theorem bool_return_texts (f : FunctionInfo) (sym : String)
    (h : f.ReturnType &&& VTK_PARSE_UNQUALIFIED_TYPE = VTK_PARSE_BOOL) :
    Wrap.OutputReturnType f = "int" ∧ Parse.OutputCSharpNativeReturnType f = "int" ∧
    Wrap.OutputFunctionResult f = "  return static_cast<int>(temp20);\n" ∧
    Parse.methodBody f sym =
      "        return " ++ sym ++ "(" ++ Parse.OutputCallArgs f ++ ") != 0;\n" ++ "    \x7d\n" := by
  refine ⟨?_, ?_, ?_, ?_⟩
  · unfold Wrap.OutputReturnType
    dsimp only
    rw [h]
    rfl
  · unfold Parse.OutputCSharpNativeReturnType
    dsimp only
    rw [h]
    rfl
  · unfold Wrap.OutputFunctionResult
    dsimp only
    rw [ite_self, h]
    decide
  · unfold Parse.methodBody
    dsimp only
    rw [h]
    rfl

/-! ## `ParseNativeLib` -/

theorem shiftArgs_length (js : List Nat) (argv : List String) :
    (shiftArgs argv js).length = argv.length := by
  induction js generalizing argv with
  | nil => rfl
  | cons j js ih =>
    show (shiftArgs (argv.set j (argv.getD (j + 2) "")) js).length = argv.length
    rw [ih, List.length_set]

theorem shiftArgs_append (argv : List String) (l1 l2 : List Nat) :
    shiftArgs argv (l1 ++ l2) = shiftArgs (shiftArgs argv l1) l2 := by
  unfold shiftArgs
  rw [List.foldl_append]

/-- After the shift of the indices `i, …, i + k - 1` these hold the entries two places
further on and the others are untouched. -/
theorem shiftArgs_getElem? (argv : List String) (i k : Nat) (h : i + k + 2 ≤ argv.length)
    (p : Nat) :
    (shiftArgs argv (List.range' i k))[p]? =
      if i ≤ p ∧ p < i + k then argv[p + 2]? else argv[p]? := by
  induction k generalizing p with
  | zero =>
    have : ¬ (i ≤ p ∧ p < i + 0) := by omega
    rw [if_neg this]
    rfl
  | succ k ih =>
    have ih1 := ih (by omega) p
    rw [List.range'_1_concat, shiftArgs_append]
    show ((shiftArgs argv (List.range' i k)).set (i + k)
      ((shiftArgs argv (List.range' i k)).getD (i + k + 2) ""))[p]? = _
    have hlen := shiftArgs_length (List.range' i k) argv
    rw [List.getElem?_set]
    by_cases hp : i + k = p
    · subst hp
      rw [if_pos rfl, if_pos (by omega), if_pos (by omega)]
      have h2 : (shiftArgs argv (List.range' i k))[i + k + 2]? = argv[i + k + 2]? := by
        rw [ih (by omega) (i + k + 2), if_neg (by omega)]
      rw [List.getD_eq_getElem?_getD, h2, List.getElem?_eq_getElem (by omega)]
      rfl
    · rw [if_neg hp, ih1]
      by_cases hq : i ≤ p ∧ p < i + k
      · rw [if_pos hq, if_pos (by omega)]
      · rw [if_neg hq, if_neg (by omega)]

theorem shiftArgs_take (argv : List String) (i argc : Nat) (hlen : argv.length = argc)
    (hi : i + 2 ≤ argc) :
    (shiftArgs argv (List.range' i (argc - 2 - i))).take (argc - 2) =
      argv.take i ++ argv.drop (i + 2) := by
  apply List.ext_getElem?
  intro p
  rw [List.getElem?_take]
  by_cases hp : p < argc - 2
  · rw [if_pos hp, shiftArgs_getElem? argv i _ (by omega)]
    by_cases hq : p < i
    · rw [if_neg (by omega), List.getElem?_append_left (by rw [List.length_take]; omega),
        List.getElem?_take, if_pos hq]
    · rw [if_pos (by omega), List.getElem?_append_right (by rw [List.length_take]; omega),
        List.length_take, List.getElem?_drop]
      congr 1
      omega
  · rw [if_neg hp]
    symm
    apply List.getElem?_eq_none
    rw [List.length_append, List.length_take, List.length_drop]
    omega

theorem shiftArgs_drop (argv : List String) (i argc : Nat) (hlen : argv.length = argc)
    (hi : i + 2 ≤ argc) :
    (shiftArgs argv (List.range' i (argc - 2 - i))).drop (argc - 2) =
      argv.drop (argc - 2) := by
  apply List.ext_getElem?
  intro p
  rw [List.getElem?_drop, List.getElem?_drop, shiftArgs_getElem? argv i _ (by omega),
    if_neg (by omega)]

theorem ParseNativeLibLoop_first (argc : Nat) (st : ArgState) (l1 l2 : List Nat) (i : Nat)
    (h1 : ∀ k ∈ l1, st.argv.getD k "" ≠ "--native-lib")
    (hi : st.argv.getD i "" = "--native-lib") :
    ParseNativeLibLoop argc st (l1 ++ i :: l2) =
      (argc - 2,
        { nativeLibName := st.argv.getD (i + 1) "",
          argv := shiftArgs st.argv (List.range' i (argc - 2 - i)) }) := by
  induction l1 with
  | nil =>
    show (if st.argv.getD i "" = "--native-lib" then _ else _) = _
    rw [if_pos hi]
  | cons k l1 ih =>
    show (if st.argv.getD k "" = "--native-lib" then _ else _) = _
    rw [if_neg (h1 k (List.mem_cons_self _ _))]
    exact ih (fun k hk => h1 k (List.mem_cons_of_mem _ hk))

theorem ParseNativeLibLoop_none (argc : Nat) (st : ArgState) (l : List Nat)
    (h : ∀ k ∈ l, st.argv.getD k "" ≠ "--native-lib") :
    ParseNativeLibLoop argc st l = (argc, st) := by
  induction l with
  | nil => rfl
  | cons k l ih =>
    show (if st.argv.getD k "" = "--native-lib" then _ else _) = _
    rw [if_neg (h k (List.mem_cons_self _ _))]
    exact ih (fun k hk => h k (List.mem_cons_of_mem _ hk))

theorem range_split (i argc : Nat) (h1 : 1 ≤ i) (h2 : i + 2 ≤ argc) :
    List.range' 1 (argc - 2) =
      List.range' 1 (i - 1) ++ i :: List.range' (i + 1) (argc - 2 - i) := by
  obtain ⟨a, rfl⟩ : ∃ a, i = a + 1 := ⟨i - 1, by omega⟩
  obtain ⟨b, rfl⟩ : ∃ b, argc = a + 1 + 2 + b := ⟨argc - (a + 1 + 2), by omega⟩
  have e := List.range'_append_1 1 a (b + 1)
  rw [List.range'_succ] at e
  rw [show a + 1 + 2 + b - 2 = b + 1 + a by omega, ← e,
    show b + 1 + a - (a + 1) = b by omega, show 1 + a = a + 1 by omega,
    show a + 1 - 1 = a by omega]

/-! ## Lifecycle functions: the calls, the texts and the symbols -/

theorem Parse.declaredImports_tailCalls (data : ClassInfo) :
    declaredImports (Parse.tailCalls data) =
      (if !data.IsAbstract then [data.Name ++ "_New"] else []) ++
      (if data.SuperClasses.isEmpty && data.HasDelete then
        [data.Name ++ "_VTKDeleteReference", data.Name ++ "_VTKRegister",
          data.Name ++ "_VTKGetClassName"]
       else []) ++
      (if streq "vtkObjectBase" data.Name then ["vtkObjectBase_Print"] else []) ++
      (if streq "vtkObject" data.Name then
        ["vtkObject_AddObserverCSharp", "vtkObject_RemoveObserverCSharp"]
       else []) := by
  obtain ⟨name, fns, supers, abs, exc, tmpl, hd⟩ := data
  unfold Parse.tailCalls Parse.rootCalls Parse.derivedCalls
  dsimp only
  generalize streq "vtkObjectBase" name = b1
  generalize streq "vtkObject" name = b2
  cases supers <;> cases abs <;> cases hd <;> cases b1 <;> cases b2 <;> rfl

theorem Wrap.declaredExports_exportCalls (data : ClassInfo) :
    declaredExports (Wrap.exportCalls data) =
      (if data.SuperClasses.isEmpty && data.HasDelete then
        [data.Name ++ "_VTKDeleteReference", data.Name ++ "_VTKGetClassName",
          data.Name ++ "_VTKDelete", data.Name ++ "_VTKRegister"]
       else []) ++
      (if !data.IsAbstract then [data.Name ++ "_New"] else []) ++
      (if streq "vtkObjectBase" data.Name then ["vtkObjectBase_Print"] else []) ++
      (if streq "vtkObject" data.Name then
        ["vtkObject_AddObserverCSharp", "vtkObject_RemoveObserverCSharp"]
       else []) := by
  obtain ⟨name, fns, supers, abs, exc, tmpl, hd⟩ := data
  unfold Wrap.exportCalls
  dsimp only
  generalize streq "vtkObjectBase" name = b1
  generalize streq "vtkObject" name = b2
  cases supers <;> cases abs <;> cases hd <;> cases b1 <;> cases b2 <;> rfl

theorem written_cons (c : Fprintf) (l : List Fprintf) :
    written (c :: l) = c.text ++ written l := by
  unfold written
  rw [List.map_cons, string_join_cons]

theorem written_nil : written [] = "" := rfl

theorem written_append (a b : List Fprintf) : written (a ++ b) = written a ++ written b := by
  induction a with
  | nil => rw [List.nil_append, written_nil, String.empty_append]
  | cons c l ih => rw [List.cons_append, written_cons, written_cons, ih, String.append_assoc]

theorem written_ite (c : Prop) [Decidable c] (a b : List Fprintf) :
    written (if c then a else b) = if c then written a else written b := by
  split <;> rfl

/-- A call without arguments writes its format (the formats here hold no `%`). -/
theorem formatChars_nil (l : List Char) : formatChars l [] = l := by
  induction l with
  | nil => rfl
  | cons c l ih =>
    unfold formatChars
    split <;> simp_all

theorem text_nil (s : String) : Fprintf.text ⟨s, []⟩ = s := by
  unfold Fprintf.text
  rw [formatChars_nil]

theorem Parse.lifecycleText_eq_written (data : ClassInfo) :
    Parse.lifecycleText data = written (Parse.lifecycleCalls data) := by
  have e1 : ∀ n : String,
      Fprintf.text ⟨"        private static extern void %s_VTKDeleteReference(IntPtr id);\n\n", [n]⟩ =
        "        private static extern void " ++ (n ++ "_VTKDeleteReference(IntPtr id);\n\n") :=
    fun _ => rfl
  have e2 : ∀ n : String,
      Fprintf.text ⟨"        private static extern void %s_VTKRegister(IntPtr obj);\n\n", [n]⟩ =
        "        private static extern void " ++ (n ++ "_VTKRegister(IntPtr obj);\n\n") :=
    fun _ => rfl
  have e3 : ∀ n : String,
      Fprintf.text ⟨"        private static extern IntPtr %s_VTKGetClassName(IntPtr id);\n\n", [n]⟩ =
        "        private static extern IntPtr " ++ (n ++ "_VTKGetClassName(IntPtr id);\n\n") :=
    fun _ => rfl
  have e4 : ∀ n : String,
      Fprintf.text ⟨"            %s_VTKDeleteReference(id);\n", [n]⟩ =
        "            " ++ (n ++ "_VTKDeleteReference(id);\n") :=
    fun _ => rfl
  have e5 : ∀ n : String,
      Fprintf.text ⟨"            %s_VTKRegister(obj);\n", [n]⟩ =
        "            " ++ (n ++ "_VTKRegister(obj);\n") :=
    fun _ => rfl
  have e6 : ∀ n : String,
      Fprintf.text ⟨"            IntPtr ptr = %s_VTKGetClassName(id);\n", [n]⟩ =
        "            IntPtr ptr = " ++ (n ++ "_VTKGetClassName(id);\n") :=
    fun _ => rfl
  have e7 : ∀ n : String,
      Fprintf.text ⟨"                    %s_VTKDeleteReference(handle);\n", [n]⟩ =
        "                    " ++ (n ++ "_VTKDeleteReference(handle);\n") :=
    fun _ => rfl
  have e8 : ∀ n : String,
      Fprintf.text ⟨"        ~%s() \x7b Dispose(); \x7d\n", [n]⟩ =
        "        ~" ++ (n ++ "() \x7b Dispose(); \x7d\n") :=
    fun _ => rfl
  unfold Parse.lifecycleText Parse.lifecycleCalls
  simp only [written_cons, written_nil, written_append, written_ite, text_nil,
    e1, e2, e3, e4, e5, e6, e7, e8,
    String.append_assoc, String.append_empty]

theorem Parse.rootText_eq_written (data : ClassInfo) :
    Parse.rootText data = written (Parse.rootCalls data) := by
  have e1 : ∀ n : String,
      Fprintf.text ⟨"        private static extern IntPtr %s_New();\n\n", [n]⟩ =
        "        private static extern IntPtr " ++ (n ++ "_New();\n\n") :=
    fun _ => rfl
  have e2 : ∀ n : String,
      Fprintf.text ⟨"        public %s()\n", [n]⟩ =
        "        public " ++ (n ++ "()\n") :=
    fun _ => rfl
  have e3 : ∀ n : String,
      Fprintf.text ⟨"            this.handle = %s_New();\n", [n]⟩ =
        "            this.handle = " ++ (n ++ "_New();\n") :=
    fun _ => rfl
  have e4 : ∀ n : String,
      Fprintf.text ⟨"        protected %s() \x7b \x7d\n\n", [n]⟩ =
        "        protected " ++ (n ++ "() \x7b \x7d\n\n") :=
    fun _ => rfl
  have e5 : ∀ n : String,
      Fprintf.text ⟨"        internal %s(IntPtr ptr, bool ownsRef)\n", [n]⟩ =
        "        internal " ++ (n ++ "(IntPtr ptr, bool ownsRef)\n") :=
    fun _ => rfl
  unfold Parse.rootText Parse.rootCalls
  rw [Parse.lifecycleText_eq_written]
  simp only [written_cons, written_nil, written_append, written_ite, text_nil,
    e1, e2, e3, e4, e5,
    String.append_assoc, String.append_empty]

theorem Parse.derivedText_eq_written (data : ClassInfo) :
    Parse.derivedText data = written (Parse.derivedCalls data) := by
  have e1 : ∀ n : String,
      Fprintf.text ⟨"        private static extern IntPtr %s_New();\n\n", [n]⟩ =
        "        private static extern IntPtr " ++ (n ++ "_New();\n\n") :=
    fun _ => rfl
  have e2 : ∀ n m : String,
      Fprintf.text ⟨"        public %s() : base(%s_New(), true) \x7b \x7d\n", [n, m]⟩ =
        "        public " ++ (n ++ ("() : base(" ++ (m ++ "_New(), true) \x7b \x7d\n"))) :=
    fun _ _ => rfl
  have e3 : ∀ n : String,
      Fprintf.text ⟨"\n        protected %s() : base() \x7b \x7d\n", [n]⟩ =
        "\n        protected " ++ (n ++ "() : base() \x7b \x7d\n") :=
    fun _ => rfl
  have e4 : ∀ n : String,
      Fprintf.text ⟨"        internal %s(IntPtr ptr, bool ownsRef) : base(ptr, ownsRef) \x7b \x7d\n", [n]⟩ =
        "        internal " ++ (n ++ "(IntPtr ptr, bool ownsRef) : base(ptr, ownsRef) \x7b \x7d\n") :=
    fun _ => rfl
  unfold Parse.derivedText Parse.derivedCalls
  simp only [written_cons, written_nil, written_append, written_ite, text_nil,
    e1, e2, e3, e4,
    String.append_assoc, String.append_empty]

theorem Parse.printText_eq_written : Parse.printText = written Parse.printCalls := by
  unfold Parse.printText Parse.printCalls
  simp only [written_cons, written_nil, text_nil, String.append_assoc, String.append_empty]

theorem Parse.observerText_eq_written : Parse.observerText = written Parse.observerCalls := by
  unfold Parse.observerText Parse.observerCalls
  simp only [written_cons, written_nil, text_nil, String.append_assoc, String.append_empty]

/-- The text written after the method loop by `main` of vtkParseCSharp.c is the text of
its `fprintf` calls. -/
theorem Parse.classTail_eq_written (data : ClassInfo) :
    Parse.classTail data = written (Parse.tailCalls data) := by
  unfold Parse.classTail Parse.tailCalls
  rw [Parse.rootText_eq_written, Parse.derivedText_eq_written, Parse.printText_eq_written,
    Parse.observerText_eq_written]
  simp only [written_cons, written_nil, written_append, written_ite, text_nil,
    String.append_assoc, String.append_empty]

theorem Wrap.lifetimeExports_eq_written (data : ClassInfo) :
    Wrap.lifetimeExports data = written (Wrap.lifetimeCalls data) := by
  have e1 : ∀ n : String,
      Fprintf.text ⟨"void %s_VTKDeleteReference(void* id)\n", [n]⟩ =
        "void " ++ (n ++ "_VTKDeleteReference(void* id)\n") :=
    fun _ => rfl
  have e2 : ∀ n m : String,
      Fprintf.text ⟨"  %s* op = static_cast<%s*>(id);\n", [n, m]⟩ =
        "  " ++ (n ++ ("* op = static_cast<" ++ (m ++ "*>(id);\n"))) :=
    fun _ _ => rfl
  have e3 : ∀ n : String,
      Fprintf.text ⟨"const char* %s_VTKGetClassName(void* id)\n", [n]⟩ =
        "const char* " ++ (n ++ "_VTKGetClassName(void* id)\n") :=
    fun _ => rfl
  have e4 : ∀ n : String,
      Fprintf.text ⟨"void %s_VTKDelete(void* obj)\n", [n]⟩ =
        "void " ++ (n ++ "_VTKDelete(void* obj)\n") :=
    fun _ => rfl
  have e5 : ∀ n m : String,
      Fprintf.text ⟨"  %s* op = static_cast<%s*>(obj);\n", [n, m]⟩ =
        "  " ++ (n ++ ("* op = static_cast<" ++ (m ++ "*>(obj);\n"))) :=
    fun _ _ => rfl
  have e6 : ∀ n : String,
      Fprintf.text ⟨"void %s_VTKRegister(void* obj)\n", [n]⟩ =
        "void " ++ (n ++ "_VTKRegister(void* obj)\n") :=
    fun _ => rfl
  unfold Wrap.lifetimeExports Wrap.lifetimeCalls
  simp only [written_cons, written_nil, written_append, written_ite, text_nil,
    e1, e2, e3, e4, e5, e6,
    String.append_assoc, String.append_empty]

theorem Wrap.newExport_eq_written (data : ClassInfo) :
    Wrap.newExport data = written (Wrap.newCalls data) := by
  have e1 : ∀ n : String,
      Fprintf.text ⟨"void* %s_New(void)", [n]⟩ =
        "void* " ++ (n ++ "_New(void)") :=
    fun _ => rfl
  have e2 : ∀ n : String,
      Fprintf.text ⟨"  return static_cast<void*>(%s::New());\n", [n]⟩ =
        "  return static_cast<void*>(" ++ (n ++ "::New());\n") :=
    fun _ => rfl
  unfold Wrap.newExport Wrap.newCalls
  simp only [written_cons, written_nil, written_append, written_ite, text_nil,
    e1, e2,
    String.append_assoc, String.append_empty]

theorem Wrap.printExport_eq_written : Wrap.printExport = written Wrap.printCalls := by
  unfold Wrap.printExport Wrap.printCalls
  simp only [written_cons, written_nil, text_nil, String.append_assoc, String.append_empty]

theorem Wrap.observerExports_eq_written : Wrap.observerExports = written Wrap.observerCalls := by
  unfold Wrap.observerExports Wrap.observerCalls
  simp only [written_cons, written_nil, text_nil, String.append_assoc, String.append_empty]

/-- The text written after the method loop by `main` of vtkWrapCSharp.c is the text of
its `fprintf` calls. -/
theorem Wrap.classExports_eq_written (data : ClassInfo) :
    Wrap.classExports data = written (Wrap.exportCalls data) := by
  unfold Wrap.classExports Wrap.exportCalls
  rw [Wrap.lifetimeExports_eq_written, Wrap.newExport_eq_written, Wrap.printExport_eq_written,
    Wrap.observerExports_eq_written]
  simp only [written_append, written_ite, written_nil]

theorem string_append_right_inj (a b c : String) : a ++ b = a ++ c ↔ b = c := by
  constructor
  · intro h
    have hd := congrArg String.data h
    rw [String.data_append, String.data_append] at hd
    exact String.ext (List.append_cancel_left hd)
  · intro h
    rw [h]

/-- The symbols of two lifecycle functions of a class are equal only for the same
function. -/
theorem Lifecycle.symbol_inj (C : String) (h1 h2 : Lifecycle) :
    Lifecycle.symbol C h1 = Lifecycle.symbol C h2 ↔ h1 = h2 := by
  constructor
  · intro h
    cases h1 <;> cases h2 <;> first
      | rfl
      | (exact absurd ((string_append_right_inj C _ _).mp h) (by decide))
  · intro h
    rw [h]

/-- No lifecycle symbol is a symbol of the hand-written methods that both generators add
for the classes vtkObjectBase and vtkObject. -/
theorem Lifecycle.symbol_not_shared (C : String) (h : Lifecycle) :
    Lifecycle.symbol C h ∉
      (if streq "vtkObjectBase" C then ["vtkObjectBase_Print"] else []) ++
      (if streq "vtkObject" C then
        ["vtkObject_AddObserverCSharp", "vtkObject_RemoveObserverCSharp"]
       else []) := by
  by_cases h1 : C = "vtkObjectBase"
  · subst h1
    cases h <;> decide
  · by_cases h2 : C = "vtkObject"
    · subst h2
      cases h <;> decide
    · have e1 : streq "vtkObjectBase" C = false := by
        unfold streq
        exact decide_eq_false (fun e => h1 e.symm)
      have e2 : streq "vtkObject" C = false := by
        unfold streq
        exact decide_eq_false (fun e => h2 e.symm)
      rw [e1, e2]
      exact List.not_mem_nil _

/-- The lifecycle symbols among the symbols that the managed class imports after its
methods. -/
theorem Parse.mem_imports (data : ClassInfo) (h : Lifecycle) :
    Lifecycle.symbol data.Name h ∈ declaredImports (Parse.tailCalls data) ↔
      (h = .New ∧ data.IsAbstract = false) ∨
      ((h = .VTKDeleteReference ∨ h = .VTKRegister ∨ h = .VTKGetClassName) ∧
        data.HasDelete = true ∧ data.SuperClasses = []) := by
  rw [Parse.declaredImports_tailCalls, List.append_assoc, List.mem_append]
  have hs := Lifecycle.symbol_not_shared data.Name h
  have e : ∀ h2 : Lifecycle, Lifecycle.symbol data.Name h = Lifecycle.symbol data.Name h2 ↔
      h = h2 := Lifecycle.symbol_inj data.Name h
  have eN : Lifecycle.symbol data.Name h = data.Name ++ "_New" ↔ h = .New := e .New
  have eD : Lifecycle.symbol data.Name h = data.Name ++ "_VTKDeleteReference" ↔
      h = .VTKDeleteReference := e .VTKDeleteReference
  have eR : Lifecycle.symbol data.Name h = data.Name ++ "_VTKRegister" ↔
      h = .VTKRegister := e .VTKRegister
  have eG : Lifecycle.symbol data.Name h = data.Name ++ "_VTKGetClassName" ↔
      h = .VTKGetClassName := e .VTKGetClassName
  clear e
  obtain ⟨name, fns, supers, abs, exc, tmpl, hd⟩ := data
  dsimp only at hs eN eD eR eG ⊢
  simp only [hs, or_false, List.mem_append]
  cases abs <;> cases hd <;> cases supers <;>
    simp [eN, eD, eR, eG]

/-- The lifecycle symbols among the symbols that the shim exports after the methods. -/
theorem Wrap.mem_exports (data : ClassInfo) (h : Lifecycle) :
    Lifecycle.symbol data.Name h ∈ declaredExports (Wrap.exportCalls data) ↔
      (h = .New ∧ data.IsAbstract = false) ∨
      (h ≠ .New ∧ data.HasDelete = true ∧ data.SuperClasses = []) := by
  rw [Wrap.declaredExports_exportCalls, List.append_assoc, List.mem_append]
  have hs := Lifecycle.symbol_not_shared data.Name h
  have e : ∀ h2 : Lifecycle, Lifecycle.symbol data.Name h = Lifecycle.symbol data.Name h2 ↔
      h = h2 := Lifecycle.symbol_inj data.Name h
  have eN : Lifecycle.symbol data.Name h = data.Name ++ "_New" ↔ h = .New := e .New
  have eD : Lifecycle.symbol data.Name h = data.Name ++ "_VTKDeleteReference" ↔
      h = .VTKDeleteReference := e .VTKDeleteReference
  have eR : Lifecycle.symbol data.Name h = data.Name ++ "_VTKRegister" ↔
      h = .VTKRegister := e .VTKRegister
  have eG : Lifecycle.symbol data.Name h = data.Name ++ "_VTKGetClassName" ↔
      h = .VTKGetClassName := e .VTKGetClassName
  have eX : Lifecycle.symbol data.Name h = data.Name ++ "_VTKDelete" ↔
      h = .VTKDelete := e .VTKDelete
  clear e
  obtain ⟨name, fns, supers, abs, exc, tmpl, hd⟩ := data
  dsimp only at hs eN eD eR eG eX ⊢
  simp only [hs, or_false, List.mem_append]
  cases abs <;> cases hd <;> cases supers <;> cases h <;>
    simp [eN, eD, eR, eG, eX]

/-- Every symbol that the managed class imports after its methods is exported by the
shim after its methods. -/
theorem imports_subset_exports (data : ClassInfo) :
    ∀ s ∈ declaredImports (Parse.tailCalls data), s ∈ declaredExports (Wrap.exportCalls data) := by
  intro s
  rw [Parse.declaredImports_tailCalls, Wrap.declaredExports_exportCalls]
  obtain ⟨name, fns, supers, abs, exc, tmpl, hd⟩ := data
  dsimp only
  generalize streq "vtkObjectBase" name = b1
  generalize streq "vtkObject" name = b2
  cases abs <;> cases hd <;> cases supers <;> cases b1 <;> cases b2 <;>
    simp <;> tauto

theorem preparedClass_tail (env : Env) (inp : MainInput) (data : ClassInfo) :
    Wrap.classExports (preparedClass env inp data) = Wrap.classExports data ∧
    Parse.classTail (preparedClass env inp data) = Parse.classTail data := by
  unfold preparedClass
  cases env.hierarchyInfo <;> exact ⟨rfl, rfl⟩

/-- What `main` of both generators writes for a class that passes the guards of both:
the header and the methods, then the helper functions of the class. -/
theorem main_of_guards_passed (lib : String) (env : Env) (inp : MainInput) (data : ClassInfo)
    (hopen : inp.canOpen = true) (hc : inp.MainClass = some data)
    (hx : data.IsExcluded = false) (hb : data.Name ≠ "vtkObjectBase")
    (ht : data.Template = false) (hs : templatedSuperClass data = false)
    (hh : env.hierarchyInfo.isSome = true → inp.IsTypeOf data.Name "vtkObjectBase" = true) :
    Wrap.main env inp = ⟨0, some (Wrap.classText env (preparedClass env inp data))⟩ ∧
    Parse.main lib env inp =
      ⟨0, some (Parse.classText lib env (preparedClass env inp data))⟩ := by
  have hg : (env.hierarchyInfo.isSome && !inp.IsTypeOf data.Name "vtkObjectBase") = false := by
    cases h1 : env.hierarchyInfo.isSome
    · rfl
    · rw [hh h1]
      rfl
  have hn : streq data.Name "vtkObjectBase" = false := by
    unfold streq
    exact decide_eq_false hb
  unfold Wrap.main Parse.main
  simp only [hopen, hc, hx, ht, hs, hg, hn, Bool.not_true, Bool.false_eq_true, if_false]
  exact ⟨trivial, trivial⟩

/-! ## `Dispose` -/

/-- The lifecycle part of the class text ends with the `Dispose` method and the finalizer
that calls it. -/
theorem Parse.lifecycleText_dispose (data : ClassInfo) :
    ∃ pre, Parse.lifecycleText data =
      pre ++ Parse.disposeText data ++ ("        ~" ++ data.Name ++ "() \x7b Dispose(); \x7d\n") := by
  have key : ∀ x d1 d2 d3 d4 d5 d6 d7 d8 d9 d10 d11 d12 d13 d14 t1 t2 t3 : String,
      x ++ d1 ++ d2 ++ d3 ++ d4 ++ d5 ++ d6 ++ d7 ++ d8 ++ d9 ++ d10 ++ d11 ++ d12 ++ d13 ++
          d14 ++ t1 ++ t2 ++ t3 =
        x ++ (d1 ++ d2 ++ d3 ++ d4 ++ d5 ++ d6 ++ d7 ++ d8 ++ d9 ++ d10 ++ d11 ++ d12 ++ d13 ++
          d14) ++ (t1 ++ t2 ++ t3) := by
    intros
    simp only [String.append_assoc]
  unfold Parse.lifecycleText Parse.disposeText
  exact ⟨_, key _ _ _ _ _ _ _ _ _ _ _ _ _ _ _ _ _ _⟩

theorem Dispose_first (s : WrapperState) (hh : s.handle ≠ 0) (hd : s.disposed = false) :
    Dispose s =
      ({ s with handle := 0, disposed := true },
        [DisposeCall.unregister s.handle] ++
        (if s.ownsReference then [DisposeCall.deleteReference s.handle] else []) ++
        [DisposeCall.suppressFinalize]) := by
  unfold Dispose
  rw [hd, if_pos]
  simp only [Bool.not_false, Bool.true_and, bne_iff_ne, ne_eq]
  exact hh

theorem Dispose_disposed (s : WrapperState) (hd : s.disposed = true) :
    Dispose s = (s, [DisposeCall.suppressFinalize]) := by
  unfold Dispose
  rw [hd, if_neg]
  simp

theorem Dispose_zero (s : WrapperState) (hh : s.handle = 0) :
    Dispose s = (s, [DisposeCall.suppressFinalize]) := by
  unfold Dispose
  rw [hh, if_neg]
  simp

/-! ## Array arguments of the shim -/

/-- Let the argument `i` of a method be a numeric array pointer with `n =
Parameters[i]->Count` elements, and let no argument of the method be a function pointer
(a function pointer ends the argument loops).  Then the shim writes for the argument
`memcpy(temp<i>, id<i>, n * sizeof(temp<i>[0]))`, it writes
`memcpy(id<i>, temp<i>, n * sizeof(temp<i>[0]))` if the argument type is not const
qualified and nothing otherwise, and the body of the export consists of the local
declarations, the first text of every argument, the cast of the handle, the call, the
second text of every argument and the return statement, in this order. -/
theorem Wrap.array_argument_copied_in_and_back (data : ClassInfo) (f : FunctionInfo)
    (i : Nat)
    (h : Wrap.isArrayPtrCase (f.ArgTypes i &&& VTK_PARSE_UNQUALIFIED_TYPE) = true)
    (hno : ∀ j, j < f.NumberOfArguments → f.ArgTypes j ≠ VTK_PARSE_FUNCTION) :
    Wrap.OutputLocalVariableAssignments f i =
      "  memcpy(temp" ++ fmtInt i ++ ", id" ++ fmtInt i ++ ", " ++
        fmtInt (f.Parameters i).Count ++ " * sizeof(temp" ++ fmtInt i ++ "[0]));\n" ∧
    Wrap.OutputCopyBackArrays f i =
      (if f.ArgTypes i &&& VTK_PARSE_CONST = 0 then
        "  memcpy(id" ++ fmtInt i ++ ", temp" ++ fmtInt i ++ ", " ++
          fmtInt (f.Parameters i).Count ++ " * sizeof(temp" ++ fmtInt i ++ "[0]));\n"
      else "") ∧
    ∃ head ∈ ["  op->", "  temp20 = &(op)->", "  temp20 = op->"],
      Wrap.bodyText data f =
        String.join ((List.range f.NumberOfArguments).map
          (fun i => Wrap.OutputLocalVariableDeclarations i (f.ArgTypes i) (f.ArgClasses i)
            (f.ArgCounts i))) ++
        Wrap.OutputLocalVariableDeclarations MAX_ARGS f.ReturnType f.ReturnClass 0 ++
        String.join ((List.range f.NumberOfArguments).map
          (fun i => Wrap.OutputLocalVariableAssignments f i)) ++
        "\n  " ++ data.Name ++ "* op = static_cast<" ++ data.Name ++ "*>(obj);\n" ++
        (head ++ nameStr f ++ "(") ++
        String.join ((List.range f.NumberOfArguments).map
          (fun i => (if i ≠ 0 then ", " else "") ++
            (if f.ArgTypes i = VTK_PARSE_FUNCTION then
              "reinterpret_cast<void(*)(void*)>(fptr), clientdata"
             else "temp" ++ fmtInt i))) ++
        ");\n" ++
        String.join ((List.range f.NumberOfArguments).map
          (fun i => Wrap.OutputCopyBackArrays f i)) ++
        Wrap.OutputFunctionResult f ++ "\x7d\n" :=
  ⟨Wrap.OutputLocalVariableAssignments_array f i h, Wrap.OutputCopyBackArrays_array f i h,
    Wrap.bodyText_plain data f hno⟩

/-! ## The hint switch overwrites the verdict -/

theorem Core.check_hinted (icw : Env → String → Int) (cnt : FunctionInfo → Nat → Int)
    (env : Env) (data : ClassInfo) (f : FunctionInfo)
    (h : ¬ (f.IsOperator = true ∨ f.ArrayFailure = true ∨ f.Template = true ∨
      f.IsExcluded = true ∨ f.IsDeleted = true ∨ f.IsPublic = false ∨ f.Name = none ∨
      f.Name = some "NewInstance" ∨ f.Name = some "SafeDownCast"))
    (hcb : ¬ CallbackPattern f)
    (hn : ¬ (f.Name = some "Delete" ∨ f.Name = some "New"))
    (hobs : ¬ (data.Name = "vtkObject" ∧ observerOverride f = true))
    (hprint : ¬ (data.Name = "vtkObjectBase" ∧ f.Name = some "Print"))
    (hh : hintCase (f.ReturnType &&& VTK_PARSE_UNQUALIFIED_TYPE)) :
    (Core.checkFunctionSignature icw cnt env data f).1 = f.HaveHint := by
  unfold CallbackPattern at hcb
  unfold Core.checkFunctionSignature
  dsimp only
  split
  · rename_i h1
    exfalso
    apply h
    clear hcb hn hobs hprint hh h
    simp only [Bool.or_eq_true, Bool.not_eq_true', Option.isNone_iff_eq_none] at h1
    tauto
  split
  · rename_i h2
    have e := (nameIs_iff f.Name "NewInstance").mp h2
    exact absurd (Or.inr (Or.inr (Or.inr (Or.inr (Or.inr (Or.inr (Or.inr (Or.inl e)))))))) h
  split
  · rename_i h3
    have e := (nameIs_iff f.Name "SafeDownCast").mp h3
    exact absurd (Or.inr (Or.inr (Or.inr (Or.inr (Or.inr (Or.inr (Or.inr (Or.inr e)))))))) h
  have hs := (Core.foldl_checkArg_sameSig icw env data (List.range f.NumberOfArguments)
    (1, f)).trans (Core.checkReturn_sameSig icw env data
      (f.ReturnType &&& VTK_PARSE_UNQUALIFIED_TYPE) _)
  dsimp only
  have hsw : ∀ x, hintSwitch (f.ReturnType &&& VTK_PARSE_UNQUALIFIED_TYPE) f.HaveHint x =
      f.HaveHint := by
    intro x
    unfold hintSwitch
    unfold hintCase at hh
    rw [if_pos hh]
  rw [hs.1, hs.2.2.2.2.2.2.2.1, hsw, observerOverride_sameSig hs]
  have hdn : (nameIs f.Name "Delete" || nameIs f.Name "New") = false := by
    rw [Bool.or_eq_false_iff]
    constructor
    · exact Bool.eq_false_iff.mpr (fun hx => hn (Or.inl ((nameIs_iff _ _).mp hx)))
    · exact Bool.eq_false_iff.mpr (fun hx => hn (Or.inr ((nameIs_iff _ _).mp hx)))
  rw [hdn, veto_false]
  by_cases hc : streq "vtkObject" data.Name = true
  · rw [if_pos hc]
    have hc2 : data.Name = "vtkObject" := by
      simp only [streq, decide_eq_true_eq] at hc
      exact hc.symm
    have ho : observerOverride f = false :=
      Bool.eq_false_iff.mpr (fun hx => hobs ⟨hc2, hx⟩)
    rw [ho, veto_false]
  · rw [if_neg hc]
    by_cases hb : streq "vtkObjectBase" data.Name = true
    · rw [if_pos hb]
      have hb2 : data.Name = "vtkObjectBase" := by
        simp only [streq, decide_eq_true_eq] at hb
        exact hb.symm
      have hp : nameIs f.Name "Print" = false :=
        Bool.eq_false_iff.mpr (fun hx => hprint ⟨hb2, (nameIs_iff _ _).mp hx⟩)
      rw [hp, veto_false]
    · rw [if_neg hb]

/-! ## `CheckMatch`: qualifiers, precedence, equivalence -/

theorem unq_land (t : Nat) :
    (t &&& VTK_PARSE_UNQUALIFIED_TYPE) &&& VTK_PARSE_UNQUALIFIED_TYPE =
        t &&& VTK_PARSE_UNQUALIFIED_TYPE ∧
    (t &&& VTK_PARSE_UNQUALIFIED_TYPE) &&& VTK_PARSE_BASE_TYPE = t &&& VTK_PARSE_BASE_TYPE ∧
    (t &&& VTK_PARSE_UNQUALIFIED_TYPE) &&& VTK_PARSE_INDIRECT = t &&& VTK_PARSE_INDIRECT := by
  refine ⟨?_, ?_, ?_⟩
  · rw [land_unq, land_unq]; omega
  · rw [land_base, land_base, land_unq]; omega
  · rw [land_indirect, land_indirect, land_unq]; omega

theorem Wrap.numericMatch_congr (t1 t2 s1 s2 : Nat) (fams : List (List Nat))
    (h1 : t1 &&& VTK_PARSE_BASE_TYPE = s1 &&& VTK_PARSE_BASE_TYPE)
    (h2 : t2 &&& VTK_PARSE_BASE_TYPE = s2 &&& VTK_PARSE_BASE_TYPE)
    (hi : t1 &&& VTK_PARSE_INDIRECT = t2 &&& VTK_PARSE_INDIRECT ↔
      s1 &&& VTK_PARSE_INDIRECT = s2 &&& VTK_PARSE_INDIRECT) :
    Wrap.numericMatch t1 t2 fams = Wrap.numericMatch s1 s2 fams := by
  induction fams with
  | nil => rfl
  | cons fam rest ih =>
    unfold Wrap.numericMatch
    dsimp only
    rw [h1, h2, ih]
    simp only [hi]

/-- The verdict of `CheckMatch` depends on the unqualified type bits only. -/
theorem Wrap.CheckMatch_congr (t1 t2 s1 s2 : Nat) (c1 c2 : String)
    (h1 : t1 &&& VTK_PARSE_UNQUALIFIED_TYPE = s1 &&& VTK_PARSE_UNQUALIFIED_TYPE)
    (h2 : t2 &&& VTK_PARSE_UNQUALIFIED_TYPE = s2 &&& VTK_PARSE_UNQUALIFIED_TYPE) :
    Wrap.CheckMatch t1 t2 c1 c2 = Wrap.CheckMatch s1 s2 c1 c2 := by
  have b1 : t1 &&& VTK_PARSE_BASE_TYPE = s1 &&& VTK_PARSE_BASE_TYPE := by
    rw [base_of_unq t1 _ h1, base_of_unq s1 _ rfl]
  have b2 : t2 &&& VTK_PARSE_BASE_TYPE = s2 &&& VTK_PARSE_BASE_TYPE := by
    rw [base_of_unq t2 _ h2, base_of_unq s2 _ rfl]
  have i1 : t1 &&& VTK_PARSE_INDIRECT = s1 &&& VTK_PARSE_INDIRECT := by
    rw [indirect_of_unq t1 _ h1, indirect_of_unq s1 _ rfl]
  have i2 : t2 &&& VTK_PARSE_INDIRECT = s2 &&& VTK_PARSE_INDIRECT := by
    rw [indirect_of_unq t2 _ h2, indirect_of_unq s2 _ rfl]
  unfold Wrap.CheckMatch
  rw [h1, h2, b1, Wrap.numericMatch_congr t1 t2 s1 s2 numericTypes b1 b2 (by rw [i1, i2])]

/-- When the unqualified types differ the class names are not read. -/
theorem Wrap.CheckMatch_names (t1 t2 : Nat) (c1 c2 d1 d2 : String)
    (hne : t1 &&& VTK_PARSE_UNQUALIFIED_TYPE ≠ t2 &&& VTK_PARSE_UNQUALIFIED_TYPE) :
    Wrap.CheckMatch t1 t2 c1 c2 = Wrap.CheckMatch t1 t2 d1 d2 := by
  unfold Wrap.CheckMatch
  rw [if_neg hne, if_neg hne]

/-- The families of `CheckMatch` without their terminators. -/
theorem numeric_precedence_table :
    ∀ fam ∈ [[VTK_PARSE_UNSIGNED_CHAR, VTK_PARSE_SIGNED_CHAR],
              [VTK_PARSE_UNSIGNED_SHORT, VTK_PARSE_SHORT],
              [VTK_PARSE_UNKNOWN, VTK_PARSE_UNSIGNED_INT, VTK_PARSE_INT],
              [VTK_PARSE_UNSIGNED_LONG, VTK_PARSE_UNSIGNED_LONG_LONG, VTK_PARSE_LONG,
               VTK_PARSE_LONG_LONG]],
      ∀ b1 ∈ fam, ∀ b2 ∈ fam, b1 ≠ b2 →
        b1 &&& VTK_PARSE_BASE_TYPE = b1 ∧ b2 &&& VTK_PARSE_BASE_TYPE = b2 ∧
        b1 &&& VTK_PARSE_INDIRECT = b2 &&& VTK_PARSE_INDIRECT ∧
        Wrap.numericMatch b1 b2 numericTypes =
          some (if fam.indexOf b1 < fam.indexOf b2 then 1 else 2) := by
  decide

theorem string_precedence_table :
    ∀ u1 ∈ [VTK_PARSE_CHAR_PTR, VTK_PARSE_STRING_REF, VTK_PARSE_STRING],
      ∀ u2 ∈ [VTK_PARSE_CHAR_PTR, VTK_PARSE_STRING_REF, VTK_PARSE_STRING], u1 ≠ u2 →
        u1 &&& VTK_PARSE_UNQUALIFIED_TYPE = u1 ∧ u2 &&& VTK_PARSE_UNQUALIFIED_TYPE = u2 ∧
        Wrap.CheckMatch u1 u2 "" "" =
          if [VTK_PARSE_CHAR_PTR, VTK_PARSE_STRING_REF, VTK_PARSE_STRING].indexOf u1 <
              [VTK_PARSE_CHAR_PTR, VTK_PARSE_STRING_REF, VTK_PARSE_STRING].indexOf u2
          then 1 else 2 := by
  decide

theorem Wrap.CheckMatch_numeric_precedence (t1 t2 : Nat) (c1 c2 : String) (fam : List Nat)
    (hf : fam ∈ [[VTK_PARSE_UNSIGNED_CHAR, VTK_PARSE_SIGNED_CHAR],
              [VTK_PARSE_UNSIGNED_SHORT, VTK_PARSE_SHORT],
              [VTK_PARSE_UNKNOWN, VTK_PARSE_UNSIGNED_INT, VTK_PARSE_INT],
              [VTK_PARSE_UNSIGNED_LONG, VTK_PARSE_UNSIGNED_LONG_LONG, VTK_PARSE_LONG,
               VTK_PARSE_LONG_LONG]])
    (h1 : t1 &&& VTK_PARSE_BASE_TYPE ∈ fam) (h2 : t2 &&& VTK_PARSE_BASE_TYPE ∈ fam)
    (hne : t1 &&& VTK_PARSE_BASE_TYPE ≠ t2 &&& VTK_PARSE_BASE_TYPE)
    (hi : t1 &&& VTK_PARSE_INDIRECT = t2 &&& VTK_PARSE_INDIRECT) :
    Wrap.CheckMatch t1 t2 c1 c2 =
      if fam.indexOf (t1 &&& VTK_PARSE_BASE_TYPE) < fam.indexOf (t2 &&& VTK_PARSE_BASE_TYPE)
      then 1 else 2 := by
  obtain ⟨e1, e2, e3, e4⟩ := numeric_precedence_table fam hf _ h1 _ h2 hne
  have hu : t1 &&& VTK_PARSE_UNQUALIFIED_TYPE ≠ t2 &&& VTK_PARSE_UNQUALIFIED_TYPE := by
    intro hu
    apply hne
    rw [base_of_unq t1 _ hu, base_of_unq t2 _ rfl]
  unfold Wrap.CheckMatch
  rw [if_neg hu, Wrap.numericMatch_congr t1 t2 (t1 &&& VTK_PARSE_BASE_TYPE)
    (t2 &&& VTK_PARSE_BASE_TYPE) numericTypes e1.symm e2.symm (by simp only [hi, e3]), e4]

theorem Wrap.CheckMatch_string_precedence (t1 t2 : Nat) (c1 c2 : String)
    (h1 : t1 &&& VTK_PARSE_UNQUALIFIED_TYPE ∈
      [VTK_PARSE_CHAR_PTR, VTK_PARSE_STRING_REF, VTK_PARSE_STRING])
    (h2 : t2 &&& VTK_PARSE_UNQUALIFIED_TYPE ∈
      [VTK_PARSE_CHAR_PTR, VTK_PARSE_STRING_REF, VTK_PARSE_STRING])
    (hne : t1 &&& VTK_PARSE_UNQUALIFIED_TYPE ≠ t2 &&& VTK_PARSE_UNQUALIFIED_TYPE) :
    Wrap.CheckMatch t1 t2 c1 c2 =
      if [VTK_PARSE_CHAR_PTR, VTK_PARSE_STRING_REF, VTK_PARSE_STRING].indexOf
            (t1 &&& VTK_PARSE_UNQUALIFIED_TYPE) <
          [VTK_PARSE_CHAR_PTR, VTK_PARSE_STRING_REF, VTK_PARSE_STRING].indexOf
            (t2 &&& VTK_PARSE_UNQUALIFIED_TYPE)
      then 1 else 2 := by
  obtain ⟨e1, e2, e3⟩ := string_precedence_table _ h1 _ h2 hne
  rw [Wrap.CheckMatch_names t1 t2 c1 c2 "" "" hne,
    Wrap.CheckMatch_congr t1 t2 (t1 &&& VTK_PARSE_UNQUALIFIED_TYPE)
      (t2 &&& VTK_PARSE_UNQUALIFIED_TYPE) "" "" e1.symm e2.symm, e3]

theorem familyOf_iff (b1 b2 : Nat) :
    (∃ fam ∈ [[VTK_PARSE_UNSIGNED_CHAR, VTK_PARSE_SIGNED_CHAR],
                [VTK_PARSE_UNSIGNED_SHORT, VTK_PARSE_SHORT],
                [VTK_PARSE_UNKNOWN, VTK_PARSE_UNSIGNED_INT, VTK_PARSE_INT],
                [VTK_PARSE_UNSIGNED_LONG, VTK_PARSE_UNSIGNED_LONG_LONG, VTK_PARSE_LONG,
                 VTK_PARSE_LONG_LONG]], b1 ∈ fam ∧ b2 ∈ fam) ↔
      familyOf b1 ≠ 0 ∧ familyOf b1 = familyOf b2 := by
  constructor
  · rintro ⟨fam, hf, h1, h2⟩
    have key : ∀ fam ∈ [[VTK_PARSE_UNSIGNED_CHAR, VTK_PARSE_SIGNED_CHAR],
                [VTK_PARSE_UNSIGNED_SHORT, VTK_PARSE_SHORT],
                [VTK_PARSE_UNKNOWN, VTK_PARSE_UNSIGNED_INT, VTK_PARSE_INT],
                [VTK_PARSE_UNSIGNED_LONG, VTK_PARSE_UNSIGNED_LONG_LONG, VTK_PARSE_LONG,
                 VTK_PARSE_LONG_LONG]], ∀ x ∈ fam, ∀ y ∈ fam,
        familyOf x ≠ 0 ∧ familyOf x = familyOf y := by decide
    exact key fam hf b1 h1 b2 h2
  · rintro ⟨h0, he⟩
    have mem : ∀ b, familyOf b ≠ 0 →
        (familyOf b = 1 ∧ b ∈ [VTK_PARSE_UNSIGNED_CHAR, VTK_PARSE_SIGNED_CHAR]) ∨
        (familyOf b = 2 ∧ b ∈ [VTK_PARSE_UNSIGNED_SHORT, VTK_PARSE_SHORT]) ∨
        (familyOf b = 3 ∧ b ∈ [VTK_PARSE_UNKNOWN, VTK_PARSE_UNSIGNED_INT, VTK_PARSE_INT]) ∨
        (familyOf b = 4 ∧ b ∈ [VTK_PARSE_UNSIGNED_LONG, VTK_PARSE_UNSIGNED_LONG_LONG,
          VTK_PARSE_LONG, VTK_PARSE_LONG_LONG]) := by
      intro b hb
      unfold familyOf at hb ⊢
      split_ifs at hb ⊢ with a1 a2 a3 a4
      · exact Or.inl ⟨rfl, a1⟩
      · exact Or.inr (Or.inl ⟨rfl, a2⟩)
      · exact Or.inr (Or.inr (Or.inl ⟨rfl, a3⟩))
      · exact Or.inr (Or.inr (Or.inr ⟨rfl, a4⟩))
      · exact absurd rfl hb
    have m1 := mem b1 h0
    have m2 := mem b2 (he ▸ h0)
    rcases m1 with ⟨f1, g1⟩ | ⟨f1, g1⟩ | ⟨f1, g1⟩ | ⟨f1, g1⟩ <;>
      rcases m2 with ⟨f2, g2⟩ | ⟨f2, g2⟩ | ⟨f2, g2⟩ | ⟨f2, g2⟩ <;>
      first
      | (exfalso; omega)
      | exact ⟨_, by simp, g1, g2⟩

theorem familyOf_le (b : Nat) : familyOf b ≤ 4 := by
  unfold familyOf
  split_ifs <;> omega

theorem familyOf_object (b : Nat) (h : familyOf b ≠ 0) : b ≠ VTK_PARSE_OBJECT := by
  intro hb
  rw [hb] at h
  exact h (by decide)

theorem string_family_no_family (t : Nat)
    (h : t &&& VTK_PARSE_UNQUALIFIED_TYPE ∈
      [VTK_PARSE_CHAR_PTR, VTK_PARSE_STRING_REF, VTK_PARSE_STRING]) :
    familyOf (t &&& VTK_PARSE_BASE_TYPE) = 0 := by
  simp only [List.mem_cons, List.mem_singleton, List.not_mem_nil, or_false] at h
  rcases h with h | h | h <;> rw [base_of_unq t _ h] <;> decide

/-- The relation of the match rule in terms of the three bit fields. -/
theorem Wrap.CheckMatch_ne_zero_rel (t1 t2 : Nat) (c1 c2 : String) :
    Wrap.CheckMatch t1 t2 c1 c2 ≠ 0 ↔
      (t1 &&& VTK_PARSE_UNQUALIFIED_TYPE = t2 &&& VTK_PARSE_UNQUALIFIED_TYPE ∧
        (t1 &&& VTK_PARSE_BASE_TYPE = VTK_PARSE_OBJECT → c1 = c2)) ∨
      (t1 &&& VTK_PARSE_UNQUALIFIED_TYPE ≠ t2 &&& VTK_PARSE_UNQUALIFIED_TYPE ∧
        ((t1 &&& VTK_PARSE_UNQUALIFIED_TYPE ∈
              [VTK_PARSE_CHAR_PTR, VTK_PARSE_STRING_REF, VTK_PARSE_STRING] ∧
            t2 &&& VTK_PARSE_UNQUALIFIED_TYPE ∈
              [VTK_PARSE_CHAR_PTR, VTK_PARSE_STRING_REF, VTK_PARSE_STRING]) ∨
          ((familyOf (t1 &&& VTK_PARSE_BASE_TYPE) ≠ 0 ∧
              familyOf (t1 &&& VTK_PARSE_BASE_TYPE) = familyOf (t2 &&& VTK_PARSE_BASE_TYPE)) ∧
            t1 &&& VTK_PARSE_INDIRECT = t2 &&& VTK_PARSE_INDIRECT))) := by
  by_cases hu : t1 &&& VTK_PARSE_UNQUALIFIED_TYPE = t2 &&& VTK_PARSE_UNQUALIFIED_TYPE
  · rw [Wrap.CheckMatch_same t1 t2 c1 c2 hu]
    by_cases hb : t1 &&& VTK_PARSE_BASE_TYPE = VTK_PARSE_OBJECT
    · rw [if_pos hb]
      by_cases hc : c1 = c2
      · rw [if_pos hc]
        exact ⟨fun _ => Or.inl ⟨hu, fun _ => hc⟩, fun _ => by decide⟩
      · rw [if_neg hc]
        constructor
        · intro h
          exact absurd rfl h
        · rintro (⟨_, h⟩ | ⟨h, _⟩)
          · exact absurd (h hb) hc
          · exact absurd hu h
    · rw [if_neg hb]
      exact ⟨fun _ => Or.inl ⟨hu, fun h => absurd h hb⟩, fun _ => by decide⟩
  · by_cases hs : t1 &&& VTK_PARSE_UNQUALIFIED_TYPE ∈
          [VTK_PARSE_CHAR_PTR, VTK_PARSE_STRING_REF, VTK_PARSE_STRING] ∧
        t2 &&& VTK_PARSE_UNQUALIFIED_TYPE ∈
          [VTK_PARSE_CHAR_PTR, VTK_PARSE_STRING_REF, VTK_PARSE_STRING]
    · exact ⟨fun _ => Or.inr ⟨hu, Or.inl hs⟩,
        fun _ => Wrap.CheckMatch_string_family t1 t2 c1 c2 hs.1 hs.2⟩
    · rw [Wrap.CheckMatch_differ t1 t2 c1 c2 hu hs, familyOf_iff]
      constructor
      · intro h
        exact Or.inr ⟨hu, Or.inr h⟩
      · rintro (⟨h, _⟩ | ⟨_, h | h⟩)
        · exact absurd h hu
        · exact absurd h hs
        · exact h

theorem keyCore_eq_iff (u1 u2 b1 b2 i1 i2 : Nat) (c1 c2 : String)
    (hu : u1 = u2 → b1 = b2 ∧ i1 = i2)
    (hs1 : u1 ∈ [VTK_PARSE_CHAR_PTR, VTK_PARSE_STRING_REF, VTK_PARSE_STRING] →
      familyOf b1 = 0 ∧ b1 ≠ VTK_PARSE_OBJECT)
    (hs2 : u2 ∈ [VTK_PARSE_CHAR_PTR, VTK_PARSE_STRING_REF, VTK_PARSE_STRING] →
      familyOf b2 = 0 ∧ b2 ≠ VTK_PARSE_OBJECT) :
    ((u1 = u2 ∧ (b1 = VTK_PARSE_OBJECT → c1 = c2)) ∨
      (u1 ≠ u2 ∧
        ((u1 ∈ [VTK_PARSE_CHAR_PTR, VTK_PARSE_STRING_REF, VTK_PARSE_STRING] ∧
            u2 ∈ [VTK_PARSE_CHAR_PTR, VTK_PARSE_STRING_REF, VTK_PARSE_STRING]) ∨
          ((familyOf b1 ≠ 0 ∧ familyOf b1 = familyOf b2) ∧ i1 = i2)))) ↔
      keyCore u1 b1 i1 c1 = keyCore u2 b2 i2 c2 := by
  have l1 := familyOf_le b1
  have l2 := familyOf_le b2
  have o1 := familyOf_object b1
  have o2 := familyOf_object b2
  by_cases e : u1 = u2
  · obtain ⟨eb, ei⟩ := hu e
    subst e eb ei
    unfold keyCore
    split_ifs with a1 a2 a3
    · simp [(hs1 a1).2]
    · simp [o1 a2]
    · simp [a3]
    · simp [a3]
  · unfold keyCore
    split_ifs with a1 a2 a3 a4 a5 a6 a7 a8 a9 a10 a11 a12 <;>
      simp_all <;> omega

/-- Two descriptors match exactly when they have the same class. -/
theorem Wrap.CheckMatch_ne_zero_iff_key (t1 t2 : Nat) (c1 c2 : String) :
    Wrap.CheckMatch t1 t2 c1 c2 ≠ 0 ↔ matchKey t1 c1 = matchKey t2 c2 := by
  rw [Wrap.CheckMatch_ne_zero_rel]
  unfold matchKey
  apply keyCore_eq_iff
  · intro hu
    exact ⟨by rw [base_of_unq t1 _ hu, base_of_unq t2 _ rfl],
      by rw [indirect_of_unq t1 _ hu, indirect_of_unq t2 _ rfl]⟩
  · exact fun h => ⟨string_family_no_family t1 h, string_family_base t1 h⟩
  · exact fun h => ⟨string_family_no_family t2 h, string_family_base t2 h⟩

theorem Wrap.CheckMatch_symm (t1 t2 : Nat) (c1 c2 : String) :
    Wrap.CheckMatch t1 t2 c1 c2 ≠ 0 ↔ Wrap.CheckMatch t2 t1 c2 c1 ≠ 0 := by
  rw [Wrap.CheckMatch_ne_zero_iff_key, Wrap.CheckMatch_ne_zero_iff_key]
  exact eq_comm

theorem Wrap.CheckMatch_le_two (t1 t2 : Nat) (c1 c2 : String) :
    Wrap.CheckMatch t1 t2 c1 c2 ≤ 2 := by
  unfold Wrap.CheckMatch
  split
  · split
    · split <;> omega
    · omega
  · cases hm : Wrap.numericMatch t1 t2 numericTypes with
    | some r =>
      have := Wrap.numericMatch_some t1 t2 numericTypes r hm
      dsimp only
      omega
    | none =>
      dsimp only
      split
      · split <;> omega
      · omega

/-! ## The registry holds no two duplicates -/

theorem Duplicate_symm (f fi : FunctionInfo) :
    Duplicate Wrap.CheckMatch f fi → Duplicate Wrap.CheckMatch fi f := by
  rintro ⟨⟨nm, h1, h2⟩, hn, ha, hr⟩
  refine ⟨⟨nm, h2, h1⟩, hn.symm, ?_, (Wrap.CheckMatch_symm _ _ _ _).mp hr⟩
  intro j hj
  exact (Wrap.CheckMatch_symm _ _ _ _).mp (ha j (by omega))

namespace Core

theorem outputFunction_skip_or_new (check : FunctionInfo → Int × FunctionInfo)
    (done : State → FunctionInfo → Int) (emit : FunctionInfo → Nat → String)
    (cn : String) (s : State) (f : FunctionInfo) :
    outputFunction check done emit cn s f = s ∨
    (done s (check f).2 = 0 ∧
      outputFunction check done emit cn s f =
        { numberOfWrappedFunctions := s.numberOfWrappedFunctions + 1
          wrappedFunctions :=
            arrayStore s.wrappedFunctions s.numberOfWrappedFunctions (check f).2
          out := s.out ++ emit (check f).2 s.numberOfWrappedFunctions }) := by
  unfold outputFunction
  dsimp only
  split
  · split
    · rename_i hd
      exact Or.inr ⟨hd, rfl⟩
    · exact Or.inl rfl
  · exact Or.inl rfl

/-- The invariant of the registry: the counter is its length and no entry is a duplicate
of an earlier one. -/
theorem outputFunction_no_duplicate (check : FunctionInfo → Int × FunctionInfo)
    (emit : FunctionInfo → Nat → String) (cn : String) (s : State) (f : FunctionInfo)
    (hn : s.numberOfWrappedFunctions = s.wrappedFunctions.length)
    (hp : s.wrappedFunctions.Pairwise (fun a b => ¬ Duplicate Wrap.CheckMatch b a)) :
    (outputFunction check Wrap.DoneOne emit cn s f).numberOfWrappedFunctions =
      (outputFunction check Wrap.DoneOne emit cn s f).wrappedFunctions.length ∧
    (outputFunction check Wrap.DoneOne emit cn s f).wrappedFunctions.Pairwise
      (fun a b => ¬ Duplicate Wrap.CheckMatch b a) := by
  rcases outputFunction_skip_or_new check Wrap.DoneOne emit cn s f with h | ⟨hd, h⟩
  · rw [h]
    exact ⟨hn, hp⟩
  · rw [h]
    dsimp only
    rw [hn, arrayStore_length]
    refine ⟨by simp, ?_⟩
    rw [List.pairwise_append]
    refine ⟨hp, List.pairwise_singleton _ _, ?_⟩
    intro a ha b hb
    rw [List.mem_singleton] at hb
    subst hb
    intro hdup
    unfold Wrap.DoneOne at hd
    rw [hn, List.take_length] at hd
    have := (Wrap.DoneOneLoop_spec (check f).2 s.wrappedFunctions).1 ⟨a, ha, hdup⟩
    rw [this] at hd
    exact absurd hd (by decide)

theorem foldl_no_duplicate (check : FunctionInfo → Int × FunctionInfo)
    (emit : FunctionInfo → Nat → String) (cn : String) (fs : List FunctionInfo) (s : State)
    (hn : s.numberOfWrappedFunctions = s.wrappedFunctions.length)
    (hp : s.wrappedFunctions.Pairwise (fun a b => ¬ Duplicate Wrap.CheckMatch b a)) :
    (fs.foldl (outputFunction check Wrap.DoneOne emit cn) s).wrappedFunctions.Pairwise
      (fun a b => ¬ Duplicate Wrap.CheckMatch b a) := by
  induction fs generalizing s with
  | nil => exact hp
  | cons f rest ih =>
    have h := outputFunction_no_duplicate check emit cn s f hn hp
    exact ih _ h.1 h.2

end Core

/-! ## The counter of wrapped functions -/

theorem Core.foldl_count_le (check : FunctionInfo → Int × FunctionInfo)
    (done : State → FunctionInfo → Int) (emit : FunctionInfo → Nat → String)
    (cn : String) (fs : List FunctionInfo) (s : State) :
    (fs.foldl (Core.outputFunction check done emit cn) s).numberOfWrappedFunctions ≤
      s.numberOfWrappedFunctions + fs.length := by
  induction fs generalizing s with
  | nil => exact Nat.le_refl _
  | cons f rest ih =>
    have h := ih (Core.outputFunction check done emit cn s f)
    rw [List.foldl_cons, List.length_cons]
    rcases Core.outputFunction_skip_or_emit check done emit cn s f with h1 | h1
    · rw [h1] at h ⊢
      omega
    · rw [h1] at h ⊢
      dsimp only at h
      omega

theorem Generator.count_le (g : Generator) (env : Env) (data : ClassInfo)
    (fs : List FunctionInfo) :
    (g.outputFunctions env data State.init fs).numberOfWrappedFunctions ≤ fs.length := by
  rw [g.outputFunctions_eq_foldl, g.outputFunction_eq_core]
  have := Core.foldl_count_le (g.checkFunctionSignature env data) g.DoneOne (g.emitText data)
    data.Name fs State.init
  simpa [State.init] using this

/-! ## Export names are distinct -/

theorem digitChar_value : ∀ k, k < 10 →
    (Nat.digitChar k).toNat - 48 = k ∧ Nat.digitChar k ≠ '_' := by
  decide

theorem toDigitsCore_no_underscore (fuel n : Nat) (ds : List Char)
    (h : '_' ∉ ds) : '_' ∉ Nat.toDigitsCore 10 fuel n ds := by
  induction fuel generalizing n ds with
  | zero => exact h
  | succ fuel ih =>
    have hd : '_' ∉ Nat.digitChar (n % 10) :: ds := by
      intro hm
      rcases List.mem_cons.mp hm with e | e
      · exact (digitChar_value (n % 10) (Nat.mod_lt _ (by decide))).2 e.symm
      · exact h e
    unfold Nat.toDigitsCore
    dsimp only
    split
    · exact hd
    · exact ih _ _ hd

theorem toDigitsCore_value (fuel n : Nat) (ds : List Char) (h : n < fuel) :
    (Nat.toDigitsCore 10 fuel n ds).foldl (fun a c => 10 * a + (c.toNat - 48)) 0 =
      ds.foldl (fun a c => 10 * a + (c.toNat - 48)) n := by
  induction fuel generalizing n ds with
  | zero => exact absurd h (Nat.not_lt_zero _)
  | succ fuel ih =>
    have hv := (digitChar_value (n % 10) (Nat.mod_lt _ (by decide))).1
    unfold Nat.toDigitsCore
    dsimp only
    split
    · rename_i h0
      rw [List.foldl_cons, hv]
      congr 1
      omega
    · rename_i h0
      rw [ih (n / 10) _ (by omega), List.foldl_cons, hv]
      congr 1
      omega

theorem toDigits_injective (m n : Nat) (h : Nat.toDigits 10 m = Nat.toDigits 10 n) :
    m = n := by
  have hm := toDigitsCore_value (m + 1) m [] (Nat.lt_succ_self _)
  have hn := toDigitsCore_value (n + 1) n [] (Nat.lt_succ_self _)
  unfold Nat.toDigits at h
  rw [h, hn] at hm
  exact hm.symm

theorem fmtInt_data (n : Nat) : (fmtInt n).data = Nat.toDigits 10 n := rfl

theorem append_cons_suffix_eq {a : Char} (l1 l2 r1 r2 : List Char)
    (h : l1 ++ a :: r1 = l2 ++ a :: r2) (h1 : a ∉ r1) (h2 : a ∉ r2) : r1 = r2 := by
  induction l1 generalizing l2 with
  | nil =>
    cases l2 with
    | nil => exact (List.cons.inj h).2
    | cons x l2 =>
      exfalso
      apply h1
      rw [List.nil_append, List.cons_append] at h
      rw [(List.cons.inj h).2]
      exact List.mem_append_right _ (List.mem_cons_self _ _)
  | cons y l1 ih =>
    cases l2 with
    | nil =>
      exfalso
      apply h2
      rw [List.nil_append, List.cons_append] at h
      rw [← (List.cons.inj h).2]
      exact List.mem_append_right _ (List.mem_cons_self _ _)
    | cons x l2 =>
      rw [List.cons_append, List.cons_append] at h
      exact ih l2 (List.cons.inj h).2

theorem exportName_data (c m : String) (k : Nat) :
    (exportName c m k).data = (c.data ++ '_' :: m.data) ++ '_' :: Nat.toDigits 10 k := by
  unfold exportName
  simp only [String.data_append, fmtInt_data, List.append_assoc]
  rfl

/-- The sequence number can be read off the export name. -/
theorem exportName_number (c m1 m2 : String) (k1 k2 : Nat)
    (h : exportName c m1 k1 = exportName c m2 k2) : k1 = k2 := by
  have hd := congrArg String.data h
  rw [exportName_data, exportName_data] at hd
  exact toDigits_injective _ _ (append_cons_suffix_eq _ _ _ _ hd
    (toDigitsCore_no_underscore _ _ [] (List.not_mem_nil _))
    (toDigitsCore_no_underscore _ _ [] (List.not_mem_nil _)))

/-- An export name is none of the lifecycle symbols of the class. -/
theorem exportName_ne_symbol (c m : String) (k : Nat) (h : Lifecycle) :
    exportName c m k ≠ Lifecycle.symbol c h := by
  intro he
  have hd := congrArg String.data he
  rw [exportName_data, List.append_assoc] at hd
  have key : ∀ suffix : List Char, '_' ∉ suffix →
      c.data ++ ('_' :: m.data ++ '_' :: Nat.toDigits 10 k) ≠ c.data ++ '_' :: suffix := by
    intro suffix hs e
    have e2 := List.append_cancel_left e
    rw [List.cons_append] at e2
    apply hs
    rw [← (List.cons.inj e2).2]
    exact List.mem_append_right _ (List.mem_cons_self _ _)
  cases h
  · exact key "New".data (by decide) hd
  · exact key "VTKDeleteReference".data (by decide) hd
  · exact key "VTKGetClassName".data (by decide) hd
  · exact key "VTKDelete".data (by decide) hd
  · exact key "VTKRegister".data (by decide) hd

/-! ## Public and import types of the managed wrapper -/

theorem Parse.ParamType_eq_stem (f : FunctionInfo) (i : Nat)
    (hv : f.ArgTypes i &&& VTK_PARSE_UNQUALIFIED_TYPE ≠ VTK_PARSE_VOID)
    (hf : f.ArgTypes i ≠ VTK_PARSE_FUNCTION)
    (ho : f.ArgTypes i &&& VTK_PARSE_UNQUALIFIED_TYPE ≠ VTK_PARSE_OBJECT_PTR) :
    Parse.OutputCSharpParamType f i =
      Parse.publicParamStem (f.ArgTypes i &&& VTK_PARSE_UNQUALIFIED_TYPE) ++ fmtInt i := by
  unfold Parse.OutputCSharpParamType Parse.publicParamStem
  dsimp only
  rw [if_neg hv, if_neg hf]
  generalize f.ArgTypes i &&& VTK_PARSE_UNQUALIFIED_TYPE = t at ho ⊢
  rw [if_neg ho]
  generalize (t &&& VTK_PARSE_BASE_TYPE) &&& NOT_VTK_PARSE_UNSIGNED = b
  generalize Parse.arrayElemType b "bool[] id" = o
  cases o with
  | none => simp only [ite_append, Option.getD_none]
  | some x => simp only [ite_append, Option.getD_some]

/-- For every eligible argument type that is forwarded as it is, but for `char` and
`unsigned char` by value and `bool*`, the import declares the type of the public parameter, for the strings with
a marshalling attribute. -/
theorem public_native_stems :
    ∀ t ∈ eligibleArgTypes,
      t ∉ [VTK_PARSE_OBJECT_PTR, VTK_PARSE_BOOL, VTK_PARSE_CHAR, VTK_PARSE_UNSIGNED_CHAR,
        VTK_PARSE_BOOL_PTR] →
      Parse.nativeParamStem t = Parse.publicParamStem t ∨
      Parse.nativeParamStem t =
        "[MarshalAs(UnmanagedType.LPUTF8Str)] " ++ Parse.publicParamStem t := by
  decide

theorem Parse.forwarded_parameter_types_agree (env : Env) (data : ClassInfo)
    (f : FunctionInfo) (i : Nat) (w : Int)
    (hok : argBad (f.ArgTypes i &&& VTK_PARSE_UNQUALIFIED_TYPE)
      (qualifiedEnum env data (f.ArgTypes i &&& VTK_PARSE_UNQUALIFIED_TYPE)
        (f.ArgClasses i)) w = false)
    (hv : f.ArgTypes i &&& VTK_PARSE_UNQUALIFIED_TYPE ≠ VTK_PARSE_VOID)
    (hx : f.ArgTypes i &&& VTK_PARSE_UNQUALIFIED_TYPE ∉
      [VTK_PARSE_OBJECT_PTR, VTK_PARSE_BOOL, VTK_PARSE_CHAR, VTK_PARSE_UNSIGNED_CHAR,
        VTK_PARSE_BOOL_PTR]) :
    Parse.OutputCSharpNativeParamType f i = Parse.OutputCSharpParamType f i ∨
    Parse.OutputCSharpNativeParamType f i =
      "[MarshalAs(UnmanagedType.LPUTF8Str)] " ++ Parse.OutputCSharpParamType f i := by
  have ht : f.ArgTypes i &&& VTK_PARSE_UNQUALIFIED_TYPE < 65536 := by
    rw [land_unq]
    omega
  have hmem := (eligible_arg_types env data (f.ArgClasses i) _ w ht hok).resolve_left hv
  have hf : f.ArgTypes i ≠ VTK_PARSE_FUNCTION := by
    intro hfn
    rw [hfn] at hmem
    revert hmem
    decide
  have ho : f.ArgTypes i &&& VTK_PARSE_UNQUALIFIED_TYPE ≠ VTK_PARSE_OBJECT_PTR := by
    intro e
    apply hx
    rw [e]
    decide
  rw [Parse.NativeParamType_eq_stem f i hv hf, Parse.ParamType_eq_stem f i hv hf ho]
  rcases public_native_stems _ hmem hx with e | e
  · left
    rw [e]
  · right
    rw [e, String.append_assoc]

/-- A return type of the scalar branch other than `char` has the same public and import
type. -/
theorem Parse.scalar_return_types_agree (f : FunctionInfo)
    (h1 : f.ReturnType &&& VTK_PARSE_UNQUALIFIED_TYPE ≠ VTK_PARSE_OBJECT_PTR)
    (h2 : ¬ (f.ReturnType &&& VTK_PARSE_UNQUALIFIED_TYPE = VTK_PARSE_CHAR_PTR ∨
      f.ReturnType &&& VTK_PARSE_UNQUALIFIED_TYPE = VTK_PARSE_STRING ∨
      f.ReturnType &&& VTK_PARSE_UNQUALIFIED_TYPE = VTK_PARSE_STRING_REF))
    (h3 : f.ReturnType &&& VTK_PARSE_UNQUALIFIED_TYPE ≠ VTK_PARSE_BOOL)
    (h4 : Parse.isNumericPtrReturn (f.ReturnType &&& VTK_PARSE_UNQUALIFIED_TYPE) = false)
    (h5 : f.ReturnType &&& VTK_PARSE_UNQUALIFIED_TYPE ≠ VTK_PARSE_CHAR) :
    Parse.OutputCSharpReturnType f = Parse.OutputCSharpNativeReturnType f ∧
    ∀ sym, Parse.methodBody f sym =
      (if f.ReturnType &&& VTK_PARSE_UNQUALIFIED_TYPE = VTK_PARSE_VOID then
        "        " ++ sym ++ "(" ++ Parse.OutputCallArgs f ++ ");\n"
       else "        return " ++ sym ++ "(" ++ Parse.OutputCallArgs f ++ ");\n") ++
      "    \x7d\n" := by
  constructor
  · unfold Parse.OutputCSharpReturnType Parse.OutputCSharpNativeReturnType
    dsimp only
    generalize f.ReturnType &&& VTK_PARSE_UNQUALIFIED_TYPE = r at h1 h2 h3 h4 h5 ⊢
    rw [h4]
    simp only [Parse.isNumericPtrReturn, decide_eq_false_iff_not, not_or] at h4
    obtain ⟨a1, a2, a3, a4, a5, a6, a7, a8, a9, a10, a11, a12, a13⟩ := h4
    simp only [h1, h2, h3, h5, a1, a2, a3, a4, a5, a6, a7, a8, a9, a10, a11, a12, a13,
      if_false, or_self, Bool.false_eq_true]
  · intro sym
    unfold Parse.methodBody
    dsimp only
    rw [if_neg h1, if_neg h2, if_neg h3, h4]
    simp only [Bool.false_eq_true, if_false]

/-! ## `VtkCSharpHelper_GetPixels` -/

theorem mem_rowCopies (width height : Int) (y : Nat) (hy : y < height.toNat) :
    (wrapInt (y * wrapInt (width * 4)),
      wrapInt (wrapInt (wrapInt (height - 1) - y) * wrapInt (width * 4)),
      toSizeT (wrapInt (width * 4))) ∈ rowCopies width height := by
  unfold rowCopies
  exact List.mem_map_of_mem _ (List.mem_range.mpr hy)

theorem wrapInt_id (x : Int) (h1 : -2147483648 ≤ x) (h2 : x < 2147483648) :
    wrapInt x = x := by
  unfold wrapInt
  omega

theorem toSizeT_id (x : Int) (h1 : 0 ≤ x) (h2 : x < 2147483648) : toSizeT x = x.toNat := by
  unfold toSizeT
  congr 1
  omega

/-- Without overflow the loop copies the row `height - 1 - y` of `src` to the row `y` of
`buffer`, each of `width * 4` bytes. -/
theorem rowCopies_plain (width height : Int) (hw : 0 ≤ width) (hh : height < 2147483648)
    (hs : 4 * width * height < 2147483648) :
    rowCopies width height =
      (List.range height.toNat).map (fun (y : Nat) =>
        ((y : Int) * (width * 4), (height - 1 - (y : Int)) * (width * 4),
          (width * 4).toNat)) := by
  unfold rowCopies
  apply List.map_congr_left
  intro y hy
  rw [List.mem_range] at hy
  have hy1 : (y : Int) < height := by omega
  have hy0 : (0 : Int) ≤ y := Int.ofNat_nonneg y
  have p1 : 0 ≤ (y : Int) * width := Int.mul_nonneg hy0 hw
  have p2 : 0 ≤ (height - 1 - (y : Int)) * width := Int.mul_nonneg (by omega) hw
  have e : (height - 1 - (y : Int)) * width = height * width - width - (y : Int) * width := by
    ring
  have e4 : 4 * width * height = 4 * (height * width) := by ring
  have hst : wrapInt (width * 4) = width * 4 := wrapInt_id _ (by omega) (by omega)
  dsimp only
  rw [hst, wrapInt_id (height - 1) (by omega) (by omega),
    wrapInt_id (height - 1 - (y : Int)) (by omega) (by omega),
    toSizeT_id (width * 4) (by omega) (by omega)]
  have a1 : (y : Int) * (width * 4) = 4 * ((y : Int) * width) := by ring
  have a2 : (height - 1 - (y : Int)) * (width * 4) =
      4 * ((height - 1 - (y : Int)) * width) := by ring
  rw [wrapInt_id ((y : Int) * (width * 4)) (by omega) (by omega),
    wrapInt_id ((height - 1 - (y : Int)) * (width * 4)) (by omega) (by omega)]

theorem flip_fold (width height : Int) (src buffer : Int → Nat) (hw : 0 ≤ width) (k : Nat) :
    (∀ y x : Int, 0 ≤ y → y < k → 0 ≤ x → x < width * 4 →
      (((List.range k).map (fun (y : Nat) =>
          ((y : Int) * (width * 4), (height - 1 - (y : Int)) * (width * 4),
            (width * 4).toNat))).foldl
        (fun buf c => memcpy buf c.1 src c.2.1 c.2.2) buffer) (y * (width * 4) + x) =
        src ((height - 1 - y) * (width * 4) + x)) ∧
    (∀ a : Int, a < 0 ∨ (k : Int) * (width * 4) ≤ a →
      (((List.range k).map (fun (y : Nat) =>
          ((y : Int) * (width * 4), (height - 1 - (y : Int)) * (width * 4),
            (width * 4).toNat))).foldl
        (fun buf c => memcpy buf c.1 src c.2.1 c.2.2) buffer) a = buffer a) := by
  have hs : 0 ≤ width * 4 := by omega
  have hn : (((width * 4).toNat : Nat) : Int) = width * 4 := Int.toNat_of_nonneg hs
  induction k with
  | zero =>
    refine ⟨fun y x h0 h1 => absurd h1 (by omega), fun a _ => rfl⟩
  | succ k ih =>
    obtain ⟨ih1, ih2⟩ := ih
    rw [List.range_succ, List.map_append, List.foldl_append]
    simp only [List.map_cons, List.map_nil, List.foldl_cons, List.foldl_nil]
    have hk : (0 : Int) ≤ k := Int.ofNat_nonneg k
    have ek : ((k + 1 : Nat) : Int) * (width * 4) = (k : Int) * (width * 4) + width * 4 := by
      push_cast
      ring
    constructor
    · intro y x y0 y1 x0 x1
      unfold memcpy
      rw [hn]
      by_cases hy : y < k
      · have hle : (y + 1) * (width * 4) ≤ (k : Int) * (width * 4) :=
          Int.mul_le_mul_of_nonneg_right (by omega) hs
        have e1 : (y + 1) * (width * 4) = y * (width * 4) + width * 4 := by ring
        rw [if_neg (by omega)]
        exact ih1 y x y0 hy x0 x1
      · have hyk : y = k := by
          push_cast at y1
          omega
        subst hyk
        rw [if_pos (by omega)]
        congr 1
        omega
    · intro a ha
      unfold memcpy
      rw [hn]
      have hkn : 0 ≤ (k : Int) * (width * 4) := Int.mul_nonneg hk hs
      rw [if_neg (by omega)]
      exact ih2 a (by omega)

/-- The loop without overflow: the rows of `src` in reverse order, and the rest of
`buffer` unchanged. -/
theorem flipRows_spec (width height : Int) (src buffer : Int → Nat) (hw : 0 ≤ width)
    (hh0 : 0 ≤ height) (hh : height < 2147483648) (hs : 4 * width * height < 2147483648) :
    (∀ y x : Int, 0 ≤ y → y < height → 0 ≤ x → x < 4 * width →
      flipRows width height src buffer (y * (4 * width) + x) =
        src ((height - 1 - y) * (4 * width) + x)) ∧
    (∀ a : Int, a < 0 ∨ 4 * width * height ≤ a → flipRows width height src buffer a = buffer a) := by
  unfold flipRows
  rw [rowCopies_plain width height hw hh hs]
  obtain ⟨h1, h2⟩ := flip_fold width height src buffer hw height.toNat
  have hn : ((height.toNat : Nat) : Int) = height := Int.toNat_of_nonneg hh0
  have e : 4 * width = width * 4 := by ring
  constructor
  · intro y x y0 y1 x0 x1
    rw [e]
    exact h1 y x y0 (by omega) x0 (by omega)
  · intro a ha
    apply h2
    rw [hn]
    have e2 : 4 * width * height = height * (width * 4) := by ring
    omega

theorem rowCopies_in_bounds (width height bufferSize : Int) (hw : 0 ≤ width)
    (hh : height < 2147483648) (hb : bufferSize < 2147483648)
    (hs : 4 * width * height ≤ bufferSize) :
    ∀ c ∈ rowCopies width height, CopyInBounds bufferSize c := by
  intro c hc
  rw [rowCopies_plain width height hw hh (by omega), List.mem_map] at hc
  obtain ⟨y, hy, rfl⟩ := hc
  rw [List.mem_range] at hy
  unfold CopyInBounds
  right
  dsimp only
  have hs4 : 0 ≤ width * 4 := by omega
  rw [Int.toNat_of_nonneg hs4]
  have hy0 : (0 : Int) ≤ y := Int.ofNat_nonneg y
  have hle : ((y : Int) + 1) * (width * 4) ≤ height * (width * 4) :=
    Int.mul_le_mul_of_nonneg_right (by omega) hs4
  have e1 : ((y : Int) + 1) * (width * 4) = (y : Int) * (width * 4) + width * 4 := by ring
  have e2 : 4 * width * height = height * (width * 4) := by ring
  have p : 0 ≤ (y : Int) * (width * 4) := Int.mul_nonneg hy0 hs4
  exact ⟨p, by omega⟩

/-- A successful call had a window and a buffer, found a source, and ran the loop. -/
theorem GetPixels_success (renderWindow : Bool) (width height : Int)
    (buffer : Option (Int → Nat)) (bufferSize : Int) (vtk : PixelReadback)
    (h : (GetPixels renderWindow width height buffer bufferSize vtk).1 = 0) :
    renderWindow = true ∧ ¬ bufferSize < wrapInt (wrapInt (width * height) * 4) ∧
    ∃ mem src, buffer = some mem ∧
      pixelSource vtk (wrapInt (width * height)) = .ok (some src) ∧
      (GetPixels renderWindow width height buffer bufferSize vtk).2 =
        some (flipRows width height src mem) := by
  unfold GetPixels at h ⊢
  by_cases h1 : (!renderWindow || buffer.isNone) = true
  · rw [if_pos h1] at h
    exact absurd h (show ¬ ((-1 : Int) = 0) by decide)
  · rw [if_neg h1] at h ⊢
    by_cases h2 : bufferSize < wrapInt (wrapInt (width * height) * 4)
    · rw [if_pos h2] at h
      exact absurd h (show ¬ ((-2 : Int) = 0) by decide)
    · rw [if_neg h2] at h ⊢
      dsimp only at h ⊢
      have hr : renderWindow = true := by
        cases renderWindow
        · exact absurd rfl h1
        · rfl
      cases buffer with
      | none => rw [hr] at h1; exact absurd rfl h1
      | some mem =>
        cases hp : pixelSource vtk (wrapInt (width * height)) with
        | error e =>
          rw [hp] at h
          dsimp only at h
          exfalso
          unfold pixelSource at hp
          split at hp
          · exact Except.noConfusion hp
          · split at hp
            · rw [← Except.error.inj hp] at h
              exact absurd h (by decide)
            · split at hp
              · rw [← Except.error.inj hp] at h
                exact absurd h (by decide)
              · split at hp
                · rw [← Except.error.inj hp] at h
                  exact absurd h (by decide)
                · exact Except.noConfusion hp
        | ok o =>
          cases o with
          | none =>
            rw [hp] at h
            exact absurd h (show ¬ ((-6 : Int) = 0) by decide)
          | some src =>
            exact ⟨hr, h2, mem, src, rfl, rfl, rfl⟩


/-- Flipping the flipped rows gives back the rows of the source. -/
theorem flipRows_twice (width height : Int) (src mem other : Int → Nat) (hw : 0 ≤ width)
    (hh0 : 0 ≤ height) (hh : height < 2147483648) (hs : 4 * width * height < 2147483648)
    (a : Int) (ha0 : 0 ≤ a) (ha : a < 4 * width * height) :
    flipRows width height (flipRows width height src mem) other a = src a := by
  have hpos : 0 < 4 * width := by
    rcases lt_or_ge 0 width with h | h
    · omega
    · have e : width = 0 := by omega
      rw [e] at ha
      simp at ha
      omega
  have hx0 : 0 ≤ a % (4 * width) := Int.emod_nonneg a (by omega)
  have hx1 : a % (4 * width) < 4 * width := Int.emod_lt_of_pos a hpos
  have hy0 : 0 ≤ a / (4 * width) := Int.ediv_nonneg ha0 (by omega)
  have hy1 : a / (4 * width) < height := by
    apply Int.ediv_lt_of_lt_mul hpos
    rw [Int.mul_comm]
    exact ha
  have ea : a / (4 * width) * (4 * width) + a % (4 * width) = a := by
    rw [Int.mul_comm]
    exact Int.ediv_add_emod a (4 * width)
  have s1 := (flipRows_spec width height (flipRows width height src mem) other hw hh0 hh hs).1
    (a / (4 * width)) (a % (4 * width)) hy0 hy1 hx0 hx1
  have s2 := (flipRows_spec width height src mem hw hh0 hh hs).1
    (height - 1 - a / (4 * width)) (a % (4 * width)) (by omega) (by omega) hx0 hx1
  have e2 : height - 1 - (height - 1 - a / (4 * width)) = a / (4 * width) := by omega
  rw [ea] at s1
  rw [e2, ea] at s2
  rw [s1, s2]

/-- The first argument loop rejects a function pointer argument: its base type is not in
`supported_types`. -/
theorem argBad_function (q : Option String) (w : Int) :
    argBad (VTK_PARSE_FUNCTION &&& VTK_PARSE_UNQUALIFIED_TYPE) q w = true := by
  unfold argBad retBad
  have h : scanSupported
      ((VTK_PARSE_FUNCTION &&& VTK_PARSE_UNQUALIFIED_TYPE) &&& VTK_PARSE_BASE_TYPE)
      supported_types = 0 := by decide
  simp only [h, decide_True, Bool.true_or]

/-- Outside the callback pattern and the hint switch, a method that the shim generator
accepts has no function pointer argument. -/
theorem Wrap.accepted_has_no_function_pointer (env : Env) (data : ClassInfo)
    (f : FunctionInfo)
    (hok : (Wrap.checkFunctionSignature env data f).1 ≠ 0)
    (hcb : ¬ CallbackPattern f)
    (hr : ¬ hintCase (f.ReturnType &&& VTK_PARSE_UNQUALIFIED_TYPE)) :
    ∀ i, i < f.NumberOfArguments → f.ArgTypes i ≠ VTK_PARSE_FUNCTION := by
  intro i hi hf
  apply hok
  rw [Wrap.shim_check_eq_core]
  apply Core.check_zero_of_bad_arg _ _ env data f i hi _ hcb hr
  intro q w
  rw [hf]
  exact argBad_function q w

/-- Where the hint switch does not act, the claim on the parameter count holds: a method
with `n` arguments that the shim generator accepts, that is not the callback pattern and
whose return type is not one of the pointer types of the hint switch, gets the parameter
list `void* obj` followed by one declarator `<type> id<i>` per argument (an argument
recorded with the type `void` by value, which no header declares, would print none). -/
theorem Wrap.accepted_export_parameter_list (env : Env) (data : ClassInfo)
    (f : FunctionInfo)
    (hok : (Wrap.checkFunctionSignature env data f).1 ≠ 0)
    (hcb : ¬ CallbackPattern f)
    (hr : ¬ hintCase (f.ReturnType &&& VTK_PARSE_UNQUALIFIED_TYPE))
    (hv : ∀ i, i < f.NumberOfArguments →
      f.ArgTypes i &&& VTK_PARSE_UNQUALIFIED_TYPE ≠ VTK_PARSE_VOID) :
    Wrap.signatureTail f =
      "(void* obj" ++
      String.join ((List.range f.NumberOfArguments).map
        (fun i => ", " ++ Wrap.OutputParamType f i)) ++
      ")\n\x7b\n" ∧
    ∀ i, i < f.NumberOfArguments →
      ∃ d ∈ Wrap.paramStems, Wrap.OutputParamType f i = d ++ fmtInt i := by
  have hf := Wrap.accepted_has_no_function_pointer env data f hok hcb hr
  exact ⟨Wrap.signatureTail_plain f hf,
    fun i hi => Wrap.OutputParamType_stem f i (hv i hi) (hf i hi)⟩

/-! ## The claims -/

set_option maxRecDepth 100000

/-- C1 (the code diverges): the two `checkFunctionSignature` do not return the same
verdict.  With a hierarchy index in which `vtkBar` is marked `WRAPEXCLUDE`, the method
`void SetBar(vtkBar*)` is accepted by the shim generator and rejected by the managed
generator, so that for the methods `SetBar`, `GetValue` the shim exports
`Widget_GetValue_1` while the managed class imports `Widget_GetValue_0`.  Without a
hierarchy index, `void SetArray(vtkDenseArray<double>*)` is rejected by the shim generator
and accepted by the managed generator. -/
theorem checkFunctionSignature_verdicts_diverge :
    (Wrap.checkFunctionSignature sampleEnvHierarchy sampleClass sampleSetBar).1 = 1 ∧
    (Parse.checkFunctionSignature sampleEnvHierarchy sampleClass sampleSetBar).1 = 0 ∧
    (Wrap.outputFunctions sampleEnvHierarchy sampleClass State.init
        [sampleSetBar, sampleGetValue]).out =
      "\nextern \"C\" VTK_CSHARP_EXPORT void Widget_SetBar_0(void* obj, void* id0)\n\x7b\n" ++
      "  vtkBar * temp0;\n  temp0 = static_cast<vtkBar*>(id0);\n\n" ++
      "  Widget* op = static_cast<Widget*>(obj);\n  op->SetBar(temp0);\n\x7d\n" ++
      "\nextern \"C\" VTK_CSHARP_EXPORT int Widget_GetValue_1(void* obj)\n\x7b\n" ++
      "  int   temp20;\n\n  Widget* op = static_cast<Widget*>(obj);\n" ++
      "  temp20 = op->GetValue();\n  return temp20;\n\x7d\n" ∧
    (Parse.outputFunctions sampleEnvHierarchy sampleClass State.init
        [sampleSetBar, sampleGetValue]).out =
      "\n    [DllImport(NativeLib, CallingConvention = CallingConvention.Cdecl)]\n" ++
      "    private static extern int Widget_GetValue_0(IntPtr obj);\n" ++
      "    public int GetValue()\n    \x7b\n        return Widget_GetValue_0(Handle);\n" ++
      "    \x7d\n" ∧
    (Wrap.checkFunctionSignature sampleEnv sampleClass sampleSetArray).1 = 0 ∧
    (Parse.checkFunctionSignature sampleEnv sampleClass sampleSetArray).1 = 1 := by
  refine ⟨by decide, by decide, by decide, by decide, by decide, by decide⟩


/-- C2: the export names are numbered in emission order.  After `outputFunction` has
processed any method list from the initial state, the counter equals the number of
registry entries, the registry is a subsequence of the method list (in list order), and
the text written is, for the j-th registry entry (from 0), the text of one export whose
name is `<ClassName>_<MethodName>_<j>`.  A call of `outputFunction` either leaves the
state unchanged (a skipped method consumes no number) or appends one entry, writes its
text with the current counter and increases the counter by one.  Both generators. -/
theorem export_names_follow_emission_order (g : Generator) (env : Env) (data : ClassInfo)
    (fs : List FunctionInfo) :
    Numbered (g.emitText data) (g.outputFunctions env data State.init fs) ∧
    (g.outputFunctions env data State.init fs).wrappedFunctions.Sublist
      (fs.map (fun f => (g.checkFunctionSignature env data f).2)) ∧
    (∀ (s : State) (f : FunctionInfo),
      g.outputFunction env data s f = s ∨
      g.outputFunction env data s f =
        { numberOfWrappedFunctions := s.numberOfWrappedFunctions + 1
          wrappedFunctions := arrayStore s.wrappedFunctions s.numberOfWrappedFunctions
            (g.checkFunctionSignature env data f).2
          out := s.out ++ g.emitText data (g.checkFunctionSignature env data f).2
            s.numberOfWrappedFunctions }) ∧
    (∀ (f : FunctionInfo) (j : Nat),
      Generator.shim.emitText data f j =
        "\nextern \"C\" VTK_CSHARP_EXPORT " ++ Wrap.OutputReturnType f ++ " " ++
        (data.Name ++ "_" ++ nameStr f ++ "_" ++ toString j) ++
        Wrap.signatureTail f ++ Wrap.bodyText data f) ∧
    (∀ (f : FunctionInfo) (j : Nat),
      Generator.managed.emitText data f j =
        Parse.importHead f ++ (data.Name ++ "_" ++ nameStr f ++ "_" ++ toString j) ++
        Parse.importTail f ++
        Parse.methodBody f (data.Name ++ "_" ++ nameStr f ++ "_" ++ toString j)) := by
  refine ⟨g.run_numbered env data fs, ?_, ?_, fun _ _ => rfl, fun _ _ => rfl⟩
  · obtain ⟨added, h1, h2⟩ := Core.foldl_sublist (g.checkFunctionSignature env data)
      g.DoneOne (g.emitText data) data.Name fs State.init (numbered_init _)
    rw [g.outputFunctions_eq_foldl, g.outputFunction_eq_core, h1]
    exact h2
  · intro s f
    rw [g.outputFunction_eq_core]
    exact Core.outputFunction_skip_or_emit _ _ _ _ s f

/-- C3: `DoneOne` returns 1 exactly when the registry (the first
`numberOfWrappedFunctions` entries of `wrappedFunctions`) holds an entry with the same
name and the same number of arguments as the current function for which `CheckMatch` is
nonzero at every argument position and for the return type, and 0 exactly when it holds
no such entry.  Both generators. -/
theorem DoneOne_iff_duplicate_registered (g : Generator) (s : State) (f : FunctionInfo) :
    (g.DoneOne s f = 1 ↔
      ∃ fi ∈ s.wrappedFunctions.take s.numberOfWrappedFunctions,
        Duplicate g.CheckMatch f fi) ∧
    (g.DoneOne s f = 0 ↔
      ¬ ∃ fi ∈ s.wrappedFunctions.take s.numberOfWrappedFunctions,
        Duplicate g.CheckMatch f fi) := by
  rw [g.DoneOne_eq_wrap, g.CheckMatch_eq_wrap]
  have h := Wrap.DoneOneLoop_spec f (s.wrappedFunctions.take s.numberOfWrappedFunctions)
  unfold Wrap.DoneOne
  constructor
  · constructor
    · intro h1
      by_contra hn
      rw [h.2 hn] at h1
      exact absurd h1 (by decide)
    · exact h.1
  · constructor
    · intro h0 hp
      rw [h.1 hp] at h0
      exact absurd h0 (by decide)
    · exact h.2

/-- C4: the first registered overload is kept.  Let `s` be the state after any method
list and let the current method be eligible (`checkFunctionSignature` nonzero, name
neither the class name nor the class name without its first character).  If `DoneOne` is
1, `outputFunction` leaves the state (text, registry, counter) unchanged; if `DoneOne` is
0, it appends the current method at the end of the registry, writes its text and
increases the counter by one.  In both cases every earlier registry entry stays in place.
Both generators. -/
theorem outputFunction_keeps_first_registered (g : Generator) (env : Env) (data : ClassInfo)
    (pre : List FunctionInfo) (f : FunctionInfo) (s : State)
    (hs : s = g.outputFunctions env data State.init pre)
    (hok : (g.checkFunctionSignature env data f).1 ≠ 0)
    (hctor : data.Name ≠ nameStr f) (hctor1 : data.Name ≠ (nameStr f).drop 1) :
    (g.DoneOne s (g.checkFunctionSignature env data f).2 = 1 →
      g.outputFunction env data s f = s) ∧
    (g.DoneOne s (g.checkFunctionSignature env data f).2 = 0 →
      g.outputFunction env data s f =
        { numberOfWrappedFunctions := s.numberOfWrappedFunctions + 1
          wrappedFunctions := s.wrappedFunctions ++ [(g.checkFunctionSignature env data f).2]
          out := s.out ++ g.emitText data (g.checkFunctionSignature env data f).2
            s.numberOfWrappedFunctions }) ∧
    (∀ i, i < s.numberOfWrappedFunctions →
      (g.outputFunction env data s f).wrappedFunctions[i]? = s.wrappedFunctions[i]?) := by
  have hinv : Numbered (g.emitText data) s := by rw [hs]; exact g.run_numbered env data pre
  have hsig := g.check_sameSig env data f
  have hflags := g.check_ne_zero_flags env data f hok
  have hstep := Core.outputFunction_eligible (g.checkFunctionSignature env data) g.DoneOne
    (g.emitText data) data.Name s f hinv.1
    (by rw [hsig.2.2.2.2.2.2.2.2.2.2.2.1]; exact hflags.1)
    (by rw [hsig.2.2.2.2.2.2.2.2.2.2.2.2.2]; exact hflags.2.1)
    hok (by rw [sameSig_nameStr hsig]; exact hctor)
    (by rw [sameSig_nameStr hsig]; exact hctor1)
  rw [g.outputFunction_eq_core]
  refine ⟨fun h1 => hstep.1 (by rw [h1]; decide), hstep.2, ?_⟩
  intro i hi
  exact Core.outputFunction_prefix _ _ _ _ s f hinv.1 i hi

/-- Witness for C4: after `Foo(int)` has been registered for class `Widget`, the eligible
overload `Foo(unsigned int)` is a duplicate and leaves the state unchanged. -/
theorem outputFunction_keeps_first_registered_witness :
    (Generator.shim.checkFunctionSignature sampleEnv sampleClass sampleFooUnsigned).1 ≠ 0 ∧
    sampleClass.Name ≠ nameStr sampleFooUnsigned ∧
    sampleClass.Name ≠ (nameStr sampleFooUnsigned).drop 1 ∧
    Generator.shim.outputFunction sampleEnv sampleClass
        (Generator.shim.outputFunctions sampleEnv sampleClass State.init [sampleFooInt])
        sampleFooUnsigned =
      Generator.shim.outputFunctions sampleEnv sampleClass State.init [sampleFooInt] :=
  ⟨by decide, by decide, by decide,
    (outputFunction_keeps_first_registered Generator.shim sampleEnv sampleClass
      [sampleFooInt] sampleFooUnsigned _ rfl (by decide) (by decide) (by decide)).1
      (by decide)⟩


/-- C5: for two type descriptors with the same unqualified type (equal base type and
equal indirection bits) `CheckMatch` returns 1, except that for base type object it
returns 1 if the class names are equal strings and 0 if they differ.  Both generators. -/
theorem CheckMatch_same_unqualified (g : Generator) (t1 t2 : Nat) (c1 c2 : String)
    (hb : t1 &&& VTK_PARSE_BASE_TYPE = t2 &&& VTK_PARSE_BASE_TYPE)
    (hi : t1 &&& VTK_PARSE_INDIRECT = t2 &&& VTK_PARSE_INDIRECT) :
    g.CheckMatch t1 t2 c1 c2 =
      if t1 &&& VTK_PARSE_BASE_TYPE = VTK_PARSE_OBJECT then (if c1 = c2 then 1 else 0)
      else 1 := by
  rw [g.CheckMatch_eq_wrap]
  exact Wrap.CheckMatch_same t1 t2 c1 c2 (unq_eq_of_base_indirect t1 t2 hb hi)

/-- Witness for C5: `vtkFoo*` against `const vtkBar*` in the managed generator; the
unqualified types are equal, the class names differ, the result is 0. -/
theorem CheckMatch_same_unqualified_witness :
    VTK_PARSE_OBJECT_PTR &&& VTK_PARSE_BASE_TYPE =
      (VTK_PARSE_OBJECT_PTR ||| VTK_PARSE_CONST) &&& VTK_PARSE_BASE_TYPE ∧
    VTK_PARSE_OBJECT_PTR &&& VTK_PARSE_INDIRECT =
      (VTK_PARSE_OBJECT_PTR ||| VTK_PARSE_CONST) &&& VTK_PARSE_INDIRECT ∧
    Generator.managed.CheckMatch VTK_PARSE_OBJECT_PTR (VTK_PARSE_OBJECT_PTR ||| VTK_PARSE_CONST)
      "vtkFoo" "vtkBar" = 0 :=
  ⟨by decide, by decide,
    (CheckMatch_same_unqualified Generator.managed VTK_PARSE_OBJECT_PTR
      (VTK_PARSE_OBJECT_PTR ||| VTK_PARSE_CONST) "vtkFoo" "vtkBar" (by decide)
      (by decide)).trans (by decide)⟩

/-- C6: for two type descriptors whose unqualified types differ and that are not both
members of the string family, `CheckMatch` is nonzero exactly when both base types
belong to the same one of the four numeric families and the indirection bits are
identical; in particular int and long, from different families, do not match.  Both
generators. -/
theorem CheckMatch_numeric_family_iff (g : Generator) (t1 t2 : Nat) (c1 c2 : String)
    (hne : t1 &&& VTK_PARSE_UNQUALIFIED_TYPE ≠ t2 &&& VTK_PARSE_UNQUALIFIED_TYPE)
    (hstr : ¬ (t1 &&& VTK_PARSE_UNQUALIFIED_TYPE ∈
          [VTK_PARSE_CHAR_PTR, VTK_PARSE_STRING_REF, VTK_PARSE_STRING] ∧
        t2 &&& VTK_PARSE_UNQUALIFIED_TYPE ∈
          [VTK_PARSE_CHAR_PTR, VTK_PARSE_STRING_REF, VTK_PARSE_STRING])) :
    (g.CheckMatch t1 t2 c1 c2 ≠ 0 ↔
      (∃ fam ∈ [[VTK_PARSE_UNSIGNED_CHAR, VTK_PARSE_SIGNED_CHAR],
                [VTK_PARSE_UNSIGNED_SHORT, VTK_PARSE_SHORT],
                [VTK_PARSE_UNKNOWN, VTK_PARSE_UNSIGNED_INT, VTK_PARSE_INT],
                [VTK_PARSE_UNSIGNED_LONG, VTK_PARSE_UNSIGNED_LONG_LONG, VTK_PARSE_LONG,
                 VTK_PARSE_LONG_LONG]],
          t1 &&& VTK_PARSE_BASE_TYPE ∈ fam ∧ t2 &&& VTK_PARSE_BASE_TYPE ∈ fam) ∧
        t1 &&& VTK_PARSE_INDIRECT = t2 &&& VTK_PARSE_INDIRECT) ∧
    g.CheckMatch VTK_PARSE_INT VTK_PARSE_LONG c1 c2 = 0 ∧
    g.CheckMatch VTK_PARSE_LONG VTK_PARSE_INT c1 c2 = 0 := by
  rw [g.CheckMatch_eq_wrap]
  refine ⟨Wrap.CheckMatch_differ t1 t2 c1 c2 hne hstr, ?_, ?_⟩
  · have h := Wrap.CheckMatch_differ VTK_PARSE_INT VTK_PARSE_LONG c1 c2 (by decide) (by decide)
    by_contra hc
    exact absurd (h.mp hc).1 (by decide)
  · exact Wrap.CheckMatch_long_int _ _ _ _ (by decide) (by decide)

/-- Witness for C6: `unsigned int*` and `int*` differ, are no strings, lie in the int
family with the same indirection, and match in the shim generator. -/
theorem CheckMatch_numeric_family_iff_witness :
    VTK_PARSE_UNSIGNED_INT_PTR &&& VTK_PARSE_UNQUALIFIED_TYPE ≠
      VTK_PARSE_INT_PTR &&& VTK_PARSE_UNQUALIFIED_TYPE ∧
    Generator.shim.CheckMatch VTK_PARSE_UNSIGNED_INT_PTR VTK_PARSE_INT_PTR "" "" ≠ 0 :=
  ⟨by decide,
    (CheckMatch_numeric_family_iff Generator.shim VTK_PARSE_UNSIGNED_INT_PTR
      VTK_PARSE_INT_PTR "" "" (by decide) (by decide)).1.mpr (by decide)⟩

/-- C7 (counterexample): for class `Widget` with the two eligible overloads
`void Foo(int)` and `void Foo(long)`, the second overload is not detected as a duplicate
of the first; both generators emit two exports, `Widget_Foo_0` and `Widget_Foo_1`. -/
theorem int_and_long_overloads_emit_two_exports :
    Wrap.DoneOne (Wrap.outputFunctions sampleEnv sampleClass State.init [sampleFooInt])
      sampleFooLong = 0 ∧
    (Wrap.outputFunctions sampleEnv sampleClass State.init
      [sampleFooInt, sampleFooLong]).numberOfWrappedFunctions = 2 ∧
    (Parse.outputFunctions sampleEnv sampleClass State.init
      [sampleFooInt, sampleFooLong]).numberOfWrappedFunctions = 2 ∧
    (Wrap.outputFunctions sampleEnv sampleClass State.init [sampleFooInt, sampleFooLong]).out =
      "\nextern \"C\" VTK_CSHARP_EXPORT void Widget_Foo_0(void* obj, int id0)\n\x7b\n" ++
      "  int   temp0;\n  temp0 = id0;\n\n  Widget* op = static_cast<Widget*>(obj);\n" ++
      "  op->Foo(temp0);\n\x7d\n" ++
      "\nextern \"C\" VTK_CSHARP_EXPORT void Widget_Foo_1(void* obj, long long id0)\n\x7b\n" ++
      "  long   temp0;\n  temp0 = id0;\n\n  Widget* op = static_cast<Widget*>(obj);\n" ++
      "  op->Foo(temp0);\n\x7d\n" ∧
    (Parse.outputFunctions sampleEnv sampleClass State.init [sampleFooInt, sampleFooLong]).out =
      "\n    [DllImport(NativeLib, CallingConvention = CallingConvention.Cdecl)]\n" ++
      "    private static extern void Widget_Foo_0(IntPtr obj, int id0);\n" ++
      "    public void Foo(int id0)\n    \x7b\n        Widget_Foo_0(Handle, id0);\n    \x7d\n" ++
      "\n    [DllImport(NativeLib, CallingConvention = CallingConvention.Cdecl)]\n" ++
      "    private static extern void Widget_Foo_1(IntPtr obj, long id0);\n" ++
      "    public void Foo(long id0)\n    \x7b\n        Widget_Foo_1(Handle, id0);\n    \x7d\n" := by
  refine ⟨by decide, by decide, by decide, by decide, by decide⟩

/-- C7 (as amended): int and long lie in different families, so of two eligible
overloads `Foo(int)` and `Foo(long)` in a class with no other method named `Foo`, the
second is not a duplicate of the first: the registry entries named `Foo` are exactly
these two, in method-list order, and (numbering invariant) each registry entry has its
own export in the text written.  Both generators. -/
theorem int_and_long_overloads_are_both_registered (g : Generator) (env : Env)
    (data : ClassInfo) (pre mid post : List FunctionInfo) (f1 f2 : FunctionInfo)
    (nm : String) (hn1 : f1.Name = some nm) (hn2 : f2.Name = some nm)
    (hothers : ∀ f ∈ pre ++ mid ++ post, f.Name ≠ some nm)
    (ha1 : f1.NumberOfArguments = 1) (_ha2 : f2.NumberOfArguments = 1)
    (ht1 : f1.ArgTypes 0 &&& VTK_PARSE_UNQUALIFIED_TYPE = VTK_PARSE_INT)
    (ht2 : f2.ArgTypes 0 &&& VTK_PARSE_UNQUALIFIED_TYPE = VTK_PARSE_LONG)
    (he1 : (g.checkFunctionSignature env data f1).1 ≠ 0)
    (he2 : (g.checkFunctionSignature env data f2).1 ≠ 0)
    (hc : data.Name ≠ nm) (hc1 : data.Name ≠ nm.drop 1) :
    registeredAs nm (g.outputFunctions env data State.init (pre ++ f1 :: (mid ++ f2 :: post))) =
      [(g.checkFunctionSignature env data f1).2, (g.checkFunctionSignature env data f2).2] ∧
    Numbered (g.emitText data)
      (g.outputFunctions env data State.init (pre ++ f1 :: (mid ++ f2 :: post))) := by
  refine ⟨?_, g.run_numbered env data _⟩
  have hpre : ∀ f ∈ pre, f.Name ≠ some nm := fun f hf =>
    hothers f (List.mem_append_left _ (List.mem_append_left _ hf))
  have hmid : ∀ f ∈ mid, f.Name ≠ some nm := fun f hf =>
    hothers f (List.mem_append_left _ (List.mem_append_right _ hf))
  have hpost : ∀ f ∈ post, f.Name ≠ some nm := fun f hf =>
    hothers f (List.mem_append_right _ hf)
  obtain ⟨r1, n1⟩ := g.run_other_names env data State.init pre nm (numbered_init _) hpre
  have r2 := g.step_registers env data _ f1 nm n1 hn1 he1 hc hc1
    (by rw [r1]; intro fi hfi; exact absurd hfi (List.not_mem_nil _))
  have n2 := g.step_numbered env data _ f1 n1
  obtain ⟨r3, n3⟩ := g.run_other_names env data _ mid nm n2 hmid
  have r4 := g.step_registers env data _ f2 nm n3 hn2 he2 hc hc1 (by
    rw [r3, r2, r1]
    intro fi hfi hd
    have hfi1 : fi = (g.checkFunctionSignature env data f1).2 := by simpa [registeredAs,
      State.init] using hfi
    subst hfi1
    have s1 := g.check_sameSig env data f1
    have s2 := g.check_sameSig env data f2
    have h0 := hd.2.2.1 0 (by rw [s1.2.1, ha1]; exact Nat.one_pos)
    rw [s1.2.2.1, s2.2.2.1] at h0
    exact h0 (Wrap.CheckMatch_long_int _ _ _ _ ht2 ht1))
  have n4 := g.step_numbered env data _ f2 n3
  obtain ⟨r5, _⟩ := g.run_other_names env data _ post nm n4 hpost
  rw [g.outputFunctions_append, g.outputFunctions_cons, g.outputFunctions_append,
    g.outputFunctions_cons, r5, r4, r3, r2, r1]
  rfl


/-- Witness for C7 (as amended): class `Widget` with the methods `GetValue`, `Foo(int)`,
`Foo(long)` in the managed generator. -/
theorem int_and_long_overloads_are_both_registered_witness :
    (Generator.managed.checkFunctionSignature sampleEnv sampleClass sampleFooInt).1 ≠ 0 ∧
    (Generator.managed.checkFunctionSignature sampleEnv sampleClass sampleFooLong).1 ≠ 0 ∧
    registeredAs "Foo" (Generator.managed.outputFunctions sampleEnv sampleClass State.init
        ([sampleGetValue] ++ sampleFooInt :: ([] ++ sampleFooLong :: []))) =
      [(Generator.managed.checkFunctionSignature sampleEnv sampleClass sampleFooInt).2,
       (Generator.managed.checkFunctionSignature sampleEnv sampleClass sampleFooLong).2] :=
  ⟨by decide, by decide,
    (int_and_long_overloads_are_both_registered Generator.managed sampleEnv sampleClass
      [sampleGetValue] [] [] sampleFooInt sampleFooLong "Foo" rfl rfl
      (by decide) rfl rfl (by decide) (by decide) (by decide) (by decide) (by decide)
      (by decide)).1⟩

/-- C8 (the code diverges): a method with an `unsigned int*` argument is not always
rejected.  For `float* Bar(unsigned int a[3])` with a size hint both
`checkFunctionSignature` return 1, because the switch over pointer return types assigns
`args_ok = HaveHint` after the argument loop has set `args_ok = 0`; the method is
emitted by both generators. -/
theorem unsigned_pointer_argument_accepted_with_hint :
    sampleHintedBar.ArgTypes 0 &&& VTK_PARSE_UNQUALIFIED_TYPE = VTK_PARSE_UNSIGNED_INT_PTR ∧
    (Wrap.checkFunctionSignature sampleEnv sampleClass sampleHintedBar).1 = 1 ∧
    (Parse.checkFunctionSignature sampleEnv sampleClass sampleHintedBar).1 = 1 ∧
    (Wrap.outputFunctions sampleEnv sampleClass State.init [sampleHintedBar]).out =
      "\nextern \"C\" VTK_CSHARP_EXPORT float* Widget_Bar_0(void* obj, int* id0)\n\x7b\n" ++
      "  unsigned int temp0[3];\n  float * temp20;\n" ++
      "  memcpy(temp0, id0, 3 * sizeof(temp0[0]));\n\n" ++
      "  Widget* op = static_cast<Widget*>(obj);\n  temp20 = op->Bar(temp0);\n" ++
      "  memcpy(id0, temp0, 3 * sizeof(temp0[0]));\n  return temp20;\n\x7d\n" ∧
    (Parse.outputFunctions sampleEnv sampleClass State.init [sampleHintedBar]).out =
      "\n    [DllImport(NativeLib, CallingConvention = CallingConvention.Cdecl)]\n" ++
      "    private static extern IntPtr Widget_Bar_0(IntPtr obj, int[] id0);\n" ++
      "    public float[] Bar(int[] id0)\n    \x7b\n" ++
      "        IntPtr temp = Widget_Bar_0(Handle, id0);\n" ++
      "        float[] result = new float[3];\n" ++
      "        Marshal.Copy(temp, result, 0, 3);\n        return result;\n    \x7d\n" := by
  refine ⟨by decide, by decide, by decide, by decide, by decide⟩

/-- C9: a method whose return type has pointer indirection, is neither an object pointer
nor `char*`, and that carries no size hint is rejected by `checkFunctionSignature`, for
every argument list and every class.  Both generators. -/
theorem pointer_return_without_hint_rejected (g : Generator) (env : Env) (data : ClassInfo)
    (f : FunctionInfo)
    (hp : (f.ReturnType &&& VTK_PARSE_UNQUALIFIED_TYPE) &&& VTK_PARSE_INDIRECT =
      VTK_PARSE_POINTER)
    (ho : f.ReturnType &&& VTK_PARSE_UNQUALIFIED_TYPE ≠ VTK_PARSE_OBJECT_PTR)
    (hc : f.ReturnType &&& VTK_PARSE_UNQUALIFIED_TYPE ≠ VTK_PARSE_CHAR_PTR)
    (hh : f.HaveHint = 0) :
    (g.checkFunctionSignature env data f).1 = 0 := by
  obtain ⟨icw, cnt, h⟩ := g.checkFunctionSignature_eq_core
  rw [h]
  exact Core.check_pointer_nohint icw cnt env data f hp ho hc hh

/-- Witness for C9: `int* GetSize()` without a size hint, in the shim generator. -/
theorem pointer_return_without_hint_rejected_witness :
    (sampleGetSize.ReturnType &&& VTK_PARSE_UNQUALIFIED_TYPE) &&& VTK_PARSE_INDIRECT =
      VTK_PARSE_POINTER ∧
    sampleGetSize.HaveHint = 0 ∧
    (Generator.shim.checkFunctionSignature sampleEnv sampleClass sampleGetSize).1 = 0 :=
  ⟨by decide, by decide,
    pointer_return_without_hint_rejected Generator.shim sampleEnv sampleClass sampleGetSize
      (by decide) (by decide) (by decide) (by decide)⟩

/-- C10: `checkFunctionSignature` returns 0 for every method that is an operator, is a
template, is excluded, is deleted, is not public, has no name, or is named `NewInstance`
or `SafeDownCast`, whatever its arguments, return type, hint flag and class are (the
callback shape included).  Both generators. -/
theorem unconditional_rejections (g : Generator) (env : Env) (data : ClassInfo)
    (f : FunctionInfo)
    (h : f.IsOperator = true ∨ f.Template = true ∨ f.IsExcluded = true ∨
      f.IsDeleted = true ∨ f.IsPublic = false ∨ f.Name = none ∨
      f.Name = some "NewInstance" ∨ f.Name = some "SafeDownCast") :
    (g.checkFunctionSignature env data f).1 = 0 := by
  obtain ⟨icw, cnt, hg⟩ := g.checkFunctionSignature_eq_core
  rw [hg]
  exact Core.check_early icw cnt env data f (by tauto)

/-- Witness for C10: an operator with the callback shape (a function pointer, `void*`,
returning void) is rejected by the managed generator. -/
theorem unconditional_rejections_witness :
    sampleOperator.IsOperator = true ∧
    sampleOperator.NumberOfArguments = 2 ∧
    sampleOperator.ArgTypes 0 = VTK_PARSE_FUNCTION ∧
    sampleOperator.ArgTypes 1 = VTK_PARSE_VOID_PTR ∧
    (Generator.managed.checkFunctionSignature sampleEnv sampleClass sampleOperator).1 = 0 :=
  ⟨rfl, rfl, by decide, by decide,
    unconditional_rejections Generator.managed sampleEnv sampleClass sampleOperator
      (Or.inl rfl)⟩

/-- C11: a method that none of the unconditional rules rejects (operator, array failure,
template, excluded, deleted, non-public, nameless, `NewInstance`, `SafeDownCast`) and that
has the callback pattern (exactly two arguments, the first exactly a function pointer,
the second exactly `void*`, unqualified return type `void`) gets the verdict 1 from
`checkFunctionSignature`, and the method record comes back unchanged: no rule on the
arguments, the return type, the class or the names `Delete` and `New` is applied.  Both
generators, every class. -/
theorem callback_pattern_accepted_at_once (g : Generator) (env : Env) (data : ClassInfo)
    (f : FunctionInfo)
    (h : ¬ (f.IsOperator = true ∨ f.ArrayFailure = true ∨ f.Template = true ∨
      f.IsExcluded = true ∨ f.IsDeleted = true ∨ f.IsPublic = false ∨ f.Name = none ∨
      f.Name = some "NewInstance" ∨ f.Name = some "SafeDownCast"))
    (hcb : CallbackPattern f) :
    g.checkFunctionSignature env data f = (1, f) := by
  obtain ⟨icw, cnt, hg⟩ := g.checkFunctionSignature_eq_core
  rw [hg]
  exact Core.check_callback icw cnt env data f h hcb

/-- Witness for C11: `void AddObserver(void (*f)(void*), void*)` of the class `vtkObject`,
in the managed generator. -/
theorem callback_pattern_accepted_at_once_witness :
    CallbackPattern (sampleCallback "AddObserver") ∧
    Generator.managed.checkFunctionSignature sampleEnv sampleVtkObject
      (sampleCallback "AddObserver") = (1, sampleCallback "AddObserver") :=
  ⟨by decide,
    callback_pattern_accepted_at_once Generator.managed sampleEnv sampleVtkObject
      (sampleCallback "AddObserver") (by decide) (by decide)⟩

/-- Counterexample for C12: the method `void New(void (*f)(void*), void*)` is named `New`
and both generators return 1 for it, and so they do for the same method named `Delete`. -/
theorem callback_named_new_accepted :
    (Wrap.checkFunctionSignature sampleEnv sampleClass (sampleCallback "New")).1 = 1 ∧
    (Parse.checkFunctionSignature sampleEnv sampleClass (sampleCallback "New")).1 = 1 ∧
    (Wrap.checkFunctionSignature sampleEnv sampleClass (sampleCallback "Delete")).1 = 1 ∧
    (Parse.checkFunctionSignature sampleEnv sampleClass (sampleCallback "Delete")).1 = 1 := by
  decide

/-- C12, amended: a method named exactly `Delete` or exactly `New` that does not have the
callback pattern is rejected by `checkFunctionSignature`, whatever its arguments, return
type and hint flag are.  Both generators, every class. -/
theorem delete_and_new_rejected_unless_callback (g : Generator) (env : Env)
    (data : ClassInfo) (f : FunctionInfo)
    (hn : f.Name = some "Delete" ∨ f.Name = some "New") (hcb : ¬ CallbackPattern f) :
    (g.checkFunctionSignature env data f).1 = 0 := by
  obtain ⟨icw, cnt, hg⟩ := g.checkFunctionSignature_eq_core
  rw [hg]
  exact Core.check_delete_new icw cnt env data f hn hcb

/-- Witness for C12: `void Delete()` of the class `Widget`, in the shim generator. -/
theorem delete_and_new_rejected_unless_callback_witness :
    ¬ CallbackPattern sampleDelete ∧
    (Generator.shim.checkFunctionSignature sampleEnv sampleClass sampleDelete).1 = 0 :=
  ⟨by decide,
    delete_and_new_rejected_unless_callback Generator.shim sampleEnv sampleClass sampleDelete
      (Or.inl rfl) (by decide)⟩

/-- Counterexample for C13: for the class `vtkObject`, the method
`void RemoveObserver(unsigned long tag)` is emitted as a generated method by both
generators, as `vtkObject_RemoveObserver_0`. -/
theorem vtkObject_RemoveObserver_is_emitted :
    (Wrap.outputFunction sampleEnv sampleVtkObject State.init sampleRemoveObserver).out =
      "\nextern \"C\" VTK_CSHARP_EXPORT void vtkObject_RemoveObserver_0(void* obj, " ++
      "long long id0)\n\x7b\n  unsigned long   temp0;\n  temp0 = id0;\n\n" ++
      "  vtkObject* op = static_cast<vtkObject*>(obj);\n  op->RemoveObserver(temp0);\n\x7d\n" ∧
    (Parse.outputFunction sampleEnv sampleVtkObject State.init sampleRemoveObserver).out =
      "\n    [DllImport(NativeLib, CallingConvention = CallingConvention.Cdecl)]\n" ++
      "    private static extern void vtkObject_RemoveObserver_0(IntPtr obj, long id0);\n" ++
      "    public void RemoveObserver(long id0)\n    \x7b\n" ++
      "        vtkObject_RemoveObserver_0(Handle, id0);\n    \x7d\n" := by
  decide

/-- C13, amended: when the class is named `vtkObject`, a method without the callback
pattern gets the verdict 0 and `outputFunction` emits and registers nothing for it, if it
is named `AddObserver` or `GetCommand`, or is named `RemoveObserver` and its first
argument type is not exactly `unsigned long`, or is named `RemoveObservers` or
`HasObserver` and has more than one argument or a first argument type that is neither
exactly `unsigned long` nor exactly `const char*`, or is named `RemoveAllObservers` and
has an argument.  The text that `main` writes for the class ends with the hand-written
observer pair: `Wrap.observerExports` in the shim, `Parse.observerText` before the two
closing braces in the managed file.  Both generators. -/
theorem vtkObject_observer_methods_replaced (g : Generator) (env : Env) (data : ClassInfo)
    (s : State) (f : FunctionInfo) (lib : String) (hc : data.Name = "vtkObject")
    (hcb : ¬ CallbackPattern f)
    (h : f.Name = some "AddObserver" ∨ f.Name = some "GetCommand" ∨
      (f.Name = some "RemoveObserver" ∧ f.ArgTypes 0 ≠ VTK_PARSE_UNSIGNED_LONG) ∨
      ((f.Name = some "RemoveObservers" ∨ f.Name = some "HasObserver") ∧
        ((f.ArgTypes 0 ≠ VTK_PARSE_UNSIGNED_LONG ∧
            f.ArgTypes 0 ≠ (VTK_PARSE_CHAR_PTR ||| VTK_PARSE_CONST)) ∨
          1 < f.NumberOfArguments)) ∨
      (f.Name = some "RemoveAllObservers" ∧ 0 < f.NumberOfArguments)) :
    (g.checkFunctionSignature env data f).1 = 0 ∧
    g.outputFunction env data s f = s ∧
    (∃ pre, Wrap.classText env data = pre ++ Wrap.observerExports) ∧
    (∃ pre, Parse.classText lib env data =
      pre ++ Parse.observerText ++ "    \x7d\n" ++ "\x7d\n") := by
  have h0 : (g.checkFunctionSignature env data f).1 = 0 := by
    obtain ⟨icw, cnt, hg⟩ := g.checkFunctionSignature_eq_core
    rw [hg]
    exact Core.check_observer icw cnt env data f hc hcb ((observerOverride_iff f).mpr h)
  refine ⟨h0, ?_, Wrap.shim_classText_observer env data hc, Parse.managed_classText_observer lib env data hc⟩
  rw [g.outputFunction_eq_core]
  exact Core.outputFunction_of_zero _ _ _ _ s f h0

/-- Witness for C13: `unsigned long AddObserver(unsigned long, vtkCommand*)` of the class
`vtkObject`, in the shim generator; the same method is accepted in the class `vtkFoo`. -/
theorem vtkObject_observer_methods_replaced_witness :
    (Wrap.checkFunctionSignature sampleEnv sampleVtkFoo sampleAddObserver).1 = 1 ∧
    ((Generator.shim.checkFunctionSignature sampleEnv sampleVtkObject sampleAddObserver).1 = 0 ∧
      Generator.shim.outputFunction sampleEnv sampleVtkObject State.init sampleAddObserver =
        State.init ∧
      (∃ pre, Wrap.classText sampleEnv sampleVtkObject = pre ++ Wrap.observerExports) ∧
      (∃ pre, Parse.classText Parse.defaultNativeLibName sampleEnv sampleVtkObject =
        pre ++ Parse.observerText ++ "    \x7d\n" ++ "\x7d\n")) :=
  ⟨by decide,
    vtkObject_observer_methods_replaced Generator.shim sampleEnv sampleVtkObject State.init
      sampleAddObserver Parse.defaultNativeLibName rfl (by decide) (Or.inl rfl)⟩

/-- C14 (the code diverges): a method with an object argument that is passed by
reference, or whose class `isClassWrapped` reports as not wrappable, is not always
rejected.  For `double* Eval(vtkBar& bar)` and for
`double* GetRange(vtkDenseArray<double>* a)`, both with a size hint, both
`checkFunctionSignature` return 1, because the switch over pointer return types assigns
`args_ok = HaveHint` after the argument loop has set `args_ok = 0`; the shim then
declares `void* id0` for the reference where the managed import declares `int id0`.
Without the hinted pointer return (`void SetBar(vtkBar& bar)`) both return 0. -/
theorem object_argument_accepted_with_hinted_return :
    (sampleHintedRef.ArgTypes 0 &&& VTK_PARSE_UNQUALIFIED_TYPE) &&& VTK_PARSE_BASE_TYPE =
      VTK_PARSE_OBJECT ∧
    (sampleHintedRef.ArgTypes 0 &&& VTK_PARSE_UNQUALIFIED_TYPE) &&& VTK_PARSE_INDIRECT ≠
      VTK_PARSE_POINTER ∧
    (Wrap.checkFunctionSignature sampleEnv sampleClass sampleHintedRef).1 = 1 ∧
    (Parse.checkFunctionSignature sampleEnv sampleClass sampleHintedRef).1 = 1 ∧
    Wrap.isClassWrapped sampleEnvHierarchy (sampleHintedArray.ArgClasses 0) = 0 ∧
    Parse.isClassWrapped sampleEnvHierarchy (sampleHintedArray.ArgClasses 0) = 0 ∧
    (Wrap.checkFunctionSignature sampleEnvHierarchy sampleClass sampleHintedArray).1 = 1 ∧
    (Parse.checkFunctionSignature sampleEnvHierarchy sampleClass sampleHintedArray).1 = 1 ∧
    (Wrap.outputFunction sampleEnv sampleClass State.init sampleHintedRef).out =
      "\nextern \"C\" VTK_CSHARP_EXPORT double* Widget_Eval_0(void* obj, void* id0)\n\x7b\n" ++
      "  vtkBar temp0;\n  double * temp20;\n\n" ++
      "  Widget* op = static_cast<Widget*>(obj);\n  temp20 = op->Eval(temp0);\n" ++
      "  return temp20;\n\x7d\n" ∧
    (Parse.outputFunction sampleEnv sampleClass State.init sampleHintedRef).out =
      "\n    [DllImport(NativeLib, CallingConvention = CallingConvention.Cdecl)]\n" ++
      "    private static extern IntPtr Widget_Eval_0(IntPtr obj, int id0);\n" ++
      "    public double[] Eval(int id0)\n    \x7b\n" ++
      "        IntPtr temp = Widget_Eval_0(Handle, id0);\n" ++
      "        double[] result = new double[3];\n" ++
      "        Marshal.Copy(temp, result, 0, 3);\n        return result;\n    \x7d\n" ∧
    (Wrap.checkFunctionSignature sampleEnv sampleClass sampleSetBarRef).1 = 0 ∧
    (Parse.checkFunctionSignature sampleEnv sampleClass sampleSetBarRef).1 = 0 := by
  decide

/-- Counterexample for C15: in `void SetCallback(void (*f)(void*), void* clientdata)` the
second argument has pointer indirection, is neither an object pointer nor `char*`, and
its recorded element count is 0; both generators return 1 for the method. -/
theorem callback_context_pointer_needs_no_count :
    (sampleCallback "SetCallback").NumberOfArguments = 2 ∧
    ((sampleCallback "SetCallback").ArgTypes 1 &&& VTK_PARSE_UNQUALIFIED_TYPE) &&&
      VTK_PARSE_INDIRECT = VTK_PARSE_POINTER ∧
    (sampleCallback "SetCallback").ArgTypes 1 &&& VTK_PARSE_UNQUALIFIED_TYPE ≠
      VTK_PARSE_OBJECT_PTR ∧
    (sampleCallback "SetCallback").ArgTypes 1 &&& VTK_PARSE_UNQUALIFIED_TYPE ≠
      VTK_PARSE_CHAR_PTR ∧
    Generator.shim.argCount (sampleCallback "SetCallback") 1 = 0 ∧
    Generator.managed.argCount (sampleCallback "SetCallback") 1 = 0 ∧
    (Wrap.checkFunctionSignature sampleEnv sampleClass (sampleCallback "SetCallback")).1 = 1 ∧
    (Parse.checkFunctionSignature sampleEnv sampleClass (sampleCallback "SetCallback")).1 = 1 := by
  decide

/-- C15, amended: a method that does not have the callback pattern and whose return type
is not one of the pointer types of the hint switch is rejected by
`checkFunctionSignature` when one of its arguments has pointer indirection, is neither an
object pointer nor `char*`, and has a recorded element count that is zero or negative (the
count is `Parameters[i]->Count` in the shim generator and `ArgCounts[i]` in the managed
one).  Both generators, every class. -/
theorem pointer_argument_without_count_rejected (g : Generator) (env : Env)
    (data : ClassInfo) (f : FunctionInfo) (i : Nat) (hi : i < f.NumberOfArguments)
    (hp : (f.ArgTypes i &&& VTK_PARSE_UNQUALIFIED_TYPE) &&& VTK_PARSE_INDIRECT =
      VTK_PARSE_POINTER)
    (ho : f.ArgTypes i &&& VTK_PARSE_UNQUALIFIED_TYPE ≠ VTK_PARSE_OBJECT_PTR)
    (hc : f.ArgTypes i &&& VTK_PARSE_UNQUALIFIED_TYPE ≠ VTK_PARSE_CHAR_PTR)
    (hcount : g.argCount f i ≤ 0) (hcb : ¬ CallbackPattern f)
    (hr : ¬ hintCase (f.ReturnType &&& VTK_PARSE_UNQUALIFIED_TYPE)) :
    (g.checkFunctionSignature env data f).1 = 0 := by
  rw [g.check_eq_core]
  exact Core.check_zero_of_bad_count _ _ env data f i
    (fun f2 h2 => g.argCount_sameSig f f2 i h2) hi hp ho hc hcount hcb hr

/-- Witness for C15: `void SetPoint(double* p)` without an element count, in the managed
generator. -/
theorem pointer_argument_without_count_rejected_witness :
    Generator.managed.argCount sampleSetPoint 0 ≤ 0 ∧ ¬ CallbackPattern sampleSetPoint ∧
    (Generator.managed.checkFunctionSignature sampleEnv sampleClass sampleSetPoint).1 = 0 :=
  ⟨by decide, by decide,
    pointer_argument_without_count_rejected Generator.managed sampleEnv sampleClass
      sampleSetPoint 0 (by decide) (by decide) (by decide) (by decide) (by decide)
      (by decide) (by decide)⟩

/-- C16 (the code diverges): a method whose return type is `unsigned char*` is not always
rejected.  For `unsigned char* GetColor()` with a size hint both
`checkFunctionSignature` return 1, because the switch over pointer return types lists
`unsigned char*` and assigns `args_ok = HaveHint` after the test under the comment
"eliminate unsigned pointer returns" has set `args_ok = 0`; the method is emitted by both
generators.  The hinted `unsigned int* GetIds()` is rejected by both. -/
theorem unsigned_char_pointer_return_accepted_with_hint :
    sampleGetColor.ReturnType &&& VTK_PARSE_UNQUALIFIED_TYPE = VTK_PARSE_UNSIGNED_CHAR_PTR ∧
    (Wrap.checkFunctionSignature sampleEnv sampleClass sampleGetColor).1 = 1 ∧
    (Parse.checkFunctionSignature sampleEnv sampleClass sampleGetColor).1 = 1 ∧
    (Wrap.outputFunction sampleEnv sampleClass State.init sampleGetColor).out =
      "\nextern \"C\" VTK_CSHARP_EXPORT unsigned char* Widget_GetColor_0(void* obj)\n\x7b\n" ++
      "  unsigned char * temp20;\n\n" ++
      "  Widget* op = static_cast<Widget*>(obj);\n  temp20 = op->GetColor();\n" ++
      "  return temp20;\n\x7d\n" ∧
    (Parse.outputFunction sampleEnv sampleClass State.init sampleGetColor).out =
      "\n    [DllImport(NativeLib, CallingConvention = CallingConvention.Cdecl)]\n" ++
      "    private static extern IntPtr Widget_GetColor_0(IntPtr obj);\n" ++
      "    public byte[] GetColor()\n    \x7b\n" ++
      "        IntPtr temp = Widget_GetColor_0(Handle);\n" ++
      "        byte[] result = new byte[3];\n" ++
      "        Marshal.Copy(temp, result, 0, 3);\n        return result;\n    \x7d\n" ∧
    (Wrap.checkFunctionSignature sampleEnv sampleClass sampleGetIds).1 = 0 ∧
    (Parse.checkFunctionSignature sampleEnv sampleClass sampleGetIds).1 = 0 := by
  decide

/-- Counterexample for C17: for the class `vtkFoo`, the method `void tkFoo()` (the class
name with its first character removed) is emitted by both generators, as
`vtkFoo_tkFoo_0`. -/
theorem class_name_without_first_character_is_emitted :
    (Wrap.outputFunction sampleEnv sampleVtkFoo State.init sampleTkFoo).out =
      "\nextern \"C\" VTK_CSHARP_EXPORT void vtkFoo_tkFoo_0(void* obj)\n\x7b\n\n" ++
      "  vtkFoo* op = static_cast<vtkFoo*>(obj);\n  op->tkFoo();\n\x7d\n" ∧
    (Parse.outputFunction sampleEnv sampleVtkFoo State.init sampleTkFoo).out =
      "\n    [DllImport(NativeLib, CallingConvention = CallingConvention.Cdecl)]\n" ++
      "    private static extern void vtkFoo_tkFoo_0(IntPtr obj);\n" ++
      "    public void tkFoo()\n    \x7b\n        vtkFoo_tkFoo_0(Handle);\n    \x7d\n" := by
  decide

/-- C17, amended: `outputFunction` emits nothing, and registers nothing, for a method
whose name equals the name of the class, and for a method whose name with its first
character removed equals the name of the class (for the class `vtkFoo`: the methods
`vtkFoo` and `~vtkFoo`).  Both generators. -/
theorem outputFunction_skips_constructor_and_destructor (g : Generator) (env : Env)
    (data : ClassInfo) (s : State) (f : FunctionInfo)
    (h : nameStr f = data.Name ∨ (nameStr f).drop 1 = data.Name) :
    g.outputFunction env data s f = s := by
  rw [g.outputFunction_eq_core]
  apply Core.outputFunction_own_name
  rw [sameSig_nameStr (g.check_sameSig env data f)]
  exact h

/-- Witness for C17: the destructor `~vtkFoo` of the class `vtkFoo`, which
`checkFunctionSignature` accepts, in the shim generator. -/
theorem outputFunction_skips_constructor_and_destructor_witness :
    (Generator.shim.checkFunctionSignature sampleEnv sampleVtkFoo sampleDestructor).1 = 1 ∧
    Generator.shim.outputFunction sampleEnv sampleVtkFoo State.init sampleDestructor =
      State.init :=
  ⟨by decide,
    outputFunction_skips_constructor_and_destructor Generator.shim sampleEnv sampleVtkFoo
      State.init sampleDestructor (Or.inr (by decide))⟩

/-- The parameter list of the shim export.  For a method with `n` arguments none of which
has the unqualified type `void` or is a function pointer, it is the handle `void* obj`
followed, for each argument `i` in order, by a comma and one declarator `<type> id<i>`
(the types are those of `Wrap.paramStems`): `n + 1` flat parameters.  For the callback
pattern the parameter list is exactly `void* obj, void* fptr, void* clientdata`, and the
body declares no local variable and passes exactly the function pointer and the context
pointer.  In every case the arguments after a function pointer argument contribute
nothing: two methods that agree up to a function pointer at position `k` get the same
export text. -/
theorem shim_export_parameter_list (data : ClassInfo) (f : FunctionInfo) :
    ((∀ i, i < f.NumberOfArguments →
        f.ArgTypes i &&& VTK_PARSE_UNQUALIFIED_TYPE ≠ VTK_PARSE_VOID ∧
        f.ArgTypes i ≠ VTK_PARSE_FUNCTION) →
      Wrap.signatureTail f =
        "(void* obj" ++
        String.join ((List.range f.NumberOfArguments).map
          (fun i => ", " ++ Wrap.OutputParamType f i)) ++
        ")\n\x7b\n" ∧
      ∀ i, i < f.NumberOfArguments →
        ∃ d ∈ Wrap.paramStems, Wrap.OutputParamType f i = d ++ fmtInt i) ∧
    (CallbackPattern f →
      Wrap.signatureTail f = "(void* obj, void* fptr, void* clientdata)\n\x7b\n" ∧
      Wrap.bodyText data f =
        "\n  " ++ data.Name ++ "* op = static_cast<" ++ data.Name ++ "*>(obj);\n" ++
        ("  op->" ++ nameStr f ++ "(") ++
        "reinterpret_cast<void(*)(void*)>(fptr), clientdata" ++ ");\n" ++ "\x7d\n") ∧
    (∀ (f2 : FunctionInfo) (n k : Nat), k < f.NumberOfArguments → k < f2.NumberOfArguments →
      f.ArgTypes k = VTK_PARSE_FUNCTION → AgreeUpTo k f f2 →
      Wrap.emitText data f2 n = Wrap.emitText data f n) := by
  refine ⟨fun h => ⟨Wrap.signatureTail_plain f (fun i hi => (h i hi).2),
      fun i hi => Wrap.OutputParamType_stem f i (h i hi).1 (h i hi).2⟩,
    fun h => ⟨Wrap.signatureTail_callback f h, Wrap.bodyText_callback data f h⟩,
    fun f2 n k h1 h2 h3 h4 => Wrap.emitText_agree data f f2 n k h1 h2 h3 h4⟩

/-- The parameter list at work: `void SetRange(double lo, double* hi)` declares three
parameters, and `void SetCallback(void (*f)(void*), void* clientdata, int extra)` gets the
export text of the callback pair alone. -/
theorem shim_export_parameter_list_witness :
    (Wrap.signatureTail sampleSetRange =
        "(void* obj" ++
        String.join ((List.range sampleSetRange.NumberOfArguments).map
          (fun i => ", " ++ Wrap.OutputParamType sampleSetRange i)) ++
        ")\n\x7b\n" ∧
      ∀ i, i < sampleSetRange.NumberOfArguments →
        ∃ d ∈ Wrap.paramStems, Wrap.OutputParamType sampleSetRange i = d ++ fmtInt i) ∧
    Wrap.signatureTail sampleSetRange = "(void* obj, double id0, double* id1)\n\x7b\n" ∧
    Wrap.emitText sampleClass sampleCallbackExtra 0 =
      Wrap.emitText sampleClass (sampleCallback "SetCallback") 0 ∧
    Wrap.emitText sampleClass (sampleCallback "SetCallback") 0 =
      "\nextern \"C\" VTK_CSHARP_EXPORT void Widget_SetCallback_0(void* obj, void* fptr, " ++
      "void* clientdata)\n\x7b\n\n  Widget* op = static_cast<Widget*>(obj);\n" ++
      "  op->SetCallback(reinterpret_cast<void(*)(void*)>(fptr), clientdata);\n\x7d\n" :=
  ⟨(shim_export_parameter_list sampleClass sampleSetRange).1 (by decide), by decide,
    (shim_export_parameter_list sampleClass (sampleCallback "SetCallback")).2.2
      sampleCallbackExtra 0 0 (by decide) (by decide) (by decide)
      ⟨rfl, rfl, rfl, rfl, fun i hi => by
        obtain rfl : i = 0 := by omega
        exact ⟨rfl, rfl, rfl, rfl⟩⟩,
    by decide⟩

/-- C18 (the code diverges): the method `double* Map(void (*f)(void*), void* clientdata,
int n)` with a size hint has three arguments and is not the callback pattern; the shim
generator accepts it, and the export declares the three parameters `void* obj`,
`void* fptr`, `void* clientdata`, not four: the argument loop stops at the function
pointer, so the arguments `clientdata` and `n` declare no parameter, and the call passes
two arguments.  The method `double* Integrate(void (*f)(void*))` with a size hint has one
argument, and its export declares the same three parameters.  Without the hint flag both
methods are rejected and nothing is written. -/
theorem hinted_function_pointer_method_declares_three_parameters :
    sampleHintedMap.NumberOfArguments = 3 ∧ ¬ CallbackPattern sampleHintedMap ∧
    (Wrap.checkFunctionSignature sampleEnv sampleClass sampleHintedMap).1 = 1 ∧
    (Wrap.outputFunction sampleEnv sampleClass State.init sampleHintedMap).out =
      "\nextern \"C\" VTK_CSHARP_EXPORT double* Widget_Map_0(void* obj, void* fptr, " ++
      "void* clientdata)\n\x7b\n  double * temp20;\n\n" ++
      "  Widget* op = static_cast<Widget*>(obj);\n" ++
      "  temp20 = op->Map(reinterpret_cast<void(*)(void*)>(fptr), clientdata);\n" ++
      "  return temp20;\n\x7d\n" ∧
    sampleHintedIntegrate.NumberOfArguments = 1 ∧ ¬ CallbackPattern sampleHintedIntegrate ∧
    (Wrap.checkFunctionSignature sampleEnv sampleClass sampleHintedIntegrate).1 = 1 ∧
    (Wrap.outputFunction sampleEnv sampleClass State.init sampleHintedIntegrate).out =
      "\nextern \"C\" VTK_CSHARP_EXPORT double* Widget_Integrate_0(void* obj, void* fptr, " ++
      "void* clientdata)\n\x7b\n  double * temp20;\n\n" ++
      "  Widget* op = static_cast<Widget*>(obj);\n" ++
      "  temp20 = op->Integrate(reinterpret_cast<void(*)(void*)>(fptr), clientdata);\n" ++
      "  return temp20;\n\x7d\n" ∧
    (Wrap.checkFunctionSignature sampleEnv sampleClass
      { sampleHintedMap with HaveHint := 0 }).1 = 0 ∧
    (Wrap.outputFunction sampleEnv sampleClass State.init
      { sampleHintedMap with HaveHint := 0 }).out = "" ∧
    (Wrap.outputFunction sampleEnv sampleClass State.init
      { sampleHintedIntegrate with HaveHint := 0 }).out = "" := by
  decide

/-- C19 (the code diverges): the parameter type of the managed import is not always
compatible with that of the shim export.  For `int Receive(char* data, int length)`, whose
first argument carries a count hint, both `checkFunctionSignature` return 1; the shim
declares `unsigned char* id0`, a byte buffer, and the managed import declares
`[MarshalAs(UnmanagedType.LPUTF8Str)] string id0`, a text: the pair is not in
`typeCompatible`.  Without the count hint (`Send`) the shim declares `const char* id0`
and the pair is compatible. -/
theorem hinted_char_pointer_parameter_types_differ :
    (Wrap.checkFunctionSignature sampleEnv sampleClass sampleReceive).1 = 1 ∧
    (Parse.checkFunctionSignature sampleEnv sampleClass sampleReceive).1 = 1 ∧
    Wrap.OutputParamType sampleReceive 0 = "unsigned char* id" ++ fmtInt 0 ∧
    Parse.OutputCSharpNativeParamType sampleReceive 0 =
      "[MarshalAs(UnmanagedType.LPUTF8Str)] string id" ++ fmtInt 0 ∧
    ("unsigned char* id", "[MarshalAs(UnmanagedType.LPUTF8Str)] string id") ∉ typeCompatible ∧
    (Wrap.outputFunction sampleEnv sampleClass State.init sampleReceive).out =
      "\nextern \"C\" VTK_CSHARP_EXPORT int Widget_Receive_0(void* obj, " ++
      "unsigned char* id0, int id1)\n\x7b\n  char * temp0;\n  int   temp1;\n" ++
      "  int   temp20;\n  temp0 = const_cast<char*>(id0);\n  temp1 = id1;\n\n" ++
      "  Widget* op = static_cast<Widget*>(obj);\n" ++
      "  temp20 = op->Receive(temp0, temp1);\n  return temp20;\n\x7d\n" ∧
    (Parse.outputFunction sampleEnv sampleClass State.init sampleReceive).out =
      "\n    [DllImport(NativeLib, CallingConvention = CallingConvention.Cdecl)]\n" ++
      "    private static extern int Widget_Receive_0(IntPtr obj, " ++
      "[MarshalAs(UnmanagedType.LPUTF8Str)] string id0, int id1);\n" ++
      "    public int Receive(string id0, int id1)\n    \x7b\n" ++
      "        return Widget_Receive_0(Handle, id0, id1);\n    \x7d\n" ∧
    Wrap.OutputParamType sampleSend 0 = "const char* id" ++ fmtInt 0 ∧
    Parse.OutputCSharpNativeParamType sampleSend 0 =
      "[MarshalAs(UnmanagedType.LPUTF8Str)] string id" ++ fmtInt 0 := by
  decide

/-- C20: for the class `Widget` (no superclass, `HasDelete` set, not abstract, the single
public method `int GetValue()`, no hierarchy index) both programs end with status 0.  The
shim file holds the exports `Widget_GetValue_0`, `Widget_VTKDeleteReference`,
`Widget_VTKGetClassName`, `Widget_VTKDelete`, `Widget_VTKRegister` and `Widget_New`; the
managed file declares `class Widget : vtkObjectBase` with `public int GetValue()`
forwarding to `Widget_GetValue_0`, a public parameterless constructor calling
`Widget_New`, `Dispose()` and a finalizer calling `Dispose()`.  The two files are given
in full. -/
theorem widget_scenario_outputs :
    (Wrap.main sampleEnv sampleWidgetInput).status = 0 ∧
    (Wrap.main sampleEnv sampleWidgetInput).output = some (
      "// C# P/Invoke wrapper for Widget object\n" ++
      "//\n" ++
      "#define VTK_WRAPPING_CXX\n" ++
      "#define VTK_STREAMS_FWD_ONLY\n" ++
      "#include \"vtkABI.h\"\n" ++
      "#include \"vtkSystemIncludes.h\"\n" ++
      "#include \"Widget.h\"\n" ++
      "#include <cstring>\n" ++
      "#include <string>\n" ++
      "#include <sstream>\n" ++
      "\n" ++
      "#ifdef _WIN32\n" ++
      "#define VTK_CSHARP_EXPORT __declspec(dllexport)\n" ++
      "#else\n" ++
      "#define VTK_CSHARP_EXPORT __attribute__((visibility(\"default\")))\n" ++
      "#endif\n" ++
      "\n" ++
      "\n" ++
      "extern \"C\" VTK_CSHARP_EXPORT int Widget_GetValue_0(void* obj)\n" ++
      "\x7b\n" ++
      "  int   temp20;\n" ++
      "\n" ++
      "  Widget* op = static_cast<Widget*>(obj);\n" ++
      "  temp20 = op->GetValue();\n" ++
      "  return temp20;\n" ++
      "\x7d\n" ++
      "\n" ++
      "extern \"C\" VTK_CSHARP_EXPORT void Widget_VTKDeleteReference(void* id)\n" ++
      "\x7b\n" ++
      "  Widget* op = static_cast<Widget*>(id);\n" ++
      "  op->Delete();\n" ++
      "\x7d\n" ++
      "\n" ++
      "extern \"C\" VTK_CSHARP_EXPORT const char* Widget_VTKGetClassName(void* id)\n" ++
      "\x7b\n" ++
      "  if (!id) \x7b return \"\"; \x7d\n" ++
      "  Widget* op = static_cast<Widget*>(id);\n" ++
      "  return op->GetClassName();\n" ++
      "\x7d\n" ++
      "\n" ++
      "extern \"C\" VTK_CSHARP_EXPORT void Widget_VTKDelete(void* obj)\n" ++
      "\x7b\n" ++
      "  Widget* op = static_cast<Widget*>(obj);\n" ++
      "  op->Delete();\n" ++
      "\x7d\n" ++
      "\n" ++
      "extern \"C\" VTK_CSHARP_EXPORT void Widget_VTKRegister(void* obj)\n" ++
      "\x7b\n" ++
      "  Widget* op = static_cast<Widget*>(obj);\n" ++
      "  op->Register(op);\n" ++
      "\x7d\n" ++
      "\n" ++
      "extern \"C\" VTK_CSHARP_EXPORT void* Widget_New(void)\n" ++
      "\x7b\n" ++
      "  return static_cast<void*>(Widget::New());\n" ++
      "\x7d\n") ∧
    (Parse.main Parse.defaultNativeLibName sampleEnv sampleWidgetInput).status = 0 ∧
    (Parse.main Parse.defaultNativeLibName sampleEnv sampleWidgetInput).output = some (
      "// C# wrapper for Widget object\n" ++
      "// Auto-generated by vtkParseCSharp - do not edit\n" ++
      "\n" ++
      "using System;\n" ++
      "using System.Runtime.InteropServices;\n" ++
      "\n" ++
      "namespace VTK\n" ++
      "\x7b\n" ++
      "    public class Widget : vtkObjectBase\n" ++
      "    \x7b\n" ++
      "        private const string NativeLib = \"vtkCommonCoreCSharp\";\n" ++
      "\n" ++
      "\n" ++
      "    [DllImport(NativeLib, CallingConvention = CallingConvention.Cdecl)]\n" ++
      "    private static extern int Widget_GetValue_0(IntPtr obj);\n" ++
      "    public int GetValue()\n" ++
      "    \x7b\n" ++
      "        return Widget_GetValue_0(Handle);\n" ++
      "    \x7d\n" ++
      "\n" ++
      "        protected IntPtr handle;\n" ++
      "        private bool ownsReference;\n" ++
      "        private bool disposed;\n" ++
      "\n" ++
      "        public IntPtr Handle\n" ++
      "        \x7b\n" ++
      "            get\n" ++
      "            \x7b\n" ++
      "                if (disposed) throw new ObjectDisposedException(GetType().Name);\n" ++
      "                return handle;\n" ++
      "            \x7d\n" ++
      "        \x7d\n" ++
      "\n" ++
      "        [DllImport(NativeLib, CallingConvention = CallingConvention.Cdecl)]\n" ++
      "        private static extern IntPtr Widget_New();\n" ++
      "\n" ++
      "        public Widget()\n" ++
      "        \x7b\n" ++
      "            this.handle = Widget_New();\n" ++
      "            this.ownsReference = true;\n" ++
      "            OBJECT_MANAGER.Register(this.handle, this);\n" ++
      "        \x7d\n" ++
      "\n" ++
      "        internal Widget(IntPtr ptr, bool ownsRef)\n" ++
      "        \x7b\n" ++
      "            this.handle = ptr;\n" ++
      "            this.ownsReference = ownsRef;\n" ++
      "            if (ptr != IntPtr.Zero)\n" ++
      "                OBJECT_MANAGER.Register(ptr, this);\n" ++
      "        \x7d\n" ++
      "\n" ++
      "        [DllImport(NativeLib, CallingConvention = CallingConvention.Cdecl)]\n" ++
      "        private static extern void Widget_VTKDeleteReference(IntPtr id);\n" ++
      "\n" ++
      "        [DllImport(NativeLib, CallingConvention = CallingConvention.Cdecl)]\n" ++
      "        private static extern void Widget_VTKRegister(IntPtr obj);\n" ++
      "\n" ++
      "        [DllImport(NativeLib, CallingConvention = CallingConvention.Cdecl)]\n" ++
      "        private static extern IntPtr Widget_VTKGetClassName(IntPtr id);\n" ++
      "\n" ++
      "        public static void VTKDeleteReference(IntPtr id)\n" ++
      "        \x7b\n" ++
      "            Widget_VTKDeleteReference(id);\n" ++
      "        \x7d\n" ++
      "\n" ++
      "        public static void VTKRegister(IntPtr obj)\n" ++
      "        \x7b\n" ++
      "            Widget_VTKRegister(obj);\n" ++
      "        \x7d\n" ++
      "\n" ++
      "        public static string VTKGetClassNameFromHandle(IntPtr id)\n" ++
      "        \x7b\n" ++
      "            IntPtr ptr = Widget_VTKGetClassName(id);\n" ++
      "            return Marshal.PtrToStringUTF8(ptr);\n" ++
      "        \x7d\n" ++
      "\n" ++
      "        public void Dispose()\n" ++
      "        \x7b\n" ++
      "            if (!disposed && handle != IntPtr.Zero)\n" ++
      "            \x7b\n" ++
      "                OBJECT_MANAGER.Unregister(handle);\n" ++
      "                if (ownsReference)\n" ++
      "                    Widget_VTKDeleteReference(handle);\n" ++
      "                handle = IntPtr.Zero;\n" ++
      "                disposed = true;\n" ++
      "            \x7d\n" ++
      "            GC.SuppressFinalize(this);\n" ++
      "        \x7d\n" ++
      "\n" ++
      "        ~Widget() \x7b Dispose(); \x7d\n" ++
      "    \x7d\n" ++
      "\x7d\n") := by
  have hs : Wrap.main sampleEnv sampleWidgetInput =
      ⟨0, some (Wrap.fileHeader sampleWidget ++ Wrap.emitText sampleWidget sampleGetValue 0 ++
        (Wrap.lifetimeExports sampleWidget ++ Wrap.newExport sampleWidget ++ "" ++ ""))⟩ := rfl
  have hm : Parse.main Parse.defaultNativeLibName sampleEnv sampleWidgetInput =
      ⟨0, some (Parse.fileHeader Parse.defaultNativeLibName sampleWidget ++
        Parse.emitText sampleWidget sampleGetValue 0 ++ Parse.classTail sampleWidget)⟩ := rfl
  have es : Wrap.emitText sampleWidget sampleGetValue 0 =
      "\nextern \"C\" VTK_CSHARP_EXPORT int Widget_GetValue_0(void* obj)\n\x7b\n  int   temp20;\n\n" ++
        "  Widget* op = static_cast<Widget*>(obj);\n  temp20 = op->GetValue();\n" ++
        "  return temp20;\n\x7d\n" := by decide
  have em : Parse.emitText sampleWidget sampleGetValue 0 =
      "\n    [DllImport(NativeLib, CallingConvention = CallingConvention.Cdecl)]\n" ++
        "    private static extern int Widget_GetValue_0(IntPtr obj);\n" ++
        "    public int GetValue()\n    \x7b\n        return Widget_GetValue_0(Handle);\n    \x7d\n" := by decide
  refine ⟨by rw [hs], ?_, by rw [hm], ?_⟩
  · rw [hs, es]
    simp [Wrap.fileHeader, Wrap.OutputExportMacro, Wrap.lifetimeExports, Wrap.newExport,
      sampleWidget, sampleClass, streq]
  · rw [hm, em]
    simp [Parse.fileHeader, Parse.classTail, Parse.rootText, Parse.lifecycleText,
      Parse.defaultNativeLibName, sampleWidget, sampleClass, streq]

/-- C21: for a method whose unqualified return type is one of the numeric pointer types
of the array branch (float, double, int, short, long, long long, signed or unsigned char,
bool pointers and their unsigned variants) and whose result has `n = ReturnValue->Count`
elements, the body of the managed wrapper calls the import, allocates `new T[n]`, copies
with `Marshal.Copy(temp, result, 0, n)` and returns the array; for `bool*` it copies `n`
elements into an `int[n]` and fills a `bool[n]` in a loop of `n` steps. -/
theorem managed_array_result_has_hinted_size (f : FunctionInfo) (sym : String)
    (h : Parse.isNumericPtrReturn (f.ReturnType &&& VTK_PARSE_UNQUALIFIED_TYPE) = true) :
    Parse.methodBody f sym =
      "        IntPtr temp = " ++ sym ++ "(" ++ Parse.OutputCallArgs f ++ ");\n" ++
      Parse.arrayResultText (f.ReturnType &&& VTK_PARSE_UNQUALIFIED_TYPE)
        f.ReturnValue.Count ++
      "        return result;\n" ++ "    \x7d\n" ∧
    (f.ReturnType &&& VTK_PARSE_UNQUALIFIED_TYPE ≠ VTK_PARSE_BOOL_PTR →
      ∃ t ∈ ["float", "double", "int", "short", "long", "byte"],
        Parse.arrayResultText (f.ReturnType &&& VTK_PARSE_UNQUALIFIED_TYPE)
            f.ReturnValue.Count =
          "        " ++ t ++ "[] result = new " ++ t ++ "[" ++
            fmtInt f.ReturnValue.Count ++ "];\n" ++
          "        Marshal.Copy(temp, result, 0, " ++ fmtInt f.ReturnValue.Count ++ ");\n") ∧
    (f.ReturnType &&& VTK_PARSE_UNQUALIFIED_TYPE = VTK_PARSE_BOOL_PTR →
      Parse.arrayResultText (f.ReturnType &&& VTK_PARSE_UNQUALIFIED_TYPE)
          f.ReturnValue.Count =
        "        int[] raw = new int[" ++ fmtInt f.ReturnValue.Count ++ "];\n" ++
        "        Marshal.Copy(temp, raw, 0, " ++ fmtInt f.ReturnValue.Count ++ ");\n" ++
        "        bool[] result = new bool[" ++ fmtInt f.ReturnValue.Count ++ "];\n" ++
        "        for (int _i = 0; _i < " ++ fmtInt f.ReturnValue.Count ++
          "; _i++) result[_i] = raw[_i] != 0;\n") := by
  refine ⟨Parse.methodBody_array f sym h, Parse.arrayResultText_plain _ _ h, fun hb => ?_⟩
  rw [hb]
  exact Parse.arrayResultText_bool _

/-- Witness for C21: `double* GetPoint()` with a hint of 3 elements; the wrapper that the
managed generator writes for it. -/
theorem managed_array_result_has_hinted_size_witness :
    (Parse.methodBody sampleGetPoint "Widget_GetPoint_0" =
      "        IntPtr temp = " ++ "Widget_GetPoint_0" ++ "(" ++
        Parse.OutputCallArgs sampleGetPoint ++ ");\n" ++
      Parse.arrayResultText (sampleGetPoint.ReturnType &&& VTK_PARSE_UNQUALIFIED_TYPE)
        sampleGetPoint.ReturnValue.Count ++
      "        return result;\n" ++ "    \x7d\n") ∧
    (Parse.outputFunction sampleEnv sampleClass State.init sampleGetPoint).out =
      "\n    [DllImport(NativeLib, CallingConvention = CallingConvention.Cdecl)]\n" ++
      "    private static extern IntPtr Widget_GetPoint_0(IntPtr obj);\n" ++
      "    public double[] GetPoint()\n    \x7b\n" ++
      "        IntPtr temp = Widget_GetPoint_0(Handle);\n" ++
      "        double[] result = new double[3];\n" ++
      "        Marshal.Copy(temp, result, 0, 3);\n        return result;\n    \x7d\n" ∧
    (Parse.outputFunction sampleEnv sampleClass State.init sampleGetFlags).out =
      "\n    [DllImport(NativeLib, CallingConvention = CallingConvention.Cdecl)]\n" ++
      "    private static extern IntPtr Widget_GetFlags_0(IntPtr obj);\n" ++
      "    public bool[] GetFlags()\n    \x7b\n" ++
      "        IntPtr temp = Widget_GetFlags_0(Handle);\n" ++
      "        int[] raw = new int[4];\n        Marshal.Copy(temp, raw, 0, 4);\n" ++
      "        bool[] result = new bool[4];\n" ++
      "        for (int _i = 0; _i < 4; _i++) result[_i] = raw[_i] != 0;\n" ++
      "        return result;\n    \x7d\n" :=
  ⟨(managed_array_result_has_hinted_size sampleGetPoint "Widget_GetPoint_0" (by decide)).1,
    by decide, by decide⟩

/-- Counterexample for C22: for `double* GetPoint()` with a size hint of 3 elements the
shim export declares a pointer, calls the method and returns the pointer; its body holds
no copy, and the export for a hint of 7 elements is the same text. -/
theorem shim_export_has_no_result_copy :
    (Wrap.checkFunctionSignature sampleEnv sampleClass sampleGetPoint).1 = 1 ∧
    (Wrap.outputFunction sampleEnv sampleClass State.init sampleGetPoint).out =
      "\nextern \"C\" VTK_CSHARP_EXPORT double* Widget_GetPoint_0(void* obj)\n\x7b\n" ++
      "  double * temp20;\n\n  Widget* op = static_cast<Widget*>(obj);\n" ++
      "  temp20 = op->GetPoint();\n  return temp20;\n\x7d\n" ∧
    (Wrap.outputFunction sampleEnv sampleClass State.init
        { sampleGetPoint with ReturnValue := ⟨7, none⟩ }).out =
      (Wrap.outputFunction sampleEnv sampleClass State.init sampleGetPoint).out := by
  decide

/-- C22, amended: for a method whose return type is a numeric pointer, the shim export
returns the result pointer itself, as `return temp20;` or through a `reinterpret_cast`
to the flat pointer type, and holds no copy of the result: the text of the export does
not depend on the size of the result (`ReturnValue`) nor on the hint flag. -/
theorem shim_returns_result_pointer (data : ClassInfo) (f : FunctionInfo) (n : Nat)
    (v : ValueInfo) (hint : Int)
    (h : Parse.isNumericPtrReturn (f.ReturnType &&& VTK_PARSE_UNQUALIFIED_TYPE) = true) :
    Wrap.emitText data { f with ReturnValue := v, HaveHint := hint } n =
      Wrap.emitText data f n ∧
    Wrap.OutputFunctionResult f ∈
      ["  return temp20;\n", "  return reinterpret_cast<long long*>(temp20);\n",
       "  return reinterpret_cast<unsigned char*>(temp20);\n"] :=
  ⟨Wrap.emitText_congr data f _ n rfl rfl rfl rfl rfl rfl rfl rfl,
    Wrap.OutputFunctionResult_pointer f h⟩

/-- Witness for C22: `double* GetPoint()`; a hint of 3 elements and no hint at all give
the same export text. -/
theorem shim_returns_result_pointer_witness :
    Wrap.emitText sampleClass { sampleGetPoint with ReturnValue := ⟨0, none⟩, HaveHint := 0 } 0 =
      Wrap.emitText sampleClass sampleGetPoint 0 ∧
    Wrap.OutputFunctionResult sampleGetPoint ∈
      ["  return temp20;\n", "  return reinterpret_cast<long long*>(temp20);\n",
       "  return reinterpret_cast<unsigned char*>(temp20);\n"] :=
  shim_returns_result_pointer sampleClass sampleGetPoint 0 ⟨0, none⟩ 0 (by decide)

/-- C23 (the code diverges): both generators accept `void SetFlags(bool flags[4])`.  The
shim declares the buffer of the caller as `int* id0`, as the managed import does
(`int[]` with `ArraySubType = UnmanagedType.I4`), and the local buffer as
`bool temp0[4]`; both copies have the size `4 * sizeof(temp0[0])`, which is four elements
of the local buffer and not four elements of the buffer of the caller.  For
`void SetPoint(double p[3])` both buffers hold `double` and the copies are of three
elements; for `const double p[3]` the copy back is not written. -/
theorem bool_array_argument_copied_by_local_element_size :
    (Wrap.checkFunctionSignature sampleEnv sampleClass sampleSetFlags).1 = 1 ∧
    (Parse.checkFunctionSignature sampleEnv sampleClass sampleSetFlags).1 = 1 ∧
    (Wrap.outputFunction sampleEnv sampleClass State.init sampleSetFlags).out =
      "\nextern \"C\" VTK_CSHARP_EXPORT void Widget_SetFlags_0(void* obj, int* id0)\n" ++
      "\x7b\n  bool temp0[4];\n  memcpy(temp0, id0, 4 * sizeof(temp0[0]));\n\n" ++
      "  Widget* op = static_cast<Widget*>(obj);\n  op->SetFlags(temp0);\n" ++
      "  memcpy(id0, temp0, 4 * sizeof(temp0[0]));\n\x7d\n" ∧
    (Parse.outputFunction sampleEnv sampleClass State.init sampleSetFlags).out =
      "\n    [DllImport(NativeLib, CallingConvention = CallingConvention.Cdecl)]\n" ++
      "    private static extern void Widget_SetFlags_0(IntPtr obj, " ++
      "[MarshalAs(UnmanagedType.LPArray, ArraySubType = UnmanagedType.I4)] int[] id0);\n" ++
      "    public void SetFlags(bool[] id0)\n    \x7b\n" ++
      "        Widget_SetFlags_0(Handle, id0);\n    \x7d\n" ∧
    (Wrap.outputFunction sampleEnv sampleClass State.init sampleSetPoint3).out =
      "\nextern \"C\" VTK_CSHARP_EXPORT void Widget_SetPoint_0(void* obj, double* id0)\n" ++
      "\x7b\n  double temp0[3];\n  memcpy(temp0, id0, 3 * sizeof(temp0[0]));\n\n" ++
      "  Widget* op = static_cast<Widget*>(obj);\n  op->SetPoint(temp0);\n" ++
      "  memcpy(id0, temp0, 3 * sizeof(temp0[0]));\n\x7d\n" ∧
    (Wrap.outputFunction sampleEnv sampleClass State.init sampleSetConstPoint3).out =
      "\nextern \"C\" VTK_CSHARP_EXPORT void Widget_SetPoint_0(void* obj, double* id0)\n" ++
      "\x7b\n  double temp0[3];\n  memcpy(temp0, id0, 3 * sizeof(temp0[0]));\n\n" ++
      "  Widget* op = static_cast<Widget*>(obj);\n  op->SetPoint(temp0);\n\x7d\n" := by
  decide

/-- C24: when the output file opens and the main class is absent, is excluded, is a
template, has a superclass whose name contains `<`, or (with a hierarchy index) is not a
subtype of `vtkObjectBase`, both programs end with status 0, the whole output of the
managed generator is the text `namespace VTK { }` followed by a newline, and the output of
the shim generator is empty: whatever the method list is, no method is emitted. -/
theorem class_guards_write_stub (lib : String) (env : Env) (inp : MainInput)
    (hopen : inp.canOpen = true)
    (h : inp.MainClass = none ∨
      ∃ data, inp.MainClass = some data ∧
        (data.IsExcluded = true ∨ data.Template = true ∨
          (∃ s ∈ data.SuperClasses, strchr s '<' = true) ∨
          (env.hierarchyInfo.isSome = true ∧
            inp.IsTypeOf data.Name "vtkObjectBase" = false))) :
    Parse.main lib env inp = ⟨0, some "namespace VTK \x7b \x7d\n"⟩ ∧
    Wrap.main env inp = ⟨0, some ""⟩ := by
  unfold Parse.main Wrap.main
  simp only [hopen, Bool.not_true, Bool.false_eq_true, if_false]
  rcases h with h | ⟨data, h, hd⟩
  · rw [h]
    exact ⟨rfl, rfl⟩
  · rw [h]
    dsimp only
    have ht : (∃ s ∈ data.SuperClasses, strchr s '<' = true) ↔
        templatedSuperClass data = true := by
      unfold templatedSuperClass
      rw [List.any_eq_true]
    rw [ht] at hd
    by_cases h1 : data.IsExcluded = true
    · rw [if_pos h1, if_pos h1]
      exact ⟨rfl, rfl⟩
    by_cases h0 : streq data.Name "vtkObjectBase" = true
    · rw [if_neg h1, if_pos h0]
      refine ⟨rfl, ?_⟩
      rcases hd with hd | hd | hd | hd
      · exact absurd hd h1
      · rw [if_neg h1, if_pos hd]
      · by_cases h2 : data.Template = true
        · rw [if_neg h1, if_pos h2]
        · rw [if_neg h1, if_neg h2, if_pos hd]
      · by_cases h2 : data.Template = true
        · rw [if_neg h1, if_pos h2]
        · by_cases h3 : templatedSuperClass data = true
          · rw [if_neg h1, if_neg h2, if_pos h3]
          · rw [if_neg h1, if_neg h2, if_neg h3, hd.1, hd.2, if_pos (by decide)]
    rw [if_neg h1, if_neg h0, if_neg h1]
    by_cases h2 : data.Template = true
    · rw [if_pos h2, if_pos h2]
      exact ⟨rfl, rfl⟩
    rw [if_neg h2, if_neg h2]
    by_cases h3 : templatedSuperClass data = true
    · rw [if_pos h3, if_pos h3]
      exact ⟨rfl, rfl⟩
    rw [if_neg h3, if_neg h3]
    rcases hd with hd | hd | hd | hd
    · exact absurd hd h1
    · exact absurd hd h2
    · exact absurd hd h3
    · rw [hd.1, hd.2, if_pos (by decide), if_pos (by decide)]
      exact ⟨rfl, rfl⟩

/-- Witness for C24: the class template `Widget` with one method, run with the library
name `vtkCommonCoreCSharp` and without hierarchy index. -/
theorem class_guards_write_stub_witness :
    Parse.main Parse.defaultNativeLibName sampleEnv (sampleInput sampleTemplate true) =
      ⟨0, some "namespace VTK \x7b \x7d\n"⟩ ∧
    Wrap.main sampleEnv (sampleInput sampleTemplate true) = ⟨0, some ""⟩ :=
  class_guards_write_stub Parse.defaultNativeLibName sampleEnv (sampleInput sampleTemplate true)
    rfl (Or.inr ⟨sampleTemplate, rfl, Or.inr (Or.inl rfl)⟩)

/-- Counterexample for C25: for the main class `vtkObjectBase` (not excluded, no hierarchy
index) the whole output of the managed generator is the stub `namespace VTK { }`; it holds
no `Print` method, no `ToString` override and no `OBJECT_MANAGER`. -/
theorem vtkObjectBase_output_is_stub :
    Parse.main Parse.defaultNativeLibName sampleEnv (sampleInput sampleVtkObjectBase true) =
      ⟨0, some "namespace VTK \x7b \x7d\n"⟩ := by
  rfl

/-- C25, amended: when the output file opens and the main class is named `vtkObjectBase`,
the managed generator ends with status 0 and its whole output is the text
`namespace VTK { }` followed by a newline, for every library name, environment and method
list: `main` returns before it writes the class, so the branches that write the `Print`
method, the `ToString` override and the static `OBJECT_MANAGER` are not reached. -/
theorem vtkObjectBase_is_skipped (lib : String) (env : Env) (inp : MainInput)
    (data : ClassInfo) (hopen : inp.canOpen = true) (hm : inp.MainClass = some data)
    (hn : data.Name = "vtkObjectBase") :
    Parse.main lib env inp = ⟨0, some "namespace VTK \x7b \x7d\n"⟩ := by
  unfold Parse.main
  simp only [hopen, Bool.not_true, Bool.false_eq_true, if_false]
  rw [hm]
  dsimp only
  by_cases h1 : data.IsExcluded = true
  · rw [if_pos h1]
    rfl
  · rw [if_neg h1, hn, if_pos (by decide)]
    rfl

/-- Witness for C25: the class `vtkObjectBase` with one method, run with a hierarchy
index. -/
theorem vtkObjectBase_is_skipped_witness :
    Parse.main "vtkCommonCore" sampleEnvHierarchy (sampleInput sampleVtkObjectBase true) =
      ⟨0, some "namespace VTK \x7b \x7d\n"⟩ :=
  vtkObjectBase_is_skipped "vtkCommonCore" sampleEnvHierarchy
    (sampleInput sampleVtkObjectBase true) sampleVtkObjectBase rfl rfl rfl

/-- C26: let the main class `data` pass the class guards of both generators.  Then both
outputs end with the text of the `fprintf` calls that `main` makes after the method loop
(`Wrap.exportCalls`, `Parse.tailCalls`), and with the imported symbols read off the
`private static extern` declarations among the calls of the managed generator and the
exported symbols read off the declarations after `extern "C" VTK_CSHARP_EXPORT` among the
calls of the shim generator: every symbol that the managed class imports there is
exported by the shim; `<class>_New` is imported, and exported, exactly when the class is
not abstract; `<class>_VTKDeleteReference`, `<class>_VTKRegister` and
`<class>_VTKGetClassName` are imported, and exported, exactly when the class has
`HasDelete` set and no superclass; and no method of the class is written under the name
of a lifecycle symbol. -/
theorem lifecycle_imports_are_exported (lib : String) (env : Env) (inp : MainInput)
    (data : ClassInfo)
    (hopen : inp.canOpen = true) (hc : inp.MainClass = some data)
    (hx : data.IsExcluded = false) (hb : data.Name ≠ "vtkObjectBase")
    (ht : data.Template = false) (hs : templatedSuperClass data = false)
    (hh : env.hierarchyInfo.isSome = true → inp.IsTypeOf data.Name "vtkObjectBase" = true) :
    (∃ methods, Wrap.main env inp =
      ⟨0, some (methods ++ written (Wrap.exportCalls data))⟩) ∧
    (∃ methods, Parse.main lib env inp =
      ⟨0, some (methods ++ written (Parse.tailCalls data))⟩) ∧
    (∀ s ∈ declaredImports (Parse.tailCalls data), s ∈ declaredExports (Wrap.exportCalls data)) ∧
    (Lifecycle.symbol data.Name .New ∈ declaredImports (Parse.tailCalls data) ↔
      data.IsAbstract = false) ∧
    (Lifecycle.symbol data.Name .New ∈ declaredExports (Wrap.exportCalls data) ↔
      data.IsAbstract = false) ∧
    (∀ h ∈ [Lifecycle.VTKDeleteReference, Lifecycle.VTKRegister, Lifecycle.VTKGetClassName],
      (Lifecycle.symbol data.Name h ∈ declaredImports (Parse.tailCalls data) ↔
        data.HasDelete = true ∧ data.SuperClasses = []) ∧
      (Lifecycle.symbol data.Name h ∈ declaredExports (Wrap.exportCalls data) ↔
        data.HasDelete = true ∧ data.SuperClasses = [])) ∧
    (∀ (h : Lifecycle) (f : FunctionInfo) (k : Nat),
      exportName data.Name (nameStr f) k ≠ Lifecycle.symbol data.Name h) := by
  have hm := main_of_guards_passed lib env inp data hopen hc hx hb ht hs hh
  have hp := preparedClass_tail env inp data
  refine ⟨?_, ?_, imports_subset_exports data, ?_, ?_, ?_, ?_⟩
  · rw [hm.1, Wrap.classText, hp.1, Wrap.classExports_eq_written]
    exact ⟨_, rfl⟩
  · rw [hm.2, Parse.classText, hp.2, Parse.classTail_eq_written]
    exact ⟨_, rfl⟩
  · rw [Parse.mem_imports]
    simp
  · rw [Wrap.mem_exports]
    simp
  · intro h hl
    rw [Parse.mem_imports, Wrap.mem_exports]
    simp only [List.mem_cons, List.mem_singleton, List.not_mem_nil, or_false] at hl
    rcases hl with rfl | rfl | rfl <;> simp
  · intro h f k
    exact exportName_ne_symbol data.Name (nameStr f) k h

/-- Witness for C26: the class `Widget` (no superclass, `HasDelete`, not abstract) imports
`Widget_New` and the three reference counting functions, and the shim exports them and
`Widget_VTKDelete`; an abstract class derived from `vtkObject` imports and exports
nothing. -/
theorem lifecycle_imports_are_exported_witness :
    ((∀ s ∈ declaredImports (Parse.tailCalls sampleWidget),
        s ∈ declaredExports (Wrap.exportCalls sampleWidget)) ∧
      (Lifecycle.symbol sampleWidget.Name .New ∈ declaredImports (Parse.tailCalls sampleWidget) ↔
        sampleWidget.IsAbstract = false)) ∧
    declaredImports (Parse.tailCalls sampleWidget) =
      ["Widget_New", "Widget_VTKDeleteReference", "Widget_VTKRegister",
        "Widget_VTKGetClassName"] ∧
    declaredExports (Wrap.exportCalls sampleWidget) =
      ["Widget_VTKDeleteReference", "Widget_VTKGetClassName", "Widget_VTKDelete",
        "Widget_VTKRegister", "Widget_New"] ∧
    declaredImports (Parse.tailCalls { sampleVtkFoo with IsAbstract := true }) = [] ∧
    declaredExports (Wrap.exportCalls { sampleVtkFoo with IsAbstract := true }) = [] :=
  ⟨⟨(lifecycle_imports_are_exported Parse.defaultNativeLibName sampleEnv sampleWidgetInput
        sampleWidget rfl rfl rfl (by decide) rfl rfl (fun h => absurd h (by decide))).2.2.1,
      (lifecycle_imports_are_exported Parse.defaultNativeLibName sampleEnv sampleWidgetInput
        sampleWidget rfl rfl rfl (by decide) rfl rfl (fun h => absurd h (by decide))).2.2.2.1⟩,
    by decide, by decide, by decide, by decide⟩

/-- C27: for an argument `i` whose unqualified type is `bool`, the shim export and the
managed import both declare `int id<i>`, the shim assigns
`temp<i> = (id<i> != 0) ? true : false` and the managed wrapper passes `id<i> ? 1 : 0`.
For a method whose unqualified return type is `bool`, the shim export and the managed import
both return `int`, the shim returns `static_cast<int>(temp20)` and the managed
wrapper returns the result of the import compared with `!= 0`.  The call arguments of
the managed wrapper are `Handle` followed by the loop over the arguments, and a loop over
the arguments writes the text of every argument when none is a function pointer. -/
theorem bool_crosses_boundary_as_int (f : FunctionInfo) (i : Nat) (sym : String) :
    (f.ArgTypes i &&& VTK_PARSE_UNQUALIFIED_TYPE = VTK_PARSE_BOOL →
      Wrap.OutputParamType f i = "int id" ++ fmtInt i ∧
      Parse.OutputCSharpNativeParamType f i = "int id" ++ fmtInt i ∧
      Wrap.OutputLocalVariableAssignments f i =
        "  temp" ++ fmtInt i ++ " = (id" ++ fmtInt i ++ " != 0) ? true : false;\n" ∧
      Parse.callArg f i = ", " ++ ("id" ++ fmtInt i ++ " ? 1 : 0")) ∧
    (f.ReturnType &&& VTK_PARSE_UNQUALIFIED_TYPE = VTK_PARSE_BOOL →
      Wrap.OutputReturnType f = "int" ∧ Parse.OutputCSharpNativeReturnType f = "int" ∧
      Wrap.OutputFunctionResult f = "  return static_cast<int>(temp20);\n" ∧
      Parse.methodBody f sym =
        "        return " ++ sym ++ "(" ++ Parse.OutputCallArgs f ++ ") != 0;\n" ++
        "    \x7d\n") ∧
    Parse.OutputCallArgs f =
      "Handle" ++ argLoop f (Parse.callArg f) (List.range f.NumberOfArguments) ∧
    ((∀ j ∈ List.range f.NumberOfArguments, f.ArgTypes j ≠ VTK_PARSE_FUNCTION) →
      ∀ body : Nat → String,
        argLoop f body (List.range f.NumberOfArguments) =
          String.join ((List.range f.NumberOfArguments).map body)) :=
  ⟨fun h => ⟨Wrap.OutputParamType_bool f i h, Parse.NativeParamType_bool f i h,
      Wrap.OutputLocalVariableAssignments_bool f i h, Parse.callArg_bool f i h⟩,
    fun h => bool_return_texts f sym h, Parse.OutputCallArgs_eq f,
    fun h body => argLoop_no_function f body _ h⟩

/-- Witness for C27: `bool IsOn(bool flag)`, with the texts both generators write for it. -/
theorem bool_crosses_boundary_as_int_witness :
    (Wrap.OutputParamType sampleIsOn 0 = "int id" ++ fmtInt 0 ∧
      Parse.OutputCSharpNativeParamType sampleIsOn 0 = "int id" ++ fmtInt 0 ∧
      Wrap.OutputLocalVariableAssignments sampleIsOn 0 =
        "  temp" ++ fmtInt 0 ++ " = (id" ++ fmtInt 0 ++ " != 0) ? true : false;\n" ∧
      Parse.callArg sampleIsOn 0 = ", " ++ ("id" ++ fmtInt 0 ++ " ? 1 : 0")) ∧
    (Wrap.outputFunction sampleEnv sampleClass State.init sampleIsOn).out =
      "\nextern \"C\" VTK_CSHARP_EXPORT int Widget_IsOn_0(void* obj, int id0)\n\x7b\n" ++
      "  bool   temp0;\n  bool   temp20;\n  temp0 = (id0 != 0) ? true : false;\n\n" ++
      "  Widget* op = static_cast<Widget*>(obj);\n  temp20 = op->IsOn(temp0);\n" ++
      "  return static_cast<int>(temp20);\n\x7d\n" ∧
    (Parse.outputFunction sampleEnv sampleClass State.init sampleIsOn).out =
      "\n    [DllImport(NativeLib, CallingConvention = CallingConvention.Cdecl)]\n" ++
      "    private static extern int Widget_IsOn_0(IntPtr obj, int id0);\n" ++
      "    public bool IsOn(bool id0)\n    \x7b\n" ++
      "        return Widget_IsOn_0(Handle, id0 ? 1 : 0) != 0;\n    \x7d\n" :=
  ⟨(bool_crosses_boundary_as_int sampleIsOn 0 "").1 (by decide), by decide, by decide⟩

/-- C28: the `Dispose` method that the managed generator prints, as a transition on the
fields `(handle, ownsReference, disposed)`.  For a wrapper with a non-zero handle that is
not yet disposed, `Dispose` calls `OBJECT_MANAGER.Unregister(handle)` once, then the
native `VTKDeleteReference(handle)` once if `ownsReference` is set and not at all
otherwise, and leaves `handle` zero and `disposed` true.  A second `Dispose` changes no
field and makes neither of the two calls (it only tells the collector to suppress the
finalizer), and for every state `Dispose` after `Dispose` leaves the fields that a
single `Dispose` leaves.  The method is part of the lifecycle text of the class. -/
theorem Dispose_unregisters_once_and_is_idempotent (data : ClassInfo) (s : WrapperState) :
    (s.handle ≠ 0 → s.disposed = false →
      (Dispose s).2 =
        (if s.ownsReference then
          [DisposeCall.unregister s.handle, DisposeCall.deleteReference s.handle,
            DisposeCall.suppressFinalize]
         else [DisposeCall.unregister s.handle, DisposeCall.suppressFinalize]) ∧
      (Dispose s).1 = ⟨0, s.ownsReference, true⟩ ∧
      Dispose (Dispose s).1 = ((Dispose s).1, [DisposeCall.suppressFinalize])) ∧
    (Dispose (Dispose s).1).1 = (Dispose s).1 ∧
    (∃ pre, Parse.lifecycleText data =
      pre ++ Parse.disposeText data ++
        ("        ~" ++ data.Name ++ "() \x7b Dispose(); \x7d\n")) := by
  refine ⟨fun hh hd => ?_, ?_, Parse.lifecycleText_dispose data⟩
  · rw [Dispose_first s hh hd]
    refine ⟨?_, rfl, Dispose_disposed _ rfl⟩
    cases s.ownsReference <;> rfl
  · by_cases hc : s.handle ≠ 0 ∧ s.disposed = false
    · rw [Dispose_first s hc.1 hc.2, Dispose_disposed _ rfl]
    · have e : Dispose s = (s, [DisposeCall.suppressFinalize]) := by
        by_cases hz : s.handle = 0
        · exact Dispose_zero s hz
        · apply Dispose_disposed
          cases hd : s.disposed
          · exact absurd ⟨hz, hd⟩ hc
          · rfl
      rw [e, e]

/-- Witness for C28: a wrapper that owns its reference to the object at the address 4096,
and one that does not. -/
theorem Dispose_unregisters_once_and_is_idempotent_witness :
    ((Dispose ⟨4096, true, false⟩).2 =
        (if (⟨4096, true, false⟩ : WrapperState).ownsReference then
          [DisposeCall.unregister 4096, DisposeCall.deleteReference 4096,
            DisposeCall.suppressFinalize]
         else [DisposeCall.unregister 4096, DisposeCall.suppressFinalize]) ∧
      (Dispose ⟨4096, true, false⟩).1 = ⟨0, true, true⟩ ∧
      Dispose (Dispose ⟨4096, true, false⟩).1 =
        ((Dispose ⟨4096, true, false⟩).1, [DisposeCall.suppressFinalize])) ∧
    Dispose ⟨4096, false, false⟩ =
      (⟨0, false, true⟩, [DisposeCall.unregister 4096, DisposeCall.suppressFinalize]) ∧
    Dispose ⟨0, true, true⟩ = (⟨0, true, true⟩, [DisposeCall.suppressFinalize]) :=
  ⟨(Dispose_unregisters_once_and_is_idempotent sampleClass ⟨4096, true, false⟩).1
      (by decide) rfl,
    by decide, by decide⟩

/-- C29: `ParseNativeLib` on an argument vector of `argc` entries.  If `i` is the smallest
index with `1 ≤ i ≤ argc - 2` and `argv[i]` equal to `--native-lib`, the library name
becomes `argv[i + 1]`, the value returned is `argc - 2`, and the first `argc - 2` entries
of the vector are the original entries without the positions `i` and `i + 1`, in their
order.  If no index from 1 to `argc - 2` holds `--native-lib` (also when it is the last
argument only), the library name, which is `vtkCommonCoreCSharp` at the start, the
argument count and the vector stay as they were. -/
theorem ParseNativeLib_removes_first_option (argc : Nat) (argv : List String)
    (lib : String) (hlen : argv.length = argc) :
    (∀ i, 1 ≤ i → i + 2 ≤ argc → argv.getD i "" = "--native-lib" →
        (∀ k, 1 ≤ k → k < i → argv.getD k "" ≠ "--native-lib") →
      (ParseNativeLib argc ⟨lib, argv⟩).1 = argc - 2 ∧
      (ParseNativeLib argc ⟨lib, argv⟩).2.nativeLibName = argv.getD (i + 1) "" ∧
      (ParseNativeLib argc ⟨lib, argv⟩).2.argv.take (argc - 2) =
        argv.take i ++ argv.drop (i + 2)) ∧
    ((∀ i, 1 ≤ i → i + 2 ≤ argc → argv.getD i "" ≠ "--native-lib") →
      ParseNativeLib argc ⟨lib, argv⟩ = (argc, ⟨lib, argv⟩)) := by
  constructor
  · intro i h1 h2 hi hmin
    have e : ParseNativeLib argc ⟨lib, argv⟩ =
        (argc - 2, ⟨argv.getD (i + 1) "", shiftArgs argv (List.range' i (argc - 2 - i))⟩) := by
      unfold ParseNativeLib
      rw [range_split i argc h1 h2]
      apply ParseNativeLibLoop_first _ _ _ _ _ _ hi
      intro k hk
      rw [List.mem_range'_1] at hk
      exact hmin k hk.1 (by omega)
    rw [e]
    exact ⟨rfl, rfl, shiftArgs_take argv i argc hlen h2⟩
  · intro h
    apply ParseNativeLibLoop_none
    intro k hk
    rw [List.mem_range'_1] at hk
    exact h k hk.1 (by omega)

/-- Witness for C29: the option in front of the two file names is removed and names the
library; as the last argument it is not an option. -/
theorem ParseNativeLib_removes_first_option_witness :
    ((ParseNativeLib 5 ⟨Parse.defaultNativeLibName,
        ["vtkParseCSharp", "--native-lib", "vtkFooCSharp", "in.h", "out.cs"]⟩).1 = 5 - 2 ∧
      (ParseNativeLib 5 ⟨Parse.defaultNativeLibName,
        ["vtkParseCSharp", "--native-lib", "vtkFooCSharp", "in.h", "out.cs"]⟩).2.nativeLibName =
        ["vtkParseCSharp", "--native-lib", "vtkFooCSharp", "in.h", "out.cs"].getD (1 + 1) "" ∧
      (ParseNativeLib 5 ⟨Parse.defaultNativeLibName,
        ["vtkParseCSharp", "--native-lib", "vtkFooCSharp", "in.h", "out.cs"]⟩).2.argv.take (5 - 2) =
        ["vtkParseCSharp", "--native-lib", "vtkFooCSharp", "in.h", "out.cs"].take 1 ++
          ["vtkParseCSharp", "--native-lib", "vtkFooCSharp", "in.h", "out.cs"].drop (1 + 2)) ∧
    ParseNativeLib 5 ⟨Parse.defaultNativeLibName,
        ["vtkParseCSharp", "--native-lib", "vtkFooCSharp", "in.h", "out.cs"]⟩ =
      (3, ⟨"vtkFooCSharp", ["vtkParseCSharp", "in.h", "out.cs", "in.h", "out.cs"]⟩) ∧
    ParseNativeLib 3 ⟨Parse.defaultNativeLibName, ["vtkParseCSharp", "in.h", "--native-lib"]⟩ =
      (3, ⟨"vtkCommonCoreCSharp", ["vtkParseCSharp", "in.h", "--native-lib"]⟩) :=
  ⟨(ParseNativeLib_removes_first_option 5
      ["vtkParseCSharp", "--native-lib", "vtkFooCSharp", "in.h", "out.cs"]
      Parse.defaultNativeLibName rfl).1 1 (by decide) (by decide) (by decide)
      (fun k h1 h2 => absurd h2 (by omega)),
    by decide, by decide⟩

/-- Counterexample for C30: `char*` and `std::string` by value are both in the string
family, their indirection bits differ, and `CheckMatch` declares them matching in both
generators, in either order; so it does for `char*` against `std::string&`. -/
theorem string_family_matches_across_indirection :
    VTK_PARSE_CHAR_PTR &&& VTK_PARSE_INDIRECT ≠ VTK_PARSE_STRING &&& VTK_PARSE_INDIRECT ∧
    Wrap.CheckMatch VTK_PARSE_CHAR_PTR VTK_PARSE_STRING "" "" = 1 ∧
    Parse.CheckMatch VTK_PARSE_CHAR_PTR VTK_PARSE_STRING "" "" = 1 ∧
    Wrap.CheckMatch VTK_PARSE_STRING VTK_PARSE_CHAR_PTR "" "" = 2 ∧
    Parse.CheckMatch VTK_PARSE_STRING VTK_PARSE_CHAR_PTR "" "" = 2 ∧
    VTK_PARSE_CHAR_PTR &&& VTK_PARSE_INDIRECT ≠ VTK_PARSE_STRING_REF &&& VTK_PARSE_INDIRECT ∧
    Wrap.CheckMatch VTK_PARSE_CHAR_PTR VTK_PARSE_STRING_REF "" "" = 1 ∧
    Parse.CheckMatch VTK_PARSE_CHAR_PTR VTK_PARSE_STRING_REF "" "" = 1 := by
  decide

/-- C30, amended: two type descriptors whose unqualified types both belong to the string
family (`char*`, `std::string&`, `std::string`) are declared matching by `CheckMatch`,
whatever their indirection bits are: membership is tested on the whole unqualified type
and the indirection is not compared.  Two different members of the family always differ
in their indirection bits.  Both generators. -/
theorem CheckMatch_string_family_always_matches (g : Generator) (t1 t2 : Nat)
    (c1 c2 : String)
    (h1 : t1 &&& VTK_PARSE_UNQUALIFIED_TYPE ∈
      [VTK_PARSE_CHAR_PTR, VTK_PARSE_STRING_REF, VTK_PARSE_STRING])
    (h2 : t2 &&& VTK_PARSE_UNQUALIFIED_TYPE ∈
      [VTK_PARSE_CHAR_PTR, VTK_PARSE_STRING_REF, VTK_PARSE_STRING]) :
    g.CheckMatch t1 t2 c1 c2 ≠ 0 ∧
    (t1 &&& VTK_PARSE_UNQUALIFIED_TYPE ≠ t2 &&& VTK_PARSE_UNQUALIFIED_TYPE →
      t1 &&& VTK_PARSE_INDIRECT ≠ t2 &&& VTK_PARSE_INDIRECT) := by
  rw [g.CheckMatch_eq_wrap]
  exact ⟨Wrap.CheckMatch_string_family t1 t2 c1 c2 h1 h2,
    string_family_indirect t1 t2 h1 h2⟩

/-- Witness for C30: `const char*` against `std::string&` in the managed generator. -/
theorem CheckMatch_string_family_always_matches_witness :
    Generator.managed.CheckMatch (VTK_PARSE_CHAR_PTR ||| VTK_PARSE_CONST)
        VTK_PARSE_STRING_REF "" "" ≠ 0 ∧
    ((VTK_PARSE_CHAR_PTR ||| VTK_PARSE_CONST) &&& VTK_PARSE_UNQUALIFIED_TYPE ≠
        VTK_PARSE_STRING_REF &&& VTK_PARSE_UNQUALIFIED_TYPE →
      (VTK_PARSE_CHAR_PTR ||| VTK_PARSE_CONST) &&& VTK_PARSE_INDIRECT ≠
        VTK_PARSE_STRING_REF &&& VTK_PARSE_INDIRECT) :=
  CheckMatch_string_family_always_matches Generator.managed
    (VTK_PARSE_CHAR_PTR ||| VTK_PARSE_CONST) VTK_PARSE_STRING_REF "" "" (by decide)
    (by decide)

/-- Counterexample for C31: `unsigned int` is listed before `int` in the family
`{enum, unsigned int, int}`, and `CheckMatch(unsigned int, int)` is 1 in both generators,
not 2; with the arguments exchanged it is 2.  So it is for `char*` against
`std::string`. -/
theorem CheckMatch_unsigned_int_int_is_one :
    intTypes.indexOf VTK_PARSE_UNSIGNED_INT < intTypes.indexOf VTK_PARSE_INT ∧
    Wrap.CheckMatch VTK_PARSE_UNSIGNED_INT VTK_PARSE_INT "" "" = 1 ∧
    Parse.CheckMatch VTK_PARSE_UNSIGNED_INT VTK_PARSE_INT "" "" = 1 ∧
    Wrap.CheckMatch VTK_PARSE_INT VTK_PARSE_UNSIGNED_INT "" "" = 2 ∧
    Parse.CheckMatch VTK_PARSE_INT VTK_PARSE_UNSIGNED_INT "" "" = 2 ∧
    stringTypes.indexOf VTK_PARSE_CHAR_PTR < stringTypes.indexOf VTK_PARSE_STRING ∧
    Wrap.CheckMatch VTK_PARSE_CHAR_PTR VTK_PARSE_STRING "" "" = 1 ∧
    Parse.CheckMatch VTK_PARSE_CHAR_PTR VTK_PARSE_STRING "" "" = 1 := by
  decide

/-- C31, amended: when two type descriptors with different members of one family match,
the verdict of `CheckMatch` gives precedence to the member listed first: it is 1 when
the member of `type1` is listed before the member of `type2` and 2 when it is listed
after.  For the four numeric families the member is the base type and the indirection
bits are equal; for the string family it is the unqualified type.  Both generators. -/
theorem CheckMatch_first_listed_takes_precedence (g : Generator) (t1 t2 : Nat)
    (c1 c2 : String) :
    (∀ fam ∈ [[VTK_PARSE_UNSIGNED_CHAR, VTK_PARSE_SIGNED_CHAR],
              [VTK_PARSE_UNSIGNED_SHORT, VTK_PARSE_SHORT],
              [VTK_PARSE_UNKNOWN, VTK_PARSE_UNSIGNED_INT, VTK_PARSE_INT],
              [VTK_PARSE_UNSIGNED_LONG, VTK_PARSE_UNSIGNED_LONG_LONG, VTK_PARSE_LONG,
               VTK_PARSE_LONG_LONG]],
      t1 &&& VTK_PARSE_BASE_TYPE ∈ fam → t2 &&& VTK_PARSE_BASE_TYPE ∈ fam →
      t1 &&& VTK_PARSE_BASE_TYPE ≠ t2 &&& VTK_PARSE_BASE_TYPE →
      t1 &&& VTK_PARSE_INDIRECT = t2 &&& VTK_PARSE_INDIRECT →
      g.CheckMatch t1 t2 c1 c2 =
        if fam.indexOf (t1 &&& VTK_PARSE_BASE_TYPE) <
            fam.indexOf (t2 &&& VTK_PARSE_BASE_TYPE) then 1 else 2) ∧
    (t1 &&& VTK_PARSE_UNQUALIFIED_TYPE ∈
        [VTK_PARSE_CHAR_PTR, VTK_PARSE_STRING_REF, VTK_PARSE_STRING] →
      t2 &&& VTK_PARSE_UNQUALIFIED_TYPE ∈
        [VTK_PARSE_CHAR_PTR, VTK_PARSE_STRING_REF, VTK_PARSE_STRING] →
      t1 &&& VTK_PARSE_UNQUALIFIED_TYPE ≠ t2 &&& VTK_PARSE_UNQUALIFIED_TYPE →
      g.CheckMatch t1 t2 c1 c2 =
        if [VTK_PARSE_CHAR_PTR, VTK_PARSE_STRING_REF, VTK_PARSE_STRING].indexOf
              (t1 &&& VTK_PARSE_UNQUALIFIED_TYPE) <
            [VTK_PARSE_CHAR_PTR, VTK_PARSE_STRING_REF, VTK_PARSE_STRING].indexOf
              (t2 &&& VTK_PARSE_UNQUALIFIED_TYPE)
        then 1 else 2) := by
  rw [g.CheckMatch_eq_wrap]
  exact ⟨fun fam hf h1 h2 hne hi =>
      Wrap.CheckMatch_numeric_precedence t1 t2 c1 c2 fam hf h1 h2 hne hi,
    fun h1 h2 hne => Wrap.CheckMatch_string_precedence t1 t2 c1 c2 h1 h2 hne⟩

/-- Witness for C31: `const unsigned long*` against `long long*` in the managed
generator; `unsigned long` is listed first. -/
theorem CheckMatch_first_listed_takes_precedence_witness :
    Generator.managed.CheckMatch (VTK_PARSE_UNSIGNED_LONG_PTR ||| VTK_PARSE_CONST)
        VTK_PARSE_LONG_LONG_PTR "" "" =
      (if [VTK_PARSE_UNSIGNED_LONG, VTK_PARSE_UNSIGNED_LONG_LONG, VTK_PARSE_LONG,
            VTK_PARSE_LONG_LONG].indexOf
              ((VTK_PARSE_UNSIGNED_LONG_PTR ||| VTK_PARSE_CONST) &&& VTK_PARSE_BASE_TYPE) <
          [VTK_PARSE_UNSIGNED_LONG, VTK_PARSE_UNSIGNED_LONG_LONG, VTK_PARSE_LONG,
            VTK_PARSE_LONG_LONG].indexOf (VTK_PARSE_LONG_LONG_PTR &&& VTK_PARSE_BASE_TYPE)
       then 1 else 2) ∧
    Generator.managed.CheckMatch (VTK_PARSE_UNSIGNED_LONG_PTR ||| VTK_PARSE_CONST)
        VTK_PARSE_LONG_LONG_PTR "" "" = 1 :=
  ⟨(CheckMatch_first_listed_takes_precedence Generator.managed
      (VTK_PARSE_UNSIGNED_LONG_PTR ||| VTK_PARSE_CONST) VTK_PARSE_LONG_LONG_PTR "" "").1
      _ (by decide) (by decide) (by decide) (by decide) (by decide),
    by decide⟩

/-- C32: let a method pass the unconditional rules (not an operator, no array failure, not
a template, not excluded, not deleted, public, named, not `NewInstance` or
`SafeDownCast`), let it not be the callback pattern, not be named `Delete` or `New`, not
be one of the observer methods removed in the class `vtkObject` nor `Print` in the class
`vtkObjectBase`, and let its unqualified return type be one of the ten pointer types of
the hint switch.  Then `checkFunctionSignature` returns the `HaveHint` flag of the
method, whatever its arguments are: the switch assigns `args_ok = HaveHint` and so
overwrites the verdicts of the argument checks and of the earlier return type checks.
Both generators. -/
theorem hinted_pointer_return_verdict_is_hint_flag (g : Generator) (env : Env)
    (data : ClassInfo) (f : FunctionInfo)
    (h : ¬ (f.IsOperator = true ∨ f.ArrayFailure = true ∨ f.Template = true ∨
      f.IsExcluded = true ∨ f.IsDeleted = true ∨ f.IsPublic = false ∨ f.Name = none ∨
      f.Name = some "NewInstance" ∨ f.Name = some "SafeDownCast"))
    (hcb : ¬ CallbackPattern f)
    (hn : ¬ (f.Name = some "Delete" ∨ f.Name = some "New"))
    (hobs : ¬ (data.Name = "vtkObject" ∧ observerOverride f = true))
    (hprint : ¬ (data.Name = "vtkObjectBase" ∧ f.Name = some "Print"))
    (hh : hintCase (f.ReturnType &&& VTK_PARSE_UNQUALIFIED_TYPE)) :
    (g.checkFunctionSignature env data f).1 = f.HaveHint := by
  rw [g.check_eq_core]
  exact Core.check_hinted _ _ env data f h hcb hn hobs hprint hh

/-- Witness for C32: `float* Bar(unsigned int a[3])` with a hint; the argument loop
rejects the unsigned pointer argument, and the verdict is the hint flag 1. -/
theorem hinted_pointer_return_verdict_is_hint_flag_witness :
    (Generator.shim.checkFunctionSignature sampleEnv sampleClass sampleHintedBar).1 =
      sampleHintedBar.HaveHint ∧
    sampleHintedBar.HaveHint = 1 ∧
    (Generator.managed.checkFunctionSignature sampleEnv sampleClass
      { sampleHintedBar with HaveHint := 0 }).1 = 0 :=
  ⟨hinted_pointer_return_verdict_is_hint_flag Generator.shim sampleEnv sampleClass
      sampleHintedBar (by decide) (by decide) (by decide) (by decide) (by decide) (by decide),
    by decide, by decide⟩

/-- C33: the relation "`CheckMatch(t1, t2, c1, c2)` is nonzero" on pairs of a type
descriptor and a class name is reflexive, symmetric and transitive, and the value of
`CheckMatch` depends on the type descriptors through their unqualified type bits only
(a qualifier such as `const` never changes it).  Both generators. -/
theorem CheckMatch_nonzero_is_equivalence (g : Generator) :
    (∀ t c, g.CheckMatch t t c c ≠ 0) ∧
    (∀ t1 t2 c1 c2, g.CheckMatch t1 t2 c1 c2 ≠ 0 ↔ g.CheckMatch t2 t1 c2 c1 ≠ 0) ∧
    (∀ t1 t2 t3 c1 c2 c3, g.CheckMatch t1 t2 c1 c2 ≠ 0 → g.CheckMatch t2 t3 c2 c3 ≠ 0 →
      g.CheckMatch t1 t3 c1 c3 ≠ 0) ∧
    (∀ t1 t2 s1 s2 c1 c2,
      t1 &&& VTK_PARSE_UNQUALIFIED_TYPE = s1 &&& VTK_PARSE_UNQUALIFIED_TYPE →
      t2 &&& VTK_PARSE_UNQUALIFIED_TYPE = s2 &&& VTK_PARSE_UNQUALIFIED_TYPE →
      g.CheckMatch t1 t2 c1 c2 = g.CheckMatch s1 s2 c1 c2) ∧
    (∀ t1 t2 c1 c2,
      g.CheckMatch (t1 ||| VTK_PARSE_CONST) t2 c1 c2 = g.CheckMatch t1 t2 c1 c2 ∧
      g.CheckMatch t1 (t2 ||| VTK_PARSE_CONST) c1 c2 = g.CheckMatch t1 t2 c1 c2) := by
  rw [g.CheckMatch_eq_wrap]
  have hconst : ∀ t, (t ||| VTK_PARSE_CONST) &&& VTK_PARSE_UNQUALIFIED_TYPE =
      t &&& VTK_PARSE_UNQUALIFIED_TYPE := by
    intro t
    rw [Nat.and_comm, Nat.and_or_distrib_left,
      show VTK_PARSE_UNQUALIFIED_TYPE &&& VTK_PARSE_CONST = 0 by decide, Nat.or_zero,
      Nat.and_comm]
  refine ⟨?_, ?_, ?_, ?_, ?_⟩
  · intro t c
    exact (Wrap.CheckMatch_ne_zero_iff_key t t c c).mpr rfl
  · exact Wrap.CheckMatch_symm
  · intro t1 t2 t3 c1 c2 c3 h12 h23
    rw [Wrap.CheckMatch_ne_zero_iff_key] at h12 h23 ⊢
    exact h12.trans h23
  · intro t1 t2 s1 s2 c1 c2 h1 h2
    exact Wrap.CheckMatch_congr t1 t2 s1 s2 c1 c2 h1 h2
  · intro t1 t2 c1 c2
    exact ⟨Wrap.CheckMatch_congr _ _ _ _ c1 c2 (hconst t1) rfl,
      Wrap.CheckMatch_congr _ _ _ _ c1 c2 rfl (hconst t2)⟩

/-- C34: `CheckMatch` of vtkParseCSharp.c returns the value that `CheckMatch` of
vtkWrapCSharp.c returns, one of 0, 1 and 2, for all type descriptors and class names; and
`DoneOne` of vtkParseCSharp.c returns the value that `DoneOne` of vtkWrapCSharp.c
returns, 0 or 1, for every registry state and current function. -/
theorem canonicalizers_of_both_generators_agree :
    (∀ t1 t2 c1 c2, Parse.CheckMatch t1 t2 c1 c2 = Wrap.CheckMatch t1 t2 c1 c2 ∧
      Wrap.CheckMatch t1 t2 c1 c2 ≤ 2) ∧
    (∀ s f, Parse.DoneOne s f = Wrap.DoneOne s f ∧
      (Wrap.DoneOne s f = 0 ∨ Wrap.DoneOne s f = 1)) := by
  refine ⟨fun t1 t2 c1 c2 => ⟨Parse.CheckMatch_eq t1 t2 c1 c2,
    Wrap.CheckMatch_le_two t1 t2 c1 c2⟩, fun s f => ⟨Parse.DoneOne_eq s f, ?_⟩⟩
  unfold Wrap.DoneOne
  by_cases h : ∃ fi ∈ s.wrappedFunctions.take s.numberOfWrappedFunctions,
      Duplicate Wrap.CheckMatch f fi
  · exact Or.inr ((Wrap.DoneOneLoop_spec f _).1 h)
  · exact Or.inl ((Wrap.DoneOneLoop_spec f _).2 h)

/-- C35: after `outputFunction` has processed any list of methods of a class, starting
from the empty registry, no two different registry entries are duplicates of each other:
for indices `i ≠ j` the entries do not have the same name, the same number of arguments
and a nonzero `CheckMatch` at every argument position and for the return type.  Both
generators. -/
theorem registry_has_no_two_duplicates (g : Generator) (env : Env) (data : ClassInfo)
    (fs : List FunctionInfo) (i j : Nat)
    (hi : i < (g.outputFunctions env data State.init fs).wrappedFunctions.length)
    (hj : j < (g.outputFunctions env data State.init fs).wrappedFunctions.length)
    (hij : i ≠ j) :
    ¬ Duplicate g.CheckMatch
      ((g.outputFunctions env data State.init fs).wrappedFunctions.get ⟨i, hi⟩)
      ((g.outputFunctions env data State.init fs).wrappedFunctions.get ⟨j, hj⟩) := by
  have hp : (g.outputFunctions env data State.init fs).wrappedFunctions.Pairwise
      (fun a b => ¬ Duplicate Wrap.CheckMatch b a) := by
    rw [g.outputFunctions_eq_foldl, g.outputFunction_eq_core, g.DoneOne_eq_wrap]
    exact Core.foldl_no_duplicate _ _ _ fs State.init rfl List.Pairwise.nil
  rw [g.CheckMatch_eq_wrap]
  rw [List.pairwise_iff_getElem] at hp
  rcases Nat.lt_or_gt_of_ne hij with h | h
  · exact fun hd => hp i j hi hj h (Duplicate_symm _ _ hd)
  · exact hp j i hj hi h

/-- Witness for C35: the methods `Foo(int)`, `Foo(unsigned int)` and `Foo(long)`; the
second is a duplicate of the first and is not registered, so the registry holds two
entries that are not duplicates. -/
theorem registry_has_no_two_duplicates_witness :
    (Generator.shim.outputFunctions sampleEnv sampleClass State.init
      [sampleFooInt, sampleFooUnsigned, sampleFooLong]).wrappedFunctions.length = 2 ∧
    ¬ Duplicate Generator.shim.CheckMatch
      ((Generator.shim.outputFunctions sampleEnv sampleClass State.init
        [sampleFooInt, sampleFooUnsigned, sampleFooLong]).wrappedFunctions.get
          ⟨0, by decide⟩)
      ((Generator.shim.outputFunctions sampleEnv sampleClass State.init
        [sampleFooInt, sampleFooUnsigned, sampleFooLong]).wrappedFunctions.get
          ⟨1, by decide⟩) :=
  ⟨by decide, registry_has_no_two_duplicates Generator.shim sampleEnv sampleClass
    [sampleFooInt, sampleFooUnsigned, sampleFooLong] 0 1 (by decide) (by decide)
    (by decide)⟩

/-- C36: for every class and method list, the export names `<class>_<method>_<k>` that a
generator writes are pairwise distinct as strings, and none of them is a lifecycle
symbol of the class (`<class>_New`, `<class>_VTKDeleteReference`,
`<class>_VTKGetClassName`, `<class>_VTKDelete`, `<class>_VTKRegister`).  The text written
consists, for every registry entry in order, of the text of the entry with its index
`k`, and this text holds the export name with the number `k`.  Both generators. -/
theorem export_names_pairwise_distinct (g : Generator) (env : Env) (data : ClassInfo)
    (fs : List FunctionInfo) (i j : Nat)
    (hi : i < (g.outputFunctions env data State.init fs).wrappedFunctions.length)
    (hj : j < (g.outputFunctions env data State.init fs).wrappedFunctions.length)
    (hij : i ≠ j) :
    exportName data.Name
        (nameStr ((g.outputFunctions env data State.init fs).wrappedFunctions.get ⟨i, hi⟩)) i ≠
      exportName data.Name
        (nameStr ((g.outputFunctions env data State.init fs).wrappedFunctions.get ⟨j, hj⟩)) j ∧
    (∀ h : Lifecycle,
      exportName data.Name
          (nameStr ((g.outputFunctions env data State.init fs).wrappedFunctions.get ⟨i, hi⟩))
          i ≠ Lifecycle.symbol data.Name h) ∧
    Numbered (g.emitText data) (g.outputFunctions env data State.init fs) ∧
    (∀ f k, ∃ pre post,
      g.emitText data f k = pre ++ exportName data.Name (nameStr f) k ++ post) := by
  refine ⟨fun h => hij (exportName_number _ _ _ _ _ h),
    fun h => exportName_ne_symbol _ _ _ h, g.run_numbered env data fs, ?_⟩
  intro f k
  cases g
  · exact ⟨_, _, String.append_assoc _ _ _⟩
  · exact ⟨_, _, String.append_assoc _ _ _⟩

/-- Witness for C36: the methods `Foo(int)` and `Foo(long)` get the names `Widget_Foo_0`
and `Widget_Foo_1`. -/
theorem export_names_pairwise_distinct_witness :
    exportName sampleClass.Name
        (nameStr ((Generator.shim.outputFunctions sampleEnv sampleClass State.init
          [sampleFooInt, sampleFooLong]).wrappedFunctions.get ⟨0, by decide⟩)) 0 ≠
      exportName sampleClass.Name
        (nameStr ((Generator.shim.outputFunctions sampleEnv sampleClass State.init
          [sampleFooInt, sampleFooLong]).wrappedFunctions.get ⟨1, by decide⟩)) 1 ∧
    exportName sampleClass.Name
        (nameStr ((Generator.shim.outputFunctions sampleEnv sampleClass State.init
          [sampleFooInt, sampleFooLong]).wrappedFunctions.get ⟨0, by decide⟩)) 0 =
      "Widget_Foo_0" :=
  ⟨(export_names_pairwise_distinct Generator.shim sampleEnv sampleClass
      [sampleFooInt, sampleFooLong] 0 1 (by decide) (by decide) (by decide)).1,
    by decide⟩

/-- C37 (the code diverges): the managed generator accepts `void SetKeyCode(char key)`,
`char GetKeyCode()` and `void SetFlags(bool flags[4])`.  For the `char` argument the
public parameter is `char id0` and the import parameter `byte id0`, and the argument is
forwarded as `id0`; for the `char` result the public method returns `char`, the import
returns `byte`, and the body returns the result of the import as it is; for the `bool`
array the public parameter is `bool[] id0` and the import parameter an `int[] id0`,
forwarded as `id0`. -/
theorem char_and_bool_array_types_differ :
    (Parse.checkFunctionSignature sampleEnv sampleClass sampleSetKeyCode).1 = 1 ∧
    Parse.OutputCSharpParamType sampleSetKeyCode 0 = "char id0" ∧
    Parse.OutputCSharpNativeParamType sampleSetKeyCode 0 = "byte id0" ∧
    Parse.callArg sampleSetKeyCode 0 = ", id0" ∧
    (Parse.outputFunction sampleEnv sampleClass State.init sampleSetKeyCode).out =
      "\n    [DllImport(NativeLib, CallingConvention = CallingConvention.Cdecl)]\n" ++
      "    private static extern void Widget_SetKeyCode_0(IntPtr obj, byte id0);\n" ++
      "    public void SetKeyCode(char id0)\n    \x7b\n" ++
      "        Widget_SetKeyCode_0(Handle, id0);\n    \x7d\n" ∧
    (Parse.checkFunctionSignature sampleEnv sampleClass sampleGetKeyCode).1 = 1 ∧
    Parse.OutputCSharpReturnType sampleGetKeyCode = "char" ∧
    Parse.OutputCSharpNativeReturnType sampleGetKeyCode = "byte" ∧
    (Parse.outputFunction sampleEnv sampleClass State.init sampleGetKeyCode).out =
      "\n    [DllImport(NativeLib, CallingConvention = CallingConvention.Cdecl)]\n" ++
      "    private static extern byte Widget_GetKeyCode_0(IntPtr obj);\n" ++
      "    public char GetKeyCode()\n    \x7b\n" ++
      "        return Widget_GetKeyCode_0(Handle);\n    \x7d\n" ∧
    (Parse.checkFunctionSignature sampleEnv sampleClass sampleSetFlags).1 = 1 ∧
    Parse.OutputCSharpParamType sampleSetFlags 0 = "bool[] id0" ∧
    Parse.OutputCSharpNativeParamType sampleSetFlags 0 =
      "[MarshalAs(UnmanagedType.LPArray, ArraySubType = UnmanagedType.I4)] int[] id0" ∧
    Parse.callArg sampleSetFlags 0 = ", id0" := by
  decide

/-- C38 (the code diverges): `VtkCSharpHelper_GetPixels` returns -1 when the window or
the buffer is null, and -2 when `bufferSize` is smaller than the computed
`width * height * 4`.  But it passes both checks and returns 0 for `width = -1`,
`height = 1`, `bufferSize = 0`, where its one call of `memcpy` has the size
`(size_t)-4`; and for `width = 40000`, `height = 30000`, where the computed size is
505032704 (the product 4800000000 reduced to 32 bits), with a buffer of that size, where
the row 3157 is written at the offset 505120000, behind the end of the buffer. -/
theorem GetPixels_writes_outside_buffer :
    (∀ width height buffer bufferSize vtk,
      (GetPixels false width height buffer bufferSize vtk).1 = -1 ∧
      (GetPixels true width height none bufferSize vtk).1 = -1) ∧
    (∀ width height mem bufferSize vtk,
      bufferSize < wrapInt (wrapInt (width * height) * 4) →
      (GetPixels true width height (some mem) bufferSize vtk).1 = -2) ∧
    (GetPixels true (-1) 1 (some (fun _ => 0)) 0 (sampleReadback 0 (fun _ => 7))).1 = 0 ∧
    rowCopies (-1) 1 = [(0, 0, 18446744073709551612)] ∧
    ¬ CopyInBounds 0 (0, 0, 18446744073709551612) ∧
    wrapInt (wrapInt (40000 * 30000) * 4) = 505032704 ∧
    (GetPixels true 40000 30000 (some (fun _ => 0)) 505032704
      (sampleReadback 1200000000 (fun _ => 7))).1 = 0 ∧
    (505120000, -247296, 160000) ∈ rowCopies 40000 30000 ∧
    ¬ CopyInBounds 505032704 (505120000, -247296, 160000) := by
  refine ⟨fun width height buffer bufferSize vtk => ⟨rfl, rfl⟩, ?_, by decide, by decide,
    by decide, by decide, by decide, ?_, by decide⟩
  · intro width height mem bufferSize vtk h
    unfold GetPixels
    rw [if_neg (by simp), if_pos h]
  · have h := mem_rowCopies 40000 30000 3157 (by decide)
    have e1 : wrapInt (40000 * 4) = 160000 := by decide
    have e2 : wrapInt (30000 - 1) = 29999 := by decide
    have e3 : wrapInt (((3157 : Nat) : Int) * 160000) = 505120000 := by decide
    have e4 : wrapInt (wrapInt (29999 - ((3157 : Nat) : Int)) * 160000) = -247296 := by
      decide
    have e5 : toSizeT 160000 = 160000 := by decide
    rw [e1, e2, e3, e4, e5] at h
    exact h

/-- C39: when `VtkCSharpHelper_GetPixels` returns 0 for `width >= 0`, `height >= 0` and
`4 * width * height <= bufferSize`, the buffer holds the rows of the source in reverse
order: the byte `x` of the row `y` is the byte `x` of the row `height - 1 - y` of the
source; the bytes outside the first `4 * width * height` are unchanged, every `memcpy`
stays inside the buffer, and the same flip applied to the result gives back the first
`4 * width * height` bytes of the source. -/
theorem GetPixels_flips_rows_vertically (renderWindow : Bool) (width height : Int)
    (buffer : Option (Int → Nat)) (bufferSize : Int) (vtk : PixelReadback)
    (hw : 0 ≤ width) (hh : 0 ≤ height) (hh32 : height < 2147483648)
    (hb32 : bufferSize < 2147483648) (hs : 4 * width * height ≤ bufferSize)
    (hok : (GetPixels renderWindow width height buffer bufferSize vtk).1 = 0) :
    ∃ mem src out, buffer = some mem ∧
      pixelSource vtk (wrapInt (width * height)) = .ok (some src) ∧
      (GetPixels renderWindow width height buffer bufferSize vtk).2 = some out ∧
      (∀ y x : Int, 0 ≤ y → y < height → 0 ≤ x → x < 4 * width →
        out (y * (4 * width) + x) = src ((height - 1 - y) * (4 * width) + x)) ∧
      (∀ a : Int, a < 0 ∨ 4 * width * height ≤ a → out a = mem a) ∧
      (∀ c ∈ rowCopies width height, CopyInBounds bufferSize c) ∧
      (∀ (other : Int → Nat) (a : Int), 0 ≤ a → a < 4 * width * height →
        flipRows width height out other a = src a) := by
  obtain ⟨_, _, mem, src, hm, hp, ho⟩ :=
    GetPixels_success renderWindow width height buffer bufferSize vtk hok
  have hs32 : 4 * width * height < 2147483648 := by omega
  obtain ⟨f1, f2⟩ := flipRows_spec width height src mem hw hh hh32 hs32
  exact ⟨mem, src, flipRows width height src mem, hm, hp, ho, f1, f2,
    rowCopies_in_bounds width height bufferSize hw hh32 hb32 hs,
    fun other a ha0 ha => flipRows_twice width height src mem other hw hh hh32 hs32 a ha0 ha⟩

/-- Witness for C39: an image of 2 by 3 pixels read into a buffer of 24 bytes. -/
theorem GetPixels_flips_rows_vertically_witness :
    (GetPixels true 2 3 (some (fun _ => 0)) 24 (sampleReadback 6 (fun a => a.toNat))).1 = 0 ∧
    ∃ mem src out, some (fun _ => 0) = some mem ∧
      pixelSource (sampleReadback 6 (fun a => a.toNat)) (wrapInt (2 * 3)) = .ok (some src) ∧
      (GetPixels true 2 3 (some (fun _ => 0)) 24
        (sampleReadback 6 (fun a => a.toNat))).2 = some out ∧
      (∀ y x : Int, 0 ≤ y → y < 3 → 0 ≤ x → x < 4 * 2 →
        out (y * (4 * 2) + x) = src ((3 - 1 - y) * (4 * 2) + x)) ∧
      (∀ a : Int, a < 0 ∨ 4 * 2 * 3 ≤ a → out a = mem a) ∧
      (∀ c ∈ rowCopies 2 3, CopyInBounds 24 c) ∧
      (∀ (other : Int → Nat) (a : Int), 0 ≤ a → a < 4 * 2 * 3 →
        flipRows 2 3 out other a = src a) :=
  ⟨by decide, GetPixels_flips_rows_vertically true 2 3 (some (fun _ => 0)) 24
    (sampleReadback 6 (fun a => a.toNat)) (by decide) (by decide) (by decide) (by decide)
    (by decide) (by decide)⟩

/-- C40: after `outputFunction` has processed the `m` methods of a list, starting from
the empty registry, the counter `numberOfWrappedFunctions` is at most `m`.  Hence for a
list of at most 1000 methods, at every call of `outputFunction` (for the method `f`
after the methods `pre`) the index `numberOfWrappedFunctions` at which the call may
write `wrappedFunctions[numberOfWrappedFunctions]` is below 1000.  Both generators. -/
theorem wrapped_function_count_within_array (g : Generator) (env : Env) (data : ClassInfo)
    (fs : List FunctionInfo) (hm : fs.length ≤ wrappedFunctionsSize) :
    (g.outputFunctions env data State.init fs).numberOfWrappedFunctions ≤ fs.length ∧
    ∀ pre f post, fs = pre ++ f :: post →
      (g.outputFunctions env data State.init pre).numberOfWrappedFunctions <
        wrappedFunctionsSize ∧
      g.outputFunctions env data State.init (pre ++ [f]) =
        g.outputFunction env data (g.outputFunctions env data State.init pre) f := by
  refine ⟨g.count_le env data fs, ?_⟩
  intro pre f post hfs
  have h := g.count_le env data pre
  have hl : pre.length < fs.length := by
    rw [hfs, List.length_append, List.length_cons]
    omega
  refine ⟨by omega, ?_⟩
  rw [g.outputFunctions_eq_foldl, g.outputFunctions_eq_foldl, List.foldl_append]
  rfl

/-- Witness for C40: three methods of which two are registered. -/
theorem wrapped_function_count_within_array_witness :
    (Generator.managed.outputFunctions sampleEnv sampleClass State.init
        [sampleFooInt, sampleFooUnsigned, sampleFooLong]).numberOfWrappedFunctions ≤
      [sampleFooInt, sampleFooUnsigned, sampleFooLong].length ∧
    (Generator.managed.outputFunctions sampleEnv sampleClass State.init
        [sampleFooInt, sampleFooUnsigned, sampleFooLong]).numberOfWrappedFunctions = 2 :=
  ⟨(wrapped_function_count_within_array Generator.managed sampleEnv sampleClass
      [sampleFooInt, sampleFooUnsigned, sampleFooLong] (by decide)).1,
    by decide⟩

end VtkCSharp
